import Mathlib

/-!
# Win32 window backend: input and window event reconciliation

A shallow embedding of `src/win32_window.c`.  Pointers to `_GLFWwindow` and
`_GLFWmonitor` become identifiers (`WinId`, `MonId`), the library singleton
`_glfw.win32` together with the part of the operating system state the backend
reads and writes becomes the record `Session`, and every function of the
backend becomes a function from `Session` to `Session`.  Notifications handed
to the platform independent layer (`_glfwInput...`) are appended to
`Session.events`; requests made to the operating system that have no modelled
effect are appended to `Session.calls`.

C `int`/`LONG` values are `Int`.  Window and screen coordinates are bounded by
the operating system far below `2^31`, so no wrap-around is modelled for them.
C `double` values that only ever hold such integers (cursor positions) are
`Int` as well.  C `float` arithmetic is modelled with rounding to binary32 after
every operation (section "Single precision arithmetic").

The retry loop of the clipboard functions is followed with fuel: the model
returns `none` when the fuel runs out, and the theorems show how much fuel
gives a result.

Functions of the platform independent layer that the backend calls but that
are not part of this file of the library (`_glfwInput...`,
`_glfwCenterCursorInContentArea`) are modelled from the specification; their
doc comments say so.
-/

namespace Win32

/-- Identity of a `_GLFWwindow` (the pointer value in the source). -/
abbrev WinId := Nat

/-- Identity of a `_GLFWmonitor`. -/
abbrev MonId := Nat

/-- The Win32 `POINT`. -/
structure POINT where
  x : Int
  y : Int
deriving DecidableEq, Repr

/-- The Win32 `RECT`. -/
structure RECT where
  left : Int
  top : Int
  right : Int
  bottom : Int
deriving DecidableEq, Repr

/-- The Win32 `MINMAXINFO`. -/
structure MINMAXINFO where
  ptMaxSize : POINT
  ptMaxPosition : POINT
  ptMinTrackSize : POINT
  ptMaxTrackSize : POINT
deriving DecidableEq, Repr

/-- The four cursor modes `GLFW_CURSOR_NORMAL`, `GLFW_CURSOR_HIDDEN`,
`GLFW_CURSOR_DISABLED`, `GLFW_CURSOR_CAPTURED`. -/
inductive CursorMode where
  | NORMAL
  | HIDDEN
  | DISABLED
  | CAPTURED
deriving DecidableEq, Repr

/-- What `SetCursor` was last called with: the system arrow, the handle of a
custom cursor object, or `_glfw.win32.blankCursor`. -/
inductive CursorImage where
  | arrow
  | custom (handle : Nat)
  | blank
deriving DecidableEq, Repr

def GLFW_RELEASE : Int := 0
def GLFW_PRESS : Int := 1
def GLFW_DONT_CARE : Int := -1

def GLFW_KEY_UNKNOWN : Int := -1
def GLFW_KEY_LEFT_SHIFT : Int := 340
def GLFW_KEY_LEFT_CONTROL : Int := 341
def GLFW_KEY_LEFT_SUPER : Int := 343
def GLFW_KEY_RIGHT_SHIFT : Int := 344
def GLFW_KEY_RIGHT_CONTROL : Int := 345
def GLFW_KEY_RIGHT_SUPER : Int := 347
def GLFW_KEY_LAST : Int := 348

def GLFW_MOUSE_BUTTON_LEFT : Int := 0
def GLFW_MOUSE_BUTTON_RIGHT : Int := 1
def GLFW_MOUSE_BUTTON_MIDDLE : Int := 2
def GLFW_MOUSE_BUTTON_4 : Int := 3
def GLFW_MOUSE_BUTTON_5 : Int := 4
def GLFW_MOUSE_BUTTON_LAST : Int := 7

def GLFW_INVALID_VALUE : Int := 0x00010004
def GLFW_PLATFORM_ERROR : Int := 0x00010008
def GLFW_FORMAT_UNAVAILABLE : Int := 0x00010009

/-- Notifications emitted to the platform independent layer.  A scroll
notification carries the wheel deltas in units of `1 / WHEEL_DELTA`, that is
the numerators of the offsets the source divides by `(double) WHEEL_DELTA`.  A
content scale notification carries the two `float` scales. -/
inductive Event where
  | windowFocus (w : WinId) (focused : Bool)
  | cursorPos (w : WinId) (x y : Int)
  | key (w : WinId) (key scancode action mods : Int)
  | char (w : WinId) (codepoint : Nat) (mods : Int) (plain : Bool)
  | mouseButton (w : WinId) (button action mods : Int)
  | scroll (w : WinId) (xdelta ydelta : Int)
  | windowCloseRequest (w : WinId)
  | error (code : Int)
  | windowPos (w : WinId) (x y : Int)
  | windowSize (w : WinId) (width height : Int)
  | framebufferSize (w : WinId) (width height : Int)
  | windowIconify (w : WinId) (iconified : Bool)
  | windowMaximize (w : WinId) (maximized : Bool)
  | windowContentScale (w : WinId) (xscale yscale : ℚ)
  | cursorEnter (w : WinId) (entered : Bool)
deriving DecidableEq, Repr

/-- Requests to the operating system whose effect is not part of the model. -/
inductive OsCall where
  | MoveWindow (w : WinId) (x y width height : Int) (repaint : Bool)
  | ShowWindowMinimize (w : WinId)
  | SetCapture (w : WinId)
  | ReleaseCapture
  | SetVideoMode (m : MonId) (w : WinId)
  | RestoreVideoMode (m : MonId)
  | SetWindowPos (w : WinId) (insertAfter x y width height : Int) (flags : Nat)
  | DestroyContext (w : WinId)
  | DestroyWindow (w : WinId)
  | DestroyIcon (icon : Nat)
  | GlobalFree
  | OpenClipboard
  | Sleep (milliseconds : Nat)
  | EmptyClipboard
  | SetClipboardData
  | GetClipboardData
  | CloseClipboard
  | TrackMouseEvent (w : WinId)
deriving DecidableEq, Repr

/-- The fields of `_GLFWwindow` (and of its `win32` part) used by the modelled
functions, followed by the native geometry of the window as the operating
system reports it. -/
structure Window where
  -- fields of `_GLFWwindow`
  cursorMode : CursorMode := CursorMode.NORMAL
  rawMouseMotion : Bool := false
  cursor : Option Nat := none
  monitor : Option MonId := none
  autoIconify : Bool := false
  decorated : Bool := true
  resizable : Bool := true
  floating : Bool := false
  minwidth : Int := -1
  minheight : Int := -1
  maxwidth : Int := -1
  maxheight : Int := -1
  numer : Int := -1
  denom : Int := -1
  keys : Int → Int := fun _ => 0
  mouseButtons : Int → Int := fun _ => 0
  virtualCursorPosX : Int := 0
  virtualCursorPosY : Int := 0
  contextDestroy : Bool := false
  -- fields of `_GLFWwindow.win32`; `handle` tells whether the native handle
  -- is non-null, `bigIcon` and `smallIcon` are the icon handles
  frameAction : Bool := false
  keymenu : Bool := false
  highSurrogate : Nat := 0
  lastCursorPosX : Int := 0
  lastCursorPosY : Int := 0
  width : Int := 0
  height : Int := 0
  iconified : Bool := false
  maximized : Bool := false
  scaleToMonitor : Bool := false
  cursorTracked : Bool := false
  handle : Bool := true
  bigIcon : Option Nat := none
  smallIcon : Option Nat := none
  -- native state of the window: screen position of the client origin, size of
  -- the client area, frame rectangle, extended style, layered attributes
  clientOrigin : POINT := ⟨0, 0⟩
  clientWidth : Int := 0
  clientHeight : Int := 0
  windowRect : RECT := ⟨0, 0, 0, 0⟩
  exStyle : Nat := 0
  layeredAlpha : Nat := 0
  layeredFlags : Nat := 0
  layeredAttributesSet : Bool := false

/-- The library singleton `_glfw` (window list head and the `win32` fields the
backend uses) followed by the operating system state it observes. -/
structure Session where
  -- the windows, the window list and the monitors' owning-window references
  windows : WinId → Window := fun _ => {}
  windowList : List WinId := []
  monitorWindow : MonId → Option WinId := fun _ => none
  -- fields of `_glfw.win32`
  keycodes : Int → Int := fun _ => -1
  scancodes : Int → Int := fun _ => -1
  rawInputSize : Nat := 0
  disabledCursorWindow : Option WinId := none
  capturedCursorWindow : Option WinId := none
  restoreCursorPosX : Int := 0
  restoreCursorPosY : Int := 0
  acquiredMonitorCount : Int := 0
  mouseTrailSize : Int := 0
  clipboardString : Option (List Nat) := none
  keynames : Int → Option (List Nat) := fun _ => none
  -- operating system state: active window, pointer position and whether
  -- `GetCursorPos` succeeds, `WindowFromPoint`, the `ClipCursor` rectangle, the
  -- cursor image, the raw input registration, the `ES_DISPLAY_REQUIRED` state,
  -- the mouse trail setting, what `AdjustWindowRectEx` makes of the zero
  -- rectangle for a window and its styles, the `rcMonitor` rectangle of each
  -- monitor, whether the system is Windows 10 version 1703 or later, whether
  -- this thread holds the clipboard open, and the `CF_UNICODETEXT` object of
  -- the clipboard (the text as wide characters)
  activeWindow : Option WinId := none
  osCursorPos : POINT := ⟨0, 0⟩
  getCursorPosOk : Bool := true
  windowFromPoint : POINT → Option WinId := fun _ => none
  clipRect : Option RECT := none
  cursorImage : CursorImage := CursorImage.arrow
  rawInputTarget : Option WinId := none
  displayRequired : Bool := false
  osMouseTrails : Int := 0
  adjustedZeroRect : WinId → Nat → Nat → RECT := fun _ _ _ => ⟨0, 0, 0, 0⟩
  monitorRect : MonId → RECT := fun _ => ⟨0, 0, 0, 0⟩
  windows10Version1703OrGreater : Bool := true
  clipboardOpen : Bool := false
  clipboardData : Option (List Nat) := none
  -- what the backend has emitted and requested so far
  events : List Event := []
  calls : List OsCall := []

/-- The pointer `_glfw.windowListHead`. -/
def Session.windowListHead (s : Session) : Option WinId :=
  s.windowList.head?

/-- Replace one window record, as a write through the window pointer does. -/
def Session.setWindow (s : Session) (w : WinId) (win : Window) : Session :=
  { s with windows := Function.update s.windows w win }

/-- Append a notification to the event stream. -/
def Session.emit (s : Session) (e : Event) : Session :=
  { s with events := s.events ++ [e] }

/-- Append an unmodelled operating system request. -/
def Session.call (s : Session) (c : OsCall) : Session :=
  { s with calls := s.calls ++ [c] }

/-! ## Operating system primitives -/

/-- Win32 `ClientToScreen`: client coordinates of window `w` to screen coordinates. -/
def ClientToScreen (s : Session) (w : WinId) (p : POINT) : POINT :=
  ⟨p.x + (s.windows w).clientOrigin.x, p.y + (s.windows w).clientOrigin.y⟩

/-- Win32 `ScreenToClient`: screen coordinates to client coordinates of window `w`. -/
def ScreenToClient (s : Session) (w : WinId) (p : POINT) : POINT :=
  ⟨p.x - (s.windows w).clientOrigin.x, p.y - (s.windows w).clientOrigin.y⟩

/-- Win32 `GetClientRect`: the client area, with its origin at `(0,0)`. -/
def GetClientRect (s : Session) (w : WinId) : RECT :=
  ⟨0, 0, (s.windows w).clientWidth, (s.windows w).clientHeight⟩

/-- Win32 `PtInRect`: the right and bottom edges are outside the rectangle. -/
def PtInRect (r : RECT) (p : POINT) : Bool :=
  decide (r.left ≤ p.x) && decide (p.x < r.right) &&
    decide (r.top ≤ p.y) && decide (p.y < r.bottom)

/-- Win32 `SetCursorPos`: the system keeps the pointer inside the rectangle of the
most recent `ClipCursor` call, if one is in effect. -/
def SetCursorPos (s : Session) (x y : Int) : Session :=
  match s.clipRect with
  | none => { s with osCursorPos := ⟨x, y⟩ }
  | some r =>
    { s with osCursorPos := ⟨max r.left (min x (r.right - 1)),
                              max r.top (min y (r.bottom - 1))⟩ }

/-! ## Cursor mode state machine -/

/-- Source: `updateCursorImage`. -/
def updateCursorImage (s : Session) (w : WinId) : Session :=
  if (s.windows w).cursorMode = CursorMode.NORMAL ∨
     (s.windows w).cursorMode = CursorMode.CAPTURED then
    match (s.windows w).cursor with
    | some h => { s with cursorImage := CursorImage.custom h }
    | none => { s with cursorImage := CursorImage.arrow }
  else
    { s with cursorImage := CursorImage.blank }

/-- Source: `captureCursor`. -/
def captureCursor (s : Session) (w : WinId) : Session :=
  let clipRect := GetClientRect s w
  let lt := ClientToScreen s w ⟨clipRect.left, clipRect.top⟩
  let rb := ClientToScreen s w ⟨clipRect.right, clipRect.bottom⟩
  { s with clipRect := some ⟨lt.x, lt.y, rb.x, rb.y⟩, capturedCursorWindow := some w }

/-- Source: `releaseCursor`. -/
def releaseCursor (s : Session) : Session :=
  { s with clipRect := none, capturedCursorWindow := none }

/-- Source: `enableRawMouseMotion`; the registration is taken to succeed. -/
def enableRawMouseMotion (s : Session) (w : WinId) : Session :=
  { s with rawInputTarget := some w }

/-- Source: `disableRawMouseMotion`; the removal is taken to succeed. -/
def disableRawMouseMotion (s : Session) (_w : WinId) : Session :=
  { s with rawInputTarget := none }

/-- Source: `_glfwGetCursorPosWin32`; `none` when `GetCursorPos` fails, in
which case the source leaves the output variables untouched. -/
def _glfwGetCursorPosWin32 (s : Session) (w : WinId) : Option POINT :=
  if s.getCursorPosOk then some (ScreenToClient s w s.osCursorPos) else none

/-- Source: `_glfwSetCursorPosWin32`, with the `double` arguments already
truncated to `int`. -/
def _glfwSetCursorPosWin32 (s : Session) (w : WinId) (xpos ypos : Int) : Session :=
  let win := s.windows w
  let s := s.setWindow w { win with lastCursorPosX := xpos, lastCursorPosY := ypos }
  let pos := ClientToScreen s w ⟨xpos, ypos⟩
  SetCursorPos s pos.x pos.y

/-- Source: `_glfwGetWindowSizeWin32`. -/
def _glfwGetWindowSizeWin32 (s : Session) (w : WinId) : Int × Int :=
  ((GetClientRect s w).right, (GetClientRect s w).bottom)

/-- Modelled from the spec: `_glfwCenterCursorInContentArea` of the platform
independent layer is not in the source tree; the spec says entering disabled
mode "recenters the pointer to the window's content-area center".  It asks the
backend for the content size and sets the pointer to half of it, truncated. -/
def _glfwCenterCursorInContentArea (s : Session) (w : WinId) : Session :=
  let sz := _glfwGetWindowSizeWin32 s w
  _glfwSetCursorPosWin32 s w (Int.tdiv sz.1 2) (Int.tdiv sz.2 2)

/-- The store of `_glfwGetCursorPosWin32` into the restore position. -/
def saveRestoreCursorPos (s : Session) (w : WinId) : Session :=
  match _glfwGetCursorPosWin32 s w with
  | some p => { s with restoreCursorPosX := p.x, restoreCursorPosY := p.y }
  | none => s

/-- Source: `disableCursor`. -/
def disableCursor (s : Session) (w : WinId) : Session :=
  let s := { s with disabledCursorWindow := some w }
  let s := saveRestoreCursorPos s w
  let s := updateCursorImage s w
  let s := _glfwCenterCursorInContentArea s w
  let s := captureCursor s w
  if (s.windows w).rawMouseMotion then enableRawMouseMotion s w else s

/-- Source: `enableCursor`. -/
def enableCursor (s : Session) (w : WinId) : Session :=
  let s := if (s.windows w).rawMouseMotion then disableRawMouseMotion s w else s
  let s := { s with disabledCursorWindow := none }
  let s := releaseCursor s
  let s := _glfwSetCursorPosWin32 s w s.restoreCursorPosX s.restoreCursorPosY
  updateCursorImage s w

/-- Source: `cursorInContentArea`. -/
def cursorInContentArea (s : Session) (w : WinId) : Bool :=
  if !s.getCursorPosOk then false
  else if s.windowFromPoint s.osCursorPos ≠ some w then false
  else
    let area := GetClientRect s w
    let lt := ClientToScreen s w ⟨area.left, area.top⟩
    let rb := ClientToScreen s w ⟨area.right, area.bottom⟩
    PtInRect ⟨lt.x, lt.y, rb.x, rb.y⟩ s.osCursorPos

/-- Source: `_glfwWindowFocusedWin32`. -/
def _glfwWindowFocusedWin32 (s : Session) (w : WinId) : Bool :=
  decide (s.activeWindow = some w)

/-- Source: `_glfwSetCursorModeWin32`. -/
def _glfwSetCursorModeWin32 (s : Session) (w : WinId) (mode : CursorMode) : Session :=
  let s :=
    if _glfwWindowFocusedWin32 s w then
      let s :=
        if mode = CursorMode.DISABLED then
          let s := saveRestoreCursorPos s w
          let s := _glfwCenterCursorInContentArea s w
          if (s.windows w).rawMouseMotion then enableRawMouseMotion s w else s
        else if s.disabledCursorWindow = some w then
          if (s.windows w).rawMouseMotion then disableRawMouseMotion s w else s
        else s
      let s :=
        if mode = CursorMode.DISABLED ∨ mode = CursorMode.CAPTURED then captureCursor s w
        else releaseCursor s
      if mode = CursorMode.DISABLED then
        { s with disabledCursorWindow := some w }
      else if s.disabledCursorWindow = some w then
        let s := { s with disabledCursorWindow := none }
        _glfwSetCursorPosWin32 s w s.restoreCursorPosX s.restoreCursorPosY
      else s
    else s
  if cursorInContentArea s w then updateCursorImage s w else s

/-! ## Monitor ownership -/

/-- Modelled from the spec: `_glfwInputMonitorWindow` of the platform
independent layer is not in the source tree; the spec says acquire "binds the
monitor's owning window back-reference" and release "clears the
back-reference".  It stores the window in the monitor. -/
def _glfwInputMonitorWindow (s : Session) (m : MonId) (w : Option WinId) : Session :=
  { s with monitorWindow := Function.update s.monitorWindow m w }

/-- Source: `acquireMonitor`, for a window whose `monitor` field is `m`.
`displayRequired` is the `ES_DISPLAY_REQUIRED` bit of the thread execution
state; `osMouseTrails` is the system mouse trail setting. -/
def acquireMonitor (s : Session) (w : WinId) (m : MonId) : Session :=
  let s :=
    if s.acquiredMonitorCount = 0 then
      { s with displayRequired := true, mouseTrailSize := s.osMouseTrails, osMouseTrails := 0 }
    else s
  let s :=
    if s.monitorWindow m = none then
      { s with acquiredMonitorCount := s.acquiredMonitorCount + 1 }
    else s
  let s := s.call (OsCall.SetVideoMode m w)
  _glfwInputMonitorWindow s m (some w)

/-- Source: `releaseMonitor`, for a window whose `monitor` field is `m`. -/
def releaseMonitor (s : Session) (w : WinId) (m : MonId) : Session :=
  if s.monitorWindow m ≠ some w then s
  else
    let s := { s with acquiredMonitorCount := s.acquiredMonitorCount - 1 }
    let s :=
      if s.acquiredMonitorCount = 0 then
        { s with displayRequired := false, osMouseTrails := s.mouseTrailSize }
      else s
    let s := _glfwInputMonitorWindow s m none
    s.call (OsCall.RestoreVideoMode m)

/-! ## Notification sinks of the platform independent layer -/

/-- Modelled from the spec: `_glfwInputWindowFocus` is not in the source tree;
the spec lists the notification "window-focus(bool)".  It emits it. -/
def _glfwInputWindowFocus (s : Session) (w : WinId) (focused : Bool) : Session :=
  s.emit (Event.windowFocus w focused)

/-- Modelled from the spec: `_glfwInputWindowCloseRequest` is not in the source
tree; the spec lists the notification "window-close-requested". -/
def _glfwInputWindowCloseRequest (s : Session) (w : WinId) : Session :=
  s.emit (Event.windowCloseRequest w)

/-- Modelled from the spec: `_glfwInputCursorPos` is not in the source tree; the
spec describes one "virtual cursor position" accumulator per window and the
notification "cursor-position(x,y)".  It stores the position and emits it. -/
def _glfwInputCursorPos (s : Session) (w : WinId) (x y : Int) : Session :=
  let win := s.windows w
  let s := s.setWindow w { win with virtualCursorPosX := x, virtualCursorPosY := y }
  s.emit (Event.cursorPos w x y)

/-- Modelled from the spec: `_glfwInputKey` is not in the source tree; the spec
describes a per-window key-down record that says "pressed" until a release
is delivered, and the notification "key(logical-key, scancode, action,
modifier-bitmask)".  It records the action for the key and emits it. -/
def _glfwInputKey (s : Session) (w : WinId) (key scancode action mods : Int) : Session :=
  let win := s.windows w
  let s := s.setWindow w { win with keys := Function.update win.keys key action }
  s.emit (Event.key w key scancode action mods)

/-- Modelled from the spec: `_glfwInputChar` is not in the source tree; the spec
lists the notification "character(code-point, modifier-bitmask,
plain-text-flag)" and says an unpaired surrogate half emits no character
event.  The handler passes code point `0` for such a half, so code point `0`
emits nothing and every other code point is emitted. -/
def _glfwInputChar (s : Session) (w : WinId) (codepoint : Nat) (mods : Int)
    (plain : Bool) : Session :=
  if codepoint = 0 then s else s.emit (Event.char w codepoint mods plain)

/-- Modelled from the spec: `_glfwInputMouseClick` is not in the source tree; the
spec describes a "per-button press/release state array" and the notification
"mouse-button(button-index, action, modifier-bitmask)".  It records the action
for the button and emits it. -/
def _glfwInputMouseClick (s : Session) (w : WinId) (button action mods : Int) : Session :=
  let win := s.windows w
  let s := s.setWindow w
    { win with mouseButtons := Function.update win.mouseButtons button action }
  s.emit (Event.mouseButton w button action mods)

/-- Modelled from the spec: `_glfwInputScroll` is not in the source tree; the
spec lists the notification "scroll(dx,dy as fractional wheel units)". -/
def _glfwInputScroll (s : Session) (w : WinId) (xdelta ydelta : Int) : Session :=
  s.emit (Event.scroll w xdelta ydelta)

/-- Modelled from the spec: `_glfwInputWindowPos` is not in the source tree; the
spec lists the notification "window-move(x,y)".  It emits it. -/
def _glfwInputWindowPos (s : Session) (w : WinId) (x y : Int) : Session :=
  s.emit (Event.windowPos w x y)

/-- Modelled from the spec: `_glfwInputWindowSize` is not in the source tree; the
spec lists the notification "window-resize(width,height)".  It emits it. -/
def _glfwInputWindowSize (s : Session) (w : WinId) (width height : Int) : Session :=
  s.emit (Event.windowSize w width height)

/-- Modelled from the spec: `_glfwInputFramebufferSize` is not in the source
tree; the spec lists the notification "framebuffer-resize(width,height)".  It
emits it. -/
def _glfwInputFramebufferSize (s : Session) (w : WinId) (width height : Int) : Session :=
  s.emit (Event.framebufferSize w width height)

/-- Modelled from the spec: `_glfwInputWindowIconify` is not in the source tree;
the spec lists the notification "window-iconify(bool)".  It emits it. -/
def _glfwInputWindowIconify (s : Session) (w : WinId) (iconified : Bool) : Session :=
  s.emit (Event.windowIconify w iconified)

/-- Modelled from the spec: `_glfwInputWindowMaximize` is not in the source
tree; the spec lists the notification "window-maximize(bool)".  It emits it. -/
def _glfwInputWindowMaximize (s : Session) (w : WinId) (maximized : Bool) : Session :=
  s.emit (Event.windowMaximize w maximized)

/-- Modelled from the spec: `_glfwInputWindowContentScale` is not in the source
tree; the spec lists the notification "window-content-scale(xscale,yscale)".
It emits it. -/
def _glfwInputWindowContentScale (s : Session) (w : WinId) (xscale yscale : ℚ) : Session :=
  s.emit (Event.windowContentScale w xscale yscale)

/-- Modelled from the spec: `_glfwInputCursorEnter` is not in the source tree;
the spec lists the notification "cursor-enter/leave(bool)".  It emits it. -/
def _glfwInputCursorEnter (s : Session) (w : WinId) (entered : Bool) : Session :=
  s.emit (Event.cursorEnter w entered)

/-- Source: `_glfwIconifyWindowWin32`. -/
def _glfwIconifyWindowWin32 (s : Session) (w : WinId) : Session :=
  s.call (OsCall.ShowWindowMinimize w)

/-! ## Single precision arithmetic

C `float` values are the rationals that the binary32 format represents; every
operation yields the exact result rounded to nearest, ties to even.  Results
outside the finite range are `none`. -/

/-- Round a rational to the nearest integer, ties to the even one. -/
def roundHalfEven (x : ℚ) : ℤ :=
  let f := ⌊x⌋
  let r := x - f
  if r < 1 / 2 then f else if 1 / 2 < r then f + 1 else if f % 2 = 0 then f else f + 1

/-- The number of halvings that bring `n` below 2, at most `fuel` of them. -/
def halvings : Nat → Nat → Nat
  | 0, _ => 0
  | fuel + 1, n => if 2 ≤ n then halvings fuel (n / 2) + 1 else 0

/-- The binary exponent of a positive rational: the `e` with
`2^e ≤ q < 2^(e+1)`. -/
def binaryExponent (q : ℚ) : ℤ :=
  let e0 : ℤ := (halvings q.num.toNat q.num.toNat : ℤ) - (halvings q.den q.den : ℤ)
  if (2 : ℚ) ^ e0 ≤ q then e0 else e0 - 1

/-- The exponent of the unit in the last place of the binary32 format at `q`:
24 significant bits, and no finer than `2^(-149)`. -/
def f32UlpExponent (q : ℚ) : ℤ :=
  max (binaryExponent |q| - 23) (-149)

/-- Rounding to binary32, to nearest with ties to even, for values below the
overflow threshold. -/
def f32Round (q : ℚ) : ℚ :=
  if q = 0 then 0 else (roundHalfEven (q / 2 ^ f32UlpExponent q) : ℚ) * 2 ^ f32UlpExponent q

/-- A rounded result, unless it is beyond the largest finite binary32 value. -/
def f32Finite (q : ℚ) : Option ℚ :=
  if |f32Round q| < 2 ^ 128 then some (f32Round q) else none

/-- The conversion `(float) n` of an `int`. -/
def f32OfInt (n : Int) : ℚ :=
  f32Round n

/-- Single precision division; `none` for a zero divisor or an overflow. -/
def f32Div (a b : ℚ) : Option ℚ :=
  if b = 0 then none else f32Finite (a / b)

/-- Single precision multiplication; `none` for an overflow. -/
def f32Mul (a b : ℚ) : Option ℚ :=
  f32Finite (a * b)

/-- Truncation toward zero. -/
def truncate (x : ℚ) : ℤ :=
  if 0 ≤ x then ⌊x⌋ else ⌈x⌉

/-- The conversion `(int) x` of a `float`; `none` where the truncated value
is not an `int`, which the C standard leaves undefined. -/
def f32ToInt (x : ℚ) : Option Int :=
  if -2 ^ 31 ≤ truncate x ∧ truncate x < 2 ^ 31 then some (truncate x) else none

/-- The conversion `(BYTE) x` of a `float`; `none` where the truncated value
is not a `BYTE`, which the C standard leaves undefined. -/
def f32ToByte (x : ℚ) : Option Nat :=
  if 0 ≤ truncate x ∧ truncate x ≤ 255 then some (truncate x).toNat else none

/-! ## Window procedure -/

def VK_SHIFT : Nat := 0x10
def VK_CONTROL : Nat := 0x11
def VK_MENU : Nat := 0x12
def VK_SNAPSHOT : Nat := 0x2C
def VK_LWIN : Nat := 0x5B
def VK_RWIN : Nat := 0x5C
def VK_LSHIFT : Nat := 0xA0
def VK_RSHIFT : Nat := 0xA1
def VK_PROCESSKEY : Nat := 0xE5
def KF_EXTENDED : Nat := 0x0100
def KF_UP : Nat := 0x8000
def SIZE_RESTORED : Nat := 0
def SIZE_MINIMIZED : Nat := 1
def SIZE_MAXIMIZED : Nat := 2
def HWND_TOP : Int := 0
def HWND_TOPMOST : Int := -1
def SWP_NOZORDER : Nat := 0x0004
def SWP_NOACTIVATE : Nat := 0x0010
def SWP_NOCOPYBITS : Nat := 0x0100
def USER_DEFAULT_SCREEN_DPI : Int := 96
def XBUTTON1 : Nat := 1

/-- The Win32 macro `LOWORD`. -/
def LOWORD (v : Nat) : Nat :=
  v % 65536

/-- The Win32 macro `HIWORD`. -/
def HIWORD (v : Nat) : Nat :=
  (v / 65536) % 65536

/-- The conversion `(SHORT) v` of a 16 bit value, as in `(SHORT) usButtonData`. -/
def toSHORT (v : Nat) : Int :=
  if v % 65536 < 32768 then ((v % 65536 : Nat) : Int) else ((v % 65536 : Nat) : Int) - 65536

/-- The Win32 macro `GET_X_LPARAM`: the low word as a signed value. -/
def GET_X_LPARAM (lp : Nat) : Int :=
  toSHORT (LOWORD lp)

/-- The Win32 macro `GET_Y_LPARAM`: the high word as a signed value. -/
def GET_Y_LPARAM (lp : Nat) : Int :=
  toSHORT (HIWORD lp)

/-- The scan `for (i = 0; i <= GLFW_MOUSE_BUTTON_LAST; i++)` for a pressed
button: true when the loop leaves through `break`. -/
def anyButtonPressed (win : Window) : Bool :=
  (List.range 8).any (fun i => decide (win.mouseButtons (i : Int) = GLFW_PRESS))

/-- The next queued message as `PeekMessageW(..., PM_NOREMOVE)` shows it:
whether it is one of the four key messages, its `wParam`, the high word of its
`lParam` and its time stamp. -/
structure PeekedMsg where
  isKeyMessage : Bool
  wParam : Nat
  hiword : Nat
  time : Nat
deriving DecidableEq, Repr

/-- A key message (`WM_KEYDOWN`, `WM_SYSKEYDOWN`, `WM_KEYUP`, `WM_SYSKEYUP`):
its `wParam`, the high word of its `lParam`, and what the operating system
answers while it is handled: `getKeyMods()`, `MapVirtualKeyW(wParam,
MAPVK_VK_TO_VSC)`, `GetMessageTime()` and the peeked next message. -/
structure KeyMsg where
  wParam : Nat
  hiword : Nat
  mods : Int := 0
  mapVirtualKey : Int := 0
  time : Nat := 0
  next : Option PeekedMsg := none
deriving DecidableEq, Repr

/-- The eight mouse button messages. -/
inductive ButtonMessage where
  | WM_LBUTTONDOWN
  | WM_RBUTTONDOWN
  | WM_MBUTTONDOWN
  | WM_XBUTTONDOWN
  | WM_LBUTTONUP
  | WM_RBUTTONUP
  | WM_MBUTTONUP
  | WM_XBUTTONUP
deriving DecidableEq, Repr

/-- A size or move message that the system sends to the window procedure of a
window while a `SetWindowPos` call for that window runs: `WM_SIZE` with
`wParam` and `lParam`, or `WM_MOVE` with `lParam`. -/
inductive SizeMoveMsg where
  | WM_SIZE (wParam lParam : Nat)
  | WM_MOVE (lParam : Nat)
deriving DecidableEq, Repr

/-- The messages of `windowProc` that are modelled.  Character messages carry
`wParam` and the value of `getKeyMods()`; `WM_CAPTURECHANGED` carries
`lParam`; `WM_MOUSEACTIVATE` carries the low and high word of `lParam`;
`WM_SIZE` carries `wParam` and `lParam`; `WM_MOVE` carries `lParam`;
`WM_DPICHANGED` carries `wParam`, the rectangle `lParam` points to and the size
and move messages that the system sends to the window procedure while the
`SetWindowPos` call of the case runs, in the order sent; a mouse button message
carries which of the eight it is, `wParam` and the value of `getKeyMods()`;
`WM_MOUSEMOVE` carries `lParam`. -/
inductive Msg where
  | WM_MOUSEACTIVATE (hitTest mouseMsg : Nat)
  | WM_CAPTURECHANGED (lParam : Nat)
  | WM_SETFOCUS
  | WM_KILLFOCUS
  | WM_CHAR (wParam : Nat) (mods : Int)
  | WM_SYSCHAR (wParam : Nat) (mods : Int)
  | WM_KEY (k : KeyMsg)
  | WM_ENTERSIZEMOVE
  | WM_EXITSIZEMOVE
  | WM_SIZE (wParam lParam : Nat)
  | WM_MOVE (lParam : Nat)
  | WM_DPICHANGED (wParam : Nat) (suggested : RECT) (sent : List SizeMoveMsg)
  | WM_BUTTON (uMsg : ButtonMessage) (wParam : Nat) (mods : Int)
  | WM_MOUSEMOVE (lParam : Nat)
  | WM_MOUSELEAVE
deriving DecidableEq, Repr

def HTCLIENT : Nat := 1
def WM_LBUTTONDOWN : Nat := 0x0201

/-- The value of the local `codepoint` in the `WM_CHAR`/`WM_SYSCHAR` case of
`windowProc` for a `wParam` outside the high surrogate range, computed in
`uint32_t` from the buffered high surrogate. -/
def charCodepoint (highSurrogate wParam : Nat) : Nat :=
  if 0xdc00 ≤ wParam ∧ wParam ≤ 0xdfff then
    if highSurrogate ≠ 0 then
      Int.toNat ((((highSurrogate : Int) - 0xd800) * 2 ^ 10 +
        (((wParam % 65536 : Nat) : Int) - 0xdc00) + 0x10000) % 2 ^ 32)
    else 0
  else wParam % 65536

/-- Source: the `WM_CHAR`/`WM_SYSCHAR` case of `windowProc`; `sys` tells the
two messages apart. -/
def windowProcChar (s : Session) (w : WinId) (sys : Bool) (wParam : Nat)
    (mods : Int) : Session :=
  let win := s.windows w
  if 0xd800 ≤ wParam ∧ wParam ≤ 0xdbff then
    s.setWindow w { win with highSurrogate := wParam % 65536 }
  else
    let codepoint := charCodepoint win.highSurrogate wParam
    let s := s.setWindow w { win with highSurrogate := 0 }
    _glfwInputChar s w codepoint mods (!sys)

/-- The scan code of a key message after the zero scan code recovery and the
three remappings of the key case of `windowProc`. -/
def keyScancode (k : KeyMsg) : Int :=
  let scancode : Int := ((k.hiword &&& (KF_EXTENDED ||| 0xff) : Nat) : Int)
  let scancode := if scancode = 0 then k.mapVirtualKey else scancode
  let scancode := if scancode = 0x54 then 0x137 else scancode
  let scancode := if scancode = 0x146 then 0x45 else scancode
  if scancode = 0x136 then 0x36 else scancode

/-- The logical key of a key message after the Control and `VK_PROCESSKEY`
handling of `windowProc`; `none` where the source leaves the case (`break`)
without reporting a key. -/
def keyLogical (s : Session) (k : KeyMsg) : Option Int :=
  if k.wParam = VK_CONTROL then
    if k.hiword &&& KF_EXTENDED ≠ 0 then some GLFW_KEY_RIGHT_CONTROL
    else
      match k.next with
      | some next =>
        if next.isKeyMessage ∧ next.wParam = VK_MENU ∧
            next.hiword &&& KF_EXTENDED ≠ 0 ∧ next.time = k.time then none
        else some GLFW_KEY_LEFT_CONTROL
      | none => some GLFW_KEY_LEFT_CONTROL
  else if k.wParam = VK_PROCESSKEY then none
  else some (s.keycodes (keyScancode k))

/-- Source: the `WM_KEYDOWN`/`WM_SYSKEYDOWN`/`WM_KEYUP`/`WM_SYSKEYUP` case of
`windowProc`. -/
def windowProcKey (s : Session) (w : WinId) (k : KeyMsg) : Session :=
  let action := if k.hiword &&& KF_UP ≠ 0 then GLFW_RELEASE else GLFW_PRESS
  let scancode := keyScancode k
  match keyLogical s k with
  | none => s
  | some key =>
    if action = GLFW_RELEASE ∧ k.wParam = VK_SHIFT then
      let s := _glfwInputKey s w GLFW_KEY_LEFT_SHIFT scancode action k.mods
      _glfwInputKey s w GLFW_KEY_RIGHT_SHIFT scancode action k.mods
    else if k.wParam = VK_SNAPSHOT then
      let s := _glfwInputKey s w key scancode GLFW_PRESS k.mods
      _glfwInputKey s w key scancode GLFW_RELEASE k.mods
    else
      _glfwInputKey s w key scancode action k.mods

/-- Source: `fitToMonitor`, for a window whose `monitor` field is `m`. -/
def fitToMonitor (s : Session) (w : WinId) (m : MonId) : Session :=
  let mi := s.monitorRect m
  s.call (OsCall.SetWindowPos w HWND_TOPMOST mi.left mi.top (mi.right - mi.left)
    (mi.bottom - mi.top) (SWP_NOZORDER ||| SWP_NOACTIVATE ||| SWP_NOCOPYBITS))

/-- Source: the `WM_SIZE` case of `windowProc`. -/
def windowProcSize (s : Session) (w : WinId) (wParam lParam : Nat) : Session :=
  let width : Int := (LOWORD lParam : Nat)
  let height : Int := (HIWORD lParam : Nat)
  let iconified : Bool := decide (wParam = SIZE_MINIMIZED)
  let maximized : Bool := decide (wParam = SIZE_MAXIMIZED) ||
    ((s.windows w).maximized && decide (wParam ≠ SIZE_RESTORED))
  let s := if s.capturedCursorWindow = some w then captureCursor s w else s
  let s :=
    if (s.windows w).iconified ≠ iconified then _glfwInputWindowIconify s w iconified else s
  let s :=
    if (s.windows w).maximized ≠ maximized then _glfwInputWindowMaximize s w maximized else s
  let s :=
    if width ≠ (s.windows w).width ∨ height ≠ (s.windows w).height then
      let s := s.setWindow w { s.windows w with width := width, height := height }
      let s := _glfwInputFramebufferSize s w width height
      _glfwInputWindowSize s w width height
    else s
  let s :=
    match (s.windows w).monitor with
    | some m =>
      if (s.windows w).iconified ≠ iconified then
        if iconified then releaseMonitor s w m
        else fitToMonitor (acquireMonitor s w m) w m
      else s
    | none => s
  s.setWindow w { s.windows w with iconified := iconified, maximized := maximized }

/-- Source: the `WM_MOVE` case of `windowProc`. -/
def windowProcMove (s : Session) (w : WinId) (lParam : Nat) : Session :=
  let s := if s.capturedCursorWindow = some w then captureCursor s w else s
  _glfwInputWindowPos s w (GET_X_LPARAM lParam) (GET_Y_LPARAM lParam)

/-- The window procedure entered again for a size or move message that the
system sends while `SetWindowPos` runs: the `WM_SIZE` or the `WM_MOVE` case. -/
def windowProcSizeMove (s : Session) (w : WinId) (msg : SizeMoveMsg) : Session :=
  match msg with
  | SizeMoveMsg.WM_SIZE wParam lParam => windowProcSize s w wParam lParam
  | SizeMoveMsg.WM_MOVE lParam => windowProcMove s w lParam

/-- The value of `dpi / (float) USER_DEFAULT_SCREEN_DPI` for a word `dpi` of
`wParam`. -/
def dpiScale (dpi : Nat) : ℚ :=
  f32Round (f32OfInt (dpi : Int) / f32OfInt USER_DEFAULT_SCREEN_DPI)

/-- Source: the `WM_DPICHANGED` case of `windowProc`.  The macro
`_glfwIsWindows10Version1703OrGreaterWin32` is not in the source tree; its
value is the session field `windows10Version1703OrGreater`.  The
`SetWindowPos` call does not return before the window procedure has handled
the messages `sent` that the system sends for the new frame. -/
def windowProcDpiChanged (s : Session) (w : WinId) (wParam : Nat) (suggested : RECT)
    (sent : List SizeMoveMsg) : Session :=
  let xscale := dpiScale (HIWORD wParam)
  let yscale := dpiScale (LOWORD wParam)
  let s :=
    if (s.windows w).monitor.isNone ∧
        ((s.windows w).scaleToMonitor ∨ s.windows10Version1703OrGreater) then
      let s := s.call (OsCall.SetWindowPos w HWND_TOP suggested.left suggested.top
        (suggested.right - suggested.left) (suggested.bottom - suggested.top)
        (SWP_NOACTIVATE ||| SWP_NOZORDER))
      sent.foldl (fun st msg => windowProcSizeMove st w msg) s
    else s
  _glfwInputWindowContentScale s w xscale yscale

/-- The value of the local `button` in the mouse button case of `windowProc`;
`GET_XBUTTON_WPARAM` is the high word of `wParam`. -/
def buttonOfMessage (uMsg : ButtonMessage) (wParam : Nat) : Int :=
  if uMsg = ButtonMessage.WM_LBUTTONDOWN ∨ uMsg = ButtonMessage.WM_LBUTTONUP then
    GLFW_MOUSE_BUTTON_LEFT
  else if uMsg = ButtonMessage.WM_RBUTTONDOWN ∨ uMsg = ButtonMessage.WM_RBUTTONUP then
    GLFW_MOUSE_BUTTON_RIGHT
  else if uMsg = ButtonMessage.WM_MBUTTONDOWN ∨ uMsg = ButtonMessage.WM_MBUTTONUP then
    GLFW_MOUSE_BUTTON_MIDDLE
  else if HIWORD wParam = XBUTTON1 then GLFW_MOUSE_BUTTON_4
  else GLFW_MOUSE_BUTTON_5

/-- The value of the local `action` in the mouse button case of `windowProc`. -/
def actionOfMessage (uMsg : ButtonMessage) : Int :=
  if uMsg = ButtonMessage.WM_LBUTTONDOWN ∨ uMsg = ButtonMessage.WM_RBUTTONDOWN ∨
      uMsg = ButtonMessage.WM_MBUTTONDOWN ∨ uMsg = ButtonMessage.WM_XBUTTONDOWN then
    GLFW_PRESS
  else GLFW_RELEASE

/-- Source: the mouse button case of `windowProc`. -/
def windowProcButton (s : Session) (w : WinId) (uMsg : ButtonMessage) (wParam : Nat)
    (mods : Int) : Session :=
  let button := buttonOfMessage uMsg wParam
  let action := actionOfMessage uMsg
  let s := if !anyButtonPressed (s.windows w) then s.call (OsCall.SetCapture w) else s
  let s := _glfwInputMouseClick s w button action mods
  if !anyButtonPressed (s.windows w) then s.call OsCall.ReleaseCapture else s

/-- Source: the `WM_MOUSEMOVE` case of `windowProc`. -/
def windowProcMouseMove (s : Session) (w : WinId) (lParam : Nat) : Session :=
  let x := GET_X_LPARAM lParam
  let y := GET_Y_LPARAM lParam
  let s :=
    if !(s.windows w).cursorTracked then
      let s := s.call (OsCall.TrackMouseEvent w)
      let s := s.setWindow w { s.windows w with cursorTracked := true }
      _glfwInputCursorEnter s w true
    else s
  if (s.windows w).cursorMode = CursorMode.DISABLED then
    let dx := x - (s.windows w).lastCursorPosX
    let dy := y - (s.windows w).lastCursorPosY
    if s.disabledCursorWindow ≠ some w then s
    else if (s.windows w).rawMouseMotion then s
    else
      let s := _glfwInputCursorPos s w ((s.windows w).virtualCursorPosX + dx)
        ((s.windows w).virtualCursorPosY + dy)
      s.setWindow w { s.windows w with lastCursorPosX := x, lastCursorPosY := y }
  else
    let s := _glfwInputCursorPos s w x y
    s.setWindow w { s.windows w with lastCursorPosX := x, lastCursorPosY := y }

/-- Source: `windowProc`, for a window with the `GLFW` property set; the
result of `DefWindowProcW` and the returned `LRESULT` are not modelled. -/
def windowProc (s : Session) (w : WinId) (msg : Msg) : Session :=
  match msg with
  | Msg.WM_MOUSEACTIVATE hitTest mouseMsg =>
    if mouseMsg = WM_LBUTTONDOWN ∧ hitTest ≠ HTCLIENT then
      s.setWindow w { s.windows w with frameAction := true }
    else s
  | Msg.WM_CAPTURECHANGED lParam =>
    if lParam = 0 ∧ (s.windows w).frameAction then
      let s :=
        if (s.windows w).cursorMode = CursorMode.DISABLED then disableCursor s w
        else if (s.windows w).cursorMode = CursorMode.CAPTURED then captureCursor s w
        else s
      s.setWindow w { s.windows w with frameAction := false }
    else s
  | Msg.WM_SETFOCUS =>
    let s := _glfwInputWindowFocus s w true
    if (s.windows w).frameAction then s
    else if (s.windows w).cursorMode = CursorMode.DISABLED then disableCursor s w
    else if (s.windows w).cursorMode = CursorMode.CAPTURED then captureCursor s w
    else s
  | Msg.WM_KILLFOCUS =>
    let s :=
      if (s.windows w).cursorMode = CursorMode.DISABLED then enableCursor s w
      else if (s.windows w).cursorMode = CursorMode.CAPTURED then releaseCursor s
      else s
    let s :=
      if (s.windows w).monitor.isSome ∧ (s.windows w).autoIconify then
        _glfwIconifyWindowWin32 s w
      else s
    _glfwInputWindowFocus s w false
  | Msg.WM_CHAR wParam mods => windowProcChar s w false wParam mods
  | Msg.WM_SYSCHAR wParam mods => windowProcChar s w true wParam mods
  | Msg.WM_KEY k => windowProcKey s w k
  | Msg.WM_ENTERSIZEMOVE =>
    if (s.windows w).frameAction then s
    else if (s.windows w).cursorMode = CursorMode.DISABLED then enableCursor s w
    else if (s.windows w).cursorMode = CursorMode.CAPTURED then releaseCursor s
    else s
  | Msg.WM_EXITSIZEMOVE =>
    if (s.windows w).frameAction then s
    else if (s.windows w).cursorMode = CursorMode.DISABLED then disableCursor s w
    else if (s.windows w).cursorMode = CursorMode.CAPTURED then captureCursor s w
    else s
  | Msg.WM_SIZE wParam lParam => windowProcSize s w wParam lParam
  | Msg.WM_MOVE lParam => windowProcMove s w lParam
  | Msg.WM_DPICHANGED wParam suggested sent => windowProcDpiChanged s w wParam suggested sent
  | Msg.WM_BUTTON uMsg wParam mods => windowProcButton s w uMsg wParam mods
  | Msg.WM_MOUSEMOVE lParam => windowProcMouseMove s w lParam
  | Msg.WM_MOUSELEAVE =>
    let s := s.setWindow w { s.windows w with cursorTracked := false }
    _glfwInputCursorEnter s w false

/-! ## Raw mouse input -/

def RIM_TYPEMOUSE : Nat := 0
def MOUSE_MOVE_ABSOLUTE : Nat := 0x01
def MOUSE_VIRTUAL_DESKTOP : Nat := 0x02
def RI_MOUSE_LEFT_BUTTON_DOWN : Nat := 0x0001
def RI_MOUSE_LEFT_BUTTON_UP : Nat := 0x0002
def RI_MOUSE_RIGHT_BUTTON_DOWN : Nat := 0x0004
def RI_MOUSE_RIGHT_BUTTON_UP : Nat := 0x0008
def RI_MOUSE_MIDDLE_BUTTON_DOWN : Nat := 0x0010
def RI_MOUSE_MIDDLE_BUTTON_UP : Nat := 0x0020
def RI_MOUSE_BUTTON_4_DOWN : Nat := 0x0040
def RI_MOUSE_BUTTON_4_UP : Nat := 0x0080
def RI_MOUSE_BUTTON_5_DOWN : Nat := 0x0100
def RI_MOUSE_BUTTON_5_UP : Nat := 0x0200
def RI_MOUSE_WHEEL : Nat := 0x0400
def RI_MOUSE_HWHEEL : Nat := 0x0800

/-- The fields of `RAWINPUT` the source reads: `header.dwType` and, of
`data.mouse`, `usFlags`, `usButtonFlags`, `usButtonData`, `lLastX`, `lLastY`. -/
structure RAWINPUT where
  dwType : Nat := 0
  usFlags : Nat := 0
  usButtonFlags : Nat := 0
  usButtonData : Nat := 0
  lLastX : Int := 0
  lLastY : Int := 0
deriving DecidableEq, Repr

/-- What the operating system answers during one `processRawInput` call: the
size reported by the first `GetRawInputBuffer` call (`none` for `(UINT)-1`),
the records returned by the second (`none` for `(UINT)-1`), `getKeyMods()`,
the system metrics, and `scale l extent`, the value of the floating point
expression `(int) ((l / 65535.f) * extent)`. -/
structure RawEnv where
  sizeQuery : Option Nat := some 0
  read : Option (List RAWINPUT) := some []
  mods : Int := 0
  xVirtualScreen : Int := 0
  yVirtualScreen : Int := 0
  cxVirtualScreen : Int := 0
  cyVirtualScreen : Int := 0
  cxScreen : Int := 0
  cyScreen : Int := 0
  scale : Int → Int → Int := fun _ _ => 0

/-- Modelled from the spec: `_glfwInputError` is not in the source tree; the
spec says errors are "reported" to the caller.  It emits the error code. -/
def _glfwInputError (s : Session) (code : Int) : Session :=
  s.emit (Event.error code)

/-- The motion `(dx, dy)` computed for one mouse record in `processRawInput`. -/
def rawDelta (env : RawEnv) (s : Session) (w : WinId) (data : RAWINPUT) : Int × Int :=
  if data.usFlags &&& MOUSE_MOVE_ABSOLUTE ≠ 0 then
    let virt := data.usFlags &&& MOUSE_VIRTUAL_DESKTOP ≠ 0
    let px : Int := if virt then env.xVirtualScreen else 0
    let py : Int := if virt then env.yVirtualScreen else 0
    let width := if virt then env.cxVirtualScreen else env.cxScreen
    let height := if virt then env.cyVirtualScreen else env.cyScreen
    let pos := ScreenToClient s w ⟨px + env.scale data.lLastX width,
                                   py + env.scale data.lLastY height⟩
    (pos.x - (s.windows w).lastCursorPosX, pos.y - (s.windows w).lastCursorPosY)
  else if data.lLastX ≠ 0 ∨ data.lLastY ≠ 0 then (data.lLastX, data.lLastY)
  else (0, 0)

/-- The values of the locals `button` and `action` in `processRawInput` after
the ten flag tests, starting from `-1`. -/
def rawButton (buttonFlags : Nat) : Int × Int :=
  let r : Int × Int := (-1, -1)
  let r := if buttonFlags &&& RI_MOUSE_LEFT_BUTTON_DOWN ≠ 0 then
    (GLFW_MOUSE_BUTTON_LEFT, GLFW_PRESS) else r
  let r := if buttonFlags &&& RI_MOUSE_LEFT_BUTTON_UP ≠ 0 then
    (GLFW_MOUSE_BUTTON_LEFT, GLFW_RELEASE) else r
  let r := if buttonFlags &&& RI_MOUSE_RIGHT_BUTTON_DOWN ≠ 0 then
    (GLFW_MOUSE_BUTTON_RIGHT, GLFW_PRESS) else r
  let r := if buttonFlags &&& RI_MOUSE_RIGHT_BUTTON_UP ≠ 0 then
    (GLFW_MOUSE_BUTTON_RIGHT, GLFW_RELEASE) else r
  let r := if buttonFlags &&& RI_MOUSE_MIDDLE_BUTTON_DOWN ≠ 0 then
    (GLFW_MOUSE_BUTTON_MIDDLE, GLFW_PRESS) else r
  let r := if buttonFlags &&& RI_MOUSE_MIDDLE_BUTTON_UP ≠ 0 then
    (GLFW_MOUSE_BUTTON_MIDDLE, GLFW_RELEASE) else r
  let r := if buttonFlags &&& RI_MOUSE_BUTTON_4_DOWN ≠ 0 then
    (GLFW_MOUSE_BUTTON_4, GLFW_PRESS) else r
  let r := if buttonFlags &&& RI_MOUSE_BUTTON_4_UP ≠ 0 then
    (GLFW_MOUSE_BUTTON_4, GLFW_RELEASE) else r
  let r := if buttonFlags &&& RI_MOUSE_BUTTON_5_DOWN ≠ 0 then
    (GLFW_MOUSE_BUTTON_5, GLFW_PRESS) else r
  if buttonFlags &&& RI_MOUSE_BUTTON_5_UP ≠ 0 then
    (GLFW_MOUSE_BUTTON_5, GLFW_RELEASE) else r

/-- Source: the body of the record loop of `processRawInput`. -/
def processRawRecord (env : RawEnv) (s : Session) (w : WinId) (data : RAWINPUT) : Session :=
  if data.dwType ≠ RIM_TYPEMOUSE then s
  else
    let d := rawDelta env s w data
    let s :=
      if d.1 ≠ 0 ∨ d.2 ≠ 0 then
        let s := _glfwInputCursorPos s w ((s.windows w).virtualCursorPosX + d.1)
          ((s.windows w).virtualCursorPosY + d.2)
        let win := s.windows w
        s.setWindow w { win with lastCursorPosX := win.lastCursorPosX + d.1,
                                 lastCursorPosY := win.lastCursorPosY + d.2 }
      else s
    let buttonFlags := data.usButtonFlags
    let s :=
      if buttonFlags &&& 0xFFFF &&& (0xFFFF - (RI_MOUSE_WHEEL ||| RI_MOUSE_HWHEEL)) ≠ 0 then
        let ba := rawButton buttonFlags
        let s := if !anyButtonPressed (s.windows w) then s.call (OsCall.SetCapture w) else s
        let s := _glfwInputMouseClick s w ba.1 ba.2 env.mods
        if !anyButtonPressed (s.windows w) then s.call OsCall.ReleaseCapture else s
      else s
    let s :=
      if buttonFlags &&& RI_MOUSE_WHEEL ≠ 0 then
        _glfwInputScroll s w 0 (toSHORT data.usButtonData)
      else s
    if buttonFlags &&& RI_MOUSE_HWHEEL ≠ 0 then
      _glfwInputScroll s w (-(toSHORT data.usButtonData)) 0
    else s

/-- Source: `processRawInput`.  The result is `none` where the source reads a
field through a null window pointer. -/
def processRawInput (s : Session) (env : RawEnv) : Option Session :=
  if s.disabledCursorWindow ≠ s.windowListHead then some s
  else
    match s.windowListHead with
    | none => none
    | some w =>
      if !(s.windows w).rawMouseMotion then some s
      else
        match env.sizeQuery with
        | none => some (_glfwInputError s GLFW_PLATFORM_ERROR)
        | some riSize =>
          let byteCount := (riSize * 16) % 2 ^ 32
          let s := if byteCount > s.rawInputSize then { s with rawInputSize := byteCount } else s
          match env.read with
          | none => some (_glfwInputError s GLFW_PLATFORM_ERROR)
          | some records => some (records.foldl (fun st data => processRawRecord env st w data) s)

/-! ## Event polling -/

/-- A message taken from the thread queue by `PeekMessageW`: `WM_QUIT`, a
modelled message for a window of this library, or any other message. -/
inductive QueuedMsg where
  | quit
  | toWindow (w : WinId) (msg : Msg)
  | other
deriving DecidableEq, Repr

/-- What the operating system answers during one `_glfwPollEventsWin32` call:
the raw input answers, the queued messages in arrival order, and, for the pass
after the message loop, `GetKeyState(vk) & 0x8000` and `getKeyMods()`. -/
structure PollEnv where
  raw : RawEnv := {}
  messages : List QueuedMsg := []
  keyDown : Nat → Bool := fun _ => false
  mods : Int := 0

/-- Source: the body of the `PeekMessageW` loop of `_glfwPollEventsWin32`. -/
def dispatchQueued (s : Session) (m : QueuedMsg) : Session :=
  match m with
  | QueuedMsg.quit => s.windowList.foldl (fun st w => _glfwInputWindowCloseRequest st w) s
  | QueuedMsg.toWindow w msg => windowProc s w msg
  | QueuedMsg.other => s

/-- The table `keys[4][2]` of `_glfwPollEventsWin32`. -/
def stuckModifierKeys : List (Nat × Int) :=
  [(VK_LSHIFT, GLFW_KEY_LEFT_SHIFT), (VK_RSHIFT, GLFW_KEY_RIGHT_SHIFT),
   (VK_LWIN, GLFW_KEY_LEFT_SUPER), (VK_RWIN, GLFW_KEY_RIGHT_SUPER)]

/-- Source: the body of the loop over `keys` in `_glfwPollEventsWin32`. -/
def releaseStuckModifier (keyDown : Nat → Bool) (mods : Int) (w : WinId)
    (s : Session) (vkKey : Nat × Int) : Session :=
  if keyDown vkKey.1 then s
  else if (s.windows w).keys vkKey.2 ≠ GLFW_PRESS then s
  else _glfwInputKey s w vkKey.2 (s.scancodes vkKey.2) GLFW_RELEASE mods

/-- Source: the pass of `_glfwPollEventsWin32` that releases modifier keys the
system did not emit a key-up message for. -/
def releaseStuckModifiers (s : Session) (keyDown : Nat → Bool) (mods : Int) : Session :=
  match s.activeWindow with
  | none => s
  | some w => stuckModifierKeys.foldl (releaseStuckModifier keyDown mods w) s

/-- Source: the last block of `_glfwPollEventsWin32`, which re-centers the
pointer of the disabled-cursor window when raw motion is off. -/
def recenterDisabledCursor (s : Session) : Session :=
  match s.disabledCursorWindow with
  | none => s
  | some w =>
    if (s.windows w).rawMouseMotion then s
    else
      let sz := _glfwGetWindowSizeWin32 s w
      if (s.windows w).lastCursorPosX ≠ Int.tdiv sz.1 2 ∨
         (s.windows w).lastCursorPosY ≠ Int.tdiv sz.2 2 then
        _glfwSetCursorPosWin32 s w (Int.tdiv sz.1 2) (Int.tdiv sz.2 2)
      else s

/-- Source: `_glfwPollEventsWin32`. -/
def _glfwPollEventsWin32 (s : Session) (env : PollEnv) : Option Session :=
  match processRawInput s env.raw with
  | none => none
  | some s =>
    let s := env.messages.foldl dispatchQueued s
    let s := releaseStuckModifiers s env.keyDown env.mods
    some (recenterDisabledCursor s)

/-! ## Window styles, size limits -/

def WS_CLIPSIBLINGS : Nat := 0x04000000
def WS_CLIPCHILDREN : Nat := 0x02000000
def WS_POPUP : Nat := 0x80000000
def WS_SYSMENU : Nat := 0x00080000
def WS_MINIMIZEBOX : Nat := 0x00020000
def WS_MAXIMIZEBOX : Nat := 0x00010000
def WS_CAPTION : Nat := 0x00C00000
def WS_THICKFRAME : Nat := 0x00040000
def WS_EX_APPWINDOW : Nat := 0x00040000
def WS_EX_TOPMOST : Nat := 0x00000008
def WS_EX_TRANSPARENT : Nat := 0x00000020
def WS_EX_LAYERED : Nat := 0x00080000
def LWA_ALPHA : Nat := 0x00000002

/-- Source: `getWindowStyle`. -/
def getWindowStyle (window : Window) : Nat :=
  let style := WS_CLIPSIBLINGS ||| WS_CLIPCHILDREN
  if window.monitor.isSome then style ||| WS_POPUP
  else
    let style := style ||| WS_SYSMENU ||| WS_MINIMIZEBOX
    if window.decorated then
      let style := style ||| WS_CAPTION
      if window.resizable then style ||| WS_MAXIMIZEBOX ||| WS_THICKFRAME else style
    else style ||| WS_POPUP

/-- Source: `getWindowExStyle`. -/
def getWindowExStyle (window : Window) : Nat :=
  let style := WS_EX_APPWINDOW
  if window.monitor.isSome ∨ window.floating then style ||| WS_EX_TOPMOST else style

/-- The `frame` rectangle of `applyAspectRatio` and of the `WM_GETMINMAXINFO`
case: what `AdjustWindowRectEx` (or `AdjustWindowRectExForDpi`) makes of the
zero rectangle for the styles of the window. -/
def frameRect (s : Session) (w : WinId) : RECT :=
  s.adjustedZeroRect w (getWindowStyle (s.windows w)) (getWindowExStyle (s.windows w))

/-- Source: `_glfwSetWindowSizeLimitsWin32`. -/
def _glfwSetWindowSizeLimitsWin32 (s : Session) (w : WinId)
    (minwidth minheight maxwidth maxheight : Int) : Session :=
  if (minwidth = GLFW_DONT_CARE ∨ minheight = GLFW_DONT_CARE) ∧
     (maxwidth = GLFW_DONT_CARE ∨ maxheight = GLFW_DONT_CARE) then s
  else
    let area := (s.windows w).windowRect
    s.call (OsCall.MoveWindow w area.left area.top (area.right - area.left)
      (area.bottom - area.top) true)

/-- Modelled from the spec: `glfwSetWindowSizeLimits` of the platform
independent layer is not in the source tree; the spec lists the request "set
size limits (min/max independently optional ...)" and the window attribute
"size limits (min/max, independently optional)".  It stores the four bounds in
the window and hands them to the backend. -/
def glfwSetWindowSizeLimits (s : Session) (w : WinId)
    (minwidth minheight maxwidth maxheight : Int) : Session :=
  let win := s.windows w
  let s := s.setWindow w { win with minwidth := minwidth, minheight := minheight,
                                    maxwidth := maxwidth, maxheight := maxheight }
  _glfwSetWindowSizeLimitsWin32 s w minwidth minheight maxwidth maxheight

/-- Source: the `WM_GETMINMAXINFO` case of `windowProc`, as a function of the
`MINMAXINFO` that `lParam` points to; `rcWork` and `rcMonitor` are the monitor
rectangles `GetMonitorInfoW` reports for the nearest monitor. -/
def windowProcGetMinMaxInfo (s : Session) (w : WinId) (rcWork rcMonitor : RECT)
    (mmi : MINMAXINFO) : MINMAXINFO :=
  let window := s.windows w
  let frame := frameRect s w
  if window.monitor.isSome then mmi
  else
    let mmi :=
      if window.minwidth ≠ GLFW_DONT_CARE ∧ window.minheight ≠ GLFW_DONT_CARE then
        { mmi with ptMinTrackSize := ⟨window.minwidth + frame.right - frame.left,
                                      window.minheight + frame.bottom - frame.top⟩ }
      else mmi
    let mmi :=
      if window.maxwidth ≠ GLFW_DONT_CARE ∧ window.maxheight ≠ GLFW_DONT_CARE then
        { mmi with ptMaxTrackSize := ⟨window.maxwidth + frame.right - frame.left,
                                      window.maxheight + frame.bottom - frame.top⟩ }
      else mmi
    if !window.decorated then
      { mmi with ptMaxPosition := ⟨rcWork.left - rcMonitor.left, rcWork.top - rcMonitor.top⟩,
                 ptMaxSize := ⟨rcWork.right - rcWork.left, rcWork.bottom - rcWork.top⟩ }
    else mmi

/-! ## Traces -/

/-- Modelled from the spec: the cursor part of `glfwSetInputMode` of the
platform independent layer is not in the source tree; the spec lists the
request "set/get cursor mode" and the window attribute "cursor-mode".  It stores
the mode in the window and hands it to the backend. -/
def glfwSetInputModeCursor (s : Session) (w : WinId) (mode : CursorMode) : Session :=
  let win := s.windows w
  let s := s.setWindow w { win with cursorMode := mode }
  _glfwSetCursorModeWin32 s w mode

/-- One step of a session in which cursor modes are set and focus moves: a
mode-set request, the backend call alone, a focus message, or a change the
operating system makes on its own (which window is active, where the pointer
is, whether the pointer query succeeds). -/
inductive CursorStep where
  | setMode (w : WinId) (mode : CursorMode)
  | setModeBackend (w : WinId) (mode : CursorMode)
  | focusGained (w : WinId)
  | focusLost (w : WinId)
  | osActivate (w : Option WinId)
  | osPointer (p : POINT) (queryOk : Bool)

/-- The effect of one `CursorStep`. -/
def CursorStep.apply (s : Session) : CursorStep → Session
  | CursorStep.setMode w mode => glfwSetInputModeCursor s w mode
  | CursorStep.setModeBackend w mode => _glfwSetCursorModeWin32 s w mode
  | CursorStep.focusGained w => windowProc s w Msg.WM_SETFOCUS
  | CursorStep.focusLost w => windowProc s w Msg.WM_KILLFOCUS
  | CursorStep.osActivate w => { s with activeWindow := w }
  | CursorStep.osPointer p ok => { s with osCursorPos := p, getCursorPosOk := ok }

/-- The session after a sequence of cursor steps. -/
def runCursorSteps (s : Session) (steps : List CursorStep) : Session :=
  steps.foldl CursorStep.apply s

/-- One call of `acquireMonitor` or `releaseMonitor` for window `w` whose
`monitor` field is `m`. -/
inductive MonitorStep where
  | acquire (w : WinId) (m : MonId)
  | release (w : WinId) (m : MonId)
deriving DecidableEq, Repr

/-- The effect of one `MonitorStep`. -/
def MonitorStep.apply (s : Session) : MonitorStep → Session
  | MonitorStep.acquire w m => acquireMonitor s w m
  | MonitorStep.release w m => releaseMonitor s w m

/-- The session after a sequence of acquire and release calls. -/
def runMonitorSteps (s : Session) (steps : List MonitorStep) : Session :=
  steps.foldl MonitorStep.apply s

/-! ## Aspect ratio -/

def WMSZ_LEFT : Nat := 1
def WMSZ_RIGHT : Nat := 2
def WMSZ_TOP : Nat := 3
def WMSZ_TOPLEFT : Nat := 4
def WMSZ_TOPRIGHT : Nat := 5
def WMSZ_BOTTOM : Nat := 6
def WMSZ_BOTTOMLEFT : Nat := 7
def WMSZ_BOTTOMRIGHT : Nat := 8

/-- The local `ratio` of `applyAspectRatio`: `(float) numer / (float) denom`. -/
def aspectRatio (window : Window) : Option ℚ :=
  f32Div (f32OfInt window.numer) (f32OfInt window.denom)

/-- The value of `(int) (extent / ratio)` in `applyAspectRatio`. -/
def divideByRatio (extent : Int) (window : Window) : Option Int := do
  let ratio ← aspectRatio window
  let q ← f32Div (f32OfInt extent) ratio
  f32ToInt q

/-- The value of `(int) (extent * ratio)` in `applyAspectRatio`. -/
def multiplyByRatio (extent : Int) (window : Window) : Option Int := do
  let ratio ← aspectRatio window
  let q ← f32Mul (f32OfInt extent) ratio
  f32ToInt q

/-- Source: `applyAspectRatio`, as a function of the rectangle `area` points
to.  The result is `none` where the single precision computation leaves the
finite numbers or converts a value that is not an `int`. -/
def applyAspectRatio (s : Session) (w : WinId) (edge : Nat) (area : RECT) : Option RECT :=
  let window := s.windows w
  let frame := frameRect s w
  if edge = WMSZ_LEFT ∨ edge = WMSZ_BOTTOMLEFT ∨ edge = WMSZ_RIGHT ∨ edge = WMSZ_BOTTOMRIGHT then
    (divideByRatio ((area.right - area.left) - (frame.right - frame.left)) window).map
      (fun h => { area with bottom := area.top + (frame.bottom - frame.top) + h })
  else if edge = WMSZ_TOPLEFT ∨ edge = WMSZ_TOPRIGHT then
    (divideByRatio ((area.right - area.left) - (frame.right - frame.left)) window).map
      (fun h => { area with top := area.bottom - (frame.bottom - frame.top) - h })
  else if edge = WMSZ_TOP ∨ edge = WMSZ_BOTTOM then
    (multiplyByRatio ((area.bottom - area.top) - (frame.bottom - frame.top)) window).map
      (fun v => { area with right := area.left + (frame.right - frame.left) + v })
  else some area

/-- Source: the `WM_SIZING` case of `windowProc`, as a function of the
rectangle `lParam` points to; the rectangle is returned unchanged where the
source leaves the case to `DefWindowProcW`. -/
def windowProcSizing (s : Session) (w : WinId) (edge : Nat) (area : RECT) : Option RECT :=
  if (s.windows w).numer = GLFW_DONT_CARE ∨ (s.windows w).denom = GLFW_DONT_CARE then some area
  else applyAspectRatio s w edge area

/-! ## Opacity -/

/-- Source: `_glfwGetWindowOpacityWin32`.  `GetLayeredWindowAttributes`
succeeds once `SetLayeredWindowAttributes` has been called for the window. -/
def _glfwGetWindowOpacityWin32 (s : Session) (w : WinId) : ℚ :=
  let window := s.windows w
  if window.exStyle &&& WS_EX_LAYERED ≠ 0 ∧ window.layeredAttributesSet = true then
    if window.layeredFlags &&& LWA_ALPHA ≠ 0 then f32Round ((window.layeredAlpha : ℚ) / 255)
    else 1
  else 1

/-- Source: `_glfwSetWindowOpacityWin32`.  The result is `none` where the
conversion to `BYTE` is undefined. -/
def _glfwSetWindowOpacityWin32 (s : Session) (w : WinId) (opacity : ℚ) : Option Session :=
  let window := s.windows w
  let exStyle := window.exStyle
  if opacity < 1 ∨ exStyle &&& WS_EX_TRANSPARENT ≠ 0 then
    ((f32Mul 255 opacity).bind f32ToByte).map (fun alpha =>
      s.setWindow w { window with exStyle := exStyle ||| WS_EX_LAYERED,
                                  layeredAlpha := alpha,
                                  layeredFlags := LWA_ALPHA,
                                  layeredAttributesSet := true })
  else if exStyle &&& WS_EX_TRANSPARENT ≠ 0 then
    some (s.setWindow w { window with layeredAlpha := 0, layeredFlags := 0,
                                      layeredAttributesSet := true })
  else
    some (s.setWindow w { window with exStyle := exStyle &&& (0xFFFFFFFF - WS_EX_LAYERED) })

/-! ## Window destruction -/

/-- Source: `_glfwDestroyWindowWin32`.  The call through `context.destroy`, the
removal of the window property with the destruction of the native window, and
the destruction of the icons are requests to the operating system. -/
def _glfwDestroyWindowWin32 (s : Session) (w : WinId) : Session :=
  let s :=
    match (s.windows w).monitor with
    | some m => releaseMonitor s w m
    | none => s
  let s := if (s.windows w).contextDestroy then s.call (OsCall.DestroyContext w) else s
  let s := if s.disabledCursorWindow = some w then enableCursor s w else s
  let s := if s.capturedCursorWindow = some w then releaseCursor s else s
  let s :=
    if (s.windows w).handle then
      (s.call (OsCall.DestroyWindow w)).setWindow w { s.windows w with handle := false }
    else s
  let s :=
    match (s.windows w).bigIcon with
    | some icon => s.call (OsCall.DestroyIcon icon)
    | none => s
  match (s.windows w).smallIcon with
  | some icon => s.call (OsCall.DestroyIcon icon)
  | none => s

/-! ## Window icon -/

def INT_MAX : Int := 2147483647
def INT_MIN : Int := -2147483648

/-- The fields of `GLFWimage` that `chooseImage` reads. -/
structure GLFWimage where
  width : Int
  height : Int
deriving DecidableEq, Repr

/-- Whether a value is an `int`. -/
def isInt (v : Int) : Bool :=
  decide (INT_MIN ≤ v) && decide (v ≤ INT_MAX)

/-- The value of `currDiff` in `chooseImage` for one image; `none` where a
product, the difference or `abs` leaves the range of `int`, which the C
standard leaves undefined. -/
def chooseImageDiff (image : GLFWimage) (width height : Int) : Option Int :=
  if isInt (image.width * image.height) ∧ isInt (width * height) ∧
      isInt (image.width * image.height - width * height) ∧
      isInt |image.width * image.height - width * height| then
    some |image.width * image.height - width * height|
  else none

/-- Source: the loop of `chooseImage` from index `i` on, with the current
values of the locals `closest` (as an index into `images`) and `leastDiff`. -/
def chooseImageLoop (width height : Int) :
    List GLFWimage → Nat → Option Nat → Int → Option (Option Nat)
  | [], _, closest, _ => some closest
  | image :: rest, i, closest, leastDiff =>
    match chooseImageDiff image width height with
    | none => none
    | some currDiff =>
      if currDiff < leastDiff then chooseImageLoop width height rest (i + 1) (some i) currDiff
      else chooseImageLoop width height rest (i + 1) closest leastDiff

/-- Source: `chooseImage`, for the `count` images of the list.  The result is
the index of the image returned, `some none` for a null pointer, and `none`
where the arithmetic is undefined. -/
def chooseImage (images : List GLFWimage) (width height : Int) : Option (Option Nat) :=
  chooseImageLoop width height images 0 none INT_MAX

/-! ## Clipboard -/

/-- Modelled from the spec: `_glfwInputErrorWin32` is not in the source tree;
the spec says `PlatformError` "carries a human-readable native diagnostic
string" and is reported to the caller.  It emits the error code. -/
def _glfwInputErrorWin32 (s : Session) (code : Int) : Session :=
  s.emit (Event.error code)

/-- What the operating system answers during one clipboard call: the result of
the `n`-th `OpenClipboard` call (counted from 0), the character count that
`MultiByteToWideChar` reports and the wide string it writes, whether
`GlobalAlloc` and `GlobalLock` succeed, and the result of the conversion
`_glfwCreateUTF8FromWideStringWin32`. -/
structure ClipboardEnv where
  openClipboard : Nat → Bool := fun _ => true
  characterCount : Nat := 0
  wideString : List Nat := []
  globalAlloc : Bool := true
  globalLock : Bool := true
  utf8 : List Nat → Option (List Nat) := fun text => some text

/-- Source: the loop `while (!OpenClipboard(...))` of the two clipboard
functions, entered with the local `tries`.  The flag of the result tells
whether the clipboard was opened (`true`) or the loop was left at
`tries == 3` (`false`).  `fuel` bounds the number of iterations followed; the
result is `none` when it runs out. -/
def openClipboardRetry (env : ClipboardEnv) : Nat → Nat → Session → Option (Session × Bool)
  | 0, _, _ => none
  | fuel + 1, tries, s =>
    let s := s.call OsCall.OpenClipboard
    if env.openClipboard tries then some ({ s with clipboardOpen := true }, true)
    else
      let s := s.call (OsCall.Sleep 1)
      if tries + 1 = 3 then some (s, false)
      else openClipboardRetry env fuel (tries + 1) s

/-- Win32 `CloseClipboard`. -/
def closeClipboard (s : Session) : Session :=
  { s.call OsCall.CloseClipboard with clipboardOpen := false }

/-- Source: `_glfwSetClipboardStringWin32`.  `EmptyClipboard` and
`SetClipboardData` are taken to succeed. -/
def _glfwSetClipboardStringWin32 (fuel : Nat) (s : Session) (env : ClipboardEnv) :
    Option Session :=
  if env.characterCount = 0 then some s
  else if !env.globalAlloc then some (_glfwInputErrorWin32 s GLFW_PLATFORM_ERROR)
  else if !env.globalLock then
    some ((_glfwInputErrorWin32 s GLFW_PLATFORM_ERROR).call OsCall.GlobalFree)
  else
    match openClipboardRetry env fuel 0 s with
    | none => none
    | some (s, false) =>
      some ((_glfwInputErrorWin32 s GLFW_PLATFORM_ERROR).call OsCall.GlobalFree)
    | some (s, true) =>
      let s := { s.call OsCall.EmptyClipboard with clipboardData := none }
      let s := { s.call OsCall.SetClipboardData with clipboardData := some env.wideString }
      some (closeClipboard s)

/-- Source: `_glfwGetClipboardStringWin32`; the second component is the
returned string, `none` for a null pointer. -/
def _glfwGetClipboardStringWin32 (fuel : Nat) (s : Session) (env : ClipboardEnv) :
    Option (Session × Option (List Nat)) :=
  match openClipboardRetry env fuel 0 s with
  | none => none
  | some (s, false) => some (_glfwInputErrorWin32 s GLFW_PLATFORM_ERROR, none)
  | some (s, true) =>
    let s := s.call OsCall.GetClipboardData
    match s.clipboardData with
    | none => some (closeClipboard (_glfwInputErrorWin32 s GLFW_FORMAT_UNAVAILABLE), none)
    | some text =>
      if !env.globalLock then
        some (closeClipboard (_glfwInputErrorWin32 s GLFW_PLATFORM_ERROR), none)
      else
        let s := { s with clipboardString := env.utf8 text }
        some (closeClipboard s, s.clipboardString)

/-! ## Mouse passthrough, key names -/

/-- Source: `_glfwSetWindowMousePassthroughWin32`.  `GetLayeredWindowAttributes`
succeeds once `SetLayeredWindowAttributes` has been called for the window;
where it is not called or fails the locals `alpha` and `flags` keep their
initial value 0.  The colour key is not modelled. -/
def _glfwSetWindowMousePassthroughWin32 (s : Session) (w : WinId) (enabled : Bool) :
    Session :=
  let window := s.windows w
  let exStyle := window.exStyle
  let alpha :=
    if exStyle &&& WS_EX_LAYERED ≠ 0 ∧ window.layeredAttributesSet = true then
      window.layeredAlpha else 0
  let flags :=
    if exStyle &&& WS_EX_LAYERED ≠ 0 ∧ window.layeredAttributesSet = true then
      window.layeredFlags else 0
  if enabled then
    s.setWindow w { window with exStyle := exStyle ||| (WS_EX_TRANSPARENT ||| WS_EX_LAYERED),
                                layeredAlpha := alpha,
                                layeredFlags := flags,
                                layeredAttributesSet := true }
  else
    let exStyle := exStyle &&& (0xFFFFFFFF - WS_EX_TRANSPARENT)
    let exStyle :=
      if exStyle &&& WS_EX_LAYERED ≠ 0 then
        if flags &&& LWA_ALPHA = 0 then exStyle &&& (0xFFFFFFFF - WS_EX_LAYERED) else exStyle
      else exStyle
    s.setWindow w { window with exStyle := exStyle }

/-- Source: `_glfwGetScancodeNameWin32`; the second component is the returned
name, `none` for a null pointer.  The table `keynames` is a field of the
session. -/
def _glfwGetScancodeNameWin32 (s : Session) (scancode : Int) : Session × Option (List Nat) :=
  if scancode < 0 ∨ scancode > ((KF_EXTENDED ||| 0xff : Nat) : Int) then
    (_glfwInputError s GLFW_INVALID_VALUE, none)
  else
    let key := s.keycodes scancode
    if key = GLFW_KEY_UNKNOWN then (s, none) else (s, s.keynames key)

/-! ## Definitions used by the statements -/

/-- A raw mouse record that reports the relative motion `d` and nothing else. -/
def relRecord (d : Int × Int) : RAWINPUT :=
  { dwType := RIM_TYPEMOUSE, usFlags := 0, usButtonFlags := 0, usButtonData := 0,
    lLastX := d.1, lLastY := d.2 }

/-- The cursor-position notifications of a batch of relative motions `ds`
starting at virtual position `(x, y)`: one per non-zero delta, each at the
position reached so far. -/
def rawMotionEvents (w : WinId) (x y : Int) : List (Int × Int) → List Event
  | [] => []
  | d :: ds =>
    if d.1 ≠ 0 ∨ d.2 ≠ 0 then
      Event.cursorPos w (x + d.1) (y + d.2) :: rawMotionEvents w (x + d.1) (y + d.2) ds
    else rawMotionEvents w x y ds

/-- A session whose only window is the disabled-cursor window with raw motion
enabled and virtual cursor position `(10, 20)`. -/
def rawBatchSession : Session :=
  { windows := fun _ => { rawMouseMotion := true, cursorMode := CursorMode.DISABLED,
                          virtualCursorPosX := 10, virtualCursorPosY := 20 },
    windowList := [1], disabledCursorWindow := some 1 }

/-- One raw batch with the relative motions `(2,0)`, `(-1,3)`, `(0,1)`. -/
def rawBatchEnv : RawEnv :=
  { sizeQuery := some 48, read := some [relRecord (2, 0), relRecord (-1, 3), relRecord (0, 1)] }

/-- Whether a notification is a release of logical key `key` for window `w`. -/
def isKeyRelease (w : WinId) (key : Int) : Event → Bool
  | Event.key w2 key2 _ action _ => decide (w2 = w ∧ key2 = key ∧ action = GLFW_RELEASE)
  | _ => false

/-- The session after a sequence of post-poll reconciliation passes, each with
its own live key state and modifier state. -/
def runStuckModifierPasses (s : Session) (envs : List ((Nat → Bool) × Int)) : Session :=
  envs.foldl (fun st e => releaseStuckModifiers st e.1 e.2) s

/-- A windowed, decorated window at frame rectangle (100,100)-(900,700), in a
session where the frame adds 8 pixels left, right and below and 31 above. -/
def sizeLimitsSession : Session :=
  { windows := fun _ => { windowRect := ⟨100, 100, 900, 700⟩ },
    adjustedZeroRect := fun _ _ _ => ⟨-8, -31, 8, 8⟩ }

/-- A `MINMAXINFO` as the system passes it: the default track sizes. -/
def defaultMinMaxInfo : MINMAXINFO :=
  { ptMaxSize := ⟨1920, 1080⟩, ptMaxPosition := ⟨0, 0⟩,
    ptMinTrackSize := ⟨136, 39⟩, ptMaxTrackSize := ⟨1940, 1100⟩ }

/-- A character message: `WM_SYSCHAR` when `sys` is set, else `WM_CHAR`. -/
def charMessage (sys : Bool) (wParam : Nat) (mods : Int) : Msg :=
  if sys then Msg.WM_SYSCHAR wParam mods else Msg.WM_CHAR wParam mods

/-- A windowed, decorated window with aspect ratio 12:5 whose frame adds 8
pixels left, right and below and 31 above. -/
def aspectSession : Session :=
  { windows := fun _ => { numer := 12, denom := 5 },
    adjustedZeroRect := fun _ _ _ => ⟨-8, -31, 8, 8⟩ }

/-- The same window with aspect ratio 16:9. -/
def wideSession : Session :=
  { windows := fun _ => { numer := 16, denom := 9 },
    adjustedZeroRect := fun _ _ _ => ⟨-8, -31, 8, 8⟩ }

/-- A focused window at screen position (100, 50) with a 640 by 480 content
area, and the pointer at screen position (300, 200). -/
def focusedSession : Session :=
  { windows := fun _ => { clientOrigin := ⟨100, 50⟩, clientWidth := 640, clientHeight := 480 },
    activeWindow := some 1, osCursorPos := ⟨300, 200⟩ }

/-- A window with both logical Shift keys recorded as pressed. -/
def shiftSession : Session :=
  { windows := fun _ =>
      { keys := fun k => if k = GLFW_KEY_LEFT_SHIFT ∨ k = GLFW_KEY_RIGHT_SHIFT then GLFW_PRESS
                         else GLFW_RELEASE },
    activeWindow := some 1 }

/-- The key-up message of the left Shift key: generic Shift virtual key, scan
code 0x2A, previous-state and transition bits set. -/
def shiftUpMsg : KeyMsg :=
  { wParam := VK_SHIFT, hiword := 0xC02A }

/-- Whether the next queued message, as the handler of the key message `k`
peeks it, is a key message for the Alt virtual key with the extended-key bit
set and the time stamp of `k`. -/
def nextIsRightAlt (k : KeyMsg) : Bool :=
  match k.next with
  | some next =>
    next.isKeyMessage && decide (next.wParam = VK_MENU) &&
      decide (next.hiword &&& KF_EXTENDED ≠ 0) && decide (next.time = k.time)
  | none => false

/-- The action of a key message: release when the transition bit `KF_UP` is
set, press otherwise. -/
def keyAction (k : KeyMsg) : Int :=
  if k.hiword &&& KF_UP ≠ 0 then GLFW_RELEASE else GLFW_PRESS

/-- The key-down message of the right Alt key at time 77: Alt virtual key,
scan code 0x38 with the extended-key bit. -/
def rightAltDownMsg : KeyMsg :=
  { wParam := VK_MENU, hiword := 0x0138, time := 77 }

/-- The key-down message of the generic Control key at time 77 that the system
sends ahead of the right Alt message for AltGr: scan code 0x1D, not extended,
with the right Alt message next in the queue. -/
def altGrControlMsg : KeyMsg :=
  { wParam := VK_CONTROL, hiword := 0x001D, time := 77,
    next := some { isKeyMessage := true, wParam := VK_MENU, hiword := 0x0138, time := 77 } }

/-- The content area of a window in screen coordinates. -/
def contentRectOnScreen (s : Session) (w : WinId) : RECT :=
  ⟨(s.windows w).clientOrigin.x, (s.windows w).clientOrigin.y,
   (s.windows w).clientOrigin.x + (s.windows w).clientWidth,
   (s.windows w).clientOrigin.y + (s.windows w).clientHeight⟩

/-- The session reached from `focusedSession` when window 1 enters disabled
mode, an interactive move of the window starts, the window loses focus during
the move loop, and the loop ends. -/
def unfocusedExitSizeMoveSession : Session :=
  let s := glfwSetInputModeCursor focusedSession 1 CursorMode.DISABLED
  let s := windowProc s 1 Msg.WM_ENTERSIZEMOVE
  let s := windowProc { s with activeWindow := none } 1 Msg.WM_KILLFOCUS
  windowProc s 1 Msg.WM_EXITSIZEMOVE

/-- The session reached from `focusedSession` when window 1 enters disabled
mode, an interactive move of the window starts, the window loses focus during
the move loop, the loop ends, captured mode is selected for the window while
it is not focused, and the window gains focus again. -/
def strayDisabledSession : Session :=
  let s := unfocusedExitSizeMoveSession
  let s := glfwSetInputModeCursor s 1 CursorMode.CAPTURED
  windowProc { s with activeWindow := some 1 } 1 Msg.WM_SETFOCUS

/-- A focused window in captured mode that holds the clip to its content area
of 640 by 480 at screen position (100, 50). -/
def capturedSession : Session :=
  { windows := fun _ => { cursorMode := CursorMode.CAPTURED, clientOrigin := ⟨100, 50⟩,
                          clientWidth := 640, clientHeight := 480 },
    activeWindow := some 1, capturedCursorWindow := some 1,
    clipRect := some ⟨100, 50, 740, 530⟩ }

/-- A full screen window on monitor 0, which it owns, that is the
disabled-cursor window and holds the clip to its content area. -/
def fullscreenDisabledSession : Session :=
  { windows := fun _ => { cursorMode := CursorMode.DISABLED, monitor := some 0,
                          clientWidth := 1920, clientHeight := 1080 },
    monitorWindow := fun m => if m = 0 then some 1 else none,
    acquiredMonitorCount := 1, displayRequired := true, activeWindow := some 1,
    disabledCursorWindow := some 1, capturedCursorWindow := some 1,
    clipRect := some ⟨0, 0, 1920, 1080⟩ }

/-- Whether the first three `OpenClipboard` calls all fail. -/
def firstThreeOpensFail (env : ClipboardEnv) : Bool :=
  !env.openClipboard 0 && !env.openClipboard 1 && !env.openClipboard 2

/-- The `OpenClipboard` and `Sleep` calls of a bounded retry: an attempt, and
after each failed attempt a sleep of one millisecond, until an attempt succeeds
or three have failed. -/
def openAttempts (env : ClipboardEnv) : List OsCall :=
  if env.openClipboard 0 then [OsCall.OpenClipboard]
  else if env.openClipboard 1 then [OsCall.OpenClipboard, OsCall.Sleep 1, OsCall.OpenClipboard]
  else if env.openClipboard 2 then
    [OsCall.OpenClipboard, OsCall.Sleep 1, OsCall.OpenClipboard, OsCall.Sleep 1,
     OsCall.OpenClipboard]
  else
    [OsCall.OpenClipboard, OsCall.Sleep 1, OsCall.OpenClipboard, OsCall.Sleep 1,
     OsCall.OpenClipboard, OsCall.Sleep 1]

/-- A session whose clipboard holds the text "hi". -/
def textClipboardSession : Session :=
  { clipboardData := some [104, 105] }

/-- The clipboard opens at once, the text on it cannot be locked. -/
def lockFailEnv : ClipboardEnv :=
  { globalLock := false }

/-- The clipboard is busy at the first attempt and opens at the second; the
text to set is "ok" with its terminator. -/
def busyOnceEnv : ClipboardEnv :=
  { openClipboard := fun n => decide (1 ≤ n), characterCount := 3, wideString := [111, 107, 0] }

/-- The absolute difference between the area of an image and the area
`width * height`. -/
def areaDiff (image : GLFWimage) (width height : Int) : Int :=
  |image.width * image.height - width * height|

/-- Whether a notification is a cursor-position notification. -/
def isCursorPos : Event → Bool
  | Event.cursorPos _ _ _ => true
  | _ => false

/-- The mouse-button and scroll notifications of one raw record: for a mouse
record, a button notification when a button flag is set, then a vertical and
a horizontal scroll notification when the wheel flags are set. -/
def rawButtonEvents (env : RawEnv) (w : WinId) (data : RAWINPUT) : List Event :=
  if data.dwType ≠ RIM_TYPEMOUSE then []
  else
    (if data.usButtonFlags &&& 0xFFFF &&& (0xFFFF - (RI_MOUSE_WHEEL ||| RI_MOUSE_HWHEEL)) ≠ 0
      then [Event.mouseButton w (rawButton data.usButtonFlags).1
              (rawButton data.usButtonFlags).2 env.mods]
      else []) ++
    (if data.usButtonFlags &&& RI_MOUSE_WHEEL ≠ 0
      then [Event.scroll w 0 (toSHORT data.usButtonData)] else []) ++
    (if data.usButtonFlags &&& RI_MOUSE_HWHEEL ≠ 0
      then [Event.scroll w (-(toSHORT data.usButtonData)) 0] else [])

/-- A session whose only window is in normal mode with raw motion off; no
window is the disabled-cursor window. -/
def legacySession : Session :=
  { windowList := [1] }

/-- One raw batch with a left button press and a wheel turn of one notch. -/
def buttonBatchEnv : RawEnv :=
  { sizeQuery := some 48,
    read := some [{ dwType := RIM_TYPEMOUSE, usButtonFlags := RI_MOUSE_LEFT_BUTTON_DOWN },
                  { dwType := RIM_TYPEMOUSE, usButtonFlags := RI_MOUSE_WHEEL,
                    usButtonData := 120 }] }

/-- Four candidate icon images: 16 by 16, 48 by 48 and two of 32 by 32. -/
def iconCandidates : List GLFWimage :=
  [⟨16, 16⟩, ⟨48, 48⟩, ⟨32, 32⟩, ⟨32, 32⟩]

/-- Two sessions agree on what the re-centering step of a poll cycle reads and
writes: the disabled-cursor window, the pointer position, the clip rectangle
and, per window, the raw motion flag, the tracked cursor position and the
content size. -/
def sameCursorTracking (a b : Session) : Prop :=
  a.disabledCursorWindow = b.disabledCursorWindow ∧ a.osCursorPos = b.osCursorPos ∧
  a.clipRect = b.clipRect ∧
  ∀ w, (a.windows w).rawMouseMotion = (b.windows w).rawMouseMotion ∧
       (a.windows w).lastCursorPosX = (b.windows w).lastCursorPosX ∧
       (a.windows w).lastCursorPosY = (b.windows w).lastCursorPosY ∧
       (a.windows w).clientWidth = (b.windows w).clientWidth ∧
       (a.windows w).clientHeight = (b.windows w).clientHeight

/-- A queued message that reports no pointer movement away from the client
position `(cx, cy)` of window `w`: a message for no window procedure case of
the model, or a pointer-move message for `w` at `(cx, cy)`. -/
def noPointerMovement (cx cy : Int) (w : WinId) (m : QueuedMsg) : Prop :=
  m = QueuedMsg.other ∨
  ∃ lParam, m = QueuedMsg.toWindow w (Msg.WM_MOUSEMOVE lParam) ∧
    GET_X_LPARAM lParam = cx ∧ GET_Y_LPARAM lParam = cy

/-- A session whose only window, with content size 800 by 600, is the
disabled-cursor window with raw motion off and tracked cursor position
`(410, 300)`. -/
def recenterSession : Session :=
  { windows := fun _ => { cursorMode := CursorMode.DISABLED, clientWidth := 800,
                          clientHeight := 600, lastCursorPosX := 410, lastCursorPosY := 300 },
    windowList := [1], disabledCursorWindow := some 1 }

/-- The virtual cursor position of window `w`. -/
def virtualCursorPos (s : Session) (w : WinId) : Int × Int :=
  ((s.windows w).virtualCursorPosX, (s.windows w).virtualCursorPosY)

/-- The button-state transition in the words of the spec: acquire exclusive
input capture when no button is down before the event, report the button and
the action, release capture when no button is down afterwards. -/
def specButtonTransition (s : Session) (w : WinId) (button action mods : Int) : Session :=
  let s := if anyButtonPressed (s.windows w) then s else s.call (OsCall.SetCapture w)
  let s := _glfwInputMouseClick s w button action mods
  if anyButtonPressed (s.windows w) then s else s.call OsCall.ReleaseCapture

/-- A raw mouse record with the button flags `flags`, no motion and no wheel
data. -/
def buttonRecord (flags : Nat) : RAWINPUT :=
  { dwType := RIM_TYPEMOUSE, usButtonFlags := flags }

/-- One button transition on both paths: the button and the action, the
transition flag of a raw record, and the legacy message with the high word of
its `wParam`. -/
structure ButtonTransition where
  button : Int
  action : Int
  rawFlag : Nat
  uMsg : ButtonMessage
  xbutton : Nat
deriving DecidableEq, Repr

/-- The ten single button transitions. -/
def buttonTransitions : List ButtonTransition :=
  [⟨GLFW_MOUSE_BUTTON_LEFT, GLFW_PRESS, RI_MOUSE_LEFT_BUTTON_DOWN,
      ButtonMessage.WM_LBUTTONDOWN, 0⟩,
   ⟨GLFW_MOUSE_BUTTON_LEFT, GLFW_RELEASE, RI_MOUSE_LEFT_BUTTON_UP,
      ButtonMessage.WM_LBUTTONUP, 0⟩,
   ⟨GLFW_MOUSE_BUTTON_RIGHT, GLFW_PRESS, RI_MOUSE_RIGHT_BUTTON_DOWN,
      ButtonMessage.WM_RBUTTONDOWN, 0⟩,
   ⟨GLFW_MOUSE_BUTTON_RIGHT, GLFW_RELEASE, RI_MOUSE_RIGHT_BUTTON_UP,
      ButtonMessage.WM_RBUTTONUP, 0⟩,
   ⟨GLFW_MOUSE_BUTTON_MIDDLE, GLFW_PRESS, RI_MOUSE_MIDDLE_BUTTON_DOWN,
      ButtonMessage.WM_MBUTTONDOWN, 0⟩,
   ⟨GLFW_MOUSE_BUTTON_MIDDLE, GLFW_RELEASE, RI_MOUSE_MIDDLE_BUTTON_UP,
      ButtonMessage.WM_MBUTTONUP, 0⟩,
   ⟨GLFW_MOUSE_BUTTON_4, GLFW_PRESS, RI_MOUSE_BUTTON_4_DOWN,
      ButtonMessage.WM_XBUTTONDOWN, 1⟩,
   ⟨GLFW_MOUSE_BUTTON_4, GLFW_RELEASE, RI_MOUSE_BUTTON_4_UP,
      ButtonMessage.WM_XBUTTONUP, 1⟩,
   ⟨GLFW_MOUSE_BUTTON_5, GLFW_PRESS, RI_MOUSE_BUTTON_5_DOWN,
      ButtonMessage.WM_XBUTTONDOWN, 2⟩,
   ⟨GLFW_MOUSE_BUTTON_5, GLFW_RELEASE, RI_MOUSE_BUTTON_5_UP,
      ButtonMessage.WM_XBUTTONUP, 2⟩]

/-- The cursor mode state of the session for window `w`: the disabled-cursor
window, the captured-cursor window, the recorded restore position, the last
tracked cursor position of the window, the clip rectangle, the raw motion
registration and the pointer position. -/
def cursorModeState (s : Session) (w : WinId) :
    Option WinId × Option WinId × Int × Int × Int × Int × Option RECT × Option WinId × POINT :=
  (s.disabledCursorWindow, s.capturedCursorWindow, s.restoreCursorPosX, s.restoreCursorPosY,
   (s.windows w).lastCursorPosX, (s.windows w).lastCursorPosY, s.clipRect, s.rawInputTarget,
   s.osCursorPos)

/-- Window `w` is alpha blended: it has the layered style and its layered
attributes are in effect with `LWA_ALPHA`. -/
def alphaBlended (s : Session) (w : WinId) : Prop :=
  (s.windows w).exStyle &&& WS_EX_LAYERED ≠ 0 ∧ (s.windows w).layeredAttributesSet = true ∧
  (s.windows w).layeredFlags &&& LWA_ALPHA ≠ 0

/-- Whether a notification is a content-scale notification. -/
def isContentScale : Event → Bool
  | Event.windowContentScale _ _ _ => true
  | _ => false

/-- Session `t` continues session `s` with notifications none of which is a
content-scale notification and with requests to the operating system. -/
def continuesWithoutContentScale (s t : Session) : Prop :=
  ∃ (added : List Event) (requests : List OsCall),
    t.events = s.events ++ added ∧ (∀ e ∈ added, isContentScale e = false) ∧
    t.calls = s.calls ++ requests

/-- Two windows, window 2 at the head of the window list; window 1 has the
focus, its cursor mode is `DISABLED` and raw motion is enabled for it. -/
def twoWindowSession : Session :=
  { windows := fun w =>
      if w = 1 then { cursorMode := CursorMode.DISABLED, rawMouseMotion := true,
                      clientWidth := 640, clientHeight := 480 }
      else {},
    windowList := [2, 1], activeWindow := some 1 }

/-! # Theorems -/

/-! ## Cursor mode state machine: lemmas -/

/-- Win32 `SetCursorPos` writes the pointer position only. -/
theorem SetCursorPos_fields (s : Session) (x y : Int) :
    (SetCursorPos s x y).windows = s.windows ∧
    (SetCursorPos s x y).activeWindow = s.activeWindow ∧
    (SetCursorPos s x y).disabledCursorWindow = s.disabledCursorWindow ∧
    (SetCursorPos s x y).capturedCursorWindow = s.capturedCursorWindow ∧
    (SetCursorPos s x y).clipRect = s.clipRect ∧
    (SetCursorPos s x y).restoreCursorPosX = s.restoreCursorPosX ∧
    (SetCursorPos s x y).restoreCursorPosY = s.restoreCursorPosY ∧
    (SetCursorPos s x y).getCursorPosOk = s.getCursorPosOk ∧
    (SetCursorPos s x y).rawInputTarget = s.rawInputTarget ∧
    (SetCursorPos s x y).events = s.events ∧
    (SetCursorPos s x y).calls = s.calls := by
  unfold SetCursorPos
  split <;> simp

/-- Without a clip rectangle `SetCursorPos` puts the pointer where asked. -/
theorem SetCursorPos_unclipped (s : Session) (x y : Int) (h : s.clipRect = none) :
    (SetCursorPos s x y).osCursorPos = ⟨x, y⟩ := by
  unfold SetCursorPos
  rw [h]

/-- The function `_glfwSetCursorPosWin32` writes the tracked position of the window and the
pointer position only. -/
theorem setCursorPos_fields (s : Session) (w : WinId) (x y : Int) :
    (_glfwSetCursorPosWin32 s w x y).activeWindow = s.activeWindow ∧
    (_glfwSetCursorPosWin32 s w x y).disabledCursorWindow = s.disabledCursorWindow ∧
    (_glfwSetCursorPosWin32 s w x y).capturedCursorWindow = s.capturedCursorWindow ∧
    (_glfwSetCursorPosWin32 s w x y).clipRect = s.clipRect ∧
    (_glfwSetCursorPosWin32 s w x y).restoreCursorPosX = s.restoreCursorPosX ∧
    (_glfwSetCursorPosWin32 s w x y).restoreCursorPosY = s.restoreCursorPosY ∧
    (_glfwSetCursorPosWin32 s w x y).getCursorPosOk = s.getCursorPosOk ∧
    (_glfwSetCursorPosWin32 s w x y).rawInputTarget = s.rawInputTarget ∧
    (_glfwSetCursorPosWin32 s w x y).events = s.events ∧
    (_glfwSetCursorPosWin32 s w x y).calls = s.calls ∧
    (_glfwSetCursorPosWin32 s w x y).windows =
      Function.update s.windows w { s.windows w with lastCursorPosX := x, lastCursorPosY := y } := by
  simp [_glfwSetCursorPosWin32, SetCursorPos_fields, Session.setWindow]

/-- Without a clip rectangle `_glfwSetCursorPosWin32` puts the pointer at the
screen position of the given client position. -/
theorem setCursorPos_unclipped (s : Session) (w : WinId) (x y : Int) (h : s.clipRect = none) :
    (_glfwSetCursorPosWin32 s w x y).osCursorPos =
      ⟨x + (s.windows w).clientOrigin.x, y + (s.windows w).clientOrigin.y⟩ := by
  unfold _glfwSetCursorPosWin32
  simp only []
  rw [SetCursorPos_unclipped _ _ _ (by simpa [Session.setWindow] using h)]
  simp [ClientToScreen, Session.setWindow]

/-- The function `updateCursorImage` writes the cursor image only. -/
theorem updateCursorImage_fields (s : Session) (w : WinId) :
    (updateCursorImage s w).windows = s.windows ∧
    (updateCursorImage s w).activeWindow = s.activeWindow ∧
    (updateCursorImage s w).disabledCursorWindow = s.disabledCursorWindow ∧
    (updateCursorImage s w).capturedCursorWindow = s.capturedCursorWindow ∧
    (updateCursorImage s w).clipRect = s.clipRect ∧
    (updateCursorImage s w).restoreCursorPosX = s.restoreCursorPosX ∧
    (updateCursorImage s w).restoreCursorPosY = s.restoreCursorPosY ∧
    (updateCursorImage s w).getCursorPosOk = s.getCursorPosOk ∧
    (updateCursorImage s w).osCursorPos = s.osCursorPos ∧
    (updateCursorImage s w).rawInputTarget = s.rawInputTarget ∧
    (updateCursorImage s w).events = s.events ∧
    (updateCursorImage s w).calls = s.calls := by
  unfold updateCursorImage
  split_ifs
  · split <;> simp
  · simp

/-- The closing cursor image update of `_glfwSetCursorModeWin32` writes the
cursor image only. -/
theorem condUpdateCursorImage_fields (s : Session) (w : WinId) (c : Bool) :
    (if c then updateCursorImage s w else s).windows = s.windows ∧
    (if c then updateCursorImage s w else s).activeWindow = s.activeWindow ∧
    (if c then updateCursorImage s w else s).disabledCursorWindow = s.disabledCursorWindow ∧
    (if c then updateCursorImage s w else s).capturedCursorWindow = s.capturedCursorWindow ∧
    (if c then updateCursorImage s w else s).clipRect = s.clipRect ∧
    (if c then updateCursorImage s w else s).restoreCursorPosX = s.restoreCursorPosX ∧
    (if c then updateCursorImage s w else s).restoreCursorPosY = s.restoreCursorPosY ∧
    (if c then updateCursorImage s w else s).getCursorPosOk = s.getCursorPosOk ∧
    (if c then updateCursorImage s w else s).osCursorPos = s.osCursorPos ∧
    (if c then updateCursorImage s w else s).rawInputTarget = s.rawInputTarget ∧
    (if c then updateCursorImage s w else s).events = s.events ∧
    (if c then updateCursorImage s w else s).calls = s.calls := by
  cases c <;> simp [updateCursorImage_fields]

/-- The raw motion registration on entering disabled mode writes the raw input
target only. -/
theorem condEnableRaw_fields (s : Session) (w : WinId) (c : Bool) :
    (if c then enableRawMouseMotion s w else s).windows = s.windows ∧
    (if c then enableRawMouseMotion s w else s).activeWindow = s.activeWindow ∧
    (if c then enableRawMouseMotion s w else s).disabledCursorWindow = s.disabledCursorWindow ∧
    (if c then enableRawMouseMotion s w else s).capturedCursorWindow = s.capturedCursorWindow ∧
    (if c then enableRawMouseMotion s w else s).clipRect = s.clipRect ∧
    (if c then enableRawMouseMotion s w else s).restoreCursorPosX = s.restoreCursorPosX ∧
    (if c then enableRawMouseMotion s w else s).restoreCursorPosY = s.restoreCursorPosY ∧
    (if c then enableRawMouseMotion s w else s).getCursorPosOk = s.getCursorPosOk ∧
    (if c then enableRawMouseMotion s w else s).osCursorPos = s.osCursorPos ∧
    (if c then enableRawMouseMotion s w else s).events = s.events ∧
    (if c then enableRawMouseMotion s w else s).calls = s.calls := by
  cases c <;> simp [enableRawMouseMotion]

/-- The raw motion removal on leaving disabled mode writes the raw input
target only. -/
theorem condDisableRaw_fields (s : Session) (w : WinId) (c : Bool) :
    (if c then disableRawMouseMotion s w else s).windows = s.windows ∧
    (if c then disableRawMouseMotion s w else s).activeWindow = s.activeWindow ∧
    (if c then disableRawMouseMotion s w else s).disabledCursorWindow = s.disabledCursorWindow ∧
    (if c then disableRawMouseMotion s w else s).capturedCursorWindow = s.capturedCursorWindow ∧
    (if c then disableRawMouseMotion s w else s).clipRect = s.clipRect ∧
    (if c then disableRawMouseMotion s w else s).restoreCursorPosX = s.restoreCursorPosX ∧
    (if c then disableRawMouseMotion s w else s).restoreCursorPosY = s.restoreCursorPosY ∧
    (if c then disableRawMouseMotion s w else s).getCursorPosOk = s.getCursorPosOk ∧
    (if c then disableRawMouseMotion s w else s).osCursorPos = s.osCursorPos ∧
    (if c then disableRawMouseMotion s w else s).events = s.events ∧
    (if c then disableRawMouseMotion s w else s).calls = s.calls := by
  cases c <;> simp [disableRawMouseMotion]

/-- Entering disabled mode on the focused window with a working pointer query:
the window becomes the disabled-cursor window and the restore position is the
pointer position in client coordinates. -/
theorem setCursorMode_disabled_focused (s : Session) (w : WinId)
    (hfocus : s.activeWindow = some w) (hquery : s.getCursorPosOk = true) :
    (_glfwSetCursorModeWin32 s w CursorMode.DISABLED).activeWindow = some w ∧
    (_glfwSetCursorModeWin32 s w CursorMode.DISABLED).disabledCursorWindow = some w ∧
    (_glfwSetCursorModeWin32 s w CursorMode.DISABLED).capturedCursorWindow = some w ∧
    (_glfwSetCursorModeWin32 s w CursorMode.DISABLED).restoreCursorPosX =
        s.osCursorPos.x - (s.windows w).clientOrigin.x ∧
    (_glfwSetCursorModeWin32 s w CursorMode.DISABLED).restoreCursorPosY =
        s.osCursorPos.y - (s.windows w).clientOrigin.y ∧
    ((_glfwSetCursorModeWin32 s w CursorMode.DISABLED).windows w).clientOrigin =
        (s.windows w).clientOrigin := by
  unfold _glfwSetCursorModeWin32
  simp only [condUpdateCursorImage_fields]
  simp [_glfwWindowFocusedWin32, hfocus, saveRestoreCursorPos, _glfwGetCursorPosWin32, hquery,
    _glfwCenterCursorInContentArea, captureCursor, ScreenToClient, condEnableRaw_fields,
    setCursorPos_fields]

/-- Leaving disabled mode for normal mode on the focused disabled-cursor
window: the clip and the disabled-cursor reference are cleared and the pointer
is put at the screen position of the restore position. -/
theorem setCursorMode_normal_focused (s : Session) (w : WinId)
    (hfocus : s.activeWindow = some w) (hdis : s.disabledCursorWindow = some w) :
    (_glfwSetCursorModeWin32 s w CursorMode.NORMAL).disabledCursorWindow = none ∧
    (_glfwSetCursorModeWin32 s w CursorMode.NORMAL).capturedCursorWindow = none ∧
    (_glfwSetCursorModeWin32 s w CursorMode.NORMAL).clipRect = none ∧
    (_glfwSetCursorModeWin32 s w CursorMode.NORMAL).osCursorPos =
      ⟨s.restoreCursorPosX + (s.windows w).clientOrigin.x,
       s.restoreCursorPosY + (s.windows w).clientOrigin.y⟩ := by
  unfold _glfwSetCursorModeWin32
  simp only [condUpdateCursorImage_fields]
  simp [_glfwWindowFocusedWin32, hfocus, hdis, releaseCursor, condDisableRaw_fields,
    setCursorPos_fields, setCursorPos_unclipped]

/-! ## C1: single owner of the disabled and the captured cursor -/

/-- At most one element of any finite set of windows equals a nullable single
reference. -/
theorem card_filter_eq_some_le_one (o : Option WinId) (ws : Finset WinId) :
    (ws.filter (fun w => o = some w)).card ≤ 1 := by
  rw [Finset.card_le_one]
  intro a ha b hb
  simp only [Finset.mem_filter] at ha hb
  exact Option.some.inj (ha.2.symm.trans hb.2)

/-- C1: for every sequence of cursor-mode-set calls, focus-gain and focus-loss
messages (and changes the operating system makes in between) from any session,
and for any finite set of windows, at most one window of the set is the
disabled-cursor window and at most one is the captured-cursor window: each of
the two is a single nullable reference of the session. -/
theorem cursor_owner_unique (s0 : Session) (steps : List CursorStep) (ws : Finset WinId) :
    (ws.filter (fun w => (runCursorSteps s0 steps).disabledCursorWindow = some w)).card ≤ 1 ∧
    (ws.filter (fun w => (runCursorSteps s0 steps).capturedCursorWindow = some w)).card ≤ 1 :=
  ⟨card_filter_eq_some_le_one _ ws, card_filter_eq_some_le_one _ ws⟩

/-! ## C2: entering and leaving disabled mode restores the pointer -/

/-- C2: for every focused window and every pointer position, with the pointer
query succeeding, `_glfwSetCursorModeWin32` with `DISABLED` followed at once by
`_glfwSetCursorModeWin32` with `NORMAL` leaves the pointer exactly where it was
at entry; afterwards the disabled-cursor window is null and no pointer clip is
in effect. -/
theorem disabled_then_normal_restores_pointer (s : Session) (w : WinId)
    (hfocus : s.activeWindow = some w) (hquery : s.getCursorPosOk = true) :
    (_glfwSetCursorModeWin32 (_glfwSetCursorModeWin32 s w CursorMode.DISABLED) w
        CursorMode.NORMAL).osCursorPos = s.osCursorPos ∧
    (_glfwSetCursorModeWin32 (_glfwSetCursorModeWin32 s w CursorMode.DISABLED) w
        CursorMode.NORMAL).disabledCursorWindow = none ∧
    (_glfwSetCursorModeWin32 (_glfwSetCursorModeWin32 s w CursorMode.DISABLED) w
        CursorMode.NORMAL).clipRect = none := by
  obtain ⟨h1, h2, _, h4, h5, h6⟩ := setCursorMode_disabled_focused s w hfocus hquery
  obtain ⟨k1, _, k3, k4⟩ := setCursorMode_normal_focused _ w h1 h2
  refine ⟨?_, k1, k3⟩
  rw [k4, h4, h5, h6]
  simp

/-- Witness for C2: the focused window of `focusedSession` with the pointer at
(300, 200). -/
theorem disabled_then_normal_restores_pointer_witness :
    focusedSession.activeWindow = some 1 ∧ focusedSession.getCursorPosOk = true ∧
    (_glfwSetCursorModeWin32 (_glfwSetCursorModeWin32 focusedSession 1 CursorMode.DISABLED) 1
        CursorMode.NORMAL).osCursorPos = ⟨300, 200⟩ ∧
    (_glfwSetCursorModeWin32 (_glfwSetCursorModeWin32 focusedSession 1 CursorMode.DISABLED) 1
        CursorMode.NORMAL).disabledCursorWindow = none ∧
    (_glfwSetCursorModeWin32 (_glfwSetCursorModeWin32 focusedSession 1 CursorMode.DISABLED) 1
        CursorMode.NORMAL).clipRect = none :=
  ⟨rfl, rfl, disabled_then_normal_restores_pointer focusedSession 1 rfl rfl⟩

/-! ## C3: the acquired-monitor counter -/

/-- What `acquireMonitor` leaves in the owner table, the counter and the
power-save suppression. -/
theorem acquireMonitor_fields (s : Session) (w : WinId) (m : MonId) :
    (acquireMonitor s w m).monitorWindow = Function.update s.monitorWindow m (some w) ∧
    (acquireMonitor s w m).acquiredMonitorCount =
      (if s.monitorWindow m = none then s.acquiredMonitorCount + 1
       else s.acquiredMonitorCount) ∧
    (acquireMonitor s w m).displayRequired =
      (if s.acquiredMonitorCount = 0 then true else s.displayRequired) := by
  unfold acquireMonitor
  by_cases hc : s.acquiredMonitorCount = 0 <;> by_cases hm : s.monitorWindow m = none <;>
    simp [hc, hm, _glfwInputMonitorWindow, Session.call]

/-- What `releaseMonitor` leaves in the owner table, the counter and the
power-save suppression. -/
theorem releaseMonitor_fields (s : Session) (w : WinId) (m : MonId) :
    (releaseMonitor s w m).monitorWindow =
      (if s.monitorWindow m = some w then Function.update s.monitorWindow m none
       else s.monitorWindow) ∧
    (releaseMonitor s w m).acquiredMonitorCount =
      (if s.monitorWindow m = some w then s.acquiredMonitorCount - 1
       else s.acquiredMonitorCount) ∧
    (releaseMonitor s w m).displayRequired =
      (if s.monitorWindow m = some w then
        (if s.acquiredMonitorCount - 1 = 0 then false else s.displayRequired)
       else s.displayRequired) := by
  unfold releaseMonitor
  by_cases hm : s.monitorWindow m = some w <;> by_cases hc : s.acquiredMonitorCount - 1 = 0 <;>
    simp [hc, hm, _glfwInputMonitorWindow, Session.call]

/-- One acquire or release call keeps the counter equal to the number of owned
monitors and the power-save suppression engaged exactly when it is positive. -/
theorem monitorStep_invariant (s : Session) (st : MonitorStep) (owned : Finset MonId)
    (h1 : ∀ m, m ∈ owned ↔ s.monitorWindow m ≠ none)
    (h2 : s.acquiredMonitorCount = owned.card)
    (h3 : s.displayRequired = true ↔ 0 < s.acquiredMonitorCount) :
    ∃ owned2 : Finset MonId,
      (∀ m, m ∈ owned2 ↔ (MonitorStep.apply s st).monitorWindow m ≠ none) ∧
      (MonitorStep.apply s st).acquiredMonitorCount = owned2.card ∧
      ((MonitorStep.apply s st).displayRequired = true ↔
        0 < (MonitorStep.apply s st).acquiredMonitorCount) := by
  cases st with
  | acquire w m =>
    obtain ⟨a1, a2, a3⟩ := acquireMonitor_fields s w m
    simp only [MonitorStep.apply, a1, a2, a3]
    by_cases hm : s.monitorWindow m = none
    · have hnot : m ∉ owned := by rw [h1]; simp [hm]
      refine ⟨insert m owned, ?_, ?_, ?_⟩
      · intro m2
        by_cases e : m2 = m
        · subst e; simp
        · simp [Function.update_noteq e, e, h1]
      · rw [Finset.card_insert_of_not_mem hnot]
        simp [hm, h2]
      · by_cases hc : s.acquiredMonitorCount = 0
        · simp [hc, hm]
        · have hpos : 0 < s.acquiredMonitorCount := by rw [h2] at hc ⊢; omega
          simp only [hc, hm, if_true, if_false, h3]
          constructor <;> intro _ <;> omega
    · have hin : m ∈ owned := by rw [h1]; exact hm
      have hpos : 0 < owned.card := Finset.card_pos.mpr ⟨m, hin⟩
      have hc : s.acquiredMonitorCount ≠ 0 := by rw [h2]; omega
      refine ⟨owned, ?_, ?_, ?_⟩
      · intro m2
        by_cases e : m2 = m
        · subst e; simp [hin]
        · simp [Function.update_noteq e, h1]
      · simp [hm, h2]
      · simp [hc, hm, h3]
  | release w m =>
    obtain ⟨a1, a2, a3⟩ := releaseMonitor_fields s w m
    simp only [MonitorStep.apply, a1, a2, a3]
    by_cases hm : s.monitorWindow m = some w
    · have hin : m ∈ owned := by rw [h1]; simp [hm]
      have hpos : 0 < owned.card := Finset.card_pos.mpr ⟨m, hin⟩
      refine ⟨owned.erase m, ?_, ?_, ?_⟩
      · intro m2
        by_cases e : m2 = m
        · subst e; simp [hm]
        · simp [hm, Function.update_noteq e, e, h1]
      · rw [Finset.card_erase_of_mem hin]
        simp only [hm, if_true, h2]
        omega
      · by_cases hc : s.acquiredMonitorCount - 1 = 0
        · simp [hc, hm]
        · have hpos2 : 0 < s.acquiredMonitorCount - 1 := by rw [h2] at hc ⊢; omega
          have hpos3 : 0 < s.acquiredMonitorCount := by omega
          simp only [hc, hm, if_true, if_false, h3]
          constructor <;> intro _ <;> omega
    · exact ⟨owned, by simpa [hm] using h1, by simpa [hm] using h2, by simpa [hm] using h3⟩

/-- The invariant of `monitorStep_invariant` holds after every sequence of
acquire and release calls that starts where it holds. -/
theorem runMonitorSteps_invariant (steps : List MonitorStep) :
    ∀ (s : Session) (owned : Finset MonId),
      (∀ m, m ∈ owned ↔ s.monitorWindow m ≠ none) →
      s.acquiredMonitorCount = owned.card →
      (s.displayRequired = true ↔ 0 < s.acquiredMonitorCount) →
      ∃ owned2 : Finset MonId,
        (∀ m, m ∈ owned2 ↔ (runMonitorSteps s steps).monitorWindow m ≠ none) ∧
        (runMonitorSteps s steps).acquiredMonitorCount = owned2.card ∧
        ((runMonitorSteps s steps).displayRequired = true ↔
          0 < (runMonitorSteps s steps).acquiredMonitorCount) := by
  induction steps with
  | nil => intro s owned h1 h2 h3; exact ⟨owned, h1, h2, h3⟩
  | cons st rest ih =>
    intro s owned h1 h2 h3
    obtain ⟨o2, k1, k2, k3⟩ := monitorStep_invariant s st owned h1 h2 h3
    exact ih (MonitorStep.apply s st) o2 k1 k2 k3

/-- C3: starting from a session with counter 0, no monitor owned and power-save
suppression not engaged, after every sequence of `acquireMonitor` and
`releaseMonitor` calls (any windows, any monitors, any order) the counter equals
the number of monitors whose owning-window back-reference is non-null, so it is
0 once every monitor has been released, and power-save suppression is engaged
if and only if the counter is greater than 0. -/
theorem monitor_count_matches_owned (s0 : Session) (steps : List MonitorStep)
    (hcount : s0.acquiredMonitorCount = 0) (howner : ∀ m, s0.monitorWindow m = none)
    (hsave : s0.displayRequired = false) :
    (∃ owned : Finset MonId,
      (∀ m, m ∈ owned ↔ (runMonitorSteps s0 steps).monitorWindow m ≠ none) ∧
      (runMonitorSteps s0 steps).acquiredMonitorCount = owned.card) ∧
    ((∀ m, (runMonitorSteps s0 steps).monitorWindow m = none) →
      (runMonitorSteps s0 steps).acquiredMonitorCount = 0) ∧
    ((runMonitorSteps s0 steps).displayRequired = true ↔
      0 < (runMonitorSteps s0 steps).acquiredMonitorCount) := by
  obtain ⟨owned, k1, k2, k3⟩ := runMonitorSteps_invariant steps s0 ∅
    (by intro m; simp [howner]) (by simp [hcount]) (by simp [hsave, hcount])
  refine ⟨⟨owned, k1, k2⟩, ?_, k3⟩
  intro hall
  have : owned = ∅ := by
    apply Finset.eq_empty_of_forall_not_mem
    intro m hm
    exact (k1 m).mp hm (hall m)
  rw [k2, this]
  simp

/-- Witness for C3: two windows acquire two monitors and release them in the
order of acquisition, from the initial session. -/
theorem monitor_count_matches_owned_witness :
    ({} : Session).acquiredMonitorCount = 0 ∧
    (∀ m, ({} : Session).monitorWindow m = none) ∧
    ({} : Session).displayRequired = false ∧
    (∃ owned : Finset MonId,
      (∀ m, m ∈ owned ↔ (runMonitorSteps {} [MonitorStep.acquire 1 0, MonitorStep.acquire 2 1,
        MonitorStep.release 1 0, MonitorStep.release 2 1]).monitorWindow m ≠ none) ∧
      (runMonitorSteps {} [MonitorStep.acquire 1 0, MonitorStep.acquire 2 1,
        MonitorStep.release 1 0, MonitorStep.release 2 1]).acquiredMonitorCount = owned.card) ∧
    ((∀ m, (runMonitorSteps {} [MonitorStep.acquire 1 0, MonitorStep.acquire 2 1,
        MonitorStep.release 1 0, MonitorStep.release 2 1]).monitorWindow m = none) →
      (runMonitorSteps {} [MonitorStep.acquire 1 0, MonitorStep.acquire 2 1,
        MonitorStep.release 1 0, MonitorStep.release 2 1]).acquiredMonitorCount = 0) ∧
    ((runMonitorSteps {} [MonitorStep.acquire 1 0, MonitorStep.acquire 2 1,
        MonitorStep.release 1 0, MonitorStep.release 2 1]).displayRequired = true ↔
      0 < (runMonitorSteps {} [MonitorStep.acquire 1 0, MonitorStep.acquire 2 1,
        MonitorStep.release 1 0, MonitorStep.release 2 1]).acquiredMonitorCount) :=
  ⟨rfl, fun _ => rfl, rfl,
    monitor_count_matches_owned {} [MonitorStep.acquire 1 0, MonitorStep.acquire 2 1,
      MonitorStep.release 1 0, MonitorStep.release 2 1] rfl (fun _ => rfl) rfl⟩

/-! ## C4: raw motion batches -/

/-- One relative-motion record without button flags: nothing happens for a
zero delta; otherwise one cursor-position notification is emitted at the
virtual position moved by the delta, and the tracked position moves too. -/
theorem processRawRecord_relative (env : RawEnv) (s : Session) (w : WinId) (d : Int × Int) :
    (processRawRecord env s w (relRecord d)).events =
      s.events ++ rawMotionEvents w (s.windows w).virtualCursorPosX
        (s.windows w).virtualCursorPosY [d] ∧
    ((processRawRecord env s w (relRecord d)).windows w).virtualCursorPosX =
      (s.windows w).virtualCursorPosX + d.1 ∧
    ((processRawRecord env s w (relRecord d)).windows w).virtualCursorPosY =
      (s.windows w).virtualCursorPosY + d.2 ∧
    ((processRawRecord env s w (relRecord d)).windows w).lastCursorPosX =
      (s.windows w).lastCursorPosX + d.1 ∧
    ((processRawRecord env s w (relRecord d)).windows w).lastCursorPosY =
      (s.windows w).lastCursorPosY + d.2 := by
  by_cases h : d.1 ≠ 0 ∨ d.2 ≠ 0
  · simp [processRawRecord, relRecord, rawDelta, RIM_TYPEMOUSE, h, _glfwInputCursorPos,
      Session.setWindow, Session.emit, rawMotionEvents]
  · have h1 : d.1 = 0 := by
      by_contra hne; exact h (Or.inl hne)
    have h2 : d.2 = 0 := by
      by_contra hne; exact h (Or.inr hne)
    simp [processRawRecord, relRecord, rawDelta, RIM_TYPEMOUSE, h1, h2, rawMotionEvents]

/-- A batch of relative-motion records: the notifications are those of
`rawMotionEvents`, one per record with a non-zero delta, and the virtual and
tracked positions move by the sum of the deltas. -/
theorem processRawRecords_relative (env : RawEnv) (w : WinId) (ds : List (Int × Int)) :
    ∀ s : Session,
      ((ds.map relRecord).foldl (fun st data => processRawRecord env st w data) s).events =
        s.events ++ rawMotionEvents w (s.windows w).virtualCursorPosX
          (s.windows w).virtualCursorPosY ds ∧
      (((ds.map relRecord).foldl (fun st data => processRawRecord env st w data) s).windows
          w).virtualCursorPosX = (s.windows w).virtualCursorPosX + (ds.map Prod.fst).sum ∧
      (((ds.map relRecord).foldl (fun st data => processRawRecord env st w data) s).windows
          w).virtualCursorPosY = (s.windows w).virtualCursorPosY + (ds.map Prod.snd).sum ∧
      (((ds.map relRecord).foldl (fun st data => processRawRecord env st w data) s).windows
          w).lastCursorPosX = (s.windows w).lastCursorPosX + (ds.map Prod.fst).sum ∧
      (((ds.map relRecord).foldl (fun st data => processRawRecord env st w data) s).windows
          w).lastCursorPosY = (s.windows w).lastCursorPosY + (ds.map Prod.snd).sum := by
  induction ds with
  | nil => intro s; simp [rawMotionEvents]
  | cons d rest ih =>
    intro s
    obtain ⟨e1, e2, e3, e4, e5⟩ := processRawRecord_relative env s w d
    obtain ⟨k1, k2, k3, k4, k5⟩ := ih (processRawRecord env s w (relRecord d))
    simp only [List.map_cons, List.foldl_cons, List.sum_cons]
    refine ⟨?_, ?_, ?_, ?_, ?_⟩
    · rw [k1, e1, e2, e3]
      by_cases h : d.1 ≠ 0 ∨ d.2 ≠ 0
      · simp [rawMotionEvents, h]
      · have h1 : d.1 = 0 := by
          by_contra hne; exact h (Or.inl hne)
        have h2 : d.2 = 0 := by
          by_contra hne; exact h (Or.inr hne)
        simp [rawMotionEvents, h1, h2]
    · rw [k2, e2]; ring
    · rw [k3, e3]; ring
    · rw [k4, e4]; ring
    · rw [k5, e5]; ring

/-- The number of notifications of `rawMotionEvents` is the number of records
with a non-zero delta. -/
theorem rawMotionEvents_length (w : WinId) (ds : List (Int × Int)) :
    ∀ x y : Int, (rawMotionEvents w x y ds).length =
      (ds.filter (fun d => decide (d.1 ≠ 0 ∨ d.2 ≠ 0))).length := by
  induction ds with
  | nil => intro x y; simp [rawMotionEvents]
  | cons d rest ih =>
    intro x y
    by_cases h : d.1 ≠ 0 ∨ d.2 ≠ 0
    · simp [rawMotionEvents, h, ih, List.filter_cons]
    · have h1 : d.1 = 0 := by
        by_contra hne; exact h (Or.inl hne)
      have h2 : d.2 = 0 := by
        by_contra hne; exact h (Or.inr hne)
      simp [rawMotionEvents, h1, h2, ih, List.filter_cons]

/-- C4, as amended: for a window that is the head of the window list and the
disabled-cursor window with raw motion enabled, one raw batch of
relative-motion records yields one cursor-position notification per record
with a non-zero delta, each at the virtual position reached so far, and the
final virtual position is the previous one plus the sum of the deltas. -/
theorem raw_batch_notifies_per_record (s : Session) (env : RawEnv) (w : WinId) (ds : List (Int × Int))
    (riSize : Nat)
    (hhead : s.windowListHead = some w) (hdis : s.disabledCursorWindow = some w)
    (hraw : (s.windows w).rawMouseMotion = true)
    (hsize : env.sizeQuery = some riSize) (hread : env.read = some (ds.map relRecord)) :
    ∃ s2 : Session, processRawInput s env = some s2 ∧
      s2.events = s.events ++ rawMotionEvents w (s.windows w).virtualCursorPosX
        (s.windows w).virtualCursorPosY ds ∧
      (rawMotionEvents w (s.windows w).virtualCursorPosX
        (s.windows w).virtualCursorPosY ds).length =
          (ds.filter (fun d => decide (d.1 ≠ 0 ∨ d.2 ≠ 0))).length ∧
      (s2.windows w).virtualCursorPosX = (s.windows w).virtualCursorPosX + (ds.map Prod.fst).sum ∧
      (s2.windows w).virtualCursorPosY = (s.windows w).virtualCursorPosY + (ds.map Prod.snd).sum := by
  have key := processRawRecords_relative env w ds
  have hne : ¬ (s.disabledCursorWindow ≠ s.windowListHead) := by
    rw [hdis, hhead]; simp
  have hval : processRawInput s env =
      some ((ds.map relRecord).foldl (fun st data => processRawRecord env st w data)
        (if riSize * 16 % 2 ^ 32 > s.rawInputSize then
          { s with rawInputSize := riSize * 16 % 2 ^ 32 } else s)) := by
    unfold processRawInput
    rw [if_neg hne]
    simp only [hhead, hraw, hsize, hread, Bool.not_true, Bool.false_eq_true, if_false]
  rw [hval]
  by_cases hb : riSize * 16 % 2 ^ 32 > s.rawInputSize
  · rw [if_pos hb]
    obtain ⟨k1, k2, k3, _, _⟩ := key { s with rawInputSize := riSize * 16 % 2 ^ 32 }
    exact ⟨_, rfl, k1, rawMotionEvents_length w ds _ _, k2, k3⟩
  · rw [if_neg hb]
    obtain ⟨k1, k2, k3, _, _⟩ := key s
    exact ⟨_, rfl, k1, rawMotionEvents_length w ds _ _, k2, k3⟩

/-- Counterexample for C4: the batch (2,0), (-1,3), (0,1) fed to the window of
`rawBatchSession`, at virtual position (10, 20), yields three cursor-position
notifications and not one; only the last carries the total delta (1,4).  Fed
to window 1 of `twoWindowSession` after it has entered disabled mode, a
disabled-cursor window with raw motion enabled that is not the head of the
window list, the same batch yields no notification. -/
theorem raw_batch_three_notifications :
    Option.map Session.events (processRawInput rawBatchSession rawBatchEnv) =
      some [Event.cursorPos 1 12 20, Event.cursorPos 1 11 23, Event.cursorPos 1 11 24] ∧
    (_glfwSetCursorModeWin32 twoWindowSession 1 CursorMode.DISABLED).disabledCursorWindow =
      some 1 ∧
    ((_glfwSetCursorModeWin32 twoWindowSession 1 CursorMode.DISABLED).windows
      1).rawMouseMotion = true ∧
    (_glfwSetCursorModeWin32 twoWindowSession 1 CursorMode.DISABLED).windowListHead = some 2 ∧
    Option.map Session.events
      (processRawInput (_glfwSetCursorModeWin32 twoWindowSession 1 CursorMode.DISABLED)
        rawBatchEnv) = some [] := by
  decide

/-- Witness for C4 as amended: the batch of `rawBatchEnv` on `rawBatchSession`. -/
theorem raw_batch_notifies_per_record_witness :
    rawBatchSession.windowListHead = some 1 ∧
    rawBatchSession.disabledCursorWindow = some 1 ∧
    (rawBatchSession.windows 1).rawMouseMotion = true ∧
    rawBatchEnv.sizeQuery = some 48 ∧
    rawBatchEnv.read = some ([((2 : Int), (0 : Int)), (-1, 3), (0, 1)].map relRecord) ∧
    ∃ s2 : Session, processRawInput rawBatchSession rawBatchEnv = some s2 ∧
      s2.events = rawBatchSession.events ++
        rawMotionEvents 1 (rawBatchSession.windows 1).virtualCursorPosX
          (rawBatchSession.windows 1).virtualCursorPosY [(2, 0), (-1, 3), (0, 1)] ∧
      (rawMotionEvents 1 (rawBatchSession.windows 1).virtualCursorPosX
        (rawBatchSession.windows 1).virtualCursorPosY [(2, 0), (-1, 3), (0, 1)]).length =
          ([((2 : Int), (0 : Int)), (-1, 3), (0, 1)].filter
            (fun d => decide (d.1 ≠ 0 ∨ d.2 ≠ 0))).length ∧
      (s2.windows 1).virtualCursorPosX =
        (rawBatchSession.windows 1).virtualCursorPosX +
          ([((2 : Int), (0 : Int)), (-1, 3), (0, 1)].map Prod.fst).sum ∧
      (s2.windows 1).virtualCursorPosY =
        (rawBatchSession.windows 1).virtualCursorPosY +
          ([((2 : Int), (0 : Int)), (-1, 3), (0, 1)].map Prod.snd).sum :=
  ⟨rfl, rfl, rfl, rfl, rfl,
    raw_batch_notifies_per_record rawBatchSession rawBatchEnv 1 [(2, 0), (-1, 3), (0, 1)] 48
      rfl rfl rfl rfl rfl⟩

/-! ## C5: Shift key-up releases both Shift keys once -/

/-- What `_glfwInputKey` leaves in the event stream and the key record. -/
theorem inputKey_fields (s : Session) (w : WinId) (key sc action mods : Int) :
    (_glfwInputKey s w key sc action mods).events = s.events ++ [Event.key w key sc action mods] ∧
    (_glfwInputKey s w key sc action mods).activeWindow = s.activeWindow ∧
    (_glfwInputKey s w key sc action mods).scancodes = s.scancodes ∧
    (_glfwInputKey s w key sc action mods).keycodes = s.keycodes ∧
    (∀ k, ((_glfwInputKey s w key sc action mods).windows w).keys k =
      if k = key then action else (s.windows w).keys k) ∧
    (∀ w2, w2 ≠ w → (_glfwInputKey s w key sc action mods).windows w2 = s.windows w2) := by
  refine ⟨by simp [_glfwInputKey, Session.emit, Session.setWindow], rfl, rfl, rfl, ?_, ?_⟩
  · intro k
    by_cases h : k = key
    · subst h; simp [_glfwInputKey, Session.emit, Session.setWindow]
    · simp [_glfwInputKey, Session.emit, Session.setWindow, Function.update_noteq h, h]
  · intro w2 h
    simp [_glfwInputKey, Session.emit, Session.setWindow, Function.update_noteq h]

/-- The Shift key-up handler: both logical Shift keys are released, in this
order, with the scan code of the message. -/
theorem windowProc_shift_up (s : Session) (w : WinId) (k : KeyMsg)
    (hvk : k.wParam = VK_SHIFT) (hup : k.hiword &&& KF_UP ≠ 0) :
    (windowProc s w (Msg.WM_KEY k)).events =
      s.events ++ [Event.key w GLFW_KEY_LEFT_SHIFT (keyScancode k) GLFW_RELEASE k.mods,
                   Event.key w GLFW_KEY_RIGHT_SHIFT (keyScancode k) GLFW_RELEASE k.mods] ∧
    ((windowProc s w (Msg.WM_KEY k)).windows w).keys GLFW_KEY_LEFT_SHIFT = GLFW_RELEASE ∧
    ((windowProc s w (Msg.WM_KEY k)).windows w).keys GLFW_KEY_RIGHT_SHIFT = GLFW_RELEASE := by
  have hl : keyLogical s k = some (s.keycodes (keyScancode k)) := by
    simp [keyLogical, hvk, VK_SHIFT, VK_CONTROL, VK_PROCESSKEY]
  simp only [windowProc, windowProcKey, hl, hup, hvk, if_true, ne_eq, not_false_eq_true,
    and_self]
  obtain ⟨a1, _, _, _, a5, _⟩ := inputKey_fields s w GLFW_KEY_LEFT_SHIFT (keyScancode k)
    GLFW_RELEASE k.mods
  obtain ⟨b1, _, _, _, b5, _⟩ := inputKey_fields
    (_glfwInputKey s w GLFW_KEY_LEFT_SHIFT (keyScancode k) GLFW_RELEASE k.mods) w
    GLFW_KEY_RIGHT_SHIFT (keyScancode k) GLFW_RELEASE k.mods
  refine ⟨?_, ?_, ?_⟩
  · rw [b1, a1]; simp
  · rw [b5, a5]; simp [GLFW_KEY_LEFT_SHIFT, GLFW_KEY_RIGHT_SHIFT]
  · rw [b5]; simp


/-- One step of the reconciliation pass, on a window whose two Shift keys are
recorded as released: they stay released and no Shift release is emitted for
that window. -/
theorem releaseStuckModifier_shift (keyDown : Nat → Bool) (mods : Int) (a w : WinId)
    (s : Session) (vkKey : Nat × Int)
    (hl : (s.windows w).keys GLFW_KEY_LEFT_SHIFT = GLFW_RELEASE)
    (hr : (s.windows w).keys GLFW_KEY_RIGHT_SHIFT = GLFW_RELEASE) :
    ((releaseStuckModifier keyDown mods a s vkKey).windows w).keys GLFW_KEY_LEFT_SHIFT =
      GLFW_RELEASE ∧
    ((releaseStuckModifier keyDown mods a s vkKey).windows w).keys GLFW_KEY_RIGHT_SHIFT =
      GLFW_RELEASE ∧
    (releaseStuckModifier keyDown mods a s vkKey).activeWindow = s.activeWindow ∧
    (releaseStuckModifier keyDown mods a s vkKey).events.countP
        (isKeyRelease w GLFW_KEY_LEFT_SHIFT) =
      s.events.countP (isKeyRelease w GLFW_KEY_LEFT_SHIFT) ∧
    (releaseStuckModifier keyDown mods a s vkKey).events.countP
        (isKeyRelease w GLFW_KEY_RIGHT_SHIFT) =
      s.events.countP (isKeyRelease w GLFW_KEY_RIGHT_SHIFT) := by
  unfold releaseStuckModifier
  by_cases hd : keyDown vkKey.1 = true
  · simp [hd, hl, hr]
  · by_cases hp : (s.windows a).keys vkKey.2 ≠ GLFW_PRESS
    · simp [hd, hp, hl, hr]
    · have hp2 : (s.windows a).keys vkKey.2 = GLFW_PRESS := not_not.mp hp
      simp only [hd, hp, if_false, Bool.false_eq_true]
      obtain ⟨e1, e2, _, _, e5, e6⟩ := inputKey_fields s a vkKey.2 (s.scancodes vkKey.2)
        GLFW_RELEASE mods
      by_cases haw : a = w
      · subst haw
        have hnl : GLFW_KEY_LEFT_SHIFT ≠ vkKey.2 := by
          intro h; rw [← h, hl] at hp2; exact absurd hp2 (by decide)
        have hnr : GLFW_KEY_RIGHT_SHIFT ≠ vkKey.2 := by
          intro h; rw [← h, hr] at hp2; exact absurd hp2 (by decide)
        refine ⟨?_, ?_, e2, ?_, ?_⟩
        · rw [e5, if_neg hnl, hl]
        · rw [e5, if_neg hnr, hr]
        · rw [e1, List.countP_append]
          simp [isKeyRelease, Ne.symm hnl]
        · rw [e1, List.countP_append]
          simp [isKeyRelease, Ne.symm hnr]
      · have hwa : w ≠ a := fun h => haw h.symm
        refine ⟨?_, ?_, e2, ?_, ?_⟩
        · rw [e6 w hwa, hl]
        · rw [e6 w hwa, hr]
        · rw [e1, List.countP_append]
          simp [isKeyRelease, haw]
        · rw [e1, List.countP_append]
          simp [isKeyRelease, haw]

/-- The steps of one reconciliation pass over any list of keys keep the two
Shift keys of a window released and emit no Shift release for it. -/
theorem foldl_releaseStuckModifier_shift (keyDown : Nat → Bool) (mods : Int) (a w : WinId)
    (keys : List (Nat × Int)) :
    ∀ s : Session,
      (s.windows w).keys GLFW_KEY_LEFT_SHIFT = GLFW_RELEASE →
      (s.windows w).keys GLFW_KEY_RIGHT_SHIFT = GLFW_RELEASE →
      ((keys.foldl (releaseStuckModifier keyDown mods a) s).windows w).keys
          GLFW_KEY_LEFT_SHIFT = GLFW_RELEASE ∧
      ((keys.foldl (releaseStuckModifier keyDown mods a) s).windows w).keys
          GLFW_KEY_RIGHT_SHIFT = GLFW_RELEASE ∧
      (keys.foldl (releaseStuckModifier keyDown mods a) s).events.countP
          (isKeyRelease w GLFW_KEY_LEFT_SHIFT) =
        s.events.countP (isKeyRelease w GLFW_KEY_LEFT_SHIFT) ∧
      (keys.foldl (releaseStuckModifier keyDown mods a) s).events.countP
          (isKeyRelease w GLFW_KEY_RIGHT_SHIFT) =
        s.events.countP (isKeyRelease w GLFW_KEY_RIGHT_SHIFT) := by
  induction keys with
  | nil => intro s hl hr; exact ⟨hl, hr, rfl, rfl⟩
  | cons k rest ih =>
    intro s hl hr
    obtain ⟨a1, a2, _, a4, a5⟩ := releaseStuckModifier_shift keyDown mods a w s k hl hr
    obtain ⟨b1, b2, b3, b4⟩ := ih _ a1 a2
    exact ⟨b1, b2, b3.trans a4, b4.trans a5⟩

/-- Any number of reconciliation passes keep the two Shift keys of a window
released and emit no Shift release for it. -/
theorem runStuckModifierPasses_shift (w : WinId) (envs : List ((Nat → Bool) × Int)) :
    ∀ s : Session,
      (s.windows w).keys GLFW_KEY_LEFT_SHIFT = GLFW_RELEASE →
      (s.windows w).keys GLFW_KEY_RIGHT_SHIFT = GLFW_RELEASE →
      (runStuckModifierPasses s envs).events.countP (isKeyRelease w GLFW_KEY_LEFT_SHIFT) =
        s.events.countP (isKeyRelease w GLFW_KEY_LEFT_SHIFT) ∧
      (runStuckModifierPasses s envs).events.countP (isKeyRelease w GLFW_KEY_RIGHT_SHIFT) =
        s.events.countP (isKeyRelease w GLFW_KEY_RIGHT_SHIFT) := by
  induction envs with
  | nil => intro s _ _; exact ⟨rfl, rfl⟩
  | cons e rest ih =>
    intro s hl hr
    have hstep : ((releaseStuckModifiers s e.1 e.2).windows w).keys GLFW_KEY_LEFT_SHIFT =
          GLFW_RELEASE ∧
        ((releaseStuckModifiers s e.1 e.2).windows w).keys GLFW_KEY_RIGHT_SHIFT = GLFW_RELEASE ∧
        (releaseStuckModifiers s e.1 e.2).events.countP (isKeyRelease w GLFW_KEY_LEFT_SHIFT) =
          s.events.countP (isKeyRelease w GLFW_KEY_LEFT_SHIFT) ∧
        (releaseStuckModifiers s e.1 e.2).events.countP (isKeyRelease w GLFW_KEY_RIGHT_SHIFT) =
          s.events.countP (isKeyRelease w GLFW_KEY_RIGHT_SHIFT) := by
      unfold releaseStuckModifiers
      cases hact : s.activeWindow with
      | none => exact ⟨hl, hr, rfl, rfl⟩
      | some a => exact foldl_releaseStuckModifier_shift e.1 e.2 a w stuckModifierKeys s hl hr
    obtain ⟨a1, a2, a3, a4⟩ := hstep
    obtain ⟨b1, b2⟩ := ih _ a1 a2
    exact ⟨b1.trans a3, b2.trans a4⟩

/-- C5: when both logical Shift keys are recorded as pressed and a key-up
message with the generic Shift virtual key arrives, the key handler emits a
release for `LEFT_SHIFT` and a release for `RIGHT_SHIFT`, whatever scan code the
message carries; and after any number of post-poll reconciliation passes, with
any live key states, each of the two keys still has exactly one release more
than before the message. -/
theorem shift_up_releases_both_once (s : Session) (w : WinId) (k : KeyMsg)
    (envs : List ((Nat → Bool) × Int))
    (hleft : (s.windows w).keys GLFW_KEY_LEFT_SHIFT = GLFW_PRESS)
    (hright : (s.windows w).keys GLFW_KEY_RIGHT_SHIFT = GLFW_PRESS)
    (hvk : k.wParam = VK_SHIFT) (hup : k.hiword &&& KF_UP ≠ 0) :
    (windowProc s w (Msg.WM_KEY k)).events =
      s.events ++ [Event.key w GLFW_KEY_LEFT_SHIFT (keyScancode k) GLFW_RELEASE k.mods,
                   Event.key w GLFW_KEY_RIGHT_SHIFT (keyScancode k) GLFW_RELEASE k.mods] ∧
    (runStuckModifierPasses (windowProc s w (Msg.WM_KEY k)) envs).events.countP
        (isKeyRelease w GLFW_KEY_LEFT_SHIFT) =
      s.events.countP (isKeyRelease w GLFW_KEY_LEFT_SHIFT) + 1 ∧
    (runStuckModifierPasses (windowProc s w (Msg.WM_KEY k)) envs).events.countP
        (isKeyRelease w GLFW_KEY_RIGHT_SHIFT) =
      s.events.countP (isKeyRelease w GLFW_KEY_RIGHT_SHIFT) + 1 := by
  have _ := hleft
  have _ := hright
  obtain ⟨a1, a2, a3⟩ := windowProc_shift_up s w k hvk hup
  obtain ⟨b1, b2⟩ := runStuckModifierPasses_shift w envs _ a2 a3
  refine ⟨a1, ?_, ?_⟩
  · rw [b1, a1, List.countP_append]
    simp [isKeyRelease, GLFW_KEY_LEFT_SHIFT, GLFW_KEY_RIGHT_SHIFT]
  · rw [b2, a1, List.countP_append]
    simp [isKeyRelease, GLFW_KEY_LEFT_SHIFT, GLFW_KEY_RIGHT_SHIFT]

/-- Witness for C5: the left Shift key-up message on `shiftSession`, followed by
two reconciliation passes that see every key up. -/
theorem shift_up_releases_both_once_witness :
    (shiftSession.windows 1).keys GLFW_KEY_LEFT_SHIFT = GLFW_PRESS ∧
    (shiftSession.windows 1).keys GLFW_KEY_RIGHT_SHIFT = GLFW_PRESS ∧
    shiftUpMsg.wParam = VK_SHIFT ∧
    shiftUpMsg.hiword &&& KF_UP ≠ 0 ∧
    (windowProc shiftSession 1 (Msg.WM_KEY shiftUpMsg)).events =
      shiftSession.events ++
        [Event.key 1 GLFW_KEY_LEFT_SHIFT (keyScancode shiftUpMsg) GLFW_RELEASE shiftUpMsg.mods,
         Event.key 1 GLFW_KEY_RIGHT_SHIFT (keyScancode shiftUpMsg) GLFW_RELEASE shiftUpMsg.mods] ∧
    (runStuckModifierPasses (windowProc shiftSession 1 (Msg.WM_KEY shiftUpMsg))
        [(fun _ => false, 0), (fun _ => false, 0)]).events.countP
        (isKeyRelease 1 GLFW_KEY_LEFT_SHIFT) =
      shiftSession.events.countP (isKeyRelease 1 GLFW_KEY_LEFT_SHIFT) + 1 ∧
    (runStuckModifierPasses (windowProc shiftSession 1 (Msg.WM_KEY shiftUpMsg))
        [(fun _ => false, 0), (fun _ => false, 0)]).events.countP
        (isKeyRelease 1 GLFW_KEY_RIGHT_SHIFT) =
      shiftSession.events.countP (isKeyRelease 1 GLFW_KEY_RIGHT_SHIFT) + 1 :=
  ⟨by decide, by decide, rfl, by decide,
    shift_up_releases_both_once shiftSession 1 shiftUpMsg
      [(fun _ => false, 0), (fun _ => false, 0)] (by decide) (by decide) rfl (by decide)⟩

/-! ## C6: size limits with a minimum only -/

/-- Counterexample for C6: with minimum size (200,150) and a maximum of
don't-care on both axes `_glfwSetWindowSizeLimitsWin32` issues a `MoveWindow`,
and the following min/max-info query changes the minimum track size from the
default (136, 39) to (216, 189). -/
theorem size_limits_min_only_not_noop :
    (_glfwSetWindowSizeLimitsWin32 sizeLimitsSession 1 200 150 GLFW_DONT_CARE GLFW_DONT_CARE).calls
      = [OsCall.MoveWindow 1 100 100 800 600 true] ∧
    (windowProcGetMinMaxInfo
      (glfwSetWindowSizeLimits sizeLimitsSession 1 200 150 GLFW_DONT_CARE GLFW_DONT_CARE) 1
      ⟨0, 0, 1920, 1040⟩ ⟨0, 0, 1920, 1080⟩ defaultMinMaxInfo).ptMinTrackSize = ⟨216, 189⟩ ∧
    defaultMinMaxInfo.ptMinTrackSize ≠ ⟨216, 189⟩ := by
  decide

/-- C6, as amended: for every minimum size with both components specified,
combined with a maximum of don't-care on both axes,
`_glfwSetWindowSizeLimitsWin32` issues one `MoveWindow` with the current frame
rectangle of the window, and for a windowed window a following min/max-info
query sets the minimum track size to the minimum size plus the frame extents
and leaves the maximum track size as it was. -/
theorem size_limits_min_only_constrains (s : Session) (w : WinId) (minwidth minheight : Int)
    (rcWork rcMonitor : RECT) (mmi : MINMAXINFO)
    (hw : minwidth ≠ GLFW_DONT_CARE) (hh : minheight ≠ GLFW_DONT_CARE)
    (hwindowed : (s.windows w).monitor = none) :
    (_glfwSetWindowSizeLimitsWin32 s w minwidth minheight GLFW_DONT_CARE GLFW_DONT_CARE).calls =
      s.calls ++ [OsCall.MoveWindow w (s.windows w).windowRect.left (s.windows w).windowRect.top
        ((s.windows w).windowRect.right - (s.windows w).windowRect.left)
        ((s.windows w).windowRect.bottom - (s.windows w).windowRect.top) true] ∧
    (windowProcGetMinMaxInfo
      (glfwSetWindowSizeLimits s w minwidth minheight GLFW_DONT_CARE GLFW_DONT_CARE) w
      rcWork rcMonitor mmi).ptMinTrackSize =
        ⟨minwidth + (frameRect s w).right - (frameRect s w).left,
         minheight + (frameRect s w).bottom - (frameRect s w).top⟩ ∧
    (windowProcGetMinMaxInfo
      (glfwSetWindowSizeLimits s w minwidth minheight GLFW_DONT_CARE GLFW_DONT_CARE) w
      rcWork rcMonitor mmi).ptMaxTrackSize = mmi.ptMaxTrackSize := by
  have hframe : frameRect (glfwSetWindowSizeLimits s w minwidth minheight GLFW_DONT_CARE
      GLFW_DONT_CARE) w = frameRect s w := by
    simp [frameRect, glfwSetWindowSizeLimits, _glfwSetWindowSizeLimitsWin32, hw, hh,
      Session.setWindow, Session.call, getWindowStyle, getWindowExStyle]
  refine ⟨?_, ?_, ?_⟩
  · simp [_glfwSetWindowSizeLimitsWin32, hw, hh, Session.call]
  · unfold windowProcGetMinMaxInfo
    rw [hframe]
    simp [glfwSetWindowSizeLimits, _glfwSetWindowSizeLimitsWin32, hw, hh,
      Session.setWindow, Session.call, hwindowed]
    split_ifs <;> rfl
  · unfold windowProcGetMinMaxInfo
    rw [hframe]
    simp [glfwSetWindowSizeLimits, _glfwSetWindowSizeLimitsWin32, hw, hh,
      Session.setWindow, Session.call, hwindowed]
    split_ifs <;> rfl

/-- The guard of `_glfwSetWindowSizeLimitsWin32`: the call changes nothing when
a minimum component and a maximum component are both don't-care. -/
theorem setWindowSizeLimits_noop (s : Session) (w : WinId)
    (minwidth minheight maxwidth maxheight : Int)
    (hmin : minwidth = GLFW_DONT_CARE ∨ minheight = GLFW_DONT_CARE)
    (hmax : maxwidth = GLFW_DONT_CARE ∨ maxheight = GLFW_DONT_CARE) :
    _glfwSetWindowSizeLimitsWin32 s w minwidth minheight maxwidth maxheight = s := by
  simp [_glfwSetWindowSizeLimitsWin32, hmin, hmax]

/-- Witness for C6 as amended: minimum size (200,150) on `sizeLimitsSession`. -/
theorem size_limits_min_only_constrains_witness :
    (200 : Int) ≠ GLFW_DONT_CARE ∧ (150 : Int) ≠ GLFW_DONT_CARE ∧
    (sizeLimitsSession.windows 1).monitor = none ∧
    (_glfwSetWindowSizeLimitsWin32 sizeLimitsSession 1 200 150 GLFW_DONT_CARE
        GLFW_DONT_CARE).calls =
      sizeLimitsSession.calls ++ [OsCall.MoveWindow 1 (sizeLimitsSession.windows 1).windowRect.left
        (sizeLimitsSession.windows 1).windowRect.top
        ((sizeLimitsSession.windows 1).windowRect.right -
          (sizeLimitsSession.windows 1).windowRect.left)
        ((sizeLimitsSession.windows 1).windowRect.bottom -
          (sizeLimitsSession.windows 1).windowRect.top) true] ∧
    (windowProcGetMinMaxInfo
      (glfwSetWindowSizeLimits sizeLimitsSession 1 200 150 GLFW_DONT_CARE GLFW_DONT_CARE) 1
      ⟨0, 0, 1920, 1040⟩ ⟨0, 0, 1920, 1080⟩ defaultMinMaxInfo).ptMinTrackSize =
        ⟨200 + (frameRect sizeLimitsSession 1).right - (frameRect sizeLimitsSession 1).left,
         150 + (frameRect sizeLimitsSession 1).bottom - (frameRect sizeLimitsSession 1).top⟩ ∧
    (windowProcGetMinMaxInfo
      (glfwSetWindowSizeLimits sizeLimitsSession 1 200 150 GLFW_DONT_CARE GLFW_DONT_CARE) 1
      ⟨0, 0, 1920, 1040⟩ ⟨0, 0, 1920, 1080⟩ defaultMinMaxInfo).ptMaxTrackSize =
        defaultMinMaxInfo.ptMaxTrackSize :=
  ⟨by decide, by decide, rfl,
    size_limits_min_only_constrains sizeLimitsSession 1 200 150 ⟨0, 0, 1920, 1040⟩
      ⟨0, 0, 1920, 1080⟩ defaultMinMaxInfo (by decide) (by decide) rfl⟩

/-! ## Single precision arithmetic: lemmas -/

/-- The function `halvings` with enough fuel is the binary logarithm rounded down. -/
theorem halvings_spec (fuel : Nat) : ∀ n : Nat, 0 < n → n ≤ fuel →
    2 ^ halvings fuel n ≤ n ∧ n < 2 ^ (halvings fuel n + 1) := by
  induction fuel with
  | zero => intro n h0 h1; omega
  | succ fuel ih =>
    intro n h0 h1
    unfold halvings
    by_cases h2 : 2 ≤ n
    · rw [if_pos h2]
      have hm0 : 0 < n / 2 := Nat.div_pos h2 (by norm_num)
      have hm1 : n / 2 ≤ fuel := by omega
      obtain ⟨a, b⟩ := ih (n / 2) hm0 hm1
      constructor
      · rw [pow_succ]; omega
      · rw [pow_succ]; omega
    · rw [if_neg h2]
      have : n = 1 := by omega
      subst this
      norm_num

/-- Rounding to nearest moves a number by at most one half. -/
theorem roundHalfEven_error (x : ℚ) : |(roundHalfEven x : ℚ) - x| ≤ 1 / 2 := by
  have h1 := Int.floor_le x
  have h2 := Int.lt_floor_add_one x
  unfold roundHalfEven
  simp only []
  rw [abs_le]
  split_ifs with c1 c2 c3
  · constructor <;> linarith
  · push_cast; constructor <;> linarith
  · have : x - ⌊x⌋ = 1 / 2 := le_antisymm (not_lt.mp c2) (not_lt.mp c1)
    constructor <;> linarith
  · have : x - ⌊x⌋ = 1 / 2 := le_antisymm (not_lt.mp c2) (not_lt.mp c1)
    push_cast; constructor <;> linarith

/-- Rounding to nearest does not cross an integer from below. -/
theorem roundHalfEven_le_of_le (x : ℚ) (n : ℤ) (h : x ≤ n) : roundHalfEven x ≤ n := by
  have h1 := Int.floor_le x
  have hf : ⌊x⌋ ≤ n := by
    have : (⌊x⌋ : ℚ) ≤ n := le_trans h1 h
    exact_mod_cast this
  unfold roundHalfEven
  simp only []
  by_cases hx : (⌊x⌋ : ℚ) = x
  · have c1 : x - ⌊x⌋ < 1 / 2 := by rw [hx]; norm_num
    rw [if_pos c1]; exact hf
  · have hlt : (⌊x⌋ : ℚ) < n := lt_of_lt_of_le (lt_of_le_of_ne h1 hx) h
    have hlt2 : ⌊x⌋ < n := by exact_mod_cast hlt
    split_ifs <;> omega

/-- Rounding to nearest does not cross an integer from above. -/
theorem roundHalfEven_ge_of_ge (x : ℚ) (n : ℤ) (h : (n : ℚ) ≤ x) : n ≤ roundHalfEven x := by
  have hf : n ≤ ⌊x⌋ := Int.le_floor.mpr h
  unfold roundHalfEven
  simp only []
  split_ifs <;> omega


/-- The binary exponent brackets a positive rational between two consecutive
powers of two. -/
theorem binaryExponent_spec (q : ℚ) (hq : 0 < q) :
    (2 : ℚ) ^ binaryExponent q ≤ q ∧ q < (2 : ℚ) ^ (binaryExponent q + 1) := by
  have hnum : 0 < q.num := Rat.num_pos.mpr hq
  have hn0 : 0 < q.num.toNat := by omega
  have hd0 : 0 < q.den := q.den_pos
  obtain ⟨a1, a2⟩ := halvings_spec q.num.toNat q.num.toNat hn0 le_rfl
  obtain ⟨b1, b2⟩ := halvings_spec q.den q.den hd0 le_rfl
  have hcast : ((q.num.toNat : ℕ) : ℚ) = (q.num : ℚ) := by
    have : ((q.num.toNat : ℕ) : ℤ) = q.num := Int.toNat_of_nonneg hnum.le
    exact_mod_cast congrArg (fun z : ℤ => (z : ℚ)) this
  have hqe : q = (q.num.toNat : ℚ) / (q.den : ℚ) := by
    rw [hcast]; exact (Rat.num_div_den q).symm
  set n := q.num.toNat with hn
  set d := q.den with hd
  set a := halvings n n with ha
  set b := halvings d d with hb
  have A1 : (2 : ℚ) ^ a ≤ n := by exact_mod_cast a1
  have A2 : (n : ℚ) < 2 ^ (a + 1) := by exact_mod_cast a2
  have B1 : (2 : ℚ) ^ b ≤ d := by exact_mod_cast b1
  have B2 : (d : ℚ) < 2 ^ (b + 1) := by exact_mod_cast b2
  have hdq : (0 : ℚ) < d := by exact_mod_cast hd0
  have hpa : (0 : ℚ) < 2 ^ a := by positivity
  have hpb : (0 : ℚ) < 2 ^ b := by positivity
  have hpb1 : (0 : ℚ) < 2 ^ (b + 1) := by positivity
  have two0 : (2 : ℚ) ≠ 0 := two_ne_zero
  have F1 : (2 : ℚ) ^ ((a : ℤ) - (b : ℤ) - 1) < q := by
    have e : (2 : ℚ) ^ ((a : ℤ) - (b : ℤ) - 1) = 2 ^ a / 2 ^ (b + 1) := by
      have : (a : ℤ) - (b : ℤ) - 1 = (a : ℤ) - ((b + 1 : ℕ) : ℤ) := by push_cast; ring
      rw [this, zpow_sub₀ two0, zpow_natCast, zpow_natCast]
    rw [e, hqe, div_lt_div_iff₀ hpb1 hdq]
    calc (2 : ℚ) ^ a * d < 2 ^ a * 2 ^ (b + 1) := by
          exact mul_lt_mul_of_pos_left B2 hpa
      _ ≤ n * 2 ^ (b + 1) := by
          exact mul_le_mul_of_nonneg_right A1 hpb1.le
  have F2 : q < (2 : ℚ) ^ ((a : ℤ) - (b : ℤ) + 1) := by
    have e : (2 : ℚ) ^ ((a : ℤ) - (b : ℤ) + 1) = 2 ^ (a + 1) / 2 ^ b := by
      have : (a : ℤ) - (b : ℤ) + 1 = ((a + 1 : ℕ) : ℤ) - (b : ℤ) := by push_cast; ring
      rw [this, zpow_sub₀ two0, zpow_natCast, zpow_natCast]
    rw [e, hqe, div_lt_div_iff₀ hdq hpb]
    calc (n : ℚ) * 2 ^ b < 2 ^ (a + 1) * 2 ^ b := by
          exact mul_lt_mul_of_pos_right A2 hpb
      _ ≤ 2 ^ (a + 1) * d := by
          exact mul_le_mul_of_nonneg_left B1 (by positivity)
  unfold binaryExponent
  simp only []
  rw [← hn, ← hd, ← ha, ← hb]
  by_cases c : (2 : ℚ) ^ ((a : ℤ) - (b : ℤ)) ≤ q
  · rw [if_pos c]; exact ⟨c, F2⟩
  · rw [if_neg c]
    refine ⟨F1.le, ?_⟩
    have : (a : ℤ) - (b : ℤ) - 1 + 1 = (a : ℤ) - (b : ℤ) := by ring
    rw [this]
    exact not_le.mp c

/-- A power of two below a positive rational has an exponent not above the
binary exponent. -/
theorem le_binaryExponent (q : ℚ) (hq : 0 < q) (e : ℤ) (h : (2 : ℚ) ^ e ≤ q) :
    e ≤ binaryExponent q := by
  obtain ⟨_, h2⟩ := binaryExponent_spec q hq
  have : (2 : ℚ) ^ e < 2 ^ (binaryExponent q + 1) := lt_of_le_of_lt h h2
  have := (zpow_lt_zpow_iff_right₀ (by norm_num : (1 : ℚ) < 2)).mp this
  omega

/-- A power of two above a positive rational has an exponent above the binary
exponent. -/
theorem binaryExponent_lt (q : ℚ) (hq : 0 < q) (e : ℤ) (h : q < (2 : ℚ) ^ e) :
    binaryExponent q < e := by
  obtain ⟨h1, _⟩ := binaryExponent_spec q hq
  have : (2 : ℚ) ^ binaryExponent q < 2 ^ e := lt_of_le_of_lt h1 h
  exact (zpow_lt_zpow_iff_right₀ (by norm_num : (1 : ℚ) < 2)).mp this


/-- Rounding to binary32 moves a number by at most half a unit in the last
place. -/
theorem f32Round_error (q : ℚ) : |f32Round q - q| ≤ 2 ^ f32UlpExponent q / 2 := by
  have hpos : (0 : ℚ) < 2 ^ f32UlpExponent q := by positivity
  unfold f32Round
  by_cases h0 : q = 0
  · rw [if_pos h0, h0]; simp only [sub_zero, abs_zero]; positivity
  · rw [if_neg h0]
    have key := roundHalfEven_error (q / 2 ^ f32UlpExponent q)
    have e : (roundHalfEven (q / 2 ^ f32UlpExponent q) : ℚ) * 2 ^ f32UlpExponent q - q =
        ((roundHalfEven (q / 2 ^ f32UlpExponent q) : ℚ) - q / 2 ^ f32UlpExponent q) *
          2 ^ f32UlpExponent q := by
      field_simp
    rw [e, abs_mul, abs_of_pos hpos]
    calc |(roundHalfEven (q / 2 ^ f32UlpExponent q) : ℚ) - q / 2 ^ f32UlpExponent q| *
          2 ^ f32UlpExponent q ≤ 1 / 2 * 2 ^ f32UlpExponent q :=
          mul_le_mul_of_nonneg_right key hpos.le
      _ = 2 ^ f32UlpExponent q / 2 := by ring

/-- Where the unit in the last place is at most one, every integer is a
multiple of it. -/
theorem int_on_grid (u : ℤ) (hu : u ≤ 0) (c : ℤ) :
    ((c * 2 ^ (-u).toNat : ℤ) : ℚ) * 2 ^ u = c := by
  have hnat : (((-u).toNat : ℕ) : ℤ) = -u := Int.toNat_of_nonneg (by omega)
  have e : (2 : ℚ) ^ u = ((2 : ℚ) ^ (-u).toNat)⁻¹ := by
    rw [← zpow_natCast, hnat, zpow_neg, inv_inv]
  rw [e]
  push_cast
  field_simp

/-- Rounding to binary32 does not cross an integer from below, where the unit
in the last place is at most one. -/
theorem f32Round_le_int (q : ℚ) (c : ℤ) (hu : f32UlpExponent q ≤ 0) (h : q ≤ c) :
    f32Round q ≤ c := by
  have hpos : (0 : ℚ) < 2 ^ f32UlpExponent q := by positivity
  unfold f32Round
  by_cases h0 : q = 0
  · rw [if_pos h0]; rw [h0] at h; exact h
  · rw [if_neg h0]
    have hgrid := int_on_grid (f32UlpExponent q) hu c
    have hx : q / 2 ^ f32UlpExponent q ≤ ((c * 2 ^ (-(f32UlpExponent q)).toNat : ℤ) : ℚ) := by
      rw [div_le_iff₀ hpos, hgrid]; exact h
    have hM := roundHalfEven_le_of_le _ _ hx
    have hM2 : (roundHalfEven (q / 2 ^ f32UlpExponent q) : ℚ) ≤
        ((c * 2 ^ (-(f32UlpExponent q)).toNat : ℤ) : ℚ) := by exact_mod_cast hM
    calc (roundHalfEven (q / 2 ^ f32UlpExponent q) : ℚ) * 2 ^ f32UlpExponent q
        ≤ ((c * 2 ^ (-(f32UlpExponent q)).toNat : ℤ) : ℚ) * 2 ^ f32UlpExponent q :=
          mul_le_mul_of_nonneg_right hM2 hpos.le
      _ = c := hgrid

/-- Rounding to binary32 does not cross an integer from above, where the unit
in the last place is at most one. -/
theorem f32Round_ge_int (q : ℚ) (c : ℤ) (hu : f32UlpExponent q ≤ 0) (h : (c : ℚ) ≤ q) :
    (c : ℚ) ≤ f32Round q := by
  have hpos : (0 : ℚ) < 2 ^ f32UlpExponent q := by positivity
  unfold f32Round
  by_cases h0 : q = 0
  · rw [if_pos h0]; rw [h0] at h; exact h
  · rw [if_neg h0]
    have hgrid := int_on_grid (f32UlpExponent q) hu c
    have hx : ((c * 2 ^ (-(f32UlpExponent q)).toNat : ℤ) : ℚ) ≤ q / 2 ^ f32UlpExponent q := by
      rw [le_div_iff₀ hpos, hgrid]; exact h
    have hM := roundHalfEven_ge_of_ge _ _ hx
    have hM2 : ((c * 2 ^ (-(f32UlpExponent q)).toNat : ℤ) : ℚ) ≤
        (roundHalfEven (q / 2 ^ f32UlpExponent q) : ℚ) := by exact_mod_cast hM
    calc (c : ℚ) = ((c * 2 ^ (-(f32UlpExponent q)).toNat : ℤ) : ℚ) * 2 ^ f32UlpExponent q :=
          hgrid.symm
      _ ≤ (roundHalfEven (q / 2 ^ f32UlpExponent q) : ℚ) * 2 ^ f32UlpExponent q :=
          mul_le_mul_of_nonneg_right hM2 hpos.le

/-- A rounded value below an integer stays a whole unit in the last place
below it. -/
theorem f32Round_lt_int (q : ℚ) (c : ℤ) (hu : f32UlpExponent q ≤ 0) (h0 : q ≠ 0)
    (h : f32Round q < c) : f32Round q ≤ c - 2 ^ f32UlpExponent q := by
  have hpos : (0 : ℚ) < 2 ^ f32UlpExponent q := by positivity
  have hgrid := int_on_grid (f32UlpExponent q) hu c
  unfold f32Round at h ⊢
  rw [if_neg h0] at h ⊢
  rw [← hgrid] at h
  have hlt : (roundHalfEven (q / 2 ^ f32UlpExponent q) : ℚ) <
      ((c * 2 ^ (-(f32UlpExponent q)).toNat : ℤ) : ℚ) :=
    lt_of_mul_lt_mul_right h hpos.le
  have hlt2 : roundHalfEven (q / 2 ^ f32UlpExponent q) <
      c * 2 ^ (-(f32UlpExponent q)).toNat := by exact_mod_cast hlt
  have hle : roundHalfEven (q / 2 ^ f32UlpExponent q) ≤
      c * 2 ^ (-(f32UlpExponent q)).toNat - 1 := by omega
  have hle2 : (roundHalfEven (q / 2 ^ f32UlpExponent q) : ℚ) ≤
      ((c * 2 ^ (-(f32UlpExponent q)).toNat : ℤ) : ℚ) - 1 := by exact_mod_cast hle
  calc (roundHalfEven (q / 2 ^ f32UlpExponent q) : ℚ) * 2 ^ f32UlpExponent q
      ≤ (((c * 2 ^ (-(f32UlpExponent q)).toNat : ℤ) : ℚ) - 1) * 2 ^ f32UlpExponent q :=
        mul_le_mul_of_nonneg_right hle2 hpos.le
    _ = c - 2 ^ f32UlpExponent q := by rw [sub_mul, hgrid, one_mul]

/-- The unit in the last place of a positive number below `2^e` is at most
`2^(e - 24)`, for `e` from -125 on. -/
theorem f32UlpExponent_le (q : ℚ) (hq : 0 < q) (e : ℤ) (he : -125 ≤ e) (h : q < (2 : ℚ) ^ e) :
    f32UlpExponent q ≤ e - 24 := by
  have := binaryExponent_lt q hq e h
  unfold f32UlpExponent
  rw [abs_of_pos hq]
  exact max_le (by omega) (by omega)

/-- The unit in the last place of a positive number from `2^e` on is at least
`2^(e - 23)`. -/
theorem le_f32UlpExponent (q : ℚ) (hq : 0 < q) (e : ℤ) (h : (2 : ℚ) ^ e ≤ q) :
    e - 23 ≤ f32UlpExponent q := by
  have := le_binaryExponent q hq e h
  unfold f32UlpExponent
  rw [abs_of_pos hq]
  exact le_trans (by omega) (le_max_left _ _)

/-- Table: for every alpha from 1 to 254, 255 units in the last place of
`alpha / 255` fit into one unit in the last place of `alpha`. -/
theorem opacity_ulp_table :
    ∀ k : Fin 255, 1 ≤ k.val →
      255 * (2 : ℚ) ^ f32UlpExponent ((k.val : ℚ) / 255) ≤
        (2 : ℚ) ^ (binaryExponent (k.val : ℚ) - 23) := by
  decide!


/-- The alpha computed for an opacity between 0 and 1 is the single precision
product `255 * o` rounded down, it is a byte, and dividing it by 255 in single
precision gives the opacity back within `1 / 255`. -/
theorem opacity_alpha_bound (o : ℚ) (h0 : 0 ≤ o) (h1 : o ≤ 1) :
    ∃ alpha : Nat, (f32Mul 255 o).bind f32ToByte = some alpha ∧
      (alpha : ℤ) = ⌊f32Round (255 * o)⌋ ∧ alpha ≤ 255 ∧
      |f32Round ((alpha : ℚ) / 255) - o| ≤ 1 / 255 := by
  have hy0 : (0 : ℚ) ≤ 255 * o := by positivity
  have hy1 : 255 * o ≤ 255 := by linarith
  by_cases hz : 255 * o = 0
  · have ho : o = 0 := by
      rcases mul_eq_zero.mp hz with h | h
      · norm_num at h
      · exact h
    refine ⟨0, ?_, ?_, by norm_num, ?_⟩
    · rw [ho]; decide!
    · rw [ho]; norm_num [f32Round]
    · rw [ho]; norm_num [f32Round]
  · have hypos : (0 : ℚ) < 255 * o := lt_of_le_of_ne hy0 (Ne.symm hz)
    have hu : f32UlpExponent (255 * o) ≤ -16 := by
      have := f32UlpExponent_le (255 * o) hypos 8 (by norm_num) (by norm_num; linarith)
      omega
    have hu0 : f32UlpExponent (255 * o) ≤ 0 := by omega
    have hpu : (0 : ℚ) < 2 ^ f32UlpExponent (255 * o) := by positivity
    have hpu1 : (2 : ℚ) ^ f32UlpExponent (255 * o) ≤ 2 ^ (-16 : ℤ) :=
      zpow_le_zpow_right₀ (by norm_num) hu
    have hpu2 : (2 : ℚ) ^ (-16 : ℤ) = 1 / 65536 := by norm_num
    have hlo : (0 : ℚ) ≤ f32Round (255 * o) := by
      have := f32Round_ge_int (255 * o) 0 hu0 (by exact_mod_cast hy0)
      exact_mod_cast this
    have hhi : f32Round (255 * o) ≤ 255 := by
      have := f32Round_le_int (255 * o) 255 hu0 (by exact_mod_cast hy1)
      exact_mod_cast this
    have herr := f32Round_error (255 * o)
    rw [abs_le] at herr
    obtain ⟨herrL, herrR⟩ := herr
    have hk0 : 0 ≤ ⌊f32Round (255 * o)⌋ := Int.floor_nonneg.mpr hlo
    have hk1 : ⌊f32Round (255 * o)⌋ ≤ 255 := by
      have : (⌊f32Round (255 * o)⌋ : ℚ) ≤ 255 := le_trans (Int.floor_le _) hhi
      exact_mod_cast this
    have hfl := Int.floor_le (f32Round (255 * o))
    have hfl2 := Int.lt_floor_add_one (f32Round (255 * o))
    have hgap := f32Round_lt_int (255 * o) (⌊f32Round (255 * o)⌋ + 1) hu0 hz
      (by push_cast; exact hfl2)
    push_cast at hgap
    set k := ⌊f32Round (255 * o)⌋ with hk
    have hcastk : ((k.toNat : ℕ) : ℚ) = (k : ℚ) := by
      have : ((k.toNat : ℕ) : ℤ) = k := Int.toNat_of_nonneg hk0
      exact_mod_cast congrArg (fun z : ℤ => (z : ℚ)) this
    refine ⟨k.toNat, ?_, Int.toNat_of_nonneg hk0, by omega, ?_⟩
    · have hfin : f32Mul 255 o = some (f32Round (255 * o)) := by
        unfold f32Mul f32Finite
        rw [if_pos]
        rw [abs_of_nonneg hlo]
        calc f32Round (255 * o) ≤ 255 := hhi
          _ < 2 ^ 128 := by norm_num
      have htr : truncate (f32Round (255 * o)) = k := by
        unfold truncate; rw [if_pos hlo]
      rw [hfin]
      simp only [Option.some_bind, f32ToByte, htr]
      rw [if_pos ⟨hk0, hk1⟩]
    · rw [hcastk]
      have herr2 := f32Round_error ((k : ℚ) / 255)
      rw [abs_le] at herr2
      obtain ⟨herr2L, herr2R⟩ := herr2
      rw [abs_le]
      by_cases hkz : k = 0
      · rw [hkz] at hgap ⊢
        have : f32Round (((0 : ℤ) : ℚ) / 255) = 0 := by norm_num [f32Round]
        rw [this]
        simp only [Int.cast_zero, zero_add] at hgap
        constructor <;> linarith
      · have hk1pos : 1 ≤ k := by omega
        have hkq : (1 : ℚ) ≤ (k : ℚ) := by exact_mod_cast hk1pos
        have hkq2 : (k : ℚ) ≤ 255 := by exact_mod_cast hk1
        have hrpos : (0 : ℚ) < (k : ℚ) / 255 := by positivity
        have hur : f32UlpExponent ((k : ℚ) / 255) ≤ -23 := by
          have := f32UlpExponent_le ((k : ℚ) / 255) hrpos 1 (by norm_num)
            (by rw [div_lt_iff₀ (by norm_num)]; norm_num; linarith)
          omega
        have hpr : (0 : ℚ) < 2 ^ f32UlpExponent ((k : ℚ) / 255) := by positivity
        have hpr1 : (2 : ℚ) ^ f32UlpExponent ((k : ℚ) / 255) ≤ 2 ^ (-23 : ℤ) :=
          zpow_le_zpow_right₀ (by norm_num) hur
        have hpr2 : (2 : ℚ) ^ (-23 : ℤ) = 1 / 8388608 := by norm_num
        by_cases hyk : 255 * o ≤ (k : ℚ)
        · constructor <;> linarith
        · have hyk2 : (k : ℚ) < 255 * o := not_le.mp hyk
          have hk254 : k ≤ 254 := by
            have : (k : ℚ) < 255 := lt_of_lt_of_le hyk2 hy1
            have : k < 255 := by exact_mod_cast this
            omega
          have htab := opacity_ulp_table ⟨k.toNat, by omega⟩ (by simp; omega)
          simp only [hcastk] at htab
          have hbe := binaryExponent_spec (k : ℚ) (by linarith)
          have hule := le_f32UlpExponent (255 * o) hypos (binaryExponent (k : ℚ))
            (le_trans hbe.1 hyk2.le)
          have hmono : (2 : ℚ) ^ (binaryExponent (k : ℚ) - 23) ≤
              2 ^ f32UlpExponent (255 * o) :=
            zpow_le_zpow_right₀ (by norm_num) hule
          constructor <;> linarith

/-- The unit in the last place depends on the magnitude only. -/
theorem f32UlpExponent_abs (q : ℚ) : f32UlpExponent |q| = f32UlpExponent q := by
  unfold f32UlpExponent
  rw [abs_abs]

/-- The unit in the last place is at most `2^(-23)` times the magnitude, or
the smallest subnormal. -/
theorem two_pow_ulp_le (q : ℚ) (hq : q ≠ 0) :
    (2 : ℚ) ^ f32UlpExponent q ≤ max (|q| * 2 ^ (-23 : ℤ)) (2 ^ (-149 : ℤ)) := by
  have hpos : 0 < |q| := abs_pos.mpr hq
  obtain ⟨h1, _⟩ := binaryExponent_spec |q| hpos
  unfold f32UlpExponent
  rcases le_total (binaryExponent |q| - 23) (-149) with h | h
  · rw [max_eq_right h]; exact le_max_right _ _
  · rw [max_eq_left h]
    refine le_trans ?_ (le_max_left _ _)
    rw [zpow_sub₀ (two_ne_zero), zpow_neg, div_eq_mul_inv]
    have : (0 : ℚ) ≤ ((2 : ℚ) ^ (23 : ℤ))⁻¹ := by positivity
    exact mul_le_mul_of_nonneg_right h1 this

/-- Integers of magnitude below `2^24` are binary32 values. -/
theorem f32Round_int (c : ℤ) (h : |c| < 2 ^ 24) : f32Round (c : ℚ) = c := by
  by_cases h0 : c = 0
  · rw [h0]; norm_num [f32Round]
  · have hq : (c : ℚ) ≠ 0 := by exact_mod_cast h0
    have hpos : 0 < |(c : ℚ)| := abs_pos.mpr hq
    have hlt : |(c : ℚ)| < (2 : ℚ) ^ (24 : ℤ) := by
      have : ((|c| : ℤ) : ℚ) < ((2 ^ 24 : ℤ) : ℚ) := by exact_mod_cast h
      rw [Int.cast_abs] at this
      norm_num at this ⊢
      exact this
    have hu : f32UlpExponent (c : ℚ) ≤ 0 := by
      rw [← f32UlpExponent_abs]
      have := f32UlpExponent_le |(c : ℚ)| hpos 24 (by norm_num) hlt
      omega
    exact le_antisymm (f32Round_le_int _ c hu le_rfl) (f32Round_ge_int _ c hu le_rfl)

/-- A rounded value is at most one and a bit times the magnitude, plus half
the smallest subnormal. -/
theorem abs_f32Round_le (q : ℚ) :
    |f32Round q| ≤ |q| * (1 + 2 ^ (-24 : ℤ)) + 2 ^ (-150 : ℤ) := by
  by_cases hq : q = 0
  · rw [hq]; norm_num [f32Round]
  · have herr := f32Round_error q
    have hulp := two_pow_ulp_le q hq
    have habs : |f32Round q| ≤ |q| + |f32Round q - q| := by
      have := abs_add (q) (f32Round q - q)
      simpa using this
    have hnn : 0 ≤ |q| := abs_nonneg q
    have e1 : |q| * (2 : ℚ) ^ (-23 : ℤ) / 2 = |q| * 2 ^ (-24 : ℤ) := by
      rw [zpow_neg, zpow_neg]; norm_num; ring
    have e2 : (2 : ℚ) ^ (-149 : ℤ) / 2 = 2 ^ (-150 : ℤ) := by
      rw [zpow_neg, zpow_neg]; norm_num
    have hp150 : (0 : ℚ) ≤ 2 ^ (-150 : ℤ) := by positivity
    have hp24 : (0 : ℚ) ≤ |q| * 2 ^ (-24 : ℤ) := by positivity
    rcases le_total (|q| * (2 : ℚ) ^ (-23 : ℤ)) (2 ^ (-149 : ℤ)) with h | h
    · rw [max_eq_right h] at hulp
      have : |f32Round q - q| ≤ 2 ^ (-150 : ℤ) := by
        rw [← e2]
        exact le_trans herr (div_le_div_of_nonneg_right hulp (by norm_num))
      calc |f32Round q| ≤ |q| + |f32Round q - q| := habs
        _ ≤ |q| + 2 ^ (-150 : ℤ) := by gcongr
        _ ≤ |q| * (1 + 2 ^ (-24 : ℤ)) + 2 ^ (-150 : ℤ) := by
            have : |q| ≤ |q| * (1 + 2 ^ (-24 : ℤ)) := by
              rw [mul_add, mul_one]; exact le_add_of_nonneg_right hp24
            gcongr
    · rw [max_eq_left h] at hulp
      have : |f32Round q - q| ≤ |q| * 2 ^ (-24 : ℤ) := by
        rw [← e1]
        exact le_trans herr (div_le_div_of_nonneg_right hulp (by norm_num))
      calc |f32Round q| ≤ |q| + |f32Round q - q| := habs
        _ ≤ |q| + |q| * 2 ^ (-24 : ℤ) := by gcongr
        _ = |q| * (1 + 2 ^ (-24 : ℤ)) := by ring
        _ ≤ |q| * (1 + 2 ^ (-24 : ℤ)) + 2 ^ (-150 : ℤ) := le_add_of_nonneg_right hp150

/-- A rounded value is at least the magnitude less one part in `2^24`, for
magnitudes from `2^(-126)` on. -/
theorem le_abs_f32Round (q : ℚ) (h : (2 : ℚ) ^ (-126 : ℤ) ≤ |q|) :
    |q| * (1 - 2 ^ (-24 : ℤ)) ≤ |f32Round q| := by
  have hpos : 0 < |q| := lt_of_lt_of_le (by positivity) h
  have hq : q ≠ 0 := abs_pos.mp hpos
  have herr := f32Round_error q
  have hulp := two_pow_ulp_le q hq
  have hmax : max (|q| * (2 : ℚ) ^ (-23 : ℤ)) (2 ^ (-149 : ℤ)) = |q| * 2 ^ (-23 : ℤ) := by
    apply max_eq_left
    have : (2 : ℚ) ^ (-149 : ℤ) = 2 ^ (-126 : ℤ) * 2 ^ (-23 : ℤ) := by
      rw [← zpow_add₀ (two_ne_zero)]; norm_num
    rw [this]
    exact mul_le_mul_of_nonneg_right h (by positivity)
  rw [hmax] at hulp
  have e1 : |q| * (2 : ℚ) ^ (-23 : ℤ) / 2 = |q| * 2 ^ (-24 : ℤ) := by
    rw [zpow_neg, zpow_neg]; norm_num; ring
  have hrev : |q| - |f32Round q - q| ≤ |f32Round q| := by
    have := abs_sub_abs_le_abs_sub q (q - f32Round q)
    have e : q - (q - f32Round q) = f32Round q := by ring
    rw [e, abs_sub_comm q (f32Round q)] at this
    linarith [abs_sub_comm (f32Round q) q]
  have : |f32Round q - q| ≤ |q| * 2 ^ (-24 : ℤ) := by
    rw [← e1]
    exact le_trans herr (div_le_div_of_nonneg_right hulp (by norm_num))
  calc |q| * (1 - 2 ^ (-24 : ℤ)) = |q| - |q| * 2 ^ (-24 : ℤ) := by ring
    _ ≤ |q| - |f32Round q - q| := by gcongr
    _ ≤ |f32Round q| := hrev

/-! ## C7: aspect ratio on a drag by the bottom-right corner -/

/-- The quotient by the ratio reads only `numer` and `denom` of the window. -/
theorem divideByRatio_congr (x : Int) (a b : Window) (hn : a.numer = b.numer)
    (hd : a.denom = b.denom) : divideByRatio x a = divideByRatio x b := by
  unfold divideByRatio aspectRatio
  rw [hn, hd]

/-- Table: for the ratio 16:9 and every extent from 0 to 1000 the single
precision quotient truncates to the exact quotient. -/
theorem divideByRatio_16_9_table :
    ∀ n : Fin 1001, divideByRatio (n.val : Int) { numer := 16, denom := 9 } =
      some (((n.val * 9 / 16 : Nat) : Int)) := by
  decide!

/-- Counterexample for C7: with ratio 12:5 and frame extents (16, 39), the rect
(0,0,1936,489) dragged by the bottom-right corner gets bottom 838, that is
content height 799, while the content width 1920 times 5/12 is 800. -/
theorem aspect_ratio_12_5_one_short :
    applyAspectRatio aspectSession 1 WMSZ_BOTTOMRIGHT ⟨0, 0, 1936, 489⟩ =
      some ⟨0, 0, 1936, 838⟩ ∧
    (838 : Int) - 0 - (8 - (-31)) = 799 ∧
    Int.tdiv (((1936 : Int) - 0 - (8 - (-8))) * 5) 12 = 800 := by
  decide!

/-- What `applyAspectRatio` does for a drag by the bottom-right corner. -/
theorem applyAspectRatio_bottomRight (s : Session) (w : WinId) (area : RECT) :
    applyAspectRatio s w WMSZ_BOTTOMRIGHT area =
      (divideByRatio ((area.right - area.left) -
          ((frameRect s w).right - (frameRect s w).left)) (s.windows w)).map
        (fun h => { area with
          bottom := area.top + ((frameRect s w).bottom - (frameRect s w).top) + h }) := by
  unfold applyAspectRatio
  simp only []
  rw [if_pos (by decide)]

/-- Truncation does not increase the magnitude. -/
theorem abs_truncate_le (y : ℚ) : |((truncate y : ℤ) : ℚ)| ≤ |y| := by
  unfold truncate
  by_cases h : 0 ≤ y
  · rw [if_pos h, abs_of_nonneg h]
    have h1 : (0 : ℚ) ≤ ⌊y⌋ := by exact_mod_cast Int.floor_nonneg.mpr h
    rw [abs_of_nonneg h1]
    exact Int.floor_le y
  · rw [if_neg h]
    have hneg : y < 0 := not_le.mp h
    have h1 : ((⌈y⌉ : ℤ) : ℚ) ≤ 0 := by
      have : ⌈y⌉ ≤ 0 := Int.ceil_le.mpr (by exact_mod_cast hneg.le)
      exact_mod_cast this
    rw [abs_of_nonpos h1, abs_of_neg hneg]
    have := Int.le_ceil y
    linarith

/-- The quotient by the ratio is defined for a positive ratio of integers
below `2^24` and an extent of magnitude below `2^24` whose exact quotient by
the ratio is at most `2^30` in magnitude. -/
theorem divideByRatio_defined (x : Int) (window : Window)
    (hn0 : 0 < window.numer) (hd0 : 0 < window.denom)
    (hn : window.numer < 2 ^ 24) (hd : window.denom < 2 ^ 24)
    (hx : |x| < 2 ^ 24) (hq : |x| * window.denom ≤ 2 ^ 30 * window.numer) :
    ∃ h : Int, divideByRatio x window = some h := by
  have en : f32OfInt window.numer = window.numer :=
    f32Round_int _ (by rw [abs_of_pos hn0]; exact hn)
  have ed : f32OfInt window.denom = window.denom :=
    f32Round_int _ (by rw [abs_of_pos hd0]; exact hd)
  have ex : f32OfInt x = x := f32Round_int _ hx
  have hnq : (0 : ℚ) < window.numer := by exact_mod_cast hn0
  have hdq : (0 : ℚ) < window.denom := by exact_mod_cast hd0
  have hnq1 : (1 : ℚ) ≤ window.numer := by exact_mod_cast hn0
  have hnq2 : (window.numer : ℚ) < 2 ^ 24 := by exact_mod_cast hn
  have hdq2 : (window.denom : ℚ) < 2 ^ 24 := by exact_mod_cast hd
  have hdq1 : (1 : ℚ) ≤ window.denom := by exact_mod_cast hd0
  set A : ℚ := (window.numer : ℚ) / (window.denom : ℚ) with hA
  have hApos : 0 < A := div_pos hnq hdq
  have hAabs : |A| = A := abs_of_pos hApos
  have hAhi : A ≤ 2 ^ 24 := by
    rw [hA, div_le_iff₀ hdq]
    nlinarith
  have hAlo : (2 : ℚ) ^ (-126 : ℤ) ≤ |A| := by
    rw [hAabs, hA, le_div_iff₀ hdq]
    have : (2 : ℚ) ^ (-126 : ℤ) ≤ 2 ^ (-24 : ℤ) :=
      zpow_le_zpow_right₀ (by norm_num) (by norm_num)
    have e24 : (2 : ℚ) ^ (-24 : ℤ) * 2 ^ 24 = 1 := by
      rw [zpow_neg]; norm_num
    calc (2 : ℚ) ^ (-126 : ℤ) * window.denom ≤ 2 ^ (-24 : ℤ) * 2 ^ 24 := by
          apply mul_le_mul this hdq2.le hdq.le (by positivity)
      _ = 1 := e24
      _ ≤ window.numer := hnq1
  have hc : (1 : ℚ) - 2 ^ (-24 : ℤ) = 16777215 / 16777216 := by
    rw [zpow_neg]; norm_num
  have hc2 : (1 : ℚ) + 2 ^ (-24 : ℤ) = 16777217 / 16777216 := by
    rw [zpow_neg]; norm_num
  have hsmall : (2 : ℚ) ^ (-150 : ℤ) ≤ 1 := by
    have : (2 : ℚ) ^ (-150 : ℤ) ≤ 2 ^ (0 : ℤ) :=
      zpow_le_zpow_right₀ (by norm_num) (by norm_num)
    simpa using this
  have hRlo := le_abs_f32Round A hAlo
  have hRhi := abs_f32Round_le A
  rw [hAabs, hc] at hRlo
  rw [hAabs, hc2] at hRhi
  have hRpos : 0 < |f32Round A| := lt_of_lt_of_le (by positivity) hRlo
  have hRne : f32Round A ≠ 0 := abs_pos.mp hRpos
  have hratio : aspectRatio window = some (f32Round A) := by
    unfold aspectRatio f32Div f32Finite
    rw [en, ed, if_neg (ne_of_gt hdq), if_pos]
    calc |f32Round A| ≤ A * (16777217 / 16777216) + 2 ^ (-150 : ℤ) := hRhi
      _ ≤ 2 ^ 24 * (16777217 / 16777216) + 1 := by gcongr
      _ < 2 ^ 128 := by norm_num
  -- the quotient
  have hxq : |(x : ℚ)| ≤ 2 ^ 30 * A := by
    rw [hA, mul_div_assoc', le_div_iff₀ hdq]
    have : ((|x| * window.denom : ℤ) : ℚ) ≤ ((2 ^ 30 * window.numer : ℤ) : ℚ) := by
      exact_mod_cast hq
    push_cast at this
    norm_num
    exact this
  have hquo : |(x : ℚ) / f32Round A| ≤ 2 ^ 30 * (16777216 / 16777215) := by
    rw [abs_div, div_le_iff₀ hRpos]
    calc |(x : ℚ)| ≤ 2 ^ 30 * A := hxq
      _ = 2 ^ 30 * (16777216 / 16777215) * (A * (16777215 / 16777216)) := by ring
      _ ≤ 2 ^ 30 * (16777216 / 16777215) * |f32Round A| := by gcongr
  have hQ := abs_f32Round_le ((x : ℚ) / f32Round A)
  rw [hc2] at hQ
  have hQ2 : |f32Round ((x : ℚ) / f32Round A)| < 2 ^ 31 := by
    calc |f32Round ((x : ℚ) / f32Round A)|
        ≤ |(x : ℚ) / f32Round A| * (16777217 / 16777216) + 2 ^ (-150 : ℤ) := hQ
      _ ≤ 2 ^ 30 * (16777216 / 16777215) * (16777217 / 16777216) + 1 := by gcongr
      _ < 2 ^ 31 := by norm_num
  have hdiv : f32Div (f32OfInt x) (f32Round A) = some (f32Round ((x : ℚ) / f32Round A)) := by
    unfold f32Div f32Finite
    rw [ex, if_neg hRne, if_pos]
    exact lt_trans hQ2 (by norm_num)
  have htr := abs_truncate_le (f32Round ((x : ℚ) / f32Round A))
  have htr2 : |((truncate (f32Round ((x : ℚ) / f32Round A)) : ℤ) : ℚ)| < 2 ^ 31 :=
    lt_of_le_of_lt htr hQ2
  rw [abs_lt] at htr2
  have hint : -2 ^ 31 ≤ truncate (f32Round ((x : ℚ) / f32Round A)) ∧
      truncate (f32Round ((x : ℚ) / f32Round A)) < 2 ^ 31 := by
    constructor
    · have : ((-2 ^ 31 : ℤ) : ℚ) < (truncate (f32Round ((x : ℚ) / f32Round A)) : ℚ) := by
        push_cast; exact htr2.1
      exact le_of_lt (by exact_mod_cast this)
    · have : ((truncate (f32Round ((x : ℚ) / f32Round A)) : ℤ) : ℚ) < ((2 ^ 31 : ℤ) : ℚ) := by
        push_cast; exact htr2.2
      exact_mod_cast this
  refine ⟨truncate (f32Round ((x : ℚ) / f32Round A)), ?_⟩
  unfold divideByRatio
  rw [hratio]
  simp only [Option.bind_eq_bind, Option.some_bind, hdiv, f32ToInt]
  rw [if_pos hint]

/-- C7, as amended: for every aspect ratio and every frame rect dragged by the
bottom-right corner, `applyAspectRatio` changes only the bottom of the rect,
and the content height (rect height minus the vertical frame extent) is the
single precision quotient of the content width (rect width minus the
horizontal frame extent) by the single precision ratio `numer / denom`,
truncated toward zero; that quotient is defined for every positive `numer`
and `denom` below `2^24` and every content width of magnitude below `2^24`
whose exact quotient by the ratio is at most `2^30`; with ratio 16:9, rect
(0,0,800,450) dragged to width 1000 and frame extents `(fw, fh)` with `fw`
from 0 to 1000, the new bottom is `fh + trunc((1000 - fw) * 9 / 16)`. -/
theorem aspect_ratio_bottom_right (s : Session) (w : WinId) :
    (∀ area r : RECT, applyAspectRatio s w WMSZ_BOTTOMRIGHT area = some r →
      r.left = area.left ∧ r.top = area.top ∧ r.right = area.right ∧
      divideByRatio ((area.right - area.left) - ((frameRect s w).right - (frameRect s w).left))
        (s.windows w) =
          some ((r.bottom - r.top) - ((frameRect s w).bottom - (frameRect s w).top))) ∧
    (∀ area : RECT, 0 < (s.windows w).numer → 0 < (s.windows w).denom →
      (s.windows w).numer < 2 ^ 24 → (s.windows w).denom < 2 ^ 24 →
      |(area.right - area.left) - ((frameRect s w).right - (frameRect s w).left)| < 2 ^ 24 →
      |(area.right - area.left) - ((frameRect s w).right - (frameRect s w).left)| *
        (s.windows w).denom ≤ 2 ^ 30 * (s.windows w).numer →
      ∃ r : RECT, applyAspectRatio s w WMSZ_BOTTOMRIGHT area = some r) ∧
    ((s.windows w).numer = 16 → (s.windows w).denom = 9 →
      0 ≤ (frameRect s w).right - (frameRect s w).left →
      (frameRect s w).right - (frameRect s w).left ≤ 1000 →
      applyAspectRatio s w WMSZ_BOTTOMRIGHT ⟨0, 0, 1000, 450⟩ =
        some ⟨0, 0, 1000, ((frameRect s w).bottom - (frameRect s w).top) +
          ((1000 - ((frameRect s w).right - (frameRect s w).left)) * 9) / 16⟩) := by
  refine ⟨?_, ?_, ?_⟩
  · intro area r h
    rw [applyAspectRatio_bottomRight] at h
    cases hq : divideByRatio ((area.right - area.left) -
        ((frameRect s w).right - (frameRect s w).left)) (s.windows w) with
    | none => rw [hq] at h; simp at h
    | some v =>
      rw [hq] at h
      simp only [Option.map_some', Option.some.injEq] at h
      subst h
      refine ⟨rfl, rfl, rfl, ?_⟩
      congr 1
      ring
  · intro area hn0 hd0 hn hd hx hq
    obtain ⟨h, hh⟩ := divideByRatio_defined _ (s.windows w) hn0 hd0 hn hd hx hq
    rw [applyAspectRatio_bottomRight, hh]
    exact ⟨_, rfl⟩
  · intro hn hd h0 h1
    rw [applyAspectRatio_bottomRight]
    set fw := (frameRect s w).right - (frameRect s w).left with hfw
    have hx0 : 0 ≤ 1000 - fw := by omega
    have hcast : (((1000 - fw).toNat : ℕ) : ℤ) = 1000 - fw := Int.toNat_of_nonneg hx0
    have hlt : (1000 - fw).toNat < 1001 := by omega
    have htab := divideByRatio_16_9_table ⟨(1000 - fw).toNat, hlt⟩
    simp only [] at htab
    rw [hcast] at htab
    have hcongr := divideByRatio_congr (1000 - fw) (s.windows w) { numer := 16, denom := 9 }
      hn hd
    have hval : (((1000 - fw).toNat * 9 / 16 : ℕ) : ℤ) = (1000 - fw) * 9 / 16 := by
      push_cast
      rw [hcast]
    simp only [sub_zero, hcongr, htab, Option.map_some', hval, zero_add]

/-- Witness for C7 as amended: ratio 16:9 and frame extents (16, 39) give
bottom 39 + 553. -/
theorem aspect_ratio_bottom_right_witness :
    applyAspectRatio wideSession 1 WMSZ_BOTTOMRIGHT ⟨0, 0, 1000, 450⟩ =
      some ⟨0, 0, 1000, 592⟩ :=
  (aspect_ratio_bottom_right wideSession 1).2.2 rfl rfl (by decide) (by decide)

/-! ## C8: opacity round trip -/

/-- Setting the layered style bit leaves it set. -/
theorem lor_layered_land (x : Nat) : (x ||| WS_EX_LAYERED) &&& WS_EX_LAYERED ≠ 0 := by
  intro h
  have h19 : ((x ||| WS_EX_LAYERED) &&& WS_EX_LAYERED).testBit 19 = true := by
    rw [Nat.testBit_land, Nat.testBit_lor]
    have : WS_EX_LAYERED.testBit 19 = true := by decide
    simp [this]
  rw [h] at h19
  simp at h19

/-- Clearing the layered style bit leaves it clear. -/
theorem land_mask_layered (x : Nat) :
    (x &&& (0xFFFFFFFF - WS_EX_LAYERED)) &&& WS_EX_LAYERED = 0 := by
  rw [Nat.land_assoc]
  have : (0xFFFFFFFF - WS_EX_LAYERED) &&& WS_EX_LAYERED = 0 := by decide
  rw [this]
  simp

/-- C8: for every opacity `o` from 0 to 1, `_glfwSetWindowOpacityWin32` followed
by `_glfwGetWindowOpacityWin32` returns a value within `1 / 255` of `o`; below 1
the stored alpha is the single precision product `255 * o` rounded down and the
read-back is the single precision quotient `alpha / 255`; `o = 1` reads back
exactly 1; for `o = 1 / 2` the stored alpha is 127 and the read-back is the
single precision quotient `127 / 255`. -/
theorem opacity_round_trip (s : Session) (w : WinId) (o : ℚ) (h0 : 0 ≤ o) (h1 : o ≤ 1) :
    ∃ s2 : Session, _glfwSetWindowOpacityWin32 s w o = some s2 ∧
      |_glfwGetWindowOpacityWin32 s2 w - o| ≤ 1 / 255 ∧
      (o < 1 → ((s2.windows w).layeredAlpha : ℤ) = ⌊f32Round (255 * o)⌋ ∧
        _glfwGetWindowOpacityWin32 s2 w = f32Round (((s2.windows w).layeredAlpha : ℚ) / 255)) ∧
      (o = 1 → _glfwGetWindowOpacityWin32 s2 w = 1) ∧
      (o = 1 / 2 → (s2.windows w).layeredAlpha = 127 ∧
        _glfwGetWindowOpacityWin32 s2 w = f32Round (127 / 255)) := by
  by_cases c : o < 1 ∨ (s.windows w).exStyle &&& WS_EX_TRANSPARENT ≠ 0
  · obtain ⟨alpha, ha, hfloor, _, hb⟩ := opacity_alpha_bound o h0 h1
    have hset : _glfwSetWindowOpacityWin32 s w o = some (s.setWindow w
        { s.windows w with exStyle := (s.windows w).exStyle ||| WS_EX_LAYERED,
                           layeredAlpha := alpha,
                           layeredFlags := LWA_ALPHA,
                           layeredAttributesSet := true }) := by
      unfold _glfwSetWindowOpacityWin32
      simp only [if_pos c, ha, Option.map_some']
    have hget : _glfwGetWindowOpacityWin32 (s.setWindow w
        { s.windows w with exStyle := (s.windows w).exStyle ||| WS_EX_LAYERED,
                           layeredAlpha := alpha,
                           layeredFlags := LWA_ALPHA,
                           layeredAttributesSet := true }) w = f32Round ((alpha : ℚ) / 255) := by
      unfold _glfwGetWindowOpacityWin32
      simp only [Session.setWindow, Function.update_same]
      rw [if_pos ⟨lor_layered_land _, trivial⟩, if_pos (by decide)]
    refine ⟨_, hset, ?_, ?_, ?_, ?_⟩
    · rw [hget]; exact hb
    · intro _
      rw [hget]
      exact ⟨by simpa [Session.setWindow] using hfloor, by simp [Session.setWindow]⟩
    · intro ho
      rw [hget]
      have h255 : (f32Mul 255 1).bind f32ToByte = some 255 := by decide!
      rw [ho, h255] at ha
      have : alpha = 255 := (Option.some.inj ha).symm
      rw [this]
      decide!
    · intro ho
      have h127 : (f32Mul 255 (1 / 2)).bind f32ToByte = some 127 := by decide!
      rw [ho, h127] at ha
      have : alpha = 127 := (Option.some.inj ha).symm
      rw [hget, this]
      exact ⟨by simp [Session.setWindow], by norm_num⟩
  · have hc := not_or.mp c
    have ho : o = 1 := le_antisymm h1 (not_lt.mp hc.1)
    have hset : _glfwSetWindowOpacityWin32 s w o = some (s.setWindow w
        { s.windows w with
          exStyle := (s.windows w).exStyle &&& (0xFFFFFFFF - WS_EX_LAYERED) }) := by
      unfold _glfwSetWindowOpacityWin32
      simp only [if_neg c, if_neg hc.2]
    have hget : _glfwGetWindowOpacityWin32 (s.setWindow w
        { s.windows w with
          exStyle := (s.windows w).exStyle &&& (0xFFFFFFFF - WS_EX_LAYERED) }) w = 1 := by
      unfold _glfwGetWindowOpacityWin32
      simp only [Session.setWindow, Function.update_same]
      rw [if_neg]
      intro h
      exact h.1 (land_mask_layered _)
    refine ⟨_, hset, ?_, ?_, ?_, ?_⟩
    · rw [hget, ho]; norm_num
    · intro hlt; rw [ho] at hlt; exact absurd hlt (lt_irrefl 1)
    · intro _; exact hget
    · intro h2; rw [ho] at h2; norm_num at h2

/-- Witness for C8: opacity one half on the initial session. -/
theorem opacity_round_trip_witness :
    (0 : ℚ) ≤ 1 / 2 ∧ (1 / 2 : ℚ) ≤ 1 ∧
    ∃ s2 : Session, _glfwSetWindowOpacityWin32 {} 1 (1 / 2) = some s2 ∧
      |_glfwGetWindowOpacityWin32 s2 1 - 1 / 2| ≤ 1 / 255 ∧
      ((1 / 2 : ℚ) < 1 → ((s2.windows 1).layeredAlpha : ℤ) = ⌊f32Round (255 * (1 / 2))⌋ ∧
        _glfwGetWindowOpacityWin32 s2 1 = f32Round (((s2.windows 1).layeredAlpha : ℚ) / 255)) ∧
      ((1 / 2 : ℚ) = 1 → _glfwGetWindowOpacityWin32 s2 1 = 1) ∧
      ((1 / 2 : ℚ) = 1 / 2 → (s2.windows 1).layeredAlpha = 127 ∧
        _glfwGetWindowOpacityWin32 s2 1 = f32Round (127 / 255)) :=
  ⟨by norm_num, by norm_num, opacity_round_trip {} 1 (1 / 2) (by norm_num) (by norm_num)⟩

/-! ## C9 and C10: surrogate pairs in character messages -/

/-- The two character messages are handled by the same case of `windowProc`. -/
theorem windowProc_charMessage (s : Session) (w : WinId) (sys : Bool) (wParam : Nat)
    (mods : Int) :
    windowProc s w (charMessage sys wParam mods) = windowProcChar s w sys wParam mods := by
  cases sys <;> rfl

/-- A high surrogate is buffered in the window and emits nothing. -/
theorem windowProcChar_high (s : Session) (w : WinId) (sys : Bool) (h : Nat) (mods : Int)
    (hlo : 0xD800 ≤ h) (hhi : h ≤ 0xDBFF) :
    (windowProcChar s w sys h mods).events = s.events ∧
    ((windowProcChar s w sys h mods).windows w).highSurrogate = h := by
  have hmod : h % 65536 = h := Nat.mod_eq_of_lt (by omega)
  simp [windowProcChar, hlo, hhi, Session.setWindow, hmod]

/-- The code point computed from a buffered high surrogate and a low
surrogate is the UTF-16 decoding of the pair. -/
theorem charCodepoint_pair (h l : Nat) (hlo : 0xD800 ≤ h) (hhi : h ≤ 0xDBFF)
    (llo : 0xDC00 ≤ l) (lhi : l ≤ 0xDFFF) :
    charCodepoint h l = 0x10000 + (h - 0xD800) * 0x400 + (l - 0xDC00) := by
  have hne : h ≠ 0 := by omega
  have hmod : l % 65536 = l := Nat.mod_eq_of_lt (by omega)
  unfold charCodepoint
  rw [if_pos ⟨llo, lhi⟩, if_pos hne, hmod]
  have hrange : (0 : Int) ≤ ((h : Int) - 0xd800) * 2 ^ 10 + ((l : Int) - 0xdc00) + 0x10000 ∧
      ((h : Int) - 0xd800) * 2 ^ 10 + ((l : Int) - 0xdc00) + 0x10000 < 2 ^ 32 := by
    constructor <;> omega
  rw [Int.emod_eq_of_lt hrange.1 hrange.2]
  omega

/-- A character message outside the high surrogate range clears the buffer and
hands the computed code point to the character sink, which emits it unless it
is zero. -/
theorem windowProcChar_other (s : Session) (w : WinId) (sys : Bool) (c : Nat) (mods : Int)
    (hnot : ¬ (0xD800 ≤ c ∧ c ≤ 0xDBFF)) :
    (windowProcChar s w sys c mods).events =
      (if charCodepoint (s.windows w).highSurrogate c = 0 then s.events
       else s.events ++ [Event.char w (charCodepoint (s.windows w).highSurrogate c) mods (!sys)]) ∧
    ((windowProcChar s w sys c mods).windows w).highSurrogate = 0 := by
  unfold windowProcChar
  simp only [hnot, if_false]
  unfold _glfwInputChar
  split_ifs <;> simp [Session.emit, Session.setWindow]

/-- C9: for every high surrogate `h` followed by a low surrogate `l` as two
consecutive character messages on one window, the first message emits no
event and buffers `h`, and the second emits exactly one character event whose
code point is `0x10000 + (h - 0xD800) * 0x400 + (l - 0xDC00)`, which lies
between `0x10000` and `0x10FFFF`; afterwards the pending high surrogate of the
window is cleared. -/
theorem surrogate_pair_decoded (s : Session) (w : WinId) (sys1 sys2 : Bool) (h l : Nat) (mods1 mods2 : Int)
    (hlo : 0xD800 ≤ h) (hhi : h ≤ 0xDBFF) (llo : 0xDC00 ≤ l) (lhi : l ≤ 0xDFFF) :
    (windowProc s w (charMessage sys1 h mods1)).events = s.events ∧
    ((windowProc s w (charMessage sys1 h mods1)).windows w).highSurrogate = h ∧
    (windowProc (windowProc s w (charMessage sys1 h mods1)) w (charMessage sys2 l mods2)).events =
      s.events ++ [Event.char w (0x10000 + (h - 0xD800) * 0x400 + (l - 0xDC00)) mods2 (!sys2)] ∧
    0x10000 ≤ 0x10000 + (h - 0xD800) * 0x400 + (l - 0xDC00) ∧
    0x10000 + (h - 0xD800) * 0x400 + (l - 0xDC00) ≤ 0x10FFFF ∧
    ((windowProc (windowProc s w (charMessage sys1 h mods1)) w
      (charMessage sys2 l mods2)).windows w).highSurrogate = 0 := by
  obtain ⟨a1, a2⟩ := windowProcChar_high s w sys1 h mods1 hlo hhi
  have hnot : ¬ (0xD800 ≤ l ∧ l ≤ 0xDBFF) := by omega
  obtain ⟨b1, b2⟩ := windowProcChar_other (windowProcChar s w sys1 h mods1) w sys2 l mods2 hnot
  have hcp := charCodepoint_pair h l hlo hhi llo lhi
  have hne : 0x10000 + (h - 0xD800) * 0x400 + (l - 0xDC00) ≠ 0 := by omega
  rw [windowProc_charMessage, windowProc_charMessage]
  refine ⟨a1, a2, ?_, by omega, by omega, b2⟩
  rw [b1, a2, hcp, if_neg hne, a1]

/-- C10: a low surrogate arriving when the window has no pending high surrogate
emits no event at all; a character that is no surrogate is handed to the
character sink unchanged whatever high surrogate is pending, so that the
pending surrogate contributes to no emitted code point, and the buffer is
cleared; a high surrogate replaces the pending one without any event. -/
theorem unpaired_surrogate_dropped (s : Session) (w : WinId) (sys : Bool) (mods : Int) :
    (∀ l : Nat, 0xDC00 ≤ l → l ≤ 0xDFFF → (s.windows w).highSurrogate = 0 →
      (windowProc s w (charMessage sys l mods)).events = s.events ∧
      ((windowProc s w (charMessage sys l mods)).windows w).highSurrogate = 0) ∧
    (∀ c : Nat, c < 0x10000 → ¬ (0xD800 ≤ c ∧ c ≤ 0xDFFF) →
      (windowProc s w (charMessage sys c mods)).events =
        (if c = 0 then s.events else s.events ++ [Event.char w c mods (!sys)]) ∧
      ((windowProc s w (charMessage sys c mods)).windows w).highSurrogate = 0) ∧
    (∀ h2 : Nat, 0xD800 ≤ h2 → h2 ≤ 0xDBFF →
      (windowProc s w (charMessage sys h2 mods)).events = s.events ∧
      ((windowProc s w (charMessage sys h2 mods)).windows w).highSurrogate = h2) := by
  refine ⟨?_, ?_, ?_⟩
  · intro l llo lhi hs
    have hnot : ¬ (0xD800 ≤ l ∧ l ≤ 0xDBFF) := by omega
    obtain ⟨b1, b2⟩ := windowProcChar_other s w sys l mods hnot
    rw [windowProc_charMessage]
    refine ⟨?_, b2⟩
    rw [b1, hs]
    simp [charCodepoint, llo, lhi]
  · intro c hc hns
    have hnot : ¬ (0xD800 ≤ c ∧ c ≤ 0xDBFF) := by omega
    obtain ⟨b1, b2⟩ := windowProcChar_other s w sys c mods hnot
    have hcp : charCodepoint (s.windows w).highSurrogate c = c := by
      have hnl : ¬ (0xdc00 ≤ c ∧ c ≤ 0xdfff) := by omega
      unfold charCodepoint
      rw [if_neg hnl]
      exact Nat.mod_eq_of_lt hc
    rw [windowProc_charMessage]
    exact ⟨by rw [b1, hcp], b2⟩
  · intro h2 hlo hhi
    rw [windowProc_charMessage]
    exact windowProcChar_high s w sys h2 mods hlo hhi

/-- Witness for C9: the pair D83D DE00 decodes to U+1F600. -/
theorem surrogate_pair_decoded_witness :
    0xD800 ≤ 0xD83D ∧ 0xD83D ≤ 0xDBFF ∧ 0xDC00 ≤ 0xDE00 ∧ 0xDE00 ≤ 0xDFFF ∧
    (windowProc {} 1 (charMessage false 0xD83D 0)).events = ({} : Session).events ∧
    ((windowProc {} 1 (charMessage false 0xD83D 0)).windows 1).highSurrogate = 0xD83D ∧
    (windowProc (windowProc {} 1 (charMessage false 0xD83D 0)) 1
        (charMessage false 0xDE00 0)).events =
      ({} : Session).events ++ [Event.char 1 0x1F600 0 true] ∧
    0x10000 ≤ 0x10000 + (0xD83D - 0xD800) * 0x400 + (0xDE00 - 0xDC00) ∧
    0x10000 + (0xD83D - 0xD800) * 0x400 + (0xDE00 - 0xDC00) ≤ 0x10FFFF ∧
    ((windowProc (windowProc {} 1 (charMessage false 0xD83D 0)) 1
      (charMessage false 0xDE00 0)).windows 1).highSurrogate = 0 :=
  ⟨by decide, by decide, by decide, by decide,
    surrogate_pair_decoded {} 1 false false 0xD83D 0xDE00 0 0
      (by decide) (by decide) (by decide) (by decide)⟩

/-- Witness for C10: a lone low surrogate DE00 on the initial session emits
nothing. -/
theorem unpaired_surrogate_dropped_witness :
    (windowProc {} 1 (charMessage false 0xDE00 0)).events = ({} : Session).events ∧
    ((windowProc {} 1 (charMessage false 0xDE00 0)).windows 1).highSurrogate = 0 :=
  (unpaired_surrogate_dropped {} 1 false 0).1 0xDE00 (by decide) (by decide) rfl

/-! ## C11: the generic Control key -/

/-- The key case of `windowProc` for a message that reports a logical key and is
neither a Shift release nor Print Screen: one key notification. -/
theorem windowProcKey_plain (s : Session) (w : WinId) (k : KeyMsg) (key : Int)
    (hkey : keyLogical s k = some key) (hshift : k.wParam ≠ VK_SHIFT)
    (hsnap : k.wParam ≠ VK_SNAPSHOT) :
    windowProcKey s w k = _glfwInputKey s w key (keyScancode k) (keyAction k) k.mods := by
  unfold windowProcKey
  rw [hkey]
  simp only [keyAction]
  rw [if_neg (fun h => hshift h.2), if_neg hsnap]

/-- The key case of `windowProc` for a message that reports no logical key. -/
theorem windowProcKey_none (s : Session) (w : WinId) (k : KeyMsg)
    (hkey : keyLogical s k = none) : windowProcKey s w k = s := by
  unfold windowProcKey
  rw [hkey]

/-- C11: for every key message whose virtual key is the generic Control key:
with the extended-key bit set, one key notification with logical key
`RIGHT_CONTROL` is emitted; otherwise, when the next queued message is a key
message for the Alt virtual key with the extended bit set and the same time
stamp, nothing is emitted and the session is unchanged, so that this message
followed by that right Alt message yields the single key notification of the
right Alt message; otherwise one key notification with logical key
`LEFT_CONTROL` is emitted. -/
theorem control_key_disambiguated (s : Session) (w : WinId) (k : KeyMsg)
    (hctrl : k.wParam = VK_CONTROL) :
    (k.hiword &&& KF_EXTENDED ≠ 0 →
      (windowProc s w (Msg.WM_KEY k)).events = s.events ++
        [Event.key w GLFW_KEY_RIGHT_CONTROL (keyScancode k) (keyAction k) k.mods]) ∧
    (k.hiword &&& KF_EXTENDED = 0 → nextIsRightAlt k = true →
      windowProc s w (Msg.WM_KEY k) = s ∧
      ∀ a : KeyMsg, a.wParam = VK_MENU →
        (windowProc (windowProc s w (Msg.WM_KEY k)) w (Msg.WM_KEY a)).events = s.events ++
          [Event.key w (s.keycodes (keyScancode a)) (keyScancode a) (keyAction a) a.mods]) ∧
    (k.hiword &&& KF_EXTENDED = 0 → nextIsRightAlt k = false →
      (windowProc s w (Msg.WM_KEY k)).events = s.events ++
        [Event.key w GLFW_KEY_LEFT_CONTROL (keyScancode k) (keyAction k) k.mods]) := by
  have hshift : k.wParam ≠ VK_SHIFT := by rw [hctrl]; decide
  have hsnap : k.wParam ≠ VK_SNAPSHOT := by rw [hctrl]; decide
  refine ⟨?_, ?_, ?_⟩
  · intro hext
    have hkey : keyLogical s k = some GLFW_KEY_RIGHT_CONTROL := by
      unfold keyLogical
      rw [if_pos hctrl, if_pos hext]
    show (windowProcKey s w k).events = _
    rw [windowProcKey_plain s w k _ hkey hshift hsnap]
    exact (inputKey_fields s w _ _ _ _).1
  · intro hext hnext
    have hkey : keyLogical s k = none := by
      unfold keyLogical
      rw [if_pos hctrl, if_neg (by simpa using hext)]
      unfold nextIsRightAlt at hnext
      cases hk : k.next with
      | none => rw [hk] at hnext; simp at hnext
      | some next =>
        rw [hk] at hnext
        simp only [Bool.and_eq_true, decide_eq_true_eq] at hnext
        obtain ⟨⟨⟨h1, h2⟩, h3⟩, h4⟩ := hnext
        simp only
        rw [if_pos ⟨h1, h2, h3, h4⟩]
    have hk0 : windowProc s w (Msg.WM_KEY k) = s := windowProcKey_none s w k hkey
    refine ⟨hk0, ?_⟩
    intro a ha
    rw [hk0]
    have hakey : keyLogical s a = some (s.keycodes (keyScancode a)) := by
      unfold keyLogical
      rw [if_neg (by rw [ha]; decide), if_neg (by rw [ha]; decide)]
    show (windowProcKey s w a).events = _
    rw [windowProcKey_plain s w a _ hakey (by rw [ha]; decide) (by rw [ha]; decide)]
    exact (inputKey_fields s w _ _ _ _).1
  · intro hext hnext
    have hkey : keyLogical s k = some GLFW_KEY_LEFT_CONTROL := by
      unfold keyLogical
      rw [if_pos hctrl, if_neg (by simpa using hext)]
      unfold nextIsRightAlt at hnext
      cases hk : k.next with
      | none => rfl
      | some next =>
        rw [hk] at hnext
        simp only
        rw [if_neg]
        intro ⟨h1, h2, h3, h4⟩
        simp [h1, h2, h3, h4] at hnext
    show (windowProcKey s w k).events = _
    rw [windowProcKey_plain s w k _ hkey hshift hsnap]
    exact (inputKey_fields s w _ _ _ _).1

/-- Witness for C11: the Control message that precedes the right Alt message
of AltGr is dropped, and the pair yields the right Alt notification alone. -/
theorem control_key_disambiguated_witness :
    altGrControlMsg.wParam = VK_CONTROL ∧
    windowProc {} 1 (Msg.WM_KEY altGrControlMsg) = {} ∧
    (windowProc (windowProc {} 1 (Msg.WM_KEY altGrControlMsg)) 1
        (Msg.WM_KEY rightAltDownMsg)).events =
      [Event.key 1 (-1) 0x138 GLFW_PRESS 0] :=
  ⟨rfl, ((control_key_disambiguated {} 1 altGrControlMsg rfl).2.1 (by decide) (by decide)).1,
    ((control_key_disambiguated {} 1 altGrControlMsg rfl).2.1 (by decide) (by decide)).2
      rightAltDownMsg rfl⟩

/-! ## C12: focus loss and focus gain in disabled and captured mode -/

/-- What `enableCursor` leaves behind: no disabled-cursor window, no captured
cursor window, no clip; of the windows only the tracked pointer position of
the window itself is written. -/
theorem enableCursor_fields (s : Session) (w : WinId) :
    (enableCursor s w).disabledCursorWindow = none ∧
    (enableCursor s w).capturedCursorWindow = none ∧
    (enableCursor s w).clipRect = none ∧
    (enableCursor s w).events = s.events ∧
    (enableCursor s w).calls = s.calls ∧
    (enableCursor s w).monitorWindow = s.monitorWindow ∧
    (enableCursor s w).acquiredMonitorCount = s.acquiredMonitorCount ∧
    (enableCursor s w).windows = Function.update s.windows w
      { s.windows w with lastCursorPosX := s.restoreCursorPosX,
                         lastCursorPosY := s.restoreCursorPosY } := by
  unfold enableCursor updateCursorImage _glfwSetCursorPosWin32 SetCursorPos releaseCursor
    disableRawMouseMotion Session.setWindow
  by_cases hraw : (s.windows w).rawMouseMotion = true <;>
    simp only [hraw, if_true, if_false, Bool.false_eq_true] <;>
    (split_ifs <;> (try split) <;> simp)

/-- What `captureCursor` leaves behind: the clip to the content area of the
window in screen coordinates, with the window as captured-cursor window. -/
theorem captureCursor_fields (s : Session) (w : WinId) :
    (captureCursor s w).clipRect = some
      ⟨0 + (s.windows w).clientOrigin.x, 0 + (s.windows w).clientOrigin.y,
       (s.windows w).clientWidth + (s.windows w).clientOrigin.x,
       (s.windows w).clientHeight + (s.windows w).clientOrigin.y⟩ ∧
    (captureCursor s w).capturedCursorWindow = some w ∧
    (captureCursor s w).disabledCursorWindow = s.disabledCursorWindow ∧
    (captureCursor s w).events = s.events ∧
    (captureCursor s w).calls = s.calls ∧
    (captureCursor s w).windows = s.windows := by
  simp [captureCursor, GetClientRect, ClientToScreen]

/-- What `disableCursor` leaves behind: the window is the disabled-cursor and
the captured-cursor window and the clip is its content area in screen
coordinates; of the windows only the tracked pointer position of the window
itself is written. -/
theorem disableCursor_fields (s : Session) (w : WinId) :
    (disableCursor s w).disabledCursorWindow = some w ∧
    (disableCursor s w).capturedCursorWindow = some w ∧
    (disableCursor s w).clipRect = some
      ⟨0 + (s.windows w).clientOrigin.x, 0 + (s.windows w).clientOrigin.y,
       (s.windows w).clientWidth + (s.windows w).clientOrigin.x,
       (s.windows w).clientHeight + (s.windows w).clientOrigin.y⟩ ∧
    (disableCursor s w).events = s.events ∧
    (disableCursor s w).calls = s.calls ∧
    (disableCursor s w).windows = Function.update s.windows w
      { s.windows w with lastCursorPosX := Int.tdiv (s.windows w).clientWidth 2,
                         lastCursorPosY := Int.tdiv (s.windows w).clientHeight 2 } := by
  have hsave : ∀ t : Session, (saveRestoreCursorPos t w).windows = t.windows ∧
      (saveRestoreCursorPos t w).events = t.events ∧
      (saveRestoreCursorPos t w).calls = t.calls := by
    intro t
    unfold saveRestoreCursorPos
    split <;> simp
  unfold disableCursor
  simp only [condEnableRaw_fields, captureCursor_fields, _glfwCenterCursorInContentArea,
    setCursorPos_fields, updateCursorImage_fields, hsave, _glfwGetWindowSizeWin32,
    GetClientRect]
  refine ⟨?_, trivial, ?_, trivial, trivial, trivial⟩
  · cases h : ((captureCursor (_glfwSetCursorPosWin32 (updateCursorImage (saveRestoreCursorPos
        { s with disabledCursorWindow := some w } w) w) w
        (Int.tdiv (s.windows w).clientWidth 2) (Int.tdiv (s.windows w).clientHeight 2)) w).windows
        w).rawMouseMotion <;> simp [enableRawMouseMotion, captureCursor_fields,
          setCursorPos_fields, updateCursorImage_fields, saveRestoreCursorPos] <;>
      (split <;> simp)
  · simp

/-- The focus notification writes the event stream only. -/
theorem inputWindowFocus_fields (s : Session) (w : WinId) (f : Bool) :
    (_glfwInputWindowFocus s w f).clipRect = s.clipRect ∧
    (_glfwInputWindowFocus s w f).capturedCursorWindow = s.capturedCursorWindow ∧
    (_glfwInputWindowFocus s w f).disabledCursorWindow = s.disabledCursorWindow ∧
    (_glfwInputWindowFocus s w f).windows = s.windows :=
  ⟨rfl, rfl, rfl, rfl⟩

/-- The iconification on focus loss writes the request list only. -/
theorem condIconify_fields (s : Session) (w : WinId) (c : Prop) [Decidable c] :
    (if c then _glfwIconifyWindowWin32 s w else s).clipRect = s.clipRect ∧
    (if c then _glfwIconifyWindowWin32 s w else s).capturedCursorWindow =
      s.capturedCursorWindow ∧
    (if c then _glfwIconifyWindowWin32 s w else s).disabledCursorWindow =
      s.disabledCursorWindow ∧
    (if c then _glfwIconifyWindowWin32 s w else s).windows = s.windows := by
  by_cases h : c <;> simp [h, _glfwIconifyWindowWin32, Session.call]

/-- Focus loss in disabled mode. -/
theorem killFocus_disabled (s : Session) (w : WinId)
    (hmode : (s.windows w).cursorMode = CursorMode.DISABLED) :
    (windowProc s w Msg.WM_KILLFOCUS).clipRect = none ∧
    (windowProc s w Msg.WM_KILLFOCUS).capturedCursorWindow = none ∧
    (windowProc s w Msg.WM_KILLFOCUS).disabledCursorWindow = none ∧
    (windowProc s w Msg.WM_KILLFOCUS).windows = Function.update s.windows w
      { s.windows w with lastCursorPosX := s.restoreCursorPosX,
                         lastCursorPosY := s.restoreCursorPosY } := by
  unfold windowProc
  simp only [if_pos hmode, inputWindowFocus_fields, condIconify_fields]
  obtain ⟨h1, h2, h3, _, _, _, _, h8⟩ := enableCursor_fields s w
  exact ⟨h3, h2, h1, h8⟩

/-- Focus loss in captured mode. -/
theorem killFocus_captured (s : Session) (w : WinId)
    (hmode : (s.windows w).cursorMode = CursorMode.CAPTURED) :
    (windowProc s w Msg.WM_KILLFOCUS).clipRect = none ∧
    (windowProc s w Msg.WM_KILLFOCUS).capturedCursorWindow = none ∧
    (windowProc s w Msg.WM_KILLFOCUS).disabledCursorWindow = s.disabledCursorWindow ∧
    (windowProc s w Msg.WM_KILLFOCUS).windows = s.windows := by
  have hne : ¬ CursorMode.CAPTURED = CursorMode.DISABLED := by decide
  have hnd : ¬ (s.windows w).cursorMode = CursorMode.DISABLED := by rw [hmode]; exact hne
  unfold windowProc
  simp only [if_neg hnd, if_pos hmode, inputWindowFocus_fields, condIconify_fields]
  exact ⟨rfl, rfl, rfl, rfl⟩

/-- Focus gain without a pending frame action, in disabled or captured mode. -/
theorem setFocus_fields (s : Session) (w : WinId) (hframe : (s.windows w).frameAction = false)
    (hmode : (s.windows w).cursorMode = CursorMode.DISABLED ∨
      (s.windows w).cursorMode = CursorMode.CAPTURED) :
    (windowProc s w Msg.WM_SETFOCUS).clipRect = some (contentRectOnScreen s w) ∧
    (windowProc s w Msg.WM_SETFOCUS).capturedCursorWindow = some w ∧
    ((s.windows w).cursorMode = CursorMode.DISABLED →
      (windowProc s w Msg.WM_SETFOCUS).disabledCursorWindow = some w) := by
  have hne : ¬ CursorMode.CAPTURED = CursorMode.DISABLED := by decide
  have hw : (_glfwInputWindowFocus s w true).windows = s.windows := rfl
  have hrect : (⟨0 + (s.windows w).clientOrigin.x, 0 + (s.windows w).clientOrigin.y,
       (s.windows w).clientWidth + (s.windows w).clientOrigin.x,
       (s.windows w).clientHeight + (s.windows w).clientOrigin.y⟩ : RECT) =
       contentRectOnScreen s w := by
    simp [contentRectOnScreen, add_comm]
  have hnf : ¬ ((_glfwInputWindowFocus s w true).windows w).frameAction = true := by
    rw [hw, hframe]; decide
  rcases hmode with hmode | hmode
  · have hm : ((_glfwInputWindowFocus s w true).windows w).cursorMode =
        CursorMode.DISABLED := by rw [hw]; exact hmode
    unfold windowProc
    simp only [if_neg hnf, if_pos hm]
    obtain ⟨h1, h2, h3, _⟩ := disableCursor_fields (_glfwInputWindowFocus s w true) w
    rw [hw] at h3
    exact ⟨h3.trans (congrArg some hrect), h2, fun _ => h1⟩
  · have hm : ((_glfwInputWindowFocus s w true).windows w).cursorMode =
        CursorMode.CAPTURED := by rw [hw]; exact hmode
    have hnd : ¬ ((_glfwInputWindowFocus s w true).windows w).cursorMode =
        CursorMode.DISABLED := by rw [hm]; exact hne
    unfold windowProc
    simp only [if_neg hnf, if_neg hnd, if_pos hm]
    obtain ⟨h1, h2, _⟩ := captureCursor_fields (_glfwInputWindowFocus s w true) w
    rw [hw] at h1
    exact ⟨h1.trans (congrArg some hrect), h2, fun h => absurd (hmode.symm.trans h) (by decide)⟩

/-- Focus loss and focus gain where the references match the mode: for every
window in `DISABLED` mode, and every window in `CAPTURED` mode that is not at
the same time the disabled-cursor window, after
it handles a focus-loss message no pointer clip is in effect and neither the
captured-cursor window nor the disabled-cursor window refers to it; after it
then handles a focus-gain message with no caption-button frame action pending
the clip to its content area is in effect again and it is again the
captured-cursor window, and, in `DISABLED` mode, again the disabled-cursor
window. -/
theorem focus_loss_suspends_focus_gain_restores (s : Session) (w : WinId)
    (hmode : (s.windows w).cursorMode = CursorMode.DISABLED ∨
      ((s.windows w).cursorMode = CursorMode.CAPTURED ∧ s.disabledCursorWindow ≠ some w)) :
    (windowProc s w Msg.WM_KILLFOCUS).clipRect = none ∧
    (windowProc s w Msg.WM_KILLFOCUS).capturedCursorWindow ≠ some w ∧
    (windowProc s w Msg.WM_KILLFOCUS).disabledCursorWindow ≠ some w ∧
    ((s.windows w).frameAction = false →
      (windowProc (windowProc s w Msg.WM_KILLFOCUS) w Msg.WM_SETFOCUS).clipRect =
        some (contentRectOnScreen s w) ∧
      (windowProc (windowProc s w Msg.WM_KILLFOCUS) w Msg.WM_SETFOCUS).capturedCursorWindow =
        some w ∧
      ((s.windows w).cursorMode = CursorMode.DISABLED →
        (windowProc (windowProc s w Msg.WM_KILLFOCUS) w
          Msg.WM_SETFOCUS).disabledCursorWindow = some w)) := by
  rcases hmode with hmode | ⟨hmode, hdis⟩
  · obtain ⟨h1, h2, h3, h4⟩ := killFocus_disabled s w hmode
    refine ⟨h1, by rw [h2]; simp, by rw [h3]; simp, ?_⟩
    intro hframe
    have hwin : (windowProc s w Msg.WM_KILLFOCUS).windows w =
        { s.windows w with lastCursorPosX := s.restoreCursorPosX,
                           lastCursorPosY := s.restoreCursorPosY } := by
      rw [h4]; simp
    have hm : ((windowProc s w Msg.WM_KILLFOCUS).windows w).cursorMode =
        CursorMode.DISABLED := by rw [hwin]; exact hmode
    have hf : ((windowProc s w Msg.WM_KILLFOCUS).windows w).frameAction = false := by
      rw [hwin]; exact hframe
    obtain ⟨k1, k2, k3⟩ := setFocus_fields _ w hf (Or.inl hm)
    refine ⟨?_, k2, fun _ => k3 hm⟩
    rw [k1]
    simp [contentRectOnScreen, hwin]
  · obtain ⟨h1, h2, h3, h4⟩ := killFocus_captured s w hmode
    refine ⟨h1, by rw [h2]; simp, by rw [h3]; exact hdis, ?_⟩
    intro hframe
    have hm : ((windowProc s w Msg.WM_KILLFOCUS).windows w).cursorMode =
        CursorMode.CAPTURED := by rw [h4]; exact hmode
    have hf : ((windowProc s w Msg.WM_KILLFOCUS).windows w).frameAction = false := by
      rw [h4]; exact hframe
    obtain ⟨k1, k2, _⟩ := setFocus_fields _ w hf (Or.inr hm)
    refine ⟨?_, k2, fun h => absurd (hmode.symm.trans h) (by decide)⟩
    rw [k1]
    simp [contentRectOnScreen, h4]

/-- C12: window 1 of `focusedSession` enters disabled mode, an interactive move
of the window starts, the window loses focus during the move loop, and the
loop ends: the `WM_EXITSIZEMOVE` case calls `disableCursor` although the window
has no focus, so the window is the disabled-cursor window and the pointer is
clipped to its content area while no window of the session is active.
Captured mode is then selected, which without focus records the mode only, and
the window gains focus: in `strayDisabledSession` it is in `CAPTURED` mode and
is both the captured-cursor and the disabled-cursor window.  After it handles
a focus-loss message the clip is released and the captured-cursor window is
null, but the disabled-cursor window still refers to it. -/
theorem focus_loss_keeps_stray_disabled_window :
    unfocusedExitSizeMoveSession.activeWindow = none ∧
    (unfocusedExitSizeMoveSession.windows 1).cursorMode = CursorMode.DISABLED ∧
    unfocusedExitSizeMoveSession.disabledCursorWindow = some 1 ∧
    unfocusedExitSizeMoveSession.clipRect = some ⟨100, 50, 740, 530⟩ ∧
    (strayDisabledSession.windows 1).cursorMode = CursorMode.CAPTURED ∧
    strayDisabledSession.capturedCursorWindow = some 1 ∧
    strayDisabledSession.disabledCursorWindow = some 1 ∧
    (windowProc strayDisabledSession 1 Msg.WM_KILLFOCUS).clipRect = none ∧
    (windowProc strayDisabledSession 1 Msg.WM_KILLFOCUS).capturedCursorWindow = none ∧
    (windowProc strayDisabledSession 1 Msg.WM_KILLFOCUS).disabledCursorWindow = some 1 := by
  decide

/-- An instance of `focus_loss_suspends_focus_gain_restores`: the captured
window of `capturedSession` loses and regains focus. -/
theorem focus_loss_suspends_focus_gain_restores_witness :
    ((capturedSession.windows 1).cursorMode = CursorMode.DISABLED ∨
      ((capturedSession.windows 1).cursorMode = CursorMode.CAPTURED ∧
        capturedSession.disabledCursorWindow ≠ some 1)) ∧
    (windowProc capturedSession 1 Msg.WM_KILLFOCUS).clipRect = none ∧
    (windowProc capturedSession 1 Msg.WM_KILLFOCUS).capturedCursorWindow ≠ some 1 ∧
    (windowProc capturedSession 1 Msg.WM_KILLFOCUS).disabledCursorWindow ≠ some 1 ∧
    ((capturedSession.windows 1).frameAction = false →
      (windowProc (windowProc capturedSession 1 Msg.WM_KILLFOCUS) 1 Msg.WM_SETFOCUS).clipRect =
        some (contentRectOnScreen capturedSession 1) ∧
      (windowProc (windowProc capturedSession 1 Msg.WM_KILLFOCUS) 1
        Msg.WM_SETFOCUS).capturedCursorWindow = some 1 ∧
      ((capturedSession.windows 1).cursorMode = CursorMode.DISABLED →
        (windowProc (windowProc capturedSession 1 Msg.WM_KILLFOCUS) 1
          Msg.WM_SETFOCUS).disabledCursorWindow = some 1)) :=
  ⟨Or.inr ⟨rfl, by decide⟩,
    focus_loss_suspends_focus_gain_restores capturedSession 1 (Or.inr ⟨rfl, by decide⟩)⟩

/-! ## C13: destroying a window -/

/-- The function `releaseMonitor` leaves the cursor references, the clip and the
windows alone. -/
theorem releaseMonitor_frame (s : Session) (w : WinId) (m : MonId) :
    (releaseMonitor s w m).disabledCursorWindow = s.disabledCursorWindow ∧
    (releaseMonitor s w m).capturedCursorWindow = s.capturedCursorWindow ∧
    (releaseMonitor s w m).clipRect = s.clipRect ∧
    (releaseMonitor s w m).windows = s.windows := by
  unfold releaseMonitor
  by_cases hm : s.monitorWindow m = some w <;> by_cases hc : s.acquiredMonitorCount - 1 = 0 <;>
    simp [hc, hm, _glfwInputMonitorWindow, Session.call]

/-- The steps of `_glfwDestroyWindowWin32` one after the other. -/
theorem destroyWindow_stages (s : Session) (w : WinId) :
    ∃ s1 s2 s3 s4 s5 s6 : Session,
      s1 = (match (s.windows w).monitor with
            | some m => releaseMonitor s w m
            | none => s) ∧
      s2 = (if (s1.windows w).contextDestroy then s1.call (OsCall.DestroyContext w) else s1) ∧
      s3 = (if s2.disabledCursorWindow = some w then enableCursor s2 w else s2) ∧
      s4 = (if s3.capturedCursorWindow = some w then releaseCursor s3 else s3) ∧
      s5 = (if (s4.windows w).handle then
              (s4.call (OsCall.DestroyWindow w)).setWindow w { s4.windows w with handle := false }
            else s4) ∧
      s6 = (match (s5.windows w).bigIcon with
            | some icon => s5.call (OsCall.DestroyIcon icon)
            | none => s5) ∧
      _glfwDestroyWindowWin32 s w =
        (match (s6.windows w).smallIcon with
         | some icon => s6.call (OsCall.DestroyIcon icon)
         | none => s6) :=
  ⟨_, _, _, _, _, _, rfl, rfl, rfl, rfl, rfl, rfl, rfl⟩

/-- C13: for every window `w` and every session, after
`_glfwDestroyWindowWin32` neither the disabled-cursor window nor the
captured-cursor window refers to `w`; if either did, no pointer clip remains,
and if neither did, the two references and the clip are as before; if `w` was
the owner of its monitor, that monitor has no owning window and the
acquired-monitor counter is one less, and otherwise the owner table and the
counter are as before; the other windows and the owning-window references of
the other monitors are unchanged. -/
theorem destroy_window_releases (s : Session) (w : WinId) :
    (_glfwDestroyWindowWin32 s w).disabledCursorWindow ≠ some w ∧
    (_glfwDestroyWindowWin32 s w).capturedCursorWindow ≠ some w ∧
    (s.disabledCursorWindow = some w ∨ s.capturedCursorWindow = some w →
      (_glfwDestroyWindowWin32 s w).clipRect = none) ∧
    (s.disabledCursorWindow ≠ some w → s.capturedCursorWindow ≠ some w →
      (_glfwDestroyWindowWin32 s w).clipRect = s.clipRect ∧
      (_glfwDestroyWindowWin32 s w).disabledCursorWindow = s.disabledCursorWindow ∧
      (_glfwDestroyWindowWin32 s w).capturedCursorWindow = s.capturedCursorWindow) ∧
    (∀ m, (s.windows w).monitor = some m → s.monitorWindow m = some w →
      (_glfwDestroyWindowWin32 s w).monitorWindow m = none ∧
      (_glfwDestroyWindowWin32 s w).acquiredMonitorCount = s.acquiredMonitorCount - 1) ∧
    ((∀ m, (s.windows w).monitor = some m → s.monitorWindow m ≠ some w) →
      (_glfwDestroyWindowWin32 s w).monitorWindow = s.monitorWindow ∧
      (_glfwDestroyWindowWin32 s w).acquiredMonitorCount = s.acquiredMonitorCount) ∧
    (∀ w2, w2 ≠ w → (_glfwDestroyWindowWin32 s w).windows w2 = s.windows w2) ∧
    (∀ m2, (s.windows w).monitor ≠ some m2 →
      (_glfwDestroyWindowWin32 s w).monitorWindow m2 = s.monitorWindow m2) := by
  obtain ⟨s1, s2, s3, s4, s5, s6, e1, e2, e3, e4, e5, e6, e7⟩ := destroyWindow_stages s w
  -- the monitor release
  have a1 : s1.disabledCursorWindow = s.disabledCursorWindow ∧
      s1.capturedCursorWindow = s.capturedCursorWindow ∧ s1.clipRect = s.clipRect ∧
      s1.windows = s.windows := by
    rw [e1]; split
    · exact releaseMonitor_frame s w _
    · exact ⟨rfl, rfl, rfl, rfl⟩
  -- the context destruction
  have a2 : s2.disabledCursorWindow = s1.disabledCursorWindow ∧
      s2.capturedCursorWindow = s1.capturedCursorWindow ∧ s2.clipRect = s1.clipRect ∧
      s2.windows = s1.windows ∧ s2.monitorWindow = s1.monitorWindow ∧
      s2.acquiredMonitorCount = s1.acquiredMonitorCount := by
    rw [e2]; split_ifs <;> exact ⟨rfl, rfl, rfl, rfl, rfl, rfl⟩
  -- the cursor release
  have a3 : s3.disabledCursorWindow ≠ some w ∧
      (s2.disabledCursorWindow = some w →
        s3.capturedCursorWindow = none ∧ s3.clipRect = none) ∧
      (s2.disabledCursorWindow ≠ some w → s3 = s2) ∧
      s3.monitorWindow = s2.monitorWindow ∧
      s3.acquiredMonitorCount = s2.acquiredMonitorCount ∧
      (∀ w2, w2 ≠ w → s3.windows w2 = s2.windows w2) := by
    rw [e3]
    by_cases hd : s2.disabledCursorWindow = some w
    · rw [if_pos hd]
      obtain ⟨h1, h2, h3, _, _, h6, h7, h8⟩ := enableCursor_fields s2 w
      refine ⟨by rw [h1]; simp, fun _ => ⟨h2, h3⟩, fun h => absurd hd h, h6, h7, ?_⟩
      intro w2 hw2
      rw [h8, Function.update_noteq hw2]
    · rw [if_neg hd]
      exact ⟨hd, fun h => absurd h hd, fun _ => rfl, rfl, rfl, fun _ _ => rfl⟩
  have a4 : s4.capturedCursorWindow ≠ some w ∧
      s4.disabledCursorWindow = s3.disabledCursorWindow ∧
      (s3.capturedCursorWindow = some w → s4.clipRect = none) ∧
      (s3.capturedCursorWindow ≠ some w → s4 = s3) ∧
      (s3.clipRect = none → s4.clipRect = none) ∧
      s4.monitorWindow = s3.monitorWindow ∧
      s4.acquiredMonitorCount = s3.acquiredMonitorCount ∧
      s4.windows = s3.windows := by
    rw [e4]
    by_cases hc : s3.capturedCursorWindow = some w
    · rw [if_pos hc]
      exact ⟨by simp [releaseCursor], rfl, fun _ => rfl, fun h => absurd hc h, fun _ => rfl,
        rfl, rfl, rfl⟩
    · rw [if_neg hc]
      exact ⟨hc, rfl, fun h => absurd h hc, fun _ => rfl, fun h => h, rfl, rfl, rfl⟩
  -- the native window and the icons
  have a5 : s5.disabledCursorWindow = s4.disabledCursorWindow ∧
      s5.capturedCursorWindow = s4.capturedCursorWindow ∧ s5.clipRect = s4.clipRect ∧
      s5.monitorWindow = s4.monitorWindow ∧
      s5.acquiredMonitorCount = s4.acquiredMonitorCount ∧
      (∀ w2, w2 ≠ w → s5.windows w2 = s4.windows w2) := by
    rw [e5]
    split_ifs
    · refine ⟨rfl, rfl, rfl, rfl, rfl, ?_⟩
      intro w2 hw2
      simp [Session.setWindow, Session.call, Function.update_noteq hw2]
    · exact ⟨rfl, rfl, rfl, rfl, rfl, fun _ _ => rfl⟩
  have a6 : s6.disabledCursorWindow = s5.disabledCursorWindow ∧
      s6.capturedCursorWindow = s5.capturedCursorWindow ∧ s6.clipRect = s5.clipRect ∧
      s6.monitorWindow = s5.monitorWindow ∧
      s6.acquiredMonitorCount = s5.acquiredMonitorCount ∧ s6.windows = s5.windows := by
    rw [e6]; split <;> exact ⟨rfl, rfl, rfl, rfl, rfl, rfl⟩
  have a7 : (_glfwDestroyWindowWin32 s w).disabledCursorWindow = s6.disabledCursorWindow ∧
      (_glfwDestroyWindowWin32 s w).capturedCursorWindow = s6.capturedCursorWindow ∧
      (_glfwDestroyWindowWin32 s w).clipRect = s6.clipRect ∧
      (_glfwDestroyWindowWin32 s w).monitorWindow = s6.monitorWindow ∧
      (_glfwDestroyWindowWin32 s w).acquiredMonitorCount = s6.acquiredMonitorCount ∧
      (_glfwDestroyWindowWin32 s w).windows = s6.windows := by
    rw [e7]; split <;> exact ⟨rfl, rfl, rfl, rfl, rfl, rfl⟩
  obtain ⟨a11, a12, a13, a14⟩ := a1
  obtain ⟨a21, a22, a23, a24, a25, a26⟩ := a2
  obtain ⟨a31, a32, a33, a34, a35, a36⟩ := a3
  obtain ⟨a41, a42, a43, a44, a45, a46, a47, a48⟩ := a4
  obtain ⟨a51, a52, a53, a54, a55, a56⟩ := a5
  obtain ⟨a61, a62, a63, a64, a65, a66⟩ := a6
  obtain ⟨a71, a72, a73, a74, a75, a76⟩ := a7
  have hdis : s2.disabledCursorWindow = s.disabledCursorWindow := a21.trans a11
  have hmonW : (_glfwDestroyWindowWin32 s w).monitorWindow = s1.monitorWindow := by
    rw [a74, a64, a54, a46, a34, a25]
  have hcount : (_glfwDestroyWindowWin32 s w).acquiredMonitorCount =
      s1.acquiredMonitorCount := by
    rw [a75, a65, a55, a47, a35, a26]
  refine ⟨?_, ?_, ?_, ?_, ?_, ?_, ?_, ?_⟩
  · rw [a71, a61, a51, a42]; exact a31
  · rw [a72, a62, a52]; exact a41
  · intro h
    rw [a73, a63, a53]
    by_cases hd : s2.disabledCursorWindow = some w
    · exact a45 (a32 hd).2
    · rcases h with h | h
      · exact absurd (hdis.trans h) hd
      · apply a43
        rw [a33 hd, a22, a12]
        exact h
  · intro hd hc
    have hd2 : s2.disabledCursorWindow ≠ some w := by rw [hdis]; exact hd
    have e32 : s3 = s2 := a33 hd2
    have hc3 : s3.capturedCursorWindow ≠ some w := by rw [e32, a22, a12]; exact hc
    have e43 : s4 = s3 := a44 hc3
    refine ⟨?_, ?_, ?_⟩
    · rw [a73, a63, a53, e43, e32, a23, a13]
    · rw [a71, a61, a51, e43, e32, a21, a11]
    · rw [a72, a62, a52, e43, e32, a22, a12]
  · intro m hm hown
    rw [hmonW, hcount, e1]
    simp only [hm]
    obtain ⟨r1, r2, _⟩ := releaseMonitor_fields s w m
    rw [r1, r2, if_pos hown, if_pos hown]
    simp
  · intro hnot
    rw [hmonW, hcount, e1]
    split
    · rename_i m hm
      obtain ⟨r1, r2, _⟩ := releaseMonitor_fields s w m
      rw [r1, r2, if_neg (hnot m hm), if_neg (hnot m hm)]
      exact ⟨rfl, rfl⟩
    · exact ⟨rfl, rfl⟩
  · intro w2 hw2
    rw [a76, a66, a56 w2 hw2, a48, a36 w2 hw2, a24, a14]
  · intro m2 hm2
    rw [hmonW, e1]
    split
    · rename_i m hm
      obtain ⟨r1, _, _⟩ := releaseMonitor_fields s w m
      rw [r1]
      have hne : m2 ≠ m := fun h => hm2 (by rw [h]; exact hm)
      split_ifs
      · rw [Function.update_noteq hne]
      · rfl
    · rfl

/-- Witness for C13: the full screen disabled-cursor window of
`fullscreenDisabledSession` is destroyed. -/
theorem destroy_window_releases_witness :
    (_glfwDestroyWindowWin32 fullscreenDisabledSession 1).clipRect = none ∧
    (_glfwDestroyWindowWin32 fullscreenDisabledSession 1).monitorWindow 0 = none ∧
    (_glfwDestroyWindowWin32 fullscreenDisabledSession 1).acquiredMonitorCount = 1 - 1 :=
  ⟨(destroy_window_releases fullscreenDisabledSession 1).2.2.1 (Or.inl rfl),
   (destroy_window_releases fullscreenDisabledSession 1).2.2.2.2.1 0 rfl rfl⟩

/-! ## C14: size messages -/

/-- The value of the local `maximized` of the `WM_SIZE` case is the same when
computed from itself. -/
theorem maximized_stable (wParam : Nat) (m : Bool) :
    (decide (wParam = SIZE_MAXIMIZED) ||
      ((decide (wParam = SIZE_MAXIMIZED) || (m && decide (wParam ≠ SIZE_RESTORED))) &&
        decide (wParam ≠ SIZE_RESTORED))) =
    (decide (wParam = SIZE_MAXIMIZED) || (m && decide (wParam ≠ SIZE_RESTORED))) := by
  by_cases h2 : wParam = SIZE_MAXIMIZED
  · simp [h2]
  · cases m <;> simp [h2]

/-- The steps of the `WM_SIZE` case one after the other. -/
theorem windowProcSize_stages (s : Session) (w : WinId) (wParam lParam : Nat) :
    ∃ s1 s2 s3 s4 s5 : Session,
      s1 = (if s.capturedCursorWindow = some w then captureCursor s w else s) ∧
      s2 = (if (s1.windows w).iconified ≠ decide (wParam = SIZE_MINIMIZED) then
              _glfwInputWindowIconify s1 w (decide (wParam = SIZE_MINIMIZED)) else s1) ∧
      s3 = (if (s2.windows w).maximized ≠ (decide (wParam = SIZE_MAXIMIZED) ||
                ((s.windows w).maximized && decide (wParam ≠ SIZE_RESTORED))) then
              _glfwInputWindowMaximize s2 w (decide (wParam = SIZE_MAXIMIZED) ||
                ((s.windows w).maximized && decide (wParam ≠ SIZE_RESTORED))) else s2) ∧
      s4 = (if ((LOWORD lParam : Nat) : Int) ≠ (s3.windows w).width ∨
                ((HIWORD lParam : Nat) : Int) ≠ (s3.windows w).height then
              _glfwInputWindowSize (_glfwInputFramebufferSize
                (s3.setWindow w { s3.windows w with width := (LOWORD lParam : Nat),
                                                    height := (HIWORD lParam : Nat) })
                w (LOWORD lParam : Nat) (HIWORD lParam : Nat)) w (LOWORD lParam : Nat)
                (HIWORD lParam : Nat)
            else s3) ∧
      s5 = (match (s4.windows w).monitor with
            | some m =>
              if (s4.windows w).iconified ≠ decide (wParam = SIZE_MINIMIZED) then
                if decide (wParam = SIZE_MINIMIZED) then releaseMonitor s4 w m
                else fitToMonitor (acquireMonitor s4 w m) w m
              else s4
            | none => s4) ∧
      windowProcSize s w wParam lParam =
        s5.setWindow w { s5.windows w with
          iconified := decide (wParam = SIZE_MINIMIZED),
          maximized := (decide (wParam = SIZE_MAXIMIZED) ||
            ((s.windows w).maximized && decide (wParam ≠ SIZE_RESTORED))) } :=
  ⟨_, _, _, _, _, rfl, rfl, rfl, rfl, rfl, rfl⟩

/-- The function `acquireMonitor` leaves the windows alone. -/
theorem acquireMonitor_windows (s : Session) (w : WinId) (m : MonId) :
    (acquireMonitor s w m).windows = s.windows := by
  unfold acquireMonitor
  by_cases hc : s.acquiredMonitorCount = 0 <;> by_cases hm : s.monitorWindow m = none <;>
    simp [hc, hm, _glfwInputMonitorWindow, Session.call]

/-- What the `WM_SIZE` case records in the window. -/
theorem windowProcSize_records (s : Session) (w : WinId) (wParam lParam : Nat) :
    ((windowProcSize s w wParam lParam).windows w).iconified =
      decide (wParam = SIZE_MINIMIZED) ∧
    ((windowProcSize s w wParam lParam).windows w).maximized =
      (decide (wParam = SIZE_MAXIMIZED) ||
        ((s.windows w).maximized && decide (wParam ≠ SIZE_RESTORED))) ∧
    ((windowProcSize s w wParam lParam).windows w).width = ((LOWORD lParam : Nat) : Int) ∧
    ((windowProcSize s w wParam lParam).windows w).height = ((HIWORD lParam : Nat) : Int) := by
  obtain ⟨s1, s2, s3, s4, s5, e1, e2, e3, e4, e5, e6⟩ := windowProcSize_stages s w wParam lParam
  have a4 : (s4.windows w).width = ((LOWORD lParam : Nat) : Int) ∧
      (s4.windows w).height = ((HIWORD lParam : Nat) : Int) := by
    rw [e4]
    split_ifs with h
    · simp [_glfwInputWindowSize, _glfwInputFramebufferSize, Session.emit, Session.setWindow]
    · push_neg at h
      exact ⟨h.1.symm, h.2.symm⟩
  have a5 : s5.windows = s4.windows := by
    rw [e5]
    split
    · split_ifs
      · exact (releaseMonitor_frame s4 w _).2.2.2
      · show (acquireMonitor s4 w _).windows = _
        exact acquireMonitor_windows s4 w _
      · rfl
    · rfl
  rw [e6]
  simp [Session.setWindow, a5, a4]

/-- The `WM_SIZE` case for a window whose record already agrees with the
message: nothing is emitted or requested and no record changes. -/
theorem windowProcSize_quiet (s : Session) (w : WinId) (wParam lParam : Nat)
    (hi : (s.windows w).iconified = decide (wParam = SIZE_MINIMIZED))
    (hm : (s.windows w).maximized = (decide (wParam = SIZE_MAXIMIZED) ||
        ((s.windows w).maximized && decide (wParam ≠ SIZE_RESTORED))))
    (hwd : (s.windows w).width = ((LOWORD lParam : Nat) : Int))
    (hht : (s.windows w).height = ((HIWORD lParam : Nat) : Int)) :
    (windowProcSize s w wParam lParam).events = s.events ∧
    (windowProcSize s w wParam lParam).calls = s.calls ∧
    (windowProcSize s w wParam lParam).windows = s.windows ∧
    (windowProcSize s w wParam lParam).monitorWindow = s.monitorWindow ∧
    (windowProcSize s w wParam lParam).acquiredMonitorCount = s.acquiredMonitorCount ∧
    (windowProcSize s w wParam lParam).displayRequired = s.displayRequired := by
  obtain ⟨s1, s2, s3, s4, s5, e1, e2, e3, e4, e5, e6⟩ := windowProcSize_stages s w wParam lParam
  have a1 : s1.events = s.events ∧ s1.calls = s.calls ∧ s1.windows = s.windows ∧
      s1.monitorWindow = s.monitorWindow ∧ s1.acquiredMonitorCount = s.acquiredMonitorCount ∧
      s1.displayRequired = s.displayRequired := by
    rw [e1]; split_ifs <;> exact ⟨rfl, rfl, rfl, rfl, rfl, rfl⟩
  obtain ⟨a11, a12, a13, a14, a15, a16⟩ := a1
  have b2 : s2 = s1 := by
    rw [e2, if_neg]
    rw [a13]; exact fun h => h hi
  have b3 : s3 = s2 := by
    rw [e3, if_neg]
    rw [b2, a13]; exact fun h => h hm
  have b4 : s4 = s3 := by
    rw [e4, if_neg]
    rw [b3, b2, a13, hwd, hht]
    simp
  have b5 : s5 = s4 := by
    rw [e5]
    split
    · rw [if_neg]
      rw [b4, b3, b2, a13]; exact fun h => h hi
    · rfl
  have hwin : s5.windows = s.windows := by rw [b5, b4, b3, b2, a13]
  rw [e6]
  refine ⟨?_, ?_, ?_, ?_, ?_, ?_⟩
  · show s5.events = _
    rw [b5, b4, b3, b2, a11]
  · show s5.calls = _
    rw [b5, b4, b3, b2, a12]
  · show Function.update s5.windows w _ = _
    rw [hwin, ← hi, ← hm]
    exact Function.update_eq_self w s.windows
  · show s5.monitorWindow = _
    rw [b5, b4, b3, b2, a14]
  · show s5.acquiredMonitorCount = _
    rw [b5, b4, b3, b2, a15]
  · show s5.displayRequired = _
    rw [b5, b4, b3, b2, a16]

/-- C14: for every session, window and size message, delivering the same size
message a second time right after the first emits no event at all (so no
iconify, maximize, framebuffer-size or window-size event), makes no request to
the system, and leaves every window record (recorded width, height, iconified
and maximized state included), the owning-window references of the monitors
and the acquired-monitor counter as the first delivery left them. -/
theorem size_message_idempotent (s : Session) (w : WinId) (wParam lParam : Nat) :
    (windowProc (windowProc s w (Msg.WM_SIZE wParam lParam)) w
        (Msg.WM_SIZE wParam lParam)).events =
      (windowProc s w (Msg.WM_SIZE wParam lParam)).events ∧
    (windowProc (windowProc s w (Msg.WM_SIZE wParam lParam)) w
        (Msg.WM_SIZE wParam lParam)).calls =
      (windowProc s w (Msg.WM_SIZE wParam lParam)).calls ∧
    (windowProc (windowProc s w (Msg.WM_SIZE wParam lParam)) w
        (Msg.WM_SIZE wParam lParam)).windows =
      (windowProc s w (Msg.WM_SIZE wParam lParam)).windows ∧
    (windowProc (windowProc s w (Msg.WM_SIZE wParam lParam)) w
        (Msg.WM_SIZE wParam lParam)).monitorWindow =
      (windowProc s w (Msg.WM_SIZE wParam lParam)).monitorWindow ∧
    (windowProc (windowProc s w (Msg.WM_SIZE wParam lParam)) w
        (Msg.WM_SIZE wParam lParam)).acquiredMonitorCount =
      (windowProc s w (Msg.WM_SIZE wParam lParam)).acquiredMonitorCount ∧
    ((windowProc s w (Msg.WM_SIZE wParam lParam)).windows w).width =
      ((LOWORD lParam : Nat) : Int) ∧
    ((windowProc s w (Msg.WM_SIZE wParam lParam)).windows w).height =
      ((HIWORD lParam : Nat) : Int) ∧
    ((windowProc s w (Msg.WM_SIZE wParam lParam)).windows w).iconified =
      decide (wParam = SIZE_MINIMIZED) := by
  obtain ⟨r1, r2, r3, r4⟩ := windowProcSize_records s w wParam lParam
  have hm : ((windowProcSize s w wParam lParam).windows w).maximized =
      (decide (wParam = SIZE_MAXIMIZED) ||
        (((windowProcSize s w wParam lParam).windows w).maximized &&
          decide (wParam ≠ SIZE_RESTORED))) := by
    rw [r2]
    exact (maximized_stable wParam _).symm
  obtain ⟨q1, q2, q3, q4, q5, _⟩ :=
    windowProcSize_quiet (windowProcSize s w wParam lParam) w wParam lParam r1 hm r3 r4
  exact ⟨q1, q2, q3, q4, q5, r3, r4, r1⟩

/-! ## C15: move messages -/

/-- C15, as amended: move notifications are not deduplicated.  Every move
message emits one window-move event with the position it reports, the two
words of `lParam` read as signed values, whatever was reported before; the
same message delivered twice in a row emits the event twice. -/
theorem move_message_always_notifies (s : Session) (w : WinId) (lParam : Nat) :
    (windowProc s w (Msg.WM_MOVE lParam)).events =
      s.events ++ [Event.windowPos w (GET_X_LPARAM lParam) (GET_Y_LPARAM lParam)] ∧
    (windowProc (windowProc s w (Msg.WM_MOVE lParam)) w (Msg.WM_MOVE lParam)).events =
      s.events ++ [Event.windowPos w (GET_X_LPARAM lParam) (GET_Y_LPARAM lParam),
                   Event.windowPos w (GET_X_LPARAM lParam) (GET_Y_LPARAM lParam)] := by
  have h : ∀ t : Session, (windowProc t w (Msg.WM_MOVE lParam)).events =
      t.events ++ [Event.windowPos w (GET_X_LPARAM lParam) (GET_Y_LPARAM lParam)] := by
    intro t
    have hproc : windowProc t w (Msg.WM_MOVE lParam) = windowProcMove t w lParam := rfl
    rw [hproc]
    unfold windowProcMove
    simp only [_glfwInputWindowPos, Session.emit]
    split_ifs <;> rfl
  refine ⟨h s, ?_⟩
  rw [h, h]
  simp

/-- Counterexample for C15: a window is reported at position (100, 50) twice in
a row, and each of the two move messages emits a window-move event. -/
theorem move_message_repeated_emits_twice :
    (windowProc (windowProc {} 1 (Msg.WM_MOVE 0x00320064)) 1 (Msg.WM_MOVE 0x00320064)).events =
      [Event.windowPos 1 100 50, Event.windowPos 1 100 50] := by
  decide

/-! ## C16: clipboard retries -/

/-- With fuel for three iterations the retry loop returns: after the calls of
`openAttempts`, with the clipboard open unless the first three attempts all
failed. -/
theorem openClipboardRetry_spec (env : ClipboardEnv) (fuel : Nat) (hfuel : 3 ≤ fuel)
    (s : Session) :
    openClipboardRetry env fuel 0 s =
      some (if firstThreeOpensFail env = true then
              ({ s with calls := s.calls ++ openAttempts env }, false)
            else
              ({ s with calls := s.calls ++ openAttempts env, clipboardOpen := true }, true)) := by
  obtain ⟨n, rfl⟩ : ∃ n, fuel = n + 3 := ⟨fuel - 3, by omega⟩
  cases h0 : env.openClipboard 0
  · cases h1 : env.openClipboard 1
    · cases h2 : env.openClipboard 2 <;>
        simp [openClipboardRetry, firstThreeOpensFail, openAttempts, h0, h1, h2, Session.call]
    · simp [openClipboardRetry, firstThreeOpensFail, openAttempts, h0, h1, Session.call]
  · simp [openClipboardRetry, firstThreeOpensFail, openAttempts, h0, Session.call]

/-- At most three `OpenClipboard` calls are made, each failed one followed by a
sleep. -/
theorem openAttempts_count (env : ClipboardEnv) :
    (openAttempts env).count OsCall.OpenClipboard ≤ 3 ∧
    (firstThreeOpensFail env = true →
      (openAttempts env).count OsCall.OpenClipboard = 3 ∧
      (openAttempts env).count (OsCall.Sleep 1) = 3) ∧
    (firstThreeOpensFail env = false →
      (openAttempts env).count (OsCall.Sleep 1) + 1 =
        (openAttempts env).count OsCall.OpenClipboard ∧
      (openAttempts env).getLast? = some OsCall.OpenClipboard) := by
  unfold openAttempts firstThreeOpensFail
  cases h0 : env.openClipboard 0 <;> cases h1 : env.openClipboard 1 <;>
    cases h2 : env.openClipboard 2 <;> simp

/-- The result of set-clipboard-text when the text converts to characters and
the global memory calls succeed. -/
theorem setClipboardString_nominal (fuel : Nat) (hfuel : 3 ≤ fuel) (s : Session)
    (env : ClipboardEnv) (hc : env.characterCount ≠ 0) (ha : env.globalAlloc = true)
    (hl : env.globalLock = true) :
    _glfwSetClipboardStringWin32 fuel s env =
      some (if firstThreeOpensFail env = true then
              { s with events := s.events ++ [Event.error GLFW_PLATFORM_ERROR],
                       calls := s.calls ++ openAttempts env ++ [OsCall.GlobalFree] }
            else
              { s with calls := s.calls ++ openAttempts env ++
                         [OsCall.EmptyClipboard, OsCall.SetClipboardData,
                          OsCall.CloseClipboard],
                       clipboardData := some env.wideString, clipboardOpen := false }) := by
  unfold _glfwSetClipboardStringWin32
  rw [if_neg hc, ha, hl]
  simp only [Bool.not_true, Bool.false_eq_true, if_false]
  rw [openClipboardRetry_spec env fuel hfuel s]
  cases hf : firstThreeOpensFail env <;>
    simp [closeClipboard, Session.call, _glfwInputErrorWin32, Session.emit]

/-- The result of set-clipboard-text when the text converts to characters and
a global memory call fails. -/
theorem setClipboardString_memory (fuel : Nat) (s : Session) (env : ClipboardEnv)
    (hc : env.characterCount ≠ 0) (hm : env.globalAlloc = false ∨ env.globalLock = false) :
    _glfwSetClipboardStringWin32 fuel s env =
      some (if env.globalAlloc = false then
              { s with events := s.events ++ [Event.error GLFW_PLATFORM_ERROR] }
            else
              { s with events := s.events ++ [Event.error GLFW_PLATFORM_ERROR],
                       calls := s.calls ++ [OsCall.GlobalFree] }) := by
  unfold _glfwSetClipboardStringWin32
  rw [if_neg hc]
  cases ha : env.globalAlloc
  · simp [Session.call, _glfwInputErrorWin32, Session.emit]
  · have hl : env.globalLock = false := by
      rcases hm with h | h
      · rw [ha] at h; exact absurd h (by decide)
      · exact h
    simp [hl, Session.call, _glfwInputErrorWin32, Session.emit]

/-- The result of get-clipboard-text when the first three open attempts
fail. -/
theorem getClipboardString_busy (fuel : Nat) (hfuel : 3 ≤ fuel) (s : Session)
    (env : ClipboardEnv) (hf : firstThreeOpensFail env = true) :
    _glfwGetClipboardStringWin32 fuel s env =
      some ({ s with events := s.events ++ [Event.error GLFW_PLATFORM_ERROR],
                     calls := s.calls ++ openAttempts env }, none) := by
  unfold _glfwGetClipboardStringWin32
  rw [openClipboardRetry_spec env fuel hfuel s, if_pos hf]
  simp [_glfwInputErrorWin32, Session.emit]

/-- The result of get-clipboard-text when the clipboard opens and holds no
text. -/
theorem getClipboardString_empty (fuel : Nat) (hfuel : 3 ≤ fuel) (s : Session)
    (env : ClipboardEnv) (hf : firstThreeOpensFail env = false)
    (hd : s.clipboardData = none) :
    _glfwGetClipboardStringWin32 fuel s env =
      some ({ s with events := s.events ++ [Event.error GLFW_FORMAT_UNAVAILABLE],
                     calls := s.calls ++ openAttempts env ++
                       [OsCall.GetClipboardData, OsCall.CloseClipboard],
                     clipboardOpen := false }, none) := by
  unfold _glfwGetClipboardStringWin32
  rw [openClipboardRetry_spec env fuel hfuel s, if_neg (by rw [hf]; decide)]
  simp [hd, closeClipboard, Session.call, _glfwInputErrorWin32, Session.emit]

/-- The result of get-clipboard-text when the clipboard opens and its text
cannot be locked. -/
theorem getClipboardString_locked (fuel : Nat) (hfuel : 3 ≤ fuel) (s : Session)
    (env : ClipboardEnv) (hf : firstThreeOpensFail env = false) (text : List Nat)
    (hd : s.clipboardData = some text) (hl : env.globalLock = false) :
    _glfwGetClipboardStringWin32 fuel s env =
      some ({ s with events := s.events ++ [Event.error GLFW_PLATFORM_ERROR],
                     calls := s.calls ++ openAttempts env ++
                       [OsCall.GetClipboardData, OsCall.CloseClipboard],
                     clipboardOpen := false }, none) := by
  unfold _glfwGetClipboardStringWin32
  rw [openClipboardRetry_spec env fuel hfuel s, if_neg (by rw [hf]; decide)]
  simp [hd, hl, closeClipboard, Session.call, _glfwInputErrorWin32, Session.emit]

/-- The result of get-clipboard-text when the clipboard opens and its text is
read. -/
theorem getClipboardString_text (fuel : Nat) (hfuel : 3 ≤ fuel) (s : Session)
    (env : ClipboardEnv) (hf : firstThreeOpensFail env = false) (text : List Nat)
    (hd : s.clipboardData = some text) (hl : env.globalLock = true) :
    _glfwGetClipboardStringWin32 fuel s env =
      some ({ s with calls := s.calls ++ openAttempts env ++
                       [OsCall.GetClipboardData, OsCall.CloseClipboard],
                     clipboardOpen := false,
                     clipboardString := env.utf8 text }, env.utf8 text) := by
  unfold _glfwGetClipboardStringWin32
  rw [openClipboardRetry_spec env fuel hfuel s, if_neg (by rw [hf]; decide)]
  simp [hd, hl, closeClipboard, Session.call]

/-- C16, as amended: for both clipboard functions and every behaviour of
`OpenClipboard`, with fuel for three iterations the call returns, after at most
three open attempts with a sleep after each failed one.  When the first three
attempts all fail, `PlatformError` is reported and the clipboard is neither
read nor modified.  When one of them succeeds the operation proceeds and the
clipboard is closed again on every exit path; `PlatformError` is then reported
only by get-clipboard-text when the text on the clipboard cannot be locked.
Set-clipboard-text makes no open attempt when the text converts to no
character or when allocating or locking the global memory fails, and reports
`PlatformError` in the last two cases. -/
theorem clipboard_open_bounded_retry (fuel : Nat) (hfuel : 3 ≤ fuel) (s : Session)
    (env : ClipboardEnv) :
    (openAttempts env).count OsCall.OpenClipboard ≤ 3 ∧
    (∃ s2, _glfwSetClipboardStringWin32 fuel s env = some s2 ∧
      (env.characterCount ≠ 0 → env.globalAlloc = true → env.globalLock = true →
        (firstThreeOpensFail env = true →
          s2.events = s.events ++ [Event.error GLFW_PLATFORM_ERROR] ∧
          s2.calls = s.calls ++ openAttempts env ++ [OsCall.GlobalFree] ∧
          s2.clipboardData = s.clipboardData ∧ s2.clipboardOpen = s.clipboardOpen) ∧
        (firstThreeOpensFail env = false →
          s2.events = s.events ∧
          s2.calls = s.calls ++ openAttempts env ++
            [OsCall.EmptyClipboard, OsCall.SetClipboardData, OsCall.CloseClipboard] ∧
          s2.clipboardData = some env.wideString ∧ s2.clipboardOpen = false)) ∧
      (env.characterCount = 0 → s2 = s) ∧
      (env.characterCount ≠ 0 → (env.globalAlloc = false ∨ env.globalLock = false) →
        s2.events = s.events ++ [Event.error GLFW_PLATFORM_ERROR] ∧
        s2.calls.count OsCall.OpenClipboard = s.calls.count OsCall.OpenClipboard ∧
        s2.clipboardData = s.clipboardData ∧ s2.clipboardOpen = s.clipboardOpen)) ∧
    (∃ r, _glfwGetClipboardStringWin32 fuel s env = some r ∧
      (firstThreeOpensFail env = true →
        r.1.events = s.events ++ [Event.error GLFW_PLATFORM_ERROR] ∧
        r.1.calls = s.calls ++ openAttempts env ∧
        r.1.clipboardData = s.clipboardData ∧ r.1.clipboardOpen = s.clipboardOpen ∧
        r.1.clipboardString = s.clipboardString ∧ r.2 = none) ∧
      (firstThreeOpensFail env = false →
        r.1.calls = s.calls ++ openAttempts env ++
          [OsCall.GetClipboardData, OsCall.CloseClipboard] ∧
        r.1.clipboardData = s.clipboardData ∧ r.1.clipboardOpen = false ∧
        (s.clipboardData = none →
          r.1.events = s.events ++ [Event.error GLFW_FORMAT_UNAVAILABLE] ∧ r.2 = none) ∧
        (∀ text, s.clipboardData = some text → env.globalLock = false →
          r.1.events = s.events ++ [Event.error GLFW_PLATFORM_ERROR] ∧ r.2 = none) ∧
        (∀ text, s.clipboardData = some text → env.globalLock = true →
          r.1.events = s.events ∧ r.2 = env.utf8 text ∧
          r.1.clipboardString = env.utf8 text))) := by
  refine ⟨(openAttempts_count env).1, ?_, ?_⟩
  · by_cases hc : env.characterCount = 0
    · refine ⟨s, ?_, fun h => absurd hc h, fun _ => rfl, fun h => absurd hc h⟩
      unfold _glfwSetClipboardStringWin32
      rw [if_pos hc]
    · by_cases hm : env.globalAlloc = true ∧ env.globalLock = true
      · refine ⟨_, setClipboardString_nominal fuel hfuel s env hc hm.1 hm.2, ?_,
          fun h => absurd h hc, ?_⟩
        · intro _ _ _
          constructor
          · intro hf
            rw [if_pos hf]
            exact ⟨rfl, rfl, rfl, rfl⟩
          · intro hf
            rw [if_neg (by rw [hf]; decide)]
            exact ⟨rfl, rfl, rfl, rfl⟩
        · intro _ h
          rcases h with h | h
          · rw [hm.1] at h; exact absurd h (by decide)
          · rw [hm.2] at h; exact absurd h (by decide)
      · have hm2 : env.globalAlloc = false ∨ env.globalLock = false := by
          cases ha : env.globalAlloc
          · exact Or.inl rfl
          · cases hl : env.globalLock
            · exact Or.inr rfl
            · exact absurd ⟨ha, hl⟩ hm
        refine ⟨_, setClipboardString_memory fuel s env hc hm2, ?_, fun h => absurd h hc, ?_⟩
        · intro _ ha hl
          exact absurd ⟨ha, hl⟩ hm
        · intro _ _
          split_ifs
          · exact ⟨rfl, rfl, rfl, rfl⟩
          · refine ⟨rfl, ?_, rfl, rfl⟩
            simp [List.count_append]
  · cases hf : firstThreeOpensFail env
    · rcases Option.eq_none_or_eq_some s.clipboardData with hd | ⟨text, hd⟩
      · refine ⟨_, getClipboardString_empty fuel hfuel s env hf hd,
          fun h => absurd h (by decide), fun _ => ?_⟩
        exact ⟨rfl, rfl, rfl, fun _ => ⟨rfl, rfl⟩,
          fun t h => absurd (hd.symm.trans h) (by simp),
          fun t h => absurd (hd.symm.trans h) (by simp)⟩
      · cases hl : env.globalLock
        · refine ⟨_, getClipboardString_locked fuel hfuel s env hf text hd hl,
            fun h => absurd h (by decide), fun _ => ?_⟩
          exact ⟨rfl, rfl, rfl, fun h => absurd (hd.symm.trans h) (by simp),
            fun t _ _ => ⟨rfl, rfl⟩, fun t _ h => absurd h (by decide)⟩
        · refine ⟨_, getClipboardString_text fuel hfuel s env hf text hd hl,
            fun h => absurd h (by decide), fun _ => ?_⟩
          refine ⟨rfl, rfl, rfl, fun h => absurd (hd.symm.trans h) (by simp),
            fun t _ h => absurd h (by decide), fun t ht _ => ?_⟩
          have : text = t := by simpa using hd.symm.trans ht
          subst this
          exact ⟨rfl, rfl, rfl⟩
    · refine ⟨_, getClipboardString_busy fuel hfuel s env hf,
        fun _ => ⟨rfl, rfl, rfl, rfl, rfl, rfl⟩, fun h => absurd h (by decide)⟩

/-- Counterexample for C16: get-clipboard-text on a clipboard that opens at the
first attempt and holds a text that cannot be locked reports `PlatformError`,
although no open attempt failed. -/
theorem clipboard_lock_failure_reports_platform_error :
    lockFailEnv.openClipboard 0 = true ∧
    Option.map (fun r => (r.1.events, r.1.calls))
        (_glfwGetClipboardStringWin32 3 textClipboardSession lockFailEnv) =
      some ([Event.error GLFW_PLATFORM_ERROR],
        [OsCall.OpenClipboard, OsCall.GetClipboardData, OsCall.CloseClipboard]) := by
  decide

/-- Witness for C16 as amended: set-clipboard-text on a clipboard that is busy
at the first attempt and opens at the second. -/
theorem clipboard_open_bounded_retry_witness :
    (3 ≤ 3) ∧
    ∃ s2, _glfwSetClipboardStringWin32 3 textClipboardSession busyOnceEnv = some s2 ∧
      s2.events = [] ∧
      s2.calls = [OsCall.OpenClipboard, OsCall.Sleep 1, OsCall.OpenClipboard,
        OsCall.EmptyClipboard, OsCall.SetClipboardData, OsCall.CloseClipboard] ∧
      s2.clipboardData = some [111, 107, 0] ∧ s2.clipboardOpen = false := by
  refine ⟨le_refl 3, ?_⟩
  obtain ⟨s2, h1, h2, _⟩ :=
    (clipboard_open_bounded_retry 3 (le_refl 3) textClipboardSession busyOnceEnv).2.1
  exact ⟨s2, h1, (h2 (by decide) rfl rfl).2 (by decide)⟩

/-! ## C17: DPI change -/

/-- The scale computed for a word of `wParam` is the word divided by 96,
rounded to single precision. -/
theorem dpiScale_eq (dpi : Nat) (h : dpi < 65536) :
    dpiScale dpi = f32Round ((dpi : ℚ) / 96) := by
  unfold dpiScale f32OfInt USER_DEFAULT_SCREEN_DPI
  have h1 : f32Round ((dpi : Int) : ℚ) = ((dpi : Int) : ℚ) := by
    apply f32Round_int
    rw [abs_of_nonneg (by positivity)]
    have : (dpi : Int) < 65536 := by exact_mod_cast h
    omega
  have h2 : f32Round ((96 : Int) : ℚ) = ((96 : Int) : ℚ) := by
    apply f32Round_int
    norm_num
  rw [h1, h2]
  norm_num

/-- A session continues itself. -/
theorem continuesWithoutContentScale_refl (s : Session) : continuesWithoutContentScale s s :=
  ⟨[], [], by simp, by simp, by simp⟩

/-- Continuations compose. -/
theorem continuesWithoutContentScale_trans {a b c : Session}
    (h1 : continuesWithoutContentScale a b) (h2 : continuesWithoutContentScale b c) :
    continuesWithoutContentScale a c := by
  obtain ⟨e1, c1, a1, a2, a3⟩ := h1
  obtain ⟨e2, c2, b1, b2, b3⟩ := h2
  refine ⟨e1 ++ e2, c1 ++ c2, ?_, ?_, ?_⟩
  · rw [b1, a1, List.append_assoc]
  · intro e he
    rcases List.mem_append.mp he with h | h
    · exact a2 e h
    · exact b2 e h
  · rw [b3, a3, List.append_assoc]

/-- A step that leaves the notifications and the requests alone is a
continuation. -/
theorem continuesWithoutContentScale_of_eq (s t : Session) (he : t.events = s.events)
    (hc : t.calls = s.calls) : continuesWithoutContentScale s t :=
  ⟨[], [], by simp [he], by simp, by simp [hc]⟩

/-- A notification other than a content-scale notification is a
continuation. -/
theorem continuesWithoutContentScale_emit (s : Session) (e : Event)
    (h : isContentScale e = false) : continuesWithoutContentScale s (s.emit e) :=
  ⟨[e], [], rfl, by simpa using h, by simp [Session.emit]⟩

/-- A request is a continuation. -/
theorem continuesWithoutContentScale_call (s : Session) (c : OsCall) :
    continuesWithoutContentScale s (s.call c) :=
  ⟨[], [c], by simp [Session.call], by simp, rfl⟩

/-- The function `releaseMonitor` emits no content-scale notification. -/
theorem releaseMonitor_continues (s : Session) (w : WinId) (m : MonId) :
    continuesWithoutContentScale s (releaseMonitor s w m) := by
  unfold releaseMonitor
  by_cases hm : s.monitorWindow m = some w
  · have hn : ¬ (s.monitorWindow m ≠ some w) := fun h => h hm
    rw [if_neg hn]
    refine ⟨[], [OsCall.RestoreVideoMode m], ?_, by simp, ?_⟩
    · simp only [_glfwInputMonitorWindow, Session.call, List.append_nil]
      split_ifs <;> rfl
    · simp only [_glfwInputMonitorWindow, Session.call]
      split_ifs <;> rfl
  · rw [if_pos hm]
    exact continuesWithoutContentScale_refl s

/-- The function `acquireMonitor` emits no content-scale notification. -/
theorem acquireMonitor_continues (s : Session) (w : WinId) (m : MonId) :
    continuesWithoutContentScale s (acquireMonitor s w m) := by
  unfold acquireMonitor
  refine ⟨[], [OsCall.SetVideoMode m w], ?_, by simp, ?_⟩
  · simp only [_glfwInputMonitorWindow, Session.call, List.append_nil]
    split_ifs <;> rfl
  · simp only [_glfwInputMonitorWindow, Session.call]
    split_ifs <;> rfl

/-- The `WM_SIZE` case emits no content-scale notification. -/
theorem windowProcSize_continues (s : Session) (w : WinId) (wParam lParam : Nat) :
    continuesWithoutContentScale s (windowProcSize s w wParam lParam) := by
  obtain ⟨s1, s2, s3, s4, s5, e1, e2, e3, e4, e5, e6⟩ := windowProcSize_stages s w wParam lParam
  have a1 : continuesWithoutContentScale s s1 := by
    rw [e1]
    split_ifs
    · exact continuesWithoutContentScale_of_eq _ _ rfl rfl
    · exact continuesWithoutContentScale_refl s
  have a2 : continuesWithoutContentScale s1 s2 := by
    rw [e2]
    split_ifs
    · exact continuesWithoutContentScale_emit _ (Event.windowIconify w _) rfl
    · exact continuesWithoutContentScale_refl s1
  have a3 : continuesWithoutContentScale s2 s3 := by
    rw [e3]
    split_ifs
    · exact continuesWithoutContentScale_emit _ (Event.windowMaximize w _) rfl
    · exact continuesWithoutContentScale_refl s2
  have a4 : continuesWithoutContentScale s3 s4 := by
    rw [e4]
    split_ifs
    · refine continuesWithoutContentScale_trans ?_
        (continuesWithoutContentScale_emit _ (Event.windowSize w _ _) rfl)
      refine continuesWithoutContentScale_trans ?_
        (continuesWithoutContentScale_emit _ (Event.framebufferSize w _ _) rfl)
      exact continuesWithoutContentScale_of_eq _ _ rfl rfl
    · exact continuesWithoutContentScale_refl s3
  have a5 : continuesWithoutContentScale s4 s5 := by
    rw [e5]
    split
    · split_ifs
      · exact releaseMonitor_continues _ _ _
      · exact continuesWithoutContentScale_trans (acquireMonitor_continues _ _ _)
          (continuesWithoutContentScale_call _ _)
      · exact continuesWithoutContentScale_refl s4
    · exact continuesWithoutContentScale_refl s4
  have a6 : continuesWithoutContentScale s5 (windowProcSize s w wParam lParam) := by
    rw [e6]
    exact continuesWithoutContentScale_of_eq _ _ rfl rfl
  exact continuesWithoutContentScale_trans (continuesWithoutContentScale_trans
    (continuesWithoutContentScale_trans (continuesWithoutContentScale_trans
      (continuesWithoutContentScale_trans a1 a2) a3) a4) a5) a6

/-- The `WM_MOVE` case emits no content-scale notification. -/
theorem windowProcMove_continues (s : Session) (w : WinId) (lParam : Nat) :
    continuesWithoutContentScale s (windowProcMove s w lParam) := by
  unfold windowProcMove
  simp only []
  refine continuesWithoutContentScale_trans ?_
    (continuesWithoutContentScale_emit _ (Event.windowPos w _ _) rfl)
  split_ifs
  · exact continuesWithoutContentScale_of_eq _ _ rfl rfl
  · exact continuesWithoutContentScale_refl s

/-- The size and move messages sent while `SetWindowPos` runs emit no
content-scale notification. -/
theorem foldl_windowProcSizeMove_continues (w : WinId) :
    ∀ (sent : List SizeMoveMsg) (s : Session),
      continuesWithoutContentScale s
        (sent.foldl (fun st msg => windowProcSizeMove st w msg) s) := by
  intro sent
  induction sent with
  | nil => intro s; exact continuesWithoutContentScale_refl s
  | cons msg rest ih =>
    intro s
    rw [List.foldl_cons]
    refine continuesWithoutContentScale_trans ?_ (ih _)
    cases msg with
    | WM_SIZE wParam lParam => exact windowProcSize_continues s w wParam lParam
    | WM_MOVE lParam => exact windowProcMove_continues s w lParam

/-- A continuation leaves the content-scale notifications as they are. -/
theorem continuesWithoutContentScale_filter {s t : Session}
    (h : continuesWithoutContentScale s t) :
    t.events.filter isContentScale = s.events.filter isContentScale := by
  obtain ⟨added, requests, h1, h2, _⟩ := h
  rw [h1, List.filter_append]
  have : added.filter isContentScale = [] := by
    rw [List.filter_eq_nil_iff]
    intro e he
    rw [h2 e he]
    simp
  rw [this, List.append_nil]

/-- C17, as amended: on a DPI-change message the window is resized and
repositioned to the suggested frame, by one `SetWindowPos` request made before
anything else, if and only if it is windowed and either takes part in
automatic rescaling (scale-to-monitor) or the system is Windows 10 version
1703 or later; otherwise no request is made, the window records are unchanged
and only the content-scale notification is emitted; in every case, whatever
size and move messages the system sends to the window procedure while
`SetWindowPos` runs, exactly one content-scale notification is emitted, whose
scales are the high and the low word of `wParam`, each divided by 96 and
rounded to single precision. -/
theorem dpi_change_resize_and_scale (s : Session) (w : WinId) (wParam : Nat)
    (suggested : RECT) (sent : List SizeMoveMsg) :
    (windowProc s w (Msg.WM_DPICHANGED wParam suggested sent)).events.filter isContentScale =
      s.events.filter isContentScale ++
        [Event.windowContentScale w (f32Round ((HIWORD wParam : ℚ) / 96))
          (f32Round ((LOWORD wParam : ℚ) / 96))] ∧
    (((s.windows w).monitor = none ∧
        ((s.windows w).scaleToMonitor = true ∨ s.windows10Version1703OrGreater = true)) →
      ∃ requests : List OsCall,
        (windowProc s w (Msg.WM_DPICHANGED wParam suggested sent)).calls = s.calls ++
          OsCall.SetWindowPos w HWND_TOP suggested.left suggested.top
            (suggested.right - suggested.left) (suggested.bottom - suggested.top)
            (SWP_NOACTIVATE ||| SWP_NOZORDER) :: requests) ∧
    (¬ ((s.windows w).monitor = none ∧
        ((s.windows w).scaleToMonitor = true ∨ s.windows10Version1703OrGreater = true)) →
      (windowProc s w (Msg.WM_DPICHANGED wParam suggested sent)).calls = s.calls ∧
      (windowProc s w (Msg.WM_DPICHANGED wParam suggested sent)).windows = s.windows ∧
      (windowProc s w (Msg.WM_DPICHANGED wParam suggested sent)).events = s.events ++
        [Event.windowContentScale w (f32Round ((HIWORD wParam : ℚ) / 96))
          (f32Round ((LOWORD wParam : ℚ) / 96))]) := by
  have hhi : HIWORD wParam < 65536 := Nat.mod_lt _ (by norm_num)
  have hlo : LOWORD wParam < 65536 := Nat.mod_lt _ (by norm_num)
  have hcond : ((s.windows w).monitor.isNone = true ∧
      ((s.windows w).scaleToMonitor = true ∨ s.windows10Version1703OrGreater = true)) ↔
      ((s.windows w).monitor = none ∧
      ((s.windows w).scaleToMonitor = true ∨ s.windows10Version1703OrGreater = true)) := by
    rw [Option.isNone_iff_eq_none]
  have hproc : windowProc s w (Msg.WM_DPICHANGED wParam suggested sent) =
      windowProcDpiChanged s w wParam suggested sent := rfl
  rw [hproc]
  unfold windowProcDpiChanged
  rw [dpiScale_eq _ hhi, dpiScale_eq _ hlo]
  have hscale : ∀ t : Session,
      (_glfwInputWindowContentScale t w (f32Round ((HIWORD wParam : ℚ) / 96))
        (f32Round ((LOWORD wParam : ℚ) / 96))).events.filter isContentScale =
      t.events.filter isContentScale ++
        [Event.windowContentScale w (f32Round ((HIWORD wParam : ℚ) / 96))
          (f32Round ((LOWORD wParam : ℚ) / 96))] := by
    intro t
    simp [_glfwInputWindowContentScale, Session.emit, List.filter_append, isContentScale]
  by_cases h : (s.windows w).monitor.isNone = true ∧
      ((s.windows w).scaleToMonitor = true ∨ s.windows10Version1703OrGreater = true)
  · simp only [if_pos h]
    have hfold := foldl_windowProcSizeMove_continues w sent
      (s.call (OsCall.SetWindowPos w HWND_TOP suggested.left suggested.top
        (suggested.right - suggested.left) (suggested.bottom - suggested.top)
        (SWP_NOACTIVATE ||| SWP_NOZORDER)))
    refine ⟨?_, fun _ => ?_, fun hn => absurd (hcond.mp h) hn⟩
    · rw [hscale, continuesWithoutContentScale_filter hfold]
      rfl
    · obtain ⟨_, requests, _, _, hc⟩ := hfold
      refine ⟨requests, ?_⟩
      have : (_glfwInputWindowContentScale
          (sent.foldl (fun st msg => windowProcSizeMove st w msg)
            (s.call (OsCall.SetWindowPos w HWND_TOP suggested.left suggested.top
              (suggested.right - suggested.left) (suggested.bottom - suggested.top)
              (SWP_NOACTIVATE ||| SWP_NOZORDER))))
          w (f32Round ((HIWORD wParam : ℚ) / 96)) (f32Round ((LOWORD wParam : ℚ) / 96))).calls =
          (sent.foldl (fun st msg => windowProcSizeMove st w msg)
            (s.call (OsCall.SetWindowPos w HWND_TOP suggested.left suggested.top
              (suggested.right - suggested.left) (suggested.bottom - suggested.top)
              (SWP_NOACTIVATE ||| SWP_NOZORDER)))).calls := rfl
      rw [this, hc]
      simp [Session.call]
  · simp only [if_neg h]
    refine ⟨hscale s, fun hp => absurd (hcond.mpr hp) h, fun _ => ⟨rfl, rfl, rfl⟩⟩

/-- Counterexample for C17: a windowed window that did not opt into automatic
rescaling, on Windows 10 version 1703 or later, is resized and repositioned to
the suggested frame (10, 20)-(1210, 920) on a change to 144 DPI; the move and
size messages that the system sends during the request are reported before the
content scale. -/
theorem dpi_change_resizes_without_opt_in :
    (({} : Session).windows 1).monitor = none ∧
    (({} : Session).windows 1).scaleToMonitor = false ∧
    (windowProc {} 1 (Msg.WM_DPICHANGED 0x00900090 ⟨10, 20, 1210, 920⟩
      [SizeMoveMsg.WM_MOVE 0x00330012, SizeMoveMsg.WM_SIZE 0 0x036504A0])).calls =
      [OsCall.SetWindowPos 1 HWND_TOP 10 20 1200 900 (SWP_NOACTIVATE ||| SWP_NOZORDER)] ∧
    (windowProc {} 1 (Msg.WM_DPICHANGED 0x00900090 ⟨10, 20, 1210, 920⟩
      [SizeMoveMsg.WM_MOVE 0x00330012, SizeMoveMsg.WM_SIZE 0 0x036504A0])).events =
      [Event.windowPos 1 18 51, Event.framebufferSize 1 1184 869, Event.windowSize 1 1184 869,
       Event.windowContentScale 1 (3 / 2) (3 / 2)] := by
  decide!

/-- Witness for C17 as amended: the same message on a system older than
Windows 10 version 1703 makes no request and emits the scale 3/2 for both
axes and nothing else. -/
theorem dpi_change_resize_and_scale_witness :
    (windowProc { windows10Version1703OrGreater := false } 1
        (Msg.WM_DPICHANGED 0x00900090 ⟨10, 20, 1210, 920⟩ [])).calls = [] ∧
    (windowProc { windows10Version1703OrGreater := false } 1
        (Msg.WM_DPICHANGED 0x00900090 ⟨10, 20, 1210, 920⟩ [])).events =
      [Event.windowContentScale 1 (3 / 2) (3 / 2)] := by
  have h1 : f32Round (((HIWORD 0x00900090 : Nat) : ℚ) / 96) = 3 / 2 := by decide!
  have h2 : f32Round (((LOWORD 0x00900090 : Nat) : ℚ) / 96) = 3 / 2 := by decide!
  have h := dpi_change_resize_and_scale { windows10Version1703OrGreater := false } 1
    0x00900090 ⟨10, 20, 1210, 920⟩ []
  rw [h1, h2] at h
  exact ⟨(h.2.2 (by decide)).1, (h.2.2 (by decide)).2.2⟩

/-! ## C18: the choice of the icon image -/

/-- Where every product, the difference and its absolute value are `int`
values, `currDiff` is the difference of the areas. -/
theorem chooseImageDiff_eq (image : GLFWimage) (width height : Int)
    (h : isInt (image.width * image.height) = true ∧ isInt (width * height) = true ∧
      isInt (image.width * image.height - width * height) = true ∧
      isInt (areaDiff image width height) = true) :
    chooseImageDiff image width height = some (areaDiff image width height) := by
  unfold chooseImageDiff
  rw [if_pos]
  · rfl
  · exact h

/-- The invariant of the loop of `chooseImage` after the images `pre`: no image
seen is closer than `leastDiff`; without a choice so far `leastDiff` is still
`INT_MAX`; a choice is an image seen at distance `leastDiff`, closer than every
image before it. -/
theorem chooseImageLoop_spec (width height : Int) (rest : List GLFWimage) :
    ∀ (pre : List GLFWimage) (closest : Option Nat) (leastDiff : Int),
      (∀ image ∈ rest, chooseImageDiff image width height =
        some (areaDiff image width height)) →
      (∀ (j : Nat) (image : GLFWimage), pre[j]? = some image →
        leastDiff ≤ areaDiff image width height) →
      (closest = none → leastDiff = INT_MAX) →
      (∀ c, closest = some c → ∃ image, pre[c]? = some image ∧
        areaDiff image width height = leastDiff ∧
        ∀ (j : Nat) (other : GLFWimage), j < c → pre[j]? = some other →
          leastDiff < areaDiff other width height) →
      ∃ (result : Option Nat) (least : Int),
        chooseImageLoop width height rest pre.length closest leastDiff = some result ∧
        (∀ (j : Nat) (image : GLFWimage), (pre ++ rest)[j]? = some image →
          least ≤ areaDiff image width height) ∧
        (result = none → least = INT_MAX) ∧
        (∀ c, result = some c → ∃ image, (pre ++ rest)[c]? = some image ∧
          areaDiff image width height = least ∧
          ∀ (j : Nat) (other : GLFWimage), j < c → (pre ++ rest)[j]? = some other →
            least < areaDiff other width height) := by
  induction rest with
  | nil =>
    intro pre closest leastDiff _ hA hB hC
    refine ⟨closest, leastDiff, rfl, ?_, hB, ?_⟩
    · simpa using hA
    · simpa using hC
  | cons image rest ih =>
    intro pre closest leastDiff hrange hA hB hC
    have himg := hrange image (List.mem_cons_self _ _)
    have hrest : ∀ other ∈ rest, chooseImageDiff other width height =
        some (areaDiff other width height) :=
      fun other ho => hrange other (List.mem_cons_of_mem _ ho)
    have hlen : (pre ++ [image]).length = pre.length + 1 := by simp
    have happ : pre ++ image :: rest = (pre ++ [image]) ++ rest := by simp
    have hget : ∀ (j : Nat) (other : GLFWimage), (pre ++ [image])[j]? = some other →
        (j < pre.length ∧ pre[j]? = some other) ∨ (j = pre.length ∧ other = image) := by
      intro j other hj
      by_cases hlt : j < pre.length
      · left
        rw [List.getElem?_append_left hlt] at hj
        exact ⟨hlt, hj⟩
      · right
        rw [List.getElem?_append_right (by omega)] at hj
        by_cases h0 : j - pre.length = 0
        · rw [h0] at hj
          simp at hj
          exact ⟨by omega, hj.symm⟩
        · obtain ⟨k, hk⟩ : ∃ k, j - pre.length = k + 1 := ⟨j - pre.length - 1, by omega⟩
          rw [hk] at hj
          simp at hj
    unfold chooseImageLoop
    rw [himg]
    simp only []
    rw [happ, ← hlen]
    by_cases hlt : areaDiff image width height < leastDiff
    · rw [if_pos hlt]
      apply ih (pre ++ [image]) (some pre.length) (areaDiff image width height) hrest
      · intro j other hj
        rcases hget j other hj with ⟨_, h⟩ | ⟨_, h⟩
        · exact le_of_lt (lt_of_lt_of_le hlt (hA j other h))
        · rw [h]
      · intro h; exact absurd h (by simp)
      · intro c hc
        have hc2 : pre.length = c := by simpa using hc
        subst hc2
        refine ⟨image, by simp, rfl, ?_⟩
        intro j other hjc hj
        rcases hget j other hj with ⟨_, h⟩ | ⟨h, _⟩
        · exact lt_of_lt_of_le hlt (hA j other h)
        · omega
    · rw [if_neg hlt]
      apply ih (pre ++ [image]) closest leastDiff hrest
      · intro j other hj
        rcases hget j other hj with ⟨_, h⟩ | ⟨_, h⟩
        · exact hA j other h
        · rw [h]; exact not_lt.mp hlt
      · exact hB
      · intro c hc
        obtain ⟨chosen, h1, h2, h3⟩ := hC c hc
        have hcl : c < pre.length := by
          by_contra hge
          rw [List.getElem?_eq_none (by omega)] at h1
          exact absurd h1 (by simp)
        refine ⟨chosen, by rw [List.getElem?_append_left hcl]; exact h1, h2, ?_⟩
        intro j other hjc hj
        rcases hget j other hj with ⟨_, h⟩ | ⟨h, _⟩
        · exact h3 j other hjc h
        · omega

/-- The choice of `chooseImage` away from its start value: for every list of
candidate images and every target icon size, with all areas and differences
representable as `int`, `chooseImage` returns; when some image differs from the
target area by less than `INT_MAX`, it returns an image of the list whose
difference in area is minimal over the whole list, the one with the smallest
index among several minimal ones; a null result means that every image of the
list differs from the target area by exactly `INT_MAX`. -/
theorem chooseImage_closest_area (images : List GLFWimage) (width height : Int)
    (hrange : ∀ image ∈ images,
      isInt (image.width * image.height) = true ∧ isInt (width * height) = true ∧
      isInt (image.width * image.height - width * height) = true ∧
      isInt (areaDiff image width height) = true) :
    (∃ result, chooseImage images width height = some result) ∧
    ((∃ image ∈ images, areaDiff image width height < INT_MAX) →
      ∃ i image, images[i]? = some image ∧
        chooseImage images width height = some (some i) ∧
        (∀ (j : Nat) (other : GLFWimage), images[j]? = some other →
          areaDiff image width height ≤ areaDiff other width height) ∧
        (∀ (j : Nat) (other : GLFWimage), j < i → images[j]? = some other →
          areaDiff image width height < areaDiff other width height)) ∧
    (chooseImage images width height = some none →
      ∀ image ∈ images, areaDiff image width height = INT_MAX) ∧
    chooseImage [] width height = some none := by
  have hdiff : ∀ image ∈ images, chooseImageDiff image width height =
      some (areaDiff image width height) :=
    fun image hi => chooseImageDiff_eq image width height (hrange image hi)
  obtain ⟨result, least, h1, h2, h3, h4⟩ :=
    chooseImageLoop_spec width height images [] none INT_MAX hdiff
      (by intro j image hj; simp at hj) (fun _ => rfl) (by intro c hc; simp at hc)
  have h1' : chooseImage images width height = some result := h1
  simp only [List.nil_append] at h2 h4
  have hall : result = none → ∀ image ∈ images, areaDiff image width height = INT_MAX := by
    intro hnone image hi
    obtain ⟨j, hj⟩ := List.getElem?_of_mem hi
    have hle := h2 j image hj
    rw [h3 hnone] at hle
    have hup : areaDiff image width height ≤ INT_MAX := by
      have := (hrange image hi).2.2.2
      simp only [isInt, Bool.and_eq_true, decide_eq_true_eq] at this
      exact this.2
    omega
  refine ⟨⟨result, h1'⟩, ?_, ?_, rfl⟩
  · intro ⟨image, hi, hlt⟩
    cases hr : result with
    | none =>
      have := hall hr image hi
      omega
    | some c =>
      obtain ⟨chosen, c1, c2, c3⟩ := h4 c hr
      refine ⟨c, chosen, c1, by rw [h1', hr], ?_, ?_⟩
      · intro j other hj
        rw [c2]; exact h2 j other hj
      · intro j other hjc hj
        rw [c2]; exact c3 j other hjc hj
  · intro hnone
    rw [h1'] at hnone
    exact hall (by simpa using hnone)

/-- Away from icon sizes: for the one image of 2147483647 by 1 and the target
size 0 by 0 every area and the difference are `int` values, the list is not
empty, and `chooseImage` returns null: the difference `INT_MAX` is not below
the start value `INT_MAX` of `leastDiff`.  The one caller,
`_glfwSetWindowIconWin32`, passes the icon sizes `GetSystemMetrics` reports,
never 0 by 0. -/
theorem chooseImage_null_for_nonempty_list :
    isInt (2147483647 * 1) = true ∧ isInt (0 * 0) = true ∧
    isInt (2147483647 * 1 - 0 * 0) = true ∧
    chooseImage [⟨2147483647, 1⟩] 0 0 = some none := by
  decide

/-- An instance of `chooseImage_closest_area`: of the four images of
`iconCandidates` the third, the first of two that match the 32 by 32 target
exactly, is chosen. -/
theorem chooseImage_closest_area_witness :
    ∃ i image, iconCandidates[i]? = some image ∧
      chooseImage iconCandidates 32 32 = some (some i) ∧
      (∀ (j : Nat) (other : GLFWimage), iconCandidates[j]? = some other →
        areaDiff image 32 32 ≤ areaDiff other 32 32) ∧
      (∀ (j : Nat) (other : GLFWimage), j < i → iconCandidates[j]? = some other →
        areaDiff image 32 32 < areaDiff other 32 32) :=
  (chooseImage_closest_area iconCandidates 32 32 (by decide)).2.1
    ⟨⟨32, 32⟩, by decide, by decide⟩


/-- C18: for every non-empty list of candidate images, their widths and heights
positive, and every target icon size, its width and height positive as the
one caller takes them from `GetSystemMetrics`, with all areas and
differences representable as `int`, `chooseImage` returns an image of the list
whose difference in area from the target is minimal over the whole list, and
among several minimal candidates the one with the smallest index; it returns
null exactly when the list is empty. -/
theorem chooseImage_closest_for_icon_size (images : List GLFWimage) (width height : Int)
    (hsize : 0 < width ∧ 0 < height)
    (hdims : ∀ image ∈ images, 0 < image.width ∧ 0 < image.height)
    (hrange : ∀ image ∈ images,
      isInt (image.width * image.height) = true ∧ isInt (width * height) = true ∧
      isInt (image.width * image.height - width * height) = true ∧
      isInt (areaDiff image width height) = true) :
    (∃ result, chooseImage images width height = some result) ∧
    (images ≠ [] →
      ∃ i image, images[i]? = some image ∧
        chooseImage images width height = some (some i) ∧
        (∀ (j : Nat) (other : GLFWimage), images[j]? = some other →
          areaDiff image width height ≤ areaDiff other width height) ∧
        (∀ (j : Nat) (other : GLFWimage), j < i → images[j]? = some other →
          areaDiff image width height < areaDiff other width height)) ∧
    (chooseImage images width height = some none ↔ images = []) := by
  obtain ⟨hres, hmin, hnull, hempty⟩ := chooseImage_closest_area images width height hrange
  have hlt : ∀ image ∈ images, areaDiff image width height < INT_MAX := by
    intro image hi
    obtain ⟨r1, r2, _, _⟩ := hrange image hi
    obtain ⟨d1, d2⟩ := hdims image hi
    have ha : 0 < image.width * image.height := mul_pos d1 d2
    have ht : 0 < width * height := mul_pos hsize.1 hsize.2
    simp only [isInt, Bool.and_eq_true, decide_eq_true_eq] at r1 r2
    unfold areaDiff
    generalize image.width * image.height = a at ha r1
    generalize width * height = t at ht r2
    unfold INT_MAX INT_MIN at r1 r2
    unfold INT_MAX
    rw [abs_lt]
    constructor <;> omega
  have hsome : images ≠ [] →
      ∃ i image, images[i]? = some image ∧
        chooseImage images width height = some (some i) ∧
        (∀ (j : Nat) (other : GLFWimage), images[j]? = some other →
          areaDiff image width height ≤ areaDiff other width height) ∧
        (∀ (j : Nat) (other : GLFWimage), j < i → images[j]? = some other →
          areaDiff image width height < areaDiff other width height) := by
    intro hne
    obtain ⟨image, hi⟩ := List.exists_mem_of_ne_nil images hne
    exact hmin ⟨image, hi, hlt image hi⟩
  refine ⟨hres, hsome, ?_, ?_⟩
  · intro hnone
    by_contra hne
    obtain ⟨i, _, _, hc, _, _⟩ := hsome hne
    rw [hc] at hnone
    simp at hnone
  · intro he
    rw [he]
    exact hempty

/-- Witness for C18: of the four images of `iconCandidates` and the icon size
32 by 32 the third image, the first of two that match exactly, is chosen. -/
theorem chooseImage_closest_for_icon_size_witness :
    iconCandidates ≠ [] ∧
    ∃ i image, iconCandidates[i]? = some image ∧
      chooseImage iconCandidates 32 32 = some (some i) ∧
      (∀ (j : Nat) (other : GLFWimage), iconCandidates[j]? = some other →
        areaDiff image 32 32 ≤ areaDiff other 32 32) ∧
      (∀ (j : Nat) (other : GLFWimage), j < i → iconCandidates[j]? = some other →
        areaDiff image 32 32 < areaDiff other 32 32) :=
  ⟨by decide, (chooseImage_closest_for_icon_size iconCandidates 32 32 (by decide) (by decide)
    (by decide)).2.1 (by decide)⟩

/-! ## C19: buttons and wheel in raw records -/

/-- The steps of the record loop body of `processRawInput` for a mouse record,
one after the other. -/
theorem processRawRecord_stages (env : RawEnv) (s : Session) (w : WinId) (data : RAWINPUT)
    (hmouse : data.dwType = RIM_TYPEMOUSE) :
    ∃ s1 s2 s3 : Session,
      s1 = (if (rawDelta env s w data).1 ≠ 0 ∨ (rawDelta env s w data).2 ≠ 0 then
              (_glfwInputCursorPos s w
                ((s.windows w).virtualCursorPosX + (rawDelta env s w data).1)
                ((s.windows w).virtualCursorPosY + (rawDelta env s w data).2)).setWindow w
                { (_glfwInputCursorPos s w
                    ((s.windows w).virtualCursorPosX + (rawDelta env s w data).1)
                    ((s.windows w).virtualCursorPosY + (rawDelta env s w data).2)).windows w with
                  lastCursorPosX := ((_glfwInputCursorPos s w
                    ((s.windows w).virtualCursorPosX + (rawDelta env s w data).1)
                    ((s.windows w).virtualCursorPosY + (rawDelta env s w data).2)).windows
                      w).lastCursorPosX + (rawDelta env s w data).1,
                  lastCursorPosY := ((_glfwInputCursorPos s w
                    ((s.windows w).virtualCursorPosX + (rawDelta env s w data).1)
                    ((s.windows w).virtualCursorPosY + (rawDelta env s w data).2)).windows
                      w).lastCursorPosY + (rawDelta env s w data).2 }
            else s) ∧
      s2 = (if data.usButtonFlags &&& 0xFFFF &&&
                (0xFFFF - (RI_MOUSE_WHEEL ||| RI_MOUSE_HWHEEL)) ≠ 0 then
              (if !anyButtonPressed ((_glfwInputMouseClick
                    (if !anyButtonPressed (s1.windows w) then s1.call (OsCall.SetCapture w)
                     else s1) w (rawButton data.usButtonFlags).1
                    (rawButton data.usButtonFlags).2 env.mods).windows w) then
                 (_glfwInputMouseClick
                    (if !anyButtonPressed (s1.windows w) then s1.call (OsCall.SetCapture w)
                     else s1) w (rawButton data.usButtonFlags).1
                    (rawButton data.usButtonFlags).2 env.mods).call OsCall.ReleaseCapture
               else
                 _glfwInputMouseClick
                    (if !anyButtonPressed (s1.windows w) then s1.call (OsCall.SetCapture w)
                     else s1) w (rawButton data.usButtonFlags).1
                    (rawButton data.usButtonFlags).2 env.mods)
            else s1) ∧
      s3 = (if data.usButtonFlags &&& RI_MOUSE_WHEEL ≠ 0 then
              _glfwInputScroll s2 w 0 (toSHORT data.usButtonData)
            else s2) ∧
      processRawRecord env s w data =
        (if data.usButtonFlags &&& RI_MOUSE_HWHEEL ≠ 0 then
           _glfwInputScroll s3 w (-(toSHORT data.usButtonData)) 0
         else s3) := by
  have hnm : ¬ (data.dwType ≠ RIM_TYPEMOUSE) := by simp [hmouse]
  refine ⟨_, _, _, rfl, rfl, rfl, ?_⟩
  unfold processRawRecord
  rw [if_neg hnm]

/-- One record adds, after at most one cursor-position notification, exactly
the button and scroll notifications of the record. -/
theorem processRawRecord_events (env : RawEnv) (s : Session) (w : WinId) (data : RAWINPUT) :
    ∃ motion : List Event, (∀ e ∈ motion, isCursorPos e = true) ∧
      (processRawRecord env s w data).events =
        s.events ++ motion ++ rawButtonEvents env w data := by
  by_cases hmouse : data.dwType = RIM_TYPEMOUSE
  · obtain ⟨s1, s2, s3, e1, e2, e3, e4⟩ := processRawRecord_stages env s w data hmouse
    have a1 : ∃ motion : List Event, (∀ e ∈ motion, isCursorPos e = true) ∧
        s1.events = s.events ++ motion := by
      rw [e1]
      split_ifs
      · exact ⟨[Event.cursorPos w _ _], by simp [isCursorPos], rfl⟩
      · exact ⟨[], by simp, by simp⟩
    obtain ⟨motion, hm, a1⟩ := a1
    have a2 : s2.events = s1.events ++
        (if data.usButtonFlags &&& 0xFFFF &&& (0xFFFF - (RI_MOUSE_WHEEL ||| RI_MOUSE_HWHEEL)) ≠ 0
          then [Event.mouseButton w (rawButton data.usButtonFlags).1
                  (rawButton data.usButtonFlags).2 env.mods]
          else []) := by
      rw [e2]
      by_cases hb : data.usButtonFlags &&& 0xFFFF &&&
          (0xFFFF - (RI_MOUSE_WHEEL ||| RI_MOUSE_HWHEEL)) ≠ 0
      · simp only [if_pos hb]
        have hclick : ∀ t : Session, (_glfwInputMouseClick t w (rawButton data.usButtonFlags).1
            (rawButton data.usButtonFlags).2 env.mods).events = t.events ++
              [Event.mouseButton w (rawButton data.usButtonFlags).1
                (rawButton data.usButtonFlags).2 env.mods] := fun t => rfl
        have hpre : ∀ c : Bool,
            (if c = true then s1.call (OsCall.SetCapture w) else s1).events = s1.events := by
          intro c; cases c <;> rfl
        have hpost : ∀ (c : Bool) (t : Session),
            (if c = true then t.call OsCall.ReleaseCapture else t).events = t.events := by
          intro c t; cases c <;> rfl
        rw [hpost, hclick, hpre]
      · simp only [if_neg hb]
        simp
    have a3 : s3.events = s2.events ++
        (if data.usButtonFlags &&& RI_MOUSE_WHEEL ≠ 0
          then [Event.scroll w 0 (toSHORT data.usButtonData)] else []) := by
      rw [e3]
      split_ifs
      · rfl
      · simp
    have a4 : (processRawRecord env s w data).events = s3.events ++
        (if data.usButtonFlags &&& RI_MOUSE_HWHEEL ≠ 0
          then [Event.scroll w (-(toSHORT data.usButtonData)) 0] else []) := by
      rw [e4]
      split_ifs
      · rfl
      · simp
    refine ⟨motion, hm, ?_⟩
    rw [a4, a3, a2, a1]
    have hnm : ¬ (data.dwType ≠ RIM_TYPEMOUSE) := by simp [hmouse]
    unfold rawButtonEvents
    rw [if_neg hnm]
    simp only [List.append_assoc]
  · have hnm : data.dwType ≠ RIM_TYPEMOUSE := hmouse
    refine ⟨[], by simp, ?_⟩
    unfold processRawRecord rawButtonEvents
    rw [if_pos hnm, if_pos hnm]
    simp

/-- A batch of records adds, between cursor-position notifications, exactly the
button and scroll notifications of its records, in order. -/
theorem processRawRecords_events (env : RawEnv) (w : WinId) (records : List RAWINPUT) :
    ∀ s : Session, ∃ added : List Event,
      (records.foldl (fun st data => processRawRecord env st w data) s).events =
        s.events ++ added ∧
      added.filter (fun e => !isCursorPos e) = records.flatMap (rawButtonEvents env w) := by
  induction records with
  | nil => intro s; exact ⟨[], by simp, by simp⟩
  | cons data rest ih =>
    intro s
    obtain ⟨motion, hm, h1⟩ := processRawRecord_events env s w data
    obtain ⟨added, h2, h3⟩ := ih (processRawRecord env s w data)
    refine ⟨motion ++ rawButtonEvents env w data ++ added, ?_, ?_⟩
    · rw [List.foldl_cons, h2, h1]
      simp only [List.append_assoc]
    · have hmot : motion.filter (fun e => !isCursorPos e) = [] := by
        rw [List.filter_eq_nil_iff]
        intro e he
        simp [hm e he]
      have hbtn : (rawButtonEvents env w data).filter (fun e => !isCursorPos e) =
          rawButtonEvents env w data := by
        rw [List.filter_eq_self]
        intro e he
        unfold rawButtonEvents at he
        split_ifs at he <;> simp at he <;> (try rcases he with he | he | he) <;>
          (try rcases he with he | he) <;> simp_all [isCursorPos]
      rw [List.filter_append, List.filter_append, hmot, hbtn, h3]
      simp [List.flatMap_cons]

/-- The guards of `processRawInput`: buttons and wheel in raw records are
processed together with raw positioning only.  For a raw batch arriving while the head of the
window list is not the disabled-cursor window or has raw motion disabled,
`processRawInput` returns at once: it emits no notification at all, neither
cursor-position nor mouse-button nor scroll, and changes nothing.  While the
window is the disabled-cursor window with raw motion enabled, the batch adds,
besides cursor-position notifications, exactly the mouse-button and scroll
notifications of its records, in order, also for records without motion. -/
theorem raw_buttons_only_with_raw_positioning (s : Session) (env : RawEnv) (w : WinId)
    (hhead : s.windowListHead = some w) :
    ((s.disabledCursorWindow ≠ some w ∨ (s.windows w).rawMouseMotion = false) →
      processRawInput s env = some s) ∧
    (s.disabledCursorWindow = some w → (s.windows w).rawMouseMotion = true →
      ∀ (n : Nat) (records : List RAWINPUT), env.sizeQuery = some n →
        env.read = some records →
        ∃ s2 added, processRawInput s env = some s2 ∧ s2.events = s.events ++ added ∧
          added.filter (fun e => !isCursorPos e) =
            records.flatMap (rawButtonEvents env w)) := by
  constructor
  · intro h
    unfold processRawInput
    by_cases hd : s.disabledCursorWindow = some w
    · have hraw : (s.windows w).rawMouseMotion = false := by
        rcases h with h | h
        · exact absurd hd h
        · exact h
      rw [if_neg (by rw [hd, hhead]; simp), hhead]
      simp [hraw]
    · rw [if_pos (by rw [hhead]; exact hd)]
  · intro hd hraw n records hn hr
    unfold processRawInput
    rw [if_neg (by rw [hd, hhead]; simp), hhead]
    simp only [hraw, Bool.not_true, Bool.false_eq_true, if_false, hn, hr]
    obtain ⟨added, h1, h2⟩ := processRawRecords_events env w records
      (if n * 16 % 2 ^ 32 > s.rawInputSize then { s with rawInputSize := n * 16 % 2 ^ 32 }
       else s)
    refine ⟨_, added, rfl, ?_, h2⟩
    rw [h1]
    split_ifs <;> rfl

/-- An instance of the first guard: the window of `legacySession` is not the
disabled-cursor window; a raw batch with a left button press and a wheel turn
yields no notification at all. -/
theorem raw_batch_ignored_without_raw_positioning :
    legacySession.windowListHead = some 1 ∧ legacySession.disabledCursorWindow ≠ some 1 ∧
    Option.map Session.events (processRawInput legacySession buttonBatchEnv) = some [] := by
  decide

/-- An instance of `raw_buttons_only_with_raw_positioning`: the same batch on
the disabled-cursor window of `rawBatchSession`, which has raw motion enabled. -/
theorem raw_buttons_only_with_raw_positioning_witness :
    rawBatchSession.windowListHead = some 1 ∧
    ∃ s2 added, processRawInput rawBatchSession buttonBatchEnv = some s2 ∧
      s2.events = rawBatchSession.events ++ added ∧
      added.filter (fun e => !isCursorPos e) =
        [Event.mouseButton 1 GLFW_MOUSE_BUTTON_LEFT GLFW_PRESS 0, Event.scroll 1 0 120] :=
  ⟨rfl, (raw_buttons_only_with_raw_positioning rawBatchSession buttonBatchEnv 1 rfl).2 rfl rfl
    48 _ rfl rfl⟩


/-- C19: window 1 of `twoWindowSession`, which is not the head of the window
list, enters disabled mode with raw motion enabled: it is the disabled-cursor
window and raw input is registered for it, so raw batches arrive while the
window that `processRawInput` looks at, the head of the window list, is not the
disabled-cursor window.  For a raw batch with a left button press and a wheel
turn `processRawInput` returns at its first guard and emits neither the
mouse-button nor the scroll notification; with window 1 at the head of the
window list the same batch emits both. -/
theorem raw_buttons_dropped_off_list_head :
    (_glfwSetCursorModeWin32 twoWindowSession 1 CursorMode.DISABLED).windowListHead = some 2 ∧
    (_glfwSetCursorModeWin32 twoWindowSession 1 CursorMode.DISABLED).disabledCursorWindow =
      some 1 ∧
    ((_glfwSetCursorModeWin32 twoWindowSession 1 CursorMode.DISABLED).windows
      1).rawMouseMotion = true ∧
    (_glfwSetCursorModeWin32 twoWindowSession 1 CursorMode.DISABLED).rawInputTarget = some 1 ∧
    Option.map Session.events
      (processRawInput (_glfwSetCursorModeWin32 twoWindowSession 1 CursorMode.DISABLED)
        buttonBatchEnv) = some [] ∧
    Option.map Session.events
      (processRawInput
        (_glfwSetCursorModeWin32 { twoWindowSession with windowList := [1, 2] } 1
          CursorMode.DISABLED)
        buttonBatchEnv) =
      some [Event.mouseButton 1 GLFW_MOUSE_BUTTON_LEFT GLFW_PRESS 0, Event.scroll 1 0 120] := by
  decide

/-! ## C20: the reconciliation pass after the message loop -/

/-- One step of the reconciliation pass: a release is synthesized exactly when
the key is recorded as pressed and its live state is released. -/
theorem releaseStuckModifier_fields (keyDown : Nat → Bool) (mods : Int) (w : WinId)
    (s : Session) (vkKey : Nat × Int) :
    (releaseStuckModifier keyDown mods w s vkKey).events = s.events ++
      (if (s.windows w).keys vkKey.2 = GLFW_PRESS ∧ keyDown vkKey.1 = false then
        [Event.key w vkKey.2 (s.scancodes vkKey.2) GLFW_RELEASE mods] else []) ∧
    (releaseStuckModifier keyDown mods w s vkKey).scancodes = s.scancodes ∧
    (∀ k, ((releaseStuckModifier keyDown mods w s vkKey).windows w).keys k =
      if k = vkKey.2 ∧ (s.windows w).keys vkKey.2 = GLFW_PRESS ∧ keyDown vkKey.1 = false then
        GLFW_RELEASE else (s.windows w).keys k) := by
  unfold releaseStuckModifier
  by_cases hd : keyDown vkKey.1 = true
  · have hnc : ¬ ((s.windows w).keys vkKey.2 = GLFW_PRESS ∧ keyDown vkKey.1 = false) := by
      rw [hd]; simp
    rw [if_pos hd, if_neg hnc]
    refine ⟨by simp, rfl, fun k => ?_⟩
    have hnk : ¬ (k = vkKey.2 ∧ (s.windows w).keys vkKey.2 = GLFW_PRESS ∧
        keyDown vkKey.1 = false) := fun h => hnc h.2
    rw [if_neg hnk]
  · have hf : keyDown vkKey.1 = false := by simpa using hd
    rw [if_neg hd]
    by_cases hp : (s.windows w).keys vkKey.2 = GLFW_PRESS
    · have hnp : ¬ (s.windows w).keys vkKey.2 ≠ GLFW_PRESS := fun h => h hp
      have hc : (s.windows w).keys vkKey.2 = GLFW_PRESS ∧ keyDown vkKey.1 = false := ⟨hp, hf⟩
      rw [if_neg hnp, if_pos hc]
      obtain ⟨h1, _, h3, _, h5, _⟩ :=
        inputKey_fields s w vkKey.2 (s.scancodes vkKey.2) GLFW_RELEASE mods
      refine ⟨h1, h3, fun k => ?_⟩
      rw [h5]
      by_cases hk : k = vkKey.2
      · have hkc : k = vkKey.2 ∧ (s.windows w).keys vkKey.2 = GLFW_PRESS ∧
            keyDown vkKey.1 = false := ⟨hk, hc⟩
        rw [if_pos hk, if_pos hkc]
      · have hkc : ¬ (k = vkKey.2 ∧ (s.windows w).keys vkKey.2 = GLFW_PRESS ∧
            keyDown vkKey.1 = false) := fun h => hk h.1
        rw [if_neg hk, if_neg hkc]
    · have hnp : (s.windows w).keys vkKey.2 ≠ GLFW_PRESS := hp
      have hnc : ¬ ((s.windows w).keys vkKey.2 = GLFW_PRESS ∧ keyDown vkKey.1 = false) :=
        fun h => hp h.1
      rw [if_pos hnp, if_neg hnc]
      refine ⟨by simp, rfl, fun k => ?_⟩
      have hnk : ¬ (k = vkKey.2 ∧ (s.windows w).keys vkKey.2 = GLFW_PRESS ∧
          keyDown vkKey.1 = false) := fun h => hnc h.2
      rw [if_neg hnk]

/-- The steps of the reconciliation pass over a table of pairwise different
logical keys: the releases added are those of the keys recorded as pressed
whose live state is released, judged on the session before the pass. -/
theorem foldl_releaseStuckModifier_fields (keyDown : Nat → Bool) (mods : Int) (w : WinId) :
    ∀ (ps : List (Nat × Int)) (_ : (ps.map Prod.snd).Nodup) (s : Session),
      (ps.foldl (releaseStuckModifier keyDown mods w) s).events = s.events ++
        (ps.filter (fun p => decide ((s.windows w).keys p.2 = GLFW_PRESS) && !keyDown p.1)).map
          (fun p => Event.key w p.2 (s.scancodes p.2) GLFW_RELEASE mods) ∧
      (ps.foldl (releaseStuckModifier keyDown mods w) s).scancodes = s.scancodes ∧
      (∀ k, ((ps.foldl (releaseStuckModifier keyDown mods w) s).windows w).keys k =
        if (∃ p ∈ ps, p.2 = k ∧ keyDown p.1 = false) ∧
            (s.windows w).keys k = GLFW_PRESS then
          GLFW_RELEASE else (s.windows w).keys k) := by
  intro ps
  induction ps with
  | nil =>
    intro _ s
    exact ⟨by simp, rfl, fun k => by simp⟩
  | cons p rest ih =>
    intro hnd s
    have hnd2 : p.2 ∉ rest.map Prod.snd ∧ (rest.map Prod.snd).Nodup := by
      simpa using hnd
    obtain ⟨a1, a2, a3⟩ := releaseStuckModifier_fields keyDown mods w s p
    obtain ⟨b1, b2, b3⟩ := ih hnd2.2 (releaseStuckModifier keyDown mods w s p)
    have hne : ∀ q ∈ rest, q.2 ≠ p.2 := by
      intro q hq heq
      exact hnd2.1 (by rw [← heq]; exact List.mem_map_of_mem _ hq)
    have hkeys : ∀ q ∈ rest, ((releaseStuckModifier keyDown mods w s p).windows w).keys q.2 =
        (s.windows w).keys q.2 := by
      intro q hq
      rw [a3, if_neg (fun h => hne q hq h.1)]
    rw [List.foldl_cons]
    refine ⟨?_, by rw [b2, a2], ?_⟩
    · rw [b1, a1, a2]
      have hfilter : rest.filter (fun q => decide (((releaseStuckModifier keyDown mods w s
            p).windows w).keys q.2 = GLFW_PRESS) && !keyDown q.1) =
          rest.filter (fun q => decide ((s.windows w).keys q.2 = GLFW_PRESS) && !keyDown q.1) := by
        apply List.filter_congr
        intro q hq
        rw [hkeys q hq]
      rw [hfilter, List.filter_cons]
      by_cases hc : (s.windows w).keys p.2 = GLFW_PRESS ∧ keyDown p.1 = false
      · rw [if_pos hc, if_pos (by simp [hc.1, hc.2])]
        simp
      · rw [if_neg hc, if_neg]
        · simp
        · intro h
          simp only [Bool.and_eq_true, decide_eq_true_eq, Bool.not_eq_true'] at h
          exact hc h
    · intro k
      rw [b3, a3]
      by_cases hk : k = p.2
      · subst hk
        have hno : ¬ ((∃ q ∈ rest, q.2 = p.2 ∧ keyDown q.1 = false) ∧
            (if p.2 = p.2 ∧ (s.windows w).keys p.2 = GLFW_PRESS ∧ keyDown p.1 = false then
              GLFW_RELEASE else (s.windows w).keys p.2) = GLFW_PRESS) :=
          fun ⟨⟨q, hq, h, _⟩, _⟩ => hne q hq h
        rw [if_neg hno]
        by_cases hc : (s.windows w).keys p.2 = GLFW_PRESS ∧ keyDown p.1 = false
        · have h1 : p.2 = p.2 ∧ (s.windows w).keys p.2 = GLFW_PRESS ∧ keyDown p.1 = false :=
            ⟨rfl, hc⟩
          have h2 : (∃ q ∈ p :: rest, q.2 = p.2 ∧ keyDown q.1 = false) ∧
              (s.windows w).keys p.2 = GLFW_PRESS :=
            ⟨⟨p, List.mem_cons_self _ _, rfl, hc.2⟩, hc.1⟩
          rw [if_pos h1, if_pos h2]
        · have h1 : ¬ (p.2 = p.2 ∧ (s.windows w).keys p.2 = GLFW_PRESS ∧
              keyDown p.1 = false) := fun h => hc h.2
          have h2 : ¬ ((∃ q ∈ p :: rest, q.2 = p.2 ∧ keyDown q.1 = false) ∧
              (s.windows w).keys p.2 = GLFW_PRESS) := by
            rintro ⟨⟨q, hq, hq2, hq3⟩, hpress⟩
            rcases List.mem_cons.mp hq with rfl | hq
            · exact hc ⟨hpress, hq3⟩
            · exact hne q hq hq2
          rw [if_neg h1, if_neg h2]
      · have h1 : ¬ (k = p.2 ∧ (s.windows w).keys p.2 = GLFW_PRESS ∧ keyDown p.1 = false) :=
          fun h => hk h.1
        rw [if_neg h1]
        have hiff : (∃ q ∈ p :: rest, q.2 = k ∧ keyDown q.1 = false) ↔
            (∃ q ∈ rest, q.2 = k ∧ keyDown q.1 = false) := by
          constructor
          · rintro ⟨q, hq, hq2, hq3⟩
            rcases List.mem_cons.mp hq with rfl | hq
            · exact absurd hq2.symm hk
            · exact ⟨q, hq, hq2, hq3⟩
          · rintro ⟨q, hq, hq2, hq3⟩
            exact ⟨q, List.mem_cons_of_mem _ hq, hq2, hq3⟩
        by_cases hc : (∃ q ∈ rest, q.2 = k ∧ keyDown q.1 = false) ∧
            (s.windows w).keys k = GLFW_PRESS
        · have h2 : (∃ q ∈ p :: rest, q.2 = k ∧ keyDown q.1 = false) ∧
              (s.windows w).keys k = GLFW_PRESS := ⟨hiff.mpr hc.1, hc.2⟩
          rw [if_pos hc, if_pos h2]
        · have h2 : ¬ ((∃ q ∈ p :: rest, q.2 = k ∧ keyDown q.1 = false) ∧
              (s.windows w).keys k = GLFW_PRESS) := fun h => hc ⟨hiff.mp h.1, h.2⟩
          rw [if_neg hc, if_neg h2]

/-- C20: after the reconciliation pass of `_glfwPollEventsWin32`, for the
active window and each of Left Shift, Right Shift, Left Super and Right Super:
the pass adds one release notification for the key if the key record of the
window says pressed and the live key state says released, and none for the key
otherwise; so a release is synthesized if and only if the record says pressed
and the live state says released; afterwards no key of the four is recorded as
pressed while its live state is released, and the record of a key that is
live-pressed or already recorded as released is unchanged. -/
theorem stuck_modifiers_released_iff (s : Session) (keyDown : Nat → Bool) (mods : Int)
    (w : WinId) (hactive : s.activeWindow = some w) :
    (releaseStuckModifiers s keyDown mods).events = s.events ++
      (stuckModifierKeys.filter (fun p =>
          decide ((s.windows w).keys p.2 = GLFW_PRESS) && !keyDown p.1)).map
        (fun p => Event.key w p.2 (s.scancodes p.2) GLFW_RELEASE mods) ∧
    (∀ p ∈ stuckModifierKeys,
      (((releaseStuckModifiers s keyDown mods).events.drop s.events.length).any
          (isKeyRelease w p.2) = true ↔
        ((s.windows w).keys p.2 = GLFW_PRESS ∧ keyDown p.1 = false))) ∧
    (∀ p ∈ stuckModifierKeys,
      ¬ (((releaseStuckModifiers s keyDown mods).windows w).keys p.2 = GLFW_PRESS ∧
          keyDown p.1 = false)) ∧
    (∀ p ∈ stuckModifierKeys,
      (keyDown p.1 = true ∨ (s.windows w).keys p.2 ≠ GLFW_PRESS) →
      ((releaseStuckModifiers s keyDown mods).windows w).keys p.2 =
        (s.windows w).keys p.2) := by
  have hrun : releaseStuckModifiers s keyDown mods =
      stuckModifierKeys.foldl (releaseStuckModifier keyDown mods w) s := by
    unfold releaseStuckModifiers
    rw [hactive]
  have hnd : (stuckModifierKeys.map Prod.snd).Nodup := by decide
  have huniq : ∀ p ∈ stuckModifierKeys, ∀ q ∈ stuckModifierKeys, q.2 = p.2 → q = p := by
    decide
  obtain ⟨he, _, hk⟩ := foldl_releaseStuckModifier_fields keyDown mods w stuckModifierKeys hnd s
  rw [← hrun] at he hk
  refine ⟨he, ?_, ?_, ?_⟩
  · intro p hp
    rw [he, List.drop_left]
    rw [List.any_eq_true]
    constructor
    · rintro ⟨e, he2, hrel⟩
      obtain ⟨q, hq, rfl⟩ := List.mem_map.mp he2
      obtain ⟨hq1, hq2⟩ := List.mem_filter.mp hq
      have hqp : q.2 = p.2 := by
        simp only [isKeyRelease, decide_eq_true_eq] at hrel
        exact hrel.2.1
      have := huniq p hp q hq1 hqp
      subst this
      simpa using hq2
    · intro hc
      refine ⟨Event.key w p.2 (s.scancodes p.2) GLFW_RELEASE mods, ?_, by simp [isKeyRelease]⟩
      exact List.mem_map.mpr ⟨p, List.mem_filter.mpr ⟨hp, by simp [hc.1, hc.2]⟩, rfl⟩
  · intro p hp
    rw [hk]
    intro ⟨h1, h2⟩
    split_ifs at h1 with hc
    · exact absurd h1 (by decide)
    · exact hc ⟨⟨p, hp, rfl, h2⟩, h1⟩
  · intro p hp hor
    rw [hk, if_neg]
    rintro ⟨⟨q, hq, hq2, hq3⟩, hpress⟩
    have := huniq p hp q hq hq2
    subst this
    rcases hor with hdown | hnp
    · rw [hdown] at hq3
      exact absurd hq3 (by decide)
    · exact hnp hpress

/-- Witness for C20: on `shiftSession`, where both Shift keys are recorded as
pressed, a pass that sees the left Shift key up and the right Shift key down
releases the left Shift key alone. -/
theorem stuck_modifiers_released_iff_witness :
    shiftSession.activeWindow = some 1 ∧
    (releaseStuckModifiers shiftSession (fun vk => decide (vk = VK_RSHIFT)) 0).events =
      [Event.key 1 GLFW_KEY_LEFT_SHIFT (-1) GLFW_RELEASE 0] :=
  ⟨rfl, (stuck_modifiers_released_iff shiftSession (fun vk => decide (vk = VK_RSHIFT)) 0 1
    rfl).1⟩

/-! ## C21: re-centering in the poll cycle -/

/-- Every session agrees with itself on cursor tracking. -/
theorem sameCursorTracking_refl (s : Session) : sameCursorTracking s s :=
  ⟨rfl, rfl, rfl, fun _ => ⟨rfl, rfl, rfl, rfl, rfl⟩⟩

/-- Agreement on cursor tracking is transitive. -/
theorem sameCursorTracking_trans {a b c : Session} (h1 : sameCursorTracking a b)
    (h2 : sameCursorTracking b c) : sameCursorTracking a c := by
  obtain ⟨a1, a2, a3, a4⟩ := h1
  obtain ⟨b1, b2, b3, b4⟩ := h2
  refine ⟨a1.trans b1, a2.trans b2, a3.trans b3, fun w => ?_⟩
  obtain ⟨c1, c2, c3, c4, c5⟩ := a4 w
  obtain ⟨d1, d2, d3, d4, d5⟩ := b4 w
  exact ⟨c1.trans d1, c2.trans d2, c3.trans d3, c4.trans d4, c5.trans d5⟩

/-- Recording a key leaves cursor tracking alone. -/
theorem inputKey_sameCursorTracking (s : Session) (w : WinId) (key sc action mods : Int) :
    sameCursorTracking (_glfwInputKey s w key sc action mods) s := by
  refine ⟨rfl, rfl, rfl, fun w2 => ?_⟩
  by_cases h : w2 = w
  · subst h; simp [_glfwInputKey, Session.emit, Session.setWindow]
  · simp [_glfwInputKey, Session.emit, Session.setWindow, Function.update_noteq h]

/-- The pass over the modifier keys leaves cursor tracking alone. -/
theorem foldl_releaseStuckModifier_sameCursorTracking (keyDown : Nat → Bool) (mods : Int)
    (w : WinId) : ∀ (ps : List (Nat × Int)) (s : Session),
      sameCursorTracking (ps.foldl (releaseStuckModifier keyDown mods w) s) s := by
  intro ps
  induction ps with
  | nil => intro s; exact sameCursorTracking_refl s
  | cons p rest ih =>
    intro s
    rw [List.foldl_cons]
    refine sameCursorTracking_trans (ih _) ?_
    unfold releaseStuckModifier
    split_ifs
    · exact sameCursorTracking_refl s
    · exact sameCursorTracking_refl s
    · exact inputKey_sameCursorTracking _ _ _ _ _ _

/-- The release of stuck modifier keys leaves cursor tracking alone. -/
theorem releaseStuckModifiers_sameCursorTracking (s : Session) (keyDown : Nat → Bool)
    (mods : Int) : sameCursorTracking (releaseStuckModifiers s keyDown mods) s := by
  unfold releaseStuckModifiers
  rcases Option.eq_none_or_eq_some s.activeWindow with h | ⟨w, h⟩
  · rw [h]; exact sameCursorTracking_refl s
  · rw [h]; exact foldl_releaseStuckModifier_sameCursorTracking _ _ _ _ _

/-- The re-centering step for a disabled-cursor window with raw motion off. -/
theorem recenterDisabledCursor_step (s : Session) (w : WinId)
    (hd : s.disabledCursorWindow = some w) (hraw : (s.windows w).rawMouseMotion = false) :
    recenterDisabledCursor s =
      if (s.windows w).lastCursorPosX ≠ Int.tdiv (s.windows w).clientWidth 2 ∨
         (s.windows w).lastCursorPosY ≠ Int.tdiv (s.windows w).clientHeight 2 then
        _glfwSetCursorPosWin32 s w (Int.tdiv (s.windows w).clientWidth 2)
          (Int.tdiv (s.windows w).clientHeight 2)
      else s := by
  unfold recenterDisabledCursor
  rw [hd]
  simp only [hraw, Bool.false_eq_true, if_false, _glfwGetWindowSizeWin32, GetClientRect]

/-- A pointer-move message at the tracked position leaves cursor tracking
alone, for a disabled-cursor window with raw motion off. -/
theorem windowProcMouseMove_echo (s : Session) (w : WinId) (lParam : Nat)
    (hd : s.disabledCursorWindow = some w) (hraw : (s.windows w).rawMouseMotion = false)
    (hx : GET_X_LPARAM lParam = (s.windows w).lastCursorPosX)
    (hy : GET_Y_LPARAM lParam = (s.windows w).lastCursorPosY) :
    sameCursorTracking (windowProcMouseMove s w lParam) s := by
  have hpre : ∀ s0 : Session, sameCursorTracking s0 s →
      sameCursorTracking
        (if (s0.windows w).cursorMode = CursorMode.DISABLED then
          if s0.disabledCursorWindow ≠ some w then s0
          else if (s0.windows w).rawMouseMotion = true then s0
          else
            (_glfwInputCursorPos s0 w
              ((s0.windows w).virtualCursorPosX +
                (GET_X_LPARAM lParam - (s0.windows w).lastCursorPosX))
              ((s0.windows w).virtualCursorPosY +
                (GET_Y_LPARAM lParam - (s0.windows w).lastCursorPosY))).setWindow w
              { (_glfwInputCursorPos s0 w
                  ((s0.windows w).virtualCursorPosX +
                    (GET_X_LPARAM lParam - (s0.windows w).lastCursorPosX))
                  ((s0.windows w).virtualCursorPosY +
                    (GET_Y_LPARAM lParam - (s0.windows w).lastCursorPosY))).windows w with
                lastCursorPosX := GET_X_LPARAM lParam,
                lastCursorPosY := GET_Y_LPARAM lParam }
        else
          (_glfwInputCursorPos s0 w (GET_X_LPARAM lParam) (GET_Y_LPARAM lParam)).setWindow w
            { (_glfwInputCursorPos s0 w (GET_X_LPARAM lParam)
                (GET_Y_LPARAM lParam)).windows w with
              lastCursorPosX := GET_X_LPARAM lParam,
              lastCursorPosY := GET_Y_LPARAM lParam }) s := by
    intro s0 h0
    obtain ⟨a1, a2, a3, a4⟩ := h0
    obtain ⟨b1, b2, b3, b4, b5⟩ := a4 w
    have key : ∀ x y : Int, sameCursorTracking
        ((_glfwInputCursorPos s0 w x y).setWindow w
          { (_glfwInputCursorPos s0 w x y).windows w with
            lastCursorPosX := GET_X_LPARAM lParam,
            lastCursorPosY := GET_Y_LPARAM lParam }) s := by
      intro x y
      refine ⟨a1, a2, a3, fun w2 => ?_⟩
      by_cases h : w2 = w
      · subst h
        simp only [_glfwInputCursorPos, Session.emit, Session.setWindow, Function.update_same]
        exact ⟨b1, hx, hy, b4, b5⟩
      · simp only [_glfwInputCursorPos, Session.emit, Session.setWindow,
          Function.update_noteq h]
        exact a4 w2
    split_ifs
    · exact ⟨a1, a2, a3, a4⟩
    · exact ⟨a1, a2, a3, a4⟩
    · exact key _ _
    · exact key _ _
  unfold windowProcMouseMove
  apply hpre
  by_cases ht : (s.windows w).cursorTracked = true
  · simp only [ht, Bool.not_true, Bool.false_eq_true, if_false]
    exact sameCursorTracking_refl s
  · have htf : (s.windows w).cursorTracked = false := by simpa using ht
    simp only [htf, Bool.not_false, if_true]
    refine ⟨rfl, rfl, rfl, fun w2 => ?_⟩
    by_cases h : w2 = w
    · subst h
      simp [_glfwInputCursorEnter, Session.emit, Session.setWindow, Session.call]
    · simp [_glfwInputCursorEnter, Session.emit, Session.setWindow, Session.call,
        Function.update_noteq h]

/-- Messages that report no pointer movement leave cursor tracking alone, for a
disabled-cursor window with raw motion off whose tracked position is the
position they report. -/
theorem foldl_dispatchQueued_echo (w : WinId) (cx cy : Int) :
    ∀ (ms : List QueuedMsg) (s : Session), (∀ m ∈ ms, noPointerMovement cx cy w m) →
      s.disabledCursorWindow = some w → (s.windows w).rawMouseMotion = false →
      (s.windows w).lastCursorPosX = cx → (s.windows w).lastCursorPosY = cy →
      sameCursorTracking (ms.foldl dispatchQueued s) s := by
  intro ms
  induction ms with
  | nil => intro s _ _ _ _ _; exact sameCursorTracking_refl s
  | cons m rest ih =>
    intro s hall hd hraw hx hy
    rw [List.foldl_cons]
    have hm := hall m (List.mem_cons_self _ _)
    have hrest : ∀ q ∈ rest, noPointerMovement cx cy w q :=
      fun q hq => hall q (List.mem_cons_of_mem _ hq)
    have hstep : sameCursorTracking (dispatchQueued s m) s := by
      rcases hm with hm | ⟨lParam, hm, hlx, hly⟩
      · rw [hm]; exact sameCursorTracking_refl s
      · rw [hm]
        exact windowProcMouseMove_echo s w lParam hd hraw (hlx.trans hx.symm) (hly.trans hy.symm)
    have a1 := hstep.1
    obtain ⟨b1, b2, b3, _, _⟩ := hstep.2.2.2 w
    exact sameCursorTracking_trans
      (ih _ hrest (a1.trans hd) (b1.trans hraw) (b2.trans hx) (b3.trans hy)) hstep

/-- C21: at the re-centering step that ends every poll cycle, for a
disabled-cursor window with raw motion off, `_glfwSetCursorPosWin32` is called
with the content-area center (width / 2, height / 2) exactly when the last
tracked cursor position differs from that center, and otherwise the step
changes nothing; after the step the tracked position is the center; the step
is idempotent; and a following poll cycle whose queued messages report no
pointer movement away from the center returns with cursor tracking and
pointer position as the first cycle left them, its re-centering step changing
nothing. -/
theorem recenter_iff_tracked_off_center (s : Session) (w : WinId)
    (hd : s.disabledCursorWindow = some w) (hraw : (s.windows w).rawMouseMotion = false) :
    (∀ (p : Session) (env : PollEnv), _glfwPollEventsWin32 p env =
      (processRawInput p env.raw).map (fun p1 => recenterDisabledCursor
        (releaseStuckModifiers (env.messages.foldl dispatchQueued p1) env.keyDown env.mods))) ∧
    recenterDisabledCursor s =
      (if (s.windows w).lastCursorPosX ≠ Int.tdiv (s.windows w).clientWidth 2 ∨
          (s.windows w).lastCursorPosY ≠ Int.tdiv (s.windows w).clientHeight 2 then
        _glfwSetCursorPosWin32 s w (Int.tdiv (s.windows w).clientWidth 2)
          (Int.tdiv (s.windows w).clientHeight 2)
      else s) ∧
    (recenterDisabledCursor s = s ↔
      (s.windows w).lastCursorPosX = Int.tdiv (s.windows w).clientWidth 2 ∧
      (s.windows w).lastCursorPosY = Int.tdiv (s.windows w).clientHeight 2) ∧
    (recenterDisabledCursor s).disabledCursorWindow = some w ∧
    ((recenterDisabledCursor s).windows w).rawMouseMotion = false ∧
    ((recenterDisabledCursor s).windows w).clientWidth = (s.windows w).clientWidth ∧
    ((recenterDisabledCursor s).windows w).clientHeight = (s.windows w).clientHeight ∧
    ((recenterDisabledCursor s).windows w).lastCursorPosX =
      Int.tdiv (s.windows w).clientWidth 2 ∧
    ((recenterDisabledCursor s).windows w).lastCursorPosY =
      Int.tdiv (s.windows w).clientHeight 2 ∧
    recenterDisabledCursor (recenterDisabledCursor s) = recenterDisabledCursor s ∧
    (∀ env : PollEnv,
      (∀ m ∈ env.messages, noPointerMovement (Int.tdiv (s.windows w).clientWidth 2)
        (Int.tdiv (s.windows w).clientHeight 2) w m) →
      _glfwPollEventsWin32 (recenterDisabledCursor s) env =
        some (releaseStuckModifiers (env.messages.foldl dispatchQueued
          (recenterDisabledCursor s)) env.keyDown env.mods) ∧
      sameCursorTracking (releaseStuckModifiers (env.messages.foldl dispatchQueued
          (recenterDisabledCursor s)) env.keyDown env.mods) (recenterDisabledCursor s)) := by
  have hstep := recenterDisabledCursor_step s w hd hraw
  obtain ⟨_, f2, _, _, _, _, _, _, _, _, f11⟩ := setCursorPos_fields s w
    (Int.tdiv (s.windows w).clientWidth 2) (Int.tdiv (s.windows w).clientHeight 2)
  have hwin : (_glfwSetCursorPosWin32 s w (Int.tdiv (s.windows w).clientWidth 2)
      (Int.tdiv (s.windows w).clientHeight 2)).windows w =
      { s.windows w with lastCursorPosX := Int.tdiv (s.windows w).clientWidth 2,
                         lastCursorPosY := Int.tdiv (s.windows w).clientHeight 2 } := by
    rw [f11, Function.update_same]
  -- facts about the state after the step
  have hpost : (recenterDisabledCursor s).disabledCursorWindow = some w ∧
      ((recenterDisabledCursor s).windows w).rawMouseMotion = false ∧
      ((recenterDisabledCursor s).windows w).clientWidth = (s.windows w).clientWidth ∧
      ((recenterDisabledCursor s).windows w).clientHeight = (s.windows w).clientHeight ∧
      ((recenterDisabledCursor s).windows w).lastCursorPosX =
        Int.tdiv (s.windows w).clientWidth 2 ∧
      ((recenterDisabledCursor s).windows w).lastCursorPosY =
        Int.tdiv (s.windows w).clientHeight 2 := by
    rw [hstep]
    by_cases hc : (s.windows w).lastCursorPosX ≠ Int.tdiv (s.windows w).clientWidth 2 ∨
        (s.windows w).lastCursorPosY ≠ Int.tdiv (s.windows w).clientHeight 2
    · rw [if_pos hc, hwin]
      exact ⟨f2.trans hd, hraw, rfl, rfl, rfl, rfl⟩
    · rw [if_neg hc]
      have hx : (s.windows w).lastCursorPosX = Int.tdiv (s.windows w).clientWidth 2 := by
        by_contra h; exact hc (Or.inl h)
      have hy : (s.windows w).lastCursorPosY = Int.tdiv (s.windows w).clientHeight 2 := by
        by_contra h; exact hc (Or.inr h)
      exact ⟨hd, hraw, rfl, rfl, hx, hy⟩
  obtain ⟨p1, p2, p3, p4, p5, p6⟩ := hpost
  have hidem : recenterDisabledCursor (recenterDisabledCursor s) = recenterDisabledCursor s := by
    rw [recenterDisabledCursor_step (recenterDisabledCursor s) w p1 p2]
    have hn : ¬ (((recenterDisabledCursor s).windows w).lastCursorPosX ≠
          Int.tdiv ((recenterDisabledCursor s).windows w).clientWidth 2 ∨
        ((recenterDisabledCursor s).windows w).lastCursorPosY ≠
          Int.tdiv ((recenterDisabledCursor s).windows w).clientHeight 2) := by
      rw [p3, p4, p5, p6]; simp
    rw [if_neg hn]
  refine ⟨?_, hstep, ?_, p1, p2, p3, p4, p5, p6, hidem, ?_⟩
  · intro p env
    unfold _glfwPollEventsWin32
    cases processRawInput p env.raw <;> rfl
  · constructor
    · intro h
      rw [← h] at hd
      have hx := p5
      have hy := p6
      rw [h] at hx hy
      exact ⟨hx, hy⟩
    · intro h
      rw [hstep]
      have hn : ¬ ((s.windows w).lastCursorPosX ≠ Int.tdiv (s.windows w).clientWidth 2 ∨
          (s.windows w).lastCursorPosY ≠ Int.tdiv (s.windows w).clientHeight 2) := by
        rw [h.1, h.2]; simp
      rw [if_neg hn]
  · intro env hall
    set r := recenterDisabledCursor s with hr
    have hraw2 : processRawInput r env.raw = some r := by
      unfold processRawInput
      by_cases hh : r.disabledCursorWindow ≠ r.windowListHead
      · rw [if_pos hh]
      · rw [if_neg hh]
        have hhead : r.windowListHead = some w := by
          have : r.disabledCursorWindow = r.windowListHead := by
            by_contra h; exact hh h
          rw [← this]; exact p1
        rw [hhead]
        simp only [p2, Bool.not_false, if_true]
    have hmsgs := foldl_dispatchQueued_echo w _ _ env.messages r hall p1 p2 p5 p6
    have hmods := releaseStuckModifiers_sameCursorTracking
      (env.messages.foldl dispatchQueued r) env.keyDown env.mods
    have hall2 := sameCursorTracking_trans hmods hmsgs
    refine ⟨?_, hall2⟩
    unfold _glfwPollEventsWin32
    rw [hraw2]
    simp only []
    congr 1
    have a1 := hall2.1
    obtain ⟨b1, b2, b3, b4, b5⟩ := hall2.2.2.2 w
    rw [recenterDisabledCursor_step _ w (a1.trans p1) (b1.trans p2)]
    have hn : ¬ (((releaseStuckModifiers (env.messages.foldl dispatchQueued r) env.keyDown
          env.mods).windows w).lastCursorPosX ≠
          Int.tdiv ((releaseStuckModifiers (env.messages.foldl dispatchQueued r) env.keyDown
            env.mods).windows w).clientWidth 2 ∨
        ((releaseStuckModifiers (env.messages.foldl dispatchQueued r) env.keyDown
          env.mods).windows w).lastCursorPosY ≠
          Int.tdiv ((releaseStuckModifiers (env.messages.foldl dispatchQueued r) env.keyDown
            env.mods).windows w).clientHeight 2) := by
      rw [b2, b3, b4, b5, p3, p4, p5, p6]; simp
    rw [if_neg hn]

/-- Witness for C21: the window of `recenterSession`, content size 800 by 600,
tracked at (410, 300); the step tracks (400, 300) afterwards. -/
theorem recenter_iff_tracked_off_center_witness :
    recenterSession.disabledCursorWindow = some 1 ∧
    (recenterSession.windows 1).rawMouseMotion = false ∧
    ((recenterDisabledCursor recenterSession).windows 1).lastCursorPosX = 400 ∧
    recenterDisabledCursor (recenterDisabledCursor recenterSession) =
      recenterDisabledCursor recenterSession :=
  ⟨rfl, rfl, (recenter_iff_tracked_off_center recenterSession 1 rfl rfl).2.2.2.2.2.2.2.1,
    (recenter_iff_tracked_off_center recenterSession 1 rfl rfl).2.2.2.2.2.2.2.2.2.1⟩

/-! ## C22: legacy and raw pointer motion exclude each other -/

/-- The two steps of the `WM_MOUSEMOVE` case, one after the other. -/
theorem windowProcMouseMove_stages (s : Session) (w : WinId) (lParam : Nat) :
    ∃ s0 : Session,
      s0 = (if !(s.windows w).cursorTracked then
              _glfwInputCursorEnter
                ((s.call (OsCall.TrackMouseEvent w)).setWindow w
                  { (s.call (OsCall.TrackMouseEvent w)).windows w with cursorTracked := true })
                w true
            else s) ∧
      windowProcMouseMove s w lParam =
        (if (s0.windows w).cursorMode = CursorMode.DISABLED then
          if s0.disabledCursorWindow ≠ some w then s0
          else if (s0.windows w).rawMouseMotion = true then s0
          else
            (_glfwInputCursorPos s0 w
              ((s0.windows w).virtualCursorPosX +
                (GET_X_LPARAM lParam - (s0.windows w).lastCursorPosX))
              ((s0.windows w).virtualCursorPosY +
                (GET_Y_LPARAM lParam - (s0.windows w).lastCursorPosY))).setWindow w
              { (_glfwInputCursorPos s0 w
                  ((s0.windows w).virtualCursorPosX +
                    (GET_X_LPARAM lParam - (s0.windows w).lastCursorPosX))
                  ((s0.windows w).virtualCursorPosY +
                    (GET_Y_LPARAM lParam - (s0.windows w).lastCursorPosY))).windows w with
                lastCursorPosX := GET_X_LPARAM lParam,
                lastCursorPosY := GET_Y_LPARAM lParam }
        else
          (_glfwInputCursorPos s0 w (GET_X_LPARAM lParam) (GET_Y_LPARAM lParam)).setWindow w
            { (_glfwInputCursorPos s0 w (GET_X_LPARAM lParam)
                (GET_Y_LPARAM lParam)).windows w with
              lastCursorPosX := GET_X_LPARAM lParam,
              lastCursorPosY := GET_Y_LPARAM lParam }) :=
  ⟨_, rfl, rfl⟩

/-- The cursor tracking step of the `WM_MOUSEMOVE` case leaves the cursor mode
state and the positions alone. -/
theorem mouseMove_tracking_fields (s : Session) (w : WinId) (s0 : Session)
    (h0 : s0 = (if !(s.windows w).cursorTracked then
              _glfwInputCursorEnter
                ((s.call (OsCall.TrackMouseEvent w)).setWindow w
                  { (s.call (OsCall.TrackMouseEvent w)).windows w with cursorTracked := true })
                w true
            else s)) :
    s0.disabledCursorWindow = s.disabledCursorWindow ∧
    (s0.windows w).cursorMode = (s.windows w).cursorMode ∧
    (s0.windows w).rawMouseMotion = (s.windows w).rawMouseMotion ∧
    (s0.windows w).virtualCursorPosX = (s.windows w).virtualCursorPosX ∧
    (s0.windows w).virtualCursorPosY = (s.windows w).virtualCursorPosY ∧
    (s0.windows w).lastCursorPosX = (s.windows w).lastCursorPosX ∧
    (s0.windows w).lastCursorPosY = (s.windows w).lastCursorPosY := by
  rw [h0]
  by_cases ht : (s.windows w).cursorTracked = true
  · simp only [ht, Bool.not_true, Bool.false_eq_true, if_false, and_self]
  · have htf : (s.windows w).cursorTracked = false := by simpa using ht
    simp [htf, _glfwInputCursorEnter, Session.emit, Session.setWindow, Session.call]

/-- A raw record for one window leaves every other window alone. -/
theorem processRawRecord_other_window (env : RawEnv) (s : Session) (w2 : WinId)
    (data : RAWINPUT) (w : WinId) (h : w ≠ w2) :
    (processRawRecord env s w2 data).windows w = s.windows w := by
  by_cases hmouse : data.dwType = RIM_TYPEMOUSE
  · obtain ⟨s1, s2, s3, h1, h2, h3, h4⟩ := processRawRecord_stages env s w2 data hmouse
    have e1 : s1.windows w = s.windows w := by
      rw [h1]
      split_ifs
      · simp [_glfwInputCursorPos, Session.setWindow, Session.emit, Function.update_noteq h]
      · rfl
    have hcall : ∀ (c : Bool) (t : Session) (o : OsCall),
        (if c = true then t.call o else t).windows = t.windows := by
      intro c t o; cases c <;> rfl
    have hclick : ∀ (t : Session) (b a m : Int),
        (_glfwInputMouseClick t w2 b a m).windows w = t.windows w := by
      intro t b a m
      simp [_glfwInputMouseClick, Session.setWindow, Session.emit, Function.update_noteq h]
    have e2 : s2.windows w = s1.windows w := by
      rw [h2]
      by_cases hb : data.usButtonFlags &&& 0xFFFF &&&
          (0xFFFF - (RI_MOUSE_WHEEL ||| RI_MOUSE_HWHEEL)) ≠ 0
      · rw [if_pos hb, hcall, hclick, hcall]
      · rw [if_neg hb]
    have e3 : s3.windows w = s2.windows w := by
      rw [h3]
      split_ifs <;> rfl
    rw [h4]
    have e4 : (if data.usButtonFlags &&& RI_MOUSE_HWHEEL ≠ 0 then
           _glfwInputScroll s3 w2 (-(toSHORT data.usButtonData)) 0
         else s3).windows w = s3.windows w := by
      split_ifs <;> rfl
    rw [e4, e3, e2, e1]
  · unfold processRawRecord
    rw [if_pos hmouse]

/-- A batch of raw records for one window leaves every other window alone. -/
theorem processRawRecords_other_window (env : RawEnv) (w2 w : WinId) (h : w ≠ w2) :
    ∀ (records : List RAWINPUT) (s : Session),
      (records.foldl (fun st data => processRawRecord env st w2 data) s).windows w =
        s.windows w := by
  intro records
  induction records with
  | nil => intro s; rfl
  | cons data rest ih =>
    intro s
    rw [List.foldl_cons, ih, processRawRecord_other_window env s w2 data w h]

/-- The raw batch changes no window other than a disabled-cursor window with
raw motion on. -/
theorem processRawInput_other_window (s : Session) (env : RawEnv) (s2 : Session) (w : WinId)
    (hres : processRawInput s env = some s2)
    (hnot : ¬ (s.disabledCursorWindow = some w ∧ (s.windows w).rawMouseMotion = true)) :
    s2.windows w = s.windows w := by
  unfold processRawInput at hres
  by_cases hh : s.disabledCursorWindow ≠ s.windowListHead
  · rw [if_pos hh] at hres
    rw [← Option.some.inj hres]
  · rw [if_neg hh] at hres
    have heq : s.disabledCursorWindow = s.windowListHead := by
      by_contra h; exact hh h
    rcases Option.eq_none_or_eq_some s.windowListHead with hn | ⟨w2, hs⟩
    · rw [hn] at hres
      exact absurd hres (by simp)
    · rw [hs] at hres
      simp only [] at hres
      by_cases hr : (s.windows w2).rawMouseMotion = true
      · have hne : w ≠ w2 := by
          intro he
          subst he
          exact hnot ⟨heq.trans hs, hr⟩
        simp only [hr, Bool.not_true, Bool.false_eq_true, if_false] at hres
        rcases Option.eq_none_or_eq_some env.sizeQuery with hq | ⟨riSize, hq⟩
        · rw [hq] at hres
          rw [← Option.some.inj hres]
          rfl
        · rw [hq] at hres
          simp only [] at hres
          rcases Option.eq_none_or_eq_some env.read with hrd | ⟨records, hrd⟩
          · rw [hrd] at hres
            rw [← Option.some.inj hres]
            simp only [_glfwInputError, Session.emit]
            split_ifs <;> rfl
          · rw [hrd] at hres
            rw [← Option.some.inj hres, processRawRecords_other_window env w2 w hne]
            split_ifs <;> rfl
      · have hrf : (s.windows w2).rawMouseMotion = false := by simpa using hr
        simp only [hrf, Bool.not_false, if_true] at hres
        rw [← Option.some.inj hres]

/-- C22: for every window in DISABLED cursor mode and every session state, a
legacy pointer-move message moves the virtual cursor position by the new
position minus the last tracked position when the window is the
disabled-cursor window and raw motion is off, and leaves it unchanged
otherwise; a raw batch leaves it unchanged unless the window is the
disabled-cursor window and raw motion is on, and the batch is processed
whenever there is a disabled-cursor window; a relative raw record moves the
virtual position of the disabled-cursor window at the head of the window list
with raw motion on by its delta; so in no state do both a legacy move message
and a raw batch change the virtual position of the window. -/
theorem motion_sources_exclusive (s : Session) (w : WinId)
    (hmode : (s.windows w).cursorMode = CursorMode.DISABLED) :
    (∀ lParam : Nat,
      virtualCursorPos (windowProc s w (Msg.WM_MOUSEMOVE lParam)) w =
        if s.disabledCursorWindow = some w ∧ (s.windows w).rawMouseMotion = false then
          ((s.windows w).virtualCursorPosX +
              (GET_X_LPARAM lParam - (s.windows w).lastCursorPosX),
           (s.windows w).virtualCursorPosY +
              (GET_Y_LPARAM lParam - (s.windows w).lastCursorPosY))
        else virtualCursorPos s w) ∧
    (∀ (env : RawEnv) (s2 : Session), processRawInput s env = some s2 →
      ¬ (s.disabledCursorWindow = some w ∧ (s.windows w).rawMouseMotion = true) →
      virtualCursorPos s2 w = virtualCursorPos s w) ∧
    (∀ env : RawEnv, s.disabledCursorWindow ≠ none →
      ∃ s2 : Session, processRawInput s env = some s2) ∧
    (∀ (riSize : Nat) (d : Int × Int), s.windowListHead = some w →
      s.disabledCursorWindow = some w → (s.windows w).rawMouseMotion = true →
      ∃ s2 : Session,
        processRawInput s { sizeQuery := some riSize, read := some [relRecord d] } = some s2 ∧
        virtualCursorPos s2 w =
          ((s.windows w).virtualCursorPosX + d.1, (s.windows w).virtualCursorPosY + d.2)) ∧
    ¬ ((∃ lParam : Nat,
          virtualCursorPos (windowProc s w (Msg.WM_MOUSEMOVE lParam)) w ≠
            virtualCursorPos s w) ∧
       (∃ (env : RawEnv) (s2 : Session), processRawInput s env = some s2 ∧
          virtualCursorPos s2 w ≠ virtualCursorPos s w)) := by
  have hlegacy : ∀ lParam : Nat,
      virtualCursorPos (windowProc s w (Msg.WM_MOUSEMOVE lParam)) w =
        if s.disabledCursorWindow = some w ∧ (s.windows w).rawMouseMotion = false then
          ((s.windows w).virtualCursorPosX +
              (GET_X_LPARAM lParam - (s.windows w).lastCursorPosX),
           (s.windows w).virtualCursorPosY +
              (GET_Y_LPARAM lParam - (s.windows w).lastCursorPosY))
        else virtualCursorPos s w := by
    intro lParam
    have hproc : windowProc s w (Msg.WM_MOUSEMOVE lParam) = windowProcMouseMove s w lParam := rfl
    obtain ⟨s0, h0, hmain⟩ := windowProcMouseMove_stages s w lParam
    obtain ⟨a1, a2, a3, a4, a5, a6, a7⟩ := mouseMove_tracking_fields s w s0 h0
    rw [hproc, hmain, if_pos (a2.trans hmode)]
    by_cases hd : s.disabledCursorWindow = some w
    · have hd0 : ¬ (s0.disabledCursorWindow ≠ some w) := fun h => h (a1.trans hd)
      rw [if_neg hd0]
      by_cases hr : (s.windows w).rawMouseMotion = true
      · have hc : ¬ (s.disabledCursorWindow = some w ∧ (s.windows w).rawMouseMotion = false) := by
          rw [hr]; simp
        rw [if_pos (a3.trans hr), if_neg hc]
        unfold virtualCursorPos
        rw [a4, a5]
      · have hrf : (s.windows w).rawMouseMotion = false := by simpa using hr
        have hr0 : ¬ ((s0.windows w).rawMouseMotion = true) := by rw [a3, hrf]; simp
        rw [if_neg hr0, if_pos ⟨hd, hrf⟩]
        simp only [virtualCursorPos, _glfwInputCursorPos, Session.setWindow, Session.emit,
          Function.update_same, a4, a5, a6, a7]
    · have hd0 : s0.disabledCursorWindow ≠ some w := fun h => hd (a1.symm.trans h)
      have hc : ¬ (s.disabledCursorWindow = some w ∧ (s.windows w).rawMouseMotion = false) :=
        fun h => hd h.1
      rw [if_pos hd0, if_neg hc]
      unfold virtualCursorPos
      rw [a4, a5]
  have hraw : ∀ (env : RawEnv) (s2 : Session), processRawInput s env = some s2 →
      ¬ (s.disabledCursorWindow = some w ∧ (s.windows w).rawMouseMotion = true) →
      virtualCursorPos s2 w = virtualCursorPos s w := by
    intro env s2 hres hnot
    unfold virtualCursorPos
    rw [processRawInput_other_window s env s2 w hres hnot]
  refine ⟨hlegacy, hraw, ?_, ?_, ?_⟩
  · intro env hd
    unfold processRawInput
    by_cases hh : s.disabledCursorWindow ≠ s.windowListHead
    · rw [if_pos hh]; exact ⟨_, rfl⟩
    · rw [if_neg hh]
      have heq : s.disabledCursorWindow = s.windowListHead := by
        by_contra h; exact hh h
      rcases Option.eq_none_or_eq_some s.windowListHead with hn | ⟨w2, hs⟩
      · exact absurd (heq.trans hn) hd
      · rw [hs]
        simp only []
        split_ifs
        · exact ⟨_, rfl⟩
        · rcases Option.eq_none_or_eq_some env.sizeQuery with hq | ⟨riSize, hq⟩
          · rw [hq]; exact ⟨_, rfl⟩
          · rw [hq]
            simp only []
            rcases Option.eq_none_or_eq_some env.read with hrd | ⟨records, hrd⟩
            · rw [hrd]; exact ⟨_, rfl⟩
            · rw [hrd]; exact ⟨_, rfl⟩
  · intro riSize d hhead hd hr
    have hh : ¬ (s.disabledCursorWindow ≠ s.windowListHead) := fun h => h (hd.trans hhead.symm)
    unfold processRawInput
    rw [if_neg hh, hhead]
    simp only [hr, Bool.not_true, Bool.false_eq_true, if_false, List.foldl_cons, List.foldl_nil]
    refine ⟨_, rfl, ?_⟩
    unfold virtualCursorPos
    obtain ⟨_, b2, b3, _, _⟩ := processRawRecord_relative
      { sizeQuery := some riSize, read := some [relRecord d] }
      (if riSize * 16 % 2 ^ 32 > s.rawInputSize then
        { s with rawInputSize := riSize * 16 % 2 ^ 32 } else s) w d
    rw [b2, b3]
    split_ifs <;> rfl
  · rintro ⟨⟨lParam, hl⟩, ⟨env, s2, hres, hr⟩⟩
    rw [hlegacy lParam] at hl
    by_cases hc : s.disabledCursorWindow = some w ∧ (s.windows w).rawMouseMotion = false
    · apply hr
      apply hraw env s2 hres
      rintro ⟨_, hon⟩
      rw [hc.2] at hon
      exact absurd hon (by decide)
    · rw [if_neg hc] at hl
      exact hl rfl

/-- Witness for C22: the window of `recenterSession`, tracked at (410, 300) with
raw motion off, receives a pointer-move message at (420, 305); the virtual
position moves from (0, 0) to (10, 5). -/
theorem motion_sources_exclusive_witness :
    (recenterSession.windows 1).cursorMode = CursorMode.DISABLED ∧
    virtualCursorPos (windowProc recenterSession 1 (Msg.WM_MOUSEMOVE (305 * 65536 + 420))) 1 =
      (10, 5) :=
  ⟨rfl, ((motion_sources_exclusive recenterSession 1 rfl).1 (305 * 65536 + 420)).trans
    (by decide)⟩

/-! ## C23: the raw path and the legacy path apply the same button transition -/

/-- A raw mouse record without motion and wheel flags and with a flag that
passes the button test does the capture, report, release sequence for the
button and action found by the flag tests. -/
theorem processRawRecord_buttonRecord (env : RawEnv) (s : Session) (w : WinId) (flags : Nat)
    (hb : flags &&& 0xFFFF &&& (0xFFFF - (RI_MOUSE_WHEEL ||| RI_MOUSE_HWHEEL)) ≠ 0)
    (hw : flags &&& RI_MOUSE_WHEEL = 0) (hh : flags &&& RI_MOUSE_HWHEEL = 0) :
    processRawRecord env s w (buttonRecord flags) =
      specButtonTransition s w (rawButton flags).1 (rawButton flags).2 env.mods := by
  obtain ⟨s1, s2, s3, h1, h2, h3, h4⟩ :=
    processRawRecord_stages env s w (buttonRecord flags) rfl
  have hd : rawDelta env s w (buttonRecord flags) = (0, 0) := by
    simp [rawDelta, buttonRecord]
  have hnd : ¬ ((rawDelta env s w (buttonRecord flags)).1 ≠ 0 ∨
      (rawDelta env s w (buttonRecord flags)).2 ≠ 0) := by
    rw [hd]; simp
  rw [if_neg hnd] at h1
  have hflags : (buttonRecord flags).usButtonFlags = flags := rfl
  rw [hflags] at h2 h3 h4
  rw [if_pos hb] at h2
  have hnw : ¬ (flags &&& RI_MOUSE_WHEEL ≠ 0) := fun h => h hw
  have hnh : ¬ (flags &&& RI_MOUSE_HWHEEL ≠ 0) := fun h => h hh
  rw [if_neg hnw] at h3
  rw [if_neg hnh] at h4
  rw [h4, h3, h2, h1]
  unfold specButtonTransition
  simp only []
  cases anyButtonPressed (s.windows w) <;>
    simp only [Bool.not_true, Bool.not_false, Bool.false_eq_true, if_true, if_false]
  · cases anyButtonPressed ((_glfwInputMouseClick (s.call (OsCall.SetCapture w)) w
        (rawButton flags).1 (rawButton flags).2 env.mods).windows w) <;>
      simp only [Bool.not_true, Bool.not_false, Bool.false_eq_true, if_true, if_false]
  · cases anyButtonPressed ((_glfwInputMouseClick s w
        (rawButton flags).1 (rawButton flags).2 env.mods).windows w) <;>
      simp only [Bool.not_true, Bool.not_false, Bool.false_eq_true, if_true, if_false]

/-- The legacy button case does the capture, report, release sequence for the
button and action of the message. -/
theorem windowProc_button (s : Session) (w : WinId) (uMsg : ButtonMessage) (wParam : Nat)
    (mods : Int) :
    windowProc s w (Msg.WM_BUTTON uMsg wParam mods) =
      specButtonTransition s w (buttonOfMessage uMsg wParam) (actionOfMessage uMsg) mods := by
  have hproc : windowProc s w (Msg.WM_BUTTON uMsg wParam mods) =
      windowProcButton s w uMsg wParam mods := rfl
  rw [hproc]
  unfold windowProcButton specButtonTransition
  simp only []
  cases anyButtonPressed (s.windows w) <;>
    simp only [Bool.not_true, Bool.not_false, Bool.false_eq_true, if_true, if_false]
  · cases anyButtonPressed ((_glfwInputMouseClick (s.call (OsCall.SetCapture w)) w
        (buttonOfMessage uMsg wParam) (actionOfMessage uMsg) mods).windows w) <;>
      simp only [Bool.not_true, Bool.not_false, Bool.false_eq_true, if_true, if_false]
  · cases anyButtonPressed ((_glfwInputMouseClick s w
        (buttonOfMessage uMsg wParam) (actionOfMessage uMsg) mods).windows w) <;>
      simp only [Bool.not_true, Bool.not_false, Bool.false_eq_true, if_true, if_false]

/-- What the capture, report, release sequence leaves in the event stream and
the request log. -/
theorem specButtonTransition_fields (s : Session) (w : WinId) (button action mods : Int) :
    (specButtonTransition s w button action mods).events =
      s.events ++ [Event.mouseButton w button action mods] ∧
    (specButtonTransition s w button action mods).calls =
      s.calls ++ (if anyButtonPressed (s.windows w) then [] else [OsCall.SetCapture w]) ++
        (if anyButtonPressed { s.windows w with
            mouseButtons := Function.update (s.windows w).mouseButtons button action }
          then [] else [OsCall.ReleaseCapture]) ∧
    ∀ i : Int, ((specButtonTransition s w button action mods).windows w).mouseButtons i =
      if i = button then action else (s.windows w).mouseButtons i := by
  unfold specButtonTransition
  simp only []
  have hwin : ∀ t : Session, t.windows w = s.windows w →
      (_glfwInputMouseClick t w button action mods).windows w =
        { s.windows w with
          mouseButtons := Function.update (s.windows w).mouseButtons button action } := by
    intro t ht
    simp only [_glfwInputMouseClick, Session.emit, Session.setWindow, Function.update_same, ht]
  have hupd : ∀ i : Int, Function.update (s.windows w).mouseButtons button action i =
      if i = button then action else (s.windows w).mouseButtons i := by
    intro i
    by_cases h : i = button
    · subst h; simp
    · simp [Function.update_noteq h, h]
  cases hb : anyButtonPressed (s.windows w)
  · simp only [Bool.false_eq_true, if_false]
    rw [hwin (s.call (OsCall.SetCapture w)) rfl]
    cases anyButtonPressed { s.windows w with
        mouseButtons := Function.update (s.windows w).mouseButtons button action }
    · simp only [Bool.false_eq_true, if_false]
      refine ⟨?_, ?_, fun i => ?_⟩
      · simp [_glfwInputMouseClick, Session.emit, Session.setWindow, Session.call]
      · simp [_glfwInputMouseClick, Session.emit, Session.setWindow, Session.call]
      · have := hwin (s.call (OsCall.SetCapture w)) rfl
        simp only [Session.call] at this ⊢
        rw [this]
        exact hupd i
    · simp only [if_true]
      refine ⟨?_, ?_, fun i => ?_⟩
      · simp [_glfwInputMouseClick, Session.emit, Session.setWindow, Session.call]
      · simp [_glfwInputMouseClick, Session.emit, Session.setWindow, Session.call]
      · rw [hwin (s.call (OsCall.SetCapture w)) rfl]
        exact hupd i
  · simp only [if_true]
    rw [hwin s rfl]
    cases anyButtonPressed { s.windows w with
        mouseButtons := Function.update (s.windows w).mouseButtons button action }
    · simp only [Bool.false_eq_true, if_false]
      refine ⟨?_, ?_, fun i => ?_⟩
      · simp [_glfwInputMouseClick, Session.emit, Session.setWindow, Session.call]
      · simp [_glfwInputMouseClick, Session.emit, Session.setWindow, Session.call]
      · have := hwin s rfl
        simp only [Session.call] at this ⊢
        rw [this]
        exact hupd i
    · simp only [if_true]
      refine ⟨?_, ?_, fun i => ?_⟩
      · simp [_glfwInputMouseClick, Session.emit, Session.setWindow, Session.call]
      · simp [_glfwInputMouseClick, Session.emit, Session.setWindow, Session.call]
      · rw [hwin s rfl]
        exact hupd i

/-- A button is down after a press of one of the eight buttons. -/
theorem anyButtonPressed_after_press (win : Window) (button : Int)
    (h0 : 0 ≤ button) (h7 : button ≤ 7) :
    anyButtonPressed { win with
      mouseButtons := Function.update win.mouseButtons button GLFW_PRESS } = true := by
  unfold anyButtonPressed
  rw [List.any_eq_true]
  refine ⟨button.toNat, ?_, ?_⟩
  · rw [List.mem_range]; omega
  · have : ((button.toNat : Nat) : Int) = button := Int.toNat_of_nonneg h0
    simp only [decide_eq_true_eq]
    rw [this, Function.update_same]

/-- No button is down after the release of the only button that was down. -/
theorem anyButtonPressed_after_last_release (win : Window) (button : Int)
    (hothers : ∀ i : Nat, i < 8 → (i : Int) ≠ button → win.mouseButtons i ≠ GLFW_PRESS) :
    anyButtonPressed { win with
      mouseButtons := Function.update win.mouseButtons button GLFW_RELEASE } = false := by
  unfold anyButtonPressed
  rw [List.any_eq_false]
  intro i hi
  rw [List.mem_range] at hi
  by_cases h : (i : Int) = button
  · rw [h]; simp [GLFW_RELEASE, GLFW_PRESS]
  · simp [Function.update_noteq h, hothers i hi h]

/-- A button that is down is found by the scan of the press-state array. -/
theorem anyButtonPressed_of_pressed (win : Window) (button : Int)
    (h0 : 0 ≤ button) (h7 : button ≤ 7) (hp : win.mouseButtons button = GLFW_PRESS) :
    anyButtonPressed win = true := by
  unfold anyButtonPressed
  rw [List.any_eq_true]
  refine ⟨button.toNat, ?_, ?_⟩
  · rw [List.mem_range]; omega
  · have : ((button.toNat : Nat) : Int) = button := Int.toNat_of_nonneg h0
    simp only [decide_eq_true_eq]
    rw [this, hp]

/-- C23: for every session state, so for every press-state array, and each of
the ten single button transitions (left, right, middle, button 4 or button 5,
pressed or released), the raw record carrying the transition flag and the
legacy button message, whatever the low word of its `wParam`, leave the same
session: capture is acquired exactly when no button is down before the event,
the button and the action are reported with the same modifiers, and capture
is released exactly when no button is down afterwards.  So a press while no
button is down acquires capture and does not release it, and the release of
the only button that is down releases capture. -/
theorem raw_and_legacy_button_transition (s : Session) (w : WinId) (env : RawEnv)
    (t : ButtonTransition) (ht : t ∈ buttonTransitions) :
    processRawRecord env s w (buttonRecord t.rawFlag) =
      specButtonTransition s w t.button t.action env.mods ∧
    (∀ keyState : Nat, keyState < 65536 →
      windowProc s w (Msg.WM_BUTTON t.uMsg (t.xbutton * 65536 + keyState) env.mods) =
        specButtonTransition s w t.button t.action env.mods) ∧
    (specButtonTransition s w t.button t.action env.mods).events =
      s.events ++ [Event.mouseButton w t.button t.action env.mods] ∧
    (specButtonTransition s w t.button t.action env.mods).calls =
      s.calls ++ (if anyButtonPressed (s.windows w) then [] else [OsCall.SetCapture w]) ++
        (if anyButtonPressed { s.windows w with
            mouseButtons := Function.update (s.windows w).mouseButtons t.button t.action }
          then [] else [OsCall.ReleaseCapture]) ∧
    (anyButtonPressed (s.windows w) = false → t.action = GLFW_PRESS →
      (specButtonTransition s w t.button t.action env.mods).calls =
        s.calls ++ [OsCall.SetCapture w]) ∧
    ((s.windows w).mouseButtons t.button = GLFW_PRESS →
      (∀ i : Nat, i < 8 → (i : Int) ≠ t.button → (s.windows w).mouseButtons i ≠ GLFW_PRESS) →
      t.action = GLFW_RELEASE →
      (specButtonTransition s w t.button t.action env.mods).calls =
        s.calls ++ [OsCall.ReleaseCapture]) := by
  have hall : ∀ t ∈ buttonTransitions,
      t.rawFlag &&& 0xFFFF &&& (0xFFFF - (RI_MOUSE_WHEEL ||| RI_MOUSE_HWHEEL)) ≠ 0 ∧
      t.rawFlag &&& RI_MOUSE_WHEEL = 0 ∧ t.rawFlag &&& RI_MOUSE_HWHEEL = 0 ∧
      rawButton t.rawFlag = (t.button, t.action) ∧ 0 ≤ t.button ∧ t.button ≤ 7 ∧
      actionOfMessage t.uMsg = t.action ∧ t.xbutton < 65536 ∧
      ((if t.uMsg = ButtonMessage.WM_LBUTTONDOWN ∨ t.uMsg = ButtonMessage.WM_LBUTTONUP then
          GLFW_MOUSE_BUTTON_LEFT
        else if t.uMsg = ButtonMessage.WM_RBUTTONDOWN ∨ t.uMsg = ButtonMessage.WM_RBUTTONUP then
          GLFW_MOUSE_BUTTON_RIGHT
        else if t.uMsg = ButtonMessage.WM_MBUTTONDOWN ∨ t.uMsg = ButtonMessage.WM_MBUTTONUP then
          GLFW_MOUSE_BUTTON_MIDDLE
        else if t.xbutton = XBUTTON1 then GLFW_MOUSE_BUTTON_4
        else GLFW_MOUSE_BUTTON_5) = t.button) := by
    decide
  obtain ⟨r1, r2, r3, r4, r5, r6, r7, r8, r9⟩ := hall t ht
  obtain ⟨f1, f2, _⟩ := specButtonTransition_fields s w t.button t.action env.mods
  refine ⟨?_, ?_, f1, f2, ?_, ?_⟩
  · rw [processRawRecord_buttonRecord env s w t.rawFlag r1 r2 r3, r4]
  · intro keyState hk
    rw [windowProc_button, r7]
    have hhi : HIWORD (t.xbutton * 65536 + keyState) = t.xbutton := by
      unfold HIWORD
      omega
    have hbtn : buttonOfMessage t.uMsg (t.xbutton * 65536 + keyState) = t.button := by
      unfold buttonOfMessage
      rw [hhi]
      exact r9
    rw [hbtn]
  · intro hnone hpress
    rw [f2, hnone, hpress, anyButtonPressed_after_press _ _ r5 r6]
    simp
  · intro hdown hothers hrel
    rw [f2, anyButtonPressed_of_pressed _ _ r5 r6 hdown, hrel,
      anyButtonPressed_after_last_release _ _ hothers]
    simp

/-- Witness for C23: a press of button 4 in a session where no button is down;
the raw record and the legacy message both acquire capture and report the
press. -/
theorem raw_and_legacy_button_transition_witness :
    processRawRecord {} legacySession 1 (buttonRecord RI_MOUSE_BUTTON_4_DOWN) =
      windowProc legacySession 1 (Msg.WM_BUTTON ButtonMessage.WM_XBUTTONDOWN (1 * 65536 + 0) 0) ∧
    (specButtonTransition legacySession 1 GLFW_MOUSE_BUTTON_4 GLFW_PRESS 0).calls =
      [OsCall.SetCapture 1] :=
  ⟨((raw_and_legacy_button_transition legacySession 1 {}
      ⟨GLFW_MOUSE_BUTTON_4, GLFW_PRESS, RI_MOUSE_BUTTON_4_DOWN, ButtonMessage.WM_XBUTTONDOWN, 1⟩
      (by decide)).1).trans
    (((raw_and_legacy_button_transition legacySession 1 {}
      ⟨GLFW_MOUSE_BUTTON_4, GLFW_PRESS, RI_MOUSE_BUTTON_4_DOWN, ButtonMessage.WM_XBUTTONDOWN, 1⟩
      (by decide)).2.1 0 (by decide)).symm),
   (raw_and_legacy_button_transition legacySession 1 {}
      ⟨GLFW_MOUSE_BUTTON_4, GLFW_PRESS, RI_MOUSE_BUTTON_4_DOWN, ButtonMessage.WM_XBUTTONDOWN, 1⟩
      (by decide)).2.2.2.2.1 (by decide) rfl⟩

/-! ## C24: which dimension `applyAspectRatio` solves for -/

/-- The single precision ratio of positive integers below `2^24` is defined and
within a relative error of `2^-24` of the exact ratio. -/
theorem aspectRatio_defined (window : Window)
    (hn0 : 0 < window.numer) (hd0 : 0 < window.denom)
    (hn : window.numer < 2 ^ 24) (hd : window.denom < 2 ^ 24) :
    aspectRatio window = some (f32Round ((window.numer : ℚ) / (window.denom : ℚ))) ∧
    |f32Round ((window.numer : ℚ) / (window.denom : ℚ))| ≤
      (window.numer : ℚ) / (window.denom : ℚ) * (16777217 / 16777216) + 2 ^ (-150 : ℤ) := by
  have en : f32OfInt window.numer = window.numer :=
    f32Round_int _ (by rw [abs_of_pos hn0]; exact hn)
  have ed : f32OfInt window.denom = window.denom :=
    f32Round_int _ (by rw [abs_of_pos hd0]; exact hd)
  have hnq : (0 : ℚ) < window.numer := by exact_mod_cast hn0
  have hdq : (0 : ℚ) < window.denom := by exact_mod_cast hd0
  have hnq2 : (window.numer : ℚ) < 2 ^ 24 := by exact_mod_cast hn
  have hdq1 : (1 : ℚ) ≤ window.denom := by exact_mod_cast hd0
  set A : ℚ := (window.numer : ℚ) / (window.denom : ℚ) with hA
  have hApos : 0 < A := div_pos hnq hdq
  have hAabs : |A| = A := abs_of_pos hApos
  have hAhi : A ≤ 2 ^ 24 := by
    rw [hA, div_le_iff₀ hdq]
    nlinarith
  have hc2 : (1 : ℚ) + 2 ^ (-24 : ℤ) = 16777217 / 16777216 := by
    rw [zpow_neg]; norm_num
  have hsmall : (2 : ℚ) ^ (-150 : ℤ) ≤ 1 := by
    have : (2 : ℚ) ^ (-150 : ℤ) ≤ 2 ^ (0 : ℤ) :=
      zpow_le_zpow_right₀ (by norm_num) (by norm_num)
    simpa using this
  have hRhi := abs_f32Round_le A
  rw [hAabs, hc2] at hRhi
  refine ⟨?_, hRhi⟩
  unfold aspectRatio f32Div f32Finite
  rw [en, ed, if_neg (ne_of_gt hdq), if_pos]
  calc |f32Round A| ≤ A * (16777217 / 16777216) + 2 ^ (-150 : ℤ) := hRhi
    _ ≤ 2 ^ 24 * (16777217 / 16777216) + 1 := by gcongr
    _ < 2 ^ 128 := by norm_num

/-- The product with the ratio is defined for a positive ratio of integers
below `2^24` and an extent of magnitude below `2^24` whose exact product with
the ratio is at most `2^30` in magnitude. -/
theorem multiplyByRatio_defined (x : Int) (window : Window)
    (hn0 : 0 < window.numer) (hd0 : 0 < window.denom)
    (hn : window.numer < 2 ^ 24) (hd : window.denom < 2 ^ 24)
    (hx : |x| < 2 ^ 24) (hq : |x| * window.numer ≤ 2 ^ 30 * window.denom) :
    ∃ v : Int, multiplyByRatio x window = some v := by
  obtain ⟨hratio, hRhi⟩ := aspectRatio_defined window hn0 hd0 hn hd
  have ex : f32OfInt x = x := f32Round_int _ hx
  have hnq : (0 : ℚ) < window.numer := by exact_mod_cast hn0
  have hdq : (0 : ℚ) < window.denom := by exact_mod_cast hd0
  set A : ℚ := (window.numer : ℚ) / (window.denom : ℚ) with hA
  have hApos : 0 < A := div_pos hnq hdq
  have hc2 : (1 : ℚ) + 2 ^ (-24 : ℤ) = 16777217 / 16777216 := by
    rw [zpow_neg]; norm_num
  have hsmall : (2 : ℚ) ^ (-150 : ℤ) ≤ 2 ^ (-24 : ℤ) :=
    zpow_le_zpow_right₀ (by norm_num) (by norm_num)
  have e24 : (2 : ℚ) ^ (-24 : ℤ) * 2 ^ 24 = 1 := by
    rw [zpow_neg]; norm_num
  have hsmall1 : (2 : ℚ) ^ (-150 : ℤ) ≤ 1 := by
    have : (2 : ℚ) ^ (-150 : ℤ) ≤ 2 ^ (0 : ℤ) :=
      zpow_le_zpow_right₀ (by norm_num) (by norm_num)
    simpa using this
  have hxabs : |(x : ℚ)| < 2 ^ 24 := by
    have : ((|x| : ℤ) : ℚ) < ((2 ^ 24 : ℤ) : ℚ) := by exact_mod_cast hx
    push_cast at this
    exact this
  have hxq : |(x : ℚ)| * A ≤ 2 ^ 30 := by
    rw [hA, mul_div_assoc', div_le_iff₀ hdq]
    have : ((|x| * window.numer : ℤ) : ℚ) ≤ ((2 ^ 30 * window.denom : ℤ) : ℚ) := by
      exact_mod_cast hq
    push_cast at this
    exact this
  have hxnn : 0 ≤ |(x : ℚ)| := abs_nonneg _
  have hprod : |(x : ℚ) * f32Round A| ≤ 2 ^ 30 * (16777217 / 16777216) + 1 := by
    rw [abs_mul]
    calc |(x : ℚ)| * |f32Round A|
        ≤ |(x : ℚ)| * (A * (16777217 / 16777216) + 2 ^ (-150 : ℤ)) := by gcongr
      _ = |(x : ℚ)| * A * (16777217 / 16777216) + |(x : ℚ)| * 2 ^ (-150 : ℤ) := by ring
      _ ≤ 2 ^ 30 * (16777217 / 16777216) + 2 ^ 24 * 2 ^ (-24 : ℤ) := by
          gcongr
      _ = 2 ^ 30 * (16777217 / 16777216) + 1 := by rw [mul_comm (2 ^ 24 : ℚ), e24]
  have hQ := abs_f32Round_le ((x : ℚ) * f32Round A)
  rw [hc2] at hQ
  have hQ2 : |f32Round ((x : ℚ) * f32Round A)| < 2 ^ 31 := by
    calc |f32Round ((x : ℚ) * f32Round A)|
        ≤ |(x : ℚ) * f32Round A| * (16777217 / 16777216) + 2 ^ (-150 : ℤ) := hQ
      _ ≤ (2 ^ 30 * (16777217 / 16777216) + 1) * (16777217 / 16777216) + 1 := by gcongr
      _ < 2 ^ 31 := by norm_num
  have hmul : f32Mul (f32OfInt x) (f32Round A) = some (f32Round ((x : ℚ) * f32Round A)) := by
    unfold f32Mul f32Finite
    rw [ex, if_pos]
    exact lt_trans hQ2 (by norm_num)
  have htr := abs_truncate_le (f32Round ((x : ℚ) * f32Round A))
  have htr2 : |((truncate (f32Round ((x : ℚ) * f32Round A)) : ℤ) : ℚ)| < 2 ^ 31 :=
    lt_of_le_of_lt htr hQ2
  rw [abs_lt] at htr2
  have hint : -2 ^ 31 ≤ truncate (f32Round ((x : ℚ) * f32Round A)) ∧
      truncate (f32Round ((x : ℚ) * f32Round A)) < 2 ^ 31 := by
    constructor
    · have : ((-2 ^ 31 : ℤ) : ℚ) < (truncate (f32Round ((x : ℚ) * f32Round A)) : ℚ) := by
        push_cast; exact htr2.1
      exact le_of_lt (by exact_mod_cast this)
    · have : ((truncate (f32Round ((x : ℚ) * f32Round A)) : ℤ) : ℚ) < ((2 ^ 31 : ℤ) : ℚ) := by
        push_cast; exact htr2.2
      exact_mod_cast this
  refine ⟨truncate (f32Round ((x : ℚ) * f32Round A)), ?_⟩
  unfold multiplyByRatio
  rw [hratio]
  simp only [Option.bind_eq_bind, Option.some_bind, hmul, f32ToInt]
  rw [if_pos hint]

/-- Counterexample for C24: with ratio 16:9 and frame extents (16, 39), the
rect (0,0,1936,1119) has content size 1920 by 1080.  Dragged by the
bottom-right corner straight down to bottom 1219, or straight up to bottom
1019, it comes back as (0,0,1936,1119): the width is kept and the height is
solved from it, although the drag is along the vertical axis.  The bottom
edge, dragged to the same rect, solves the width from the height instead. -/
theorem aspect_ratio_corner_ignores_drag_axis :
    applyAspectRatio wideSession 1 WMSZ_BOTTOMRIGHT ⟨0, 0, 1936, 1219⟩ =
      some ⟨0, 0, 1936, 1119⟩ ∧
    applyAspectRatio wideSession 1 WMSZ_BOTTOMRIGHT ⟨0, 0, 1936, 1019⟩ =
      some ⟨0, 0, 1936, 1119⟩ ∧
    applyAspectRatio wideSession 1 WMSZ_BOTTOM ⟨0, 0, 1936, 1219⟩ =
      some ⟨0, 0, 2113, 1219⟩ := by
  decide!

/-- C24, as amended: `applyAspectRatio` chooses the solved dimension from the
edge code alone.  For a left or right edge drag, and for a bottom-left or
bottom-right corner drag, only the bottom of the rect is recomputed, from the
content width (left, right and top are unchanged); for a top-left or top-right
corner drag only the top is recomputed, from the content width (left, right
and bottom are unchanged); for a top or bottom edge drag only the right is
recomputed, from the content height (left, top and bottom are unchanged).  The
content size is the rect size minus the frame extents; the solved extent is
the single precision quotient or product with the ratio, truncated, and it is
defined for positive `numer` and `denom` below `2^24` and a content extent of
magnitude below `2^24` whose exact quotient or product is at most `2^30`. -/
theorem aspect_ratio_solved_dimension (s : Session) (w : WinId) (edge : Nat) (area : RECT)
    (hn0 : 0 < (s.windows w).numer) (hd0 : 0 < (s.windows w).denom)
    (hn : (s.windows w).numer < 2 ^ 24) (hd : (s.windows w).denom < 2 ^ 24) :
    (edge = WMSZ_LEFT ∨ edge = WMSZ_RIGHT ∨ edge = WMSZ_BOTTOMLEFT ∨ edge = WMSZ_BOTTOMRIGHT →
      applyAspectRatio s w edge area =
        (divideByRatio ((area.right - area.left) -
            ((frameRect s w).right - (frameRect s w).left)) (s.windows w)).map
          (fun h => { area with
            bottom := area.top + ((frameRect s w).bottom - (frameRect s w).top) + h }) ∧
      (|(area.right - area.left) - ((frameRect s w).right - (frameRect s w).left)| < 2 ^ 24 →
        |(area.right - area.left) - ((frameRect s w).right - (frameRect s w).left)| *
          (s.windows w).denom ≤ 2 ^ 30 * (s.windows w).numer →
        ∃ h : Int, applyAspectRatio s w edge area =
          some ⟨area.left, area.top, area.right,
            area.top + ((frameRect s w).bottom - (frameRect s w).top) + h⟩)) ∧
    (edge = WMSZ_TOPLEFT ∨ edge = WMSZ_TOPRIGHT →
      applyAspectRatio s w edge area =
        (divideByRatio ((area.right - area.left) -
            ((frameRect s w).right - (frameRect s w).left)) (s.windows w)).map
          (fun h => { area with
            top := area.bottom - ((frameRect s w).bottom - (frameRect s w).top) - h }) ∧
      (|(area.right - area.left) - ((frameRect s w).right - (frameRect s w).left)| < 2 ^ 24 →
        |(area.right - area.left) - ((frameRect s w).right - (frameRect s w).left)| *
          (s.windows w).denom ≤ 2 ^ 30 * (s.windows w).numer →
        ∃ h : Int, applyAspectRatio s w edge area =
          some ⟨area.left,
            area.bottom - ((frameRect s w).bottom - (frameRect s w).top) - h,
            area.right, area.bottom⟩)) ∧
    (edge = WMSZ_TOP ∨ edge = WMSZ_BOTTOM →
      applyAspectRatio s w edge area =
        (multiplyByRatio ((area.bottom - area.top) -
            ((frameRect s w).bottom - (frameRect s w).top)) (s.windows w)).map
          (fun v => { area with
            right := area.left + ((frameRect s w).right - (frameRect s w).left) + v }) ∧
      (|(area.bottom - area.top) - ((frameRect s w).bottom - (frameRect s w).top)| < 2 ^ 24 →
        |(area.bottom - area.top) - ((frameRect s w).bottom - (frameRect s w).top)| *
          (s.windows w).numer ≤ 2 ^ 30 * (s.windows w).denom →
        ∃ v : Int, applyAspectRatio s w edge area =
          some ⟨area.left, area.top,
            area.left + ((frameRect s w).right - (frameRect s w).left) + v,
            area.bottom⟩)) := by
  refine ⟨?_, ?_, ?_⟩
  · intro he
    have hc : edge = WMSZ_LEFT ∨ edge = WMSZ_BOTTOMLEFT ∨ edge = WMSZ_RIGHT ∨
        edge = WMSZ_BOTTOMRIGHT := by
      rcases he with h | h | h | h
      · exact Or.inl h
      · exact Or.inr (Or.inr (Or.inl h))
      · exact Or.inr (Or.inl h)
      · exact Or.inr (Or.inr (Or.inr h))
    have hmap : applyAspectRatio s w edge area =
        (divideByRatio ((area.right - area.left) -
            ((frameRect s w).right - (frameRect s w).left)) (s.windows w)).map
          (fun h => { area with
            bottom := area.top + ((frameRect s w).bottom - (frameRect s w).top) + h }) := by
      unfold applyAspectRatio
      simp only []
      rw [if_pos hc]
    refine ⟨hmap, fun hx hq => ?_⟩
    obtain ⟨h, hh⟩ := divideByRatio_defined _ (s.windows w) hn0 hd0 hn hd hx hq
    rw [hmap, hh]
    exact ⟨h, rfl⟩
  · intro he
    have hc1 : ¬ (edge = WMSZ_LEFT ∨ edge = WMSZ_BOTTOMLEFT ∨ edge = WMSZ_RIGHT ∨
        edge = WMSZ_BOTTOMRIGHT) := by
      rcases he with h | h <;> rw [h] <;> decide
    have hmap : applyAspectRatio s w edge area =
        (divideByRatio ((area.right - area.left) -
            ((frameRect s w).right - (frameRect s w).left)) (s.windows w)).map
          (fun h => { area with
            top := area.bottom - ((frameRect s w).bottom - (frameRect s w).top) - h }) := by
      unfold applyAspectRatio
      simp only []
      rw [if_neg hc1, if_pos he]
    refine ⟨hmap, fun hx hq => ?_⟩
    obtain ⟨h, hh⟩ := divideByRatio_defined _ (s.windows w) hn0 hd0 hn hd hx hq
    rw [hmap, hh]
    exact ⟨h, rfl⟩
  · intro he
    have hc1 : ¬ (edge = WMSZ_LEFT ∨ edge = WMSZ_BOTTOMLEFT ∨ edge = WMSZ_RIGHT ∨
        edge = WMSZ_BOTTOMRIGHT) := by
      rcases he with h | h <;> rw [h] <;> decide
    have hc2 : ¬ (edge = WMSZ_TOPLEFT ∨ edge = WMSZ_TOPRIGHT) := by
      rcases he with h | h <;> rw [h] <;> decide
    have hmap : applyAspectRatio s w edge area =
        (multiplyByRatio ((area.bottom - area.top) -
            ((frameRect s w).bottom - (frameRect s w).top)) (s.windows w)).map
          (fun v => { area with
            right := area.left + ((frameRect s w).right - (frameRect s w).left) + v }) := by
      unfold applyAspectRatio
      simp only []
      rw [if_neg hc1, if_neg hc2, if_pos he]
    refine ⟨hmap, fun hx hq => ?_⟩
    obtain ⟨v, hv⟩ := multiplyByRatio_defined _ (s.windows w) hn0 hd0 hn hd hx hq
    rw [hmap, hv]
    exact ⟨v, rfl⟩

/-- Witness for C24 as amended: ratio 16:9, frame extents (16, 39), the rect
(0,0,1936,1219) dragged by the bottom-left corner. -/
theorem aspect_ratio_solved_dimension_witness :
    ∃ h : Int, applyAspectRatio wideSession 1 WMSZ_BOTTOMLEFT ⟨0, 0, 1936, 1219⟩ =
      some ⟨0, 0, 1936, 0 + (8 - (-31)) + h⟩ :=
  ((aspect_ratio_solved_dimension wideSession 1 WMSZ_BOTTOMLEFT ⟨0, 0, 1936, 1219⟩
    (by decide) (by decide) (by decide) (by decide)).1
      (Or.inr (Or.inr (Or.inl rfl)))).2 (by decide) (by decide)

/-! ## C25: the two ways of entering and leaving disabled mode -/

/-- The function `updateCursorImage` as a write of the cursor image. -/
theorem updateCursorImage_eq (t : Session) (w : WinId) :
    updateCursorImage t w = { t with cursorImage := (updateCursorImage t w).cursorImage } := by
  unfold updateCursorImage
  split_ifs
  · split <;> rfl
  · rfl

/-- Apart from the cursor image, the closing cursor image update of
`_glfwSetCursorModeWin32` changes nothing. -/
theorem condUpdateCursorImage_erased (t : Session) (w : WinId) (b : Bool) (c : CursorImage) :
    { (if b = true then updateCursorImage t w else t) with cursorImage := c } =
      { t with cursorImage := c } := by
  cases b
  · rfl
  · simp only [if_true]
    rw [updateCursorImage_eq]

/-- Entering disabled mode on the focused window: apart from the cursor image,
`_glfwSetCursorModeWin32` and `disableCursor` leave the same session. -/
theorem setCursorMode_disabled_eq (s : Session) (w : WinId) (hfocus : s.activeWindow = some w)
    (c : CursorImage) :
    { _glfwSetCursorModeWin32 s w CursorMode.DISABLED with cursorImage := c } =
    { disableCursor s w with cursorImage := c } := by
  have hf : _glfwWindowFocusedWin32 s w = true := by
    simp [_glfwWindowFocusedWin32, hfocus]
  unfold _glfwSetCursorModeWin32
  simp only []
  rw [condUpdateCursorImage_erased]
  unfold disableCursor
  simp only [hf, if_true, true_or]
  rw [updateCursorImage_eq (saveRestoreCursorPos { s with disabledCursorWindow := some w } w) w]
  generalize (updateCursorImage (saveRestoreCursorPos { s with disabledCursorWindow := some w } w)
    w).cursorImage = img
  by_cases hr : (s.windows w).rawMouseMotion = true <;>
  by_cases hq : s.getCursorPosOk = true <;>
  rcases Option.eq_none_or_eq_some s.clipRect with hc | ⟨r, hc⟩ <;>
  simp [hr, captureCursor, enableRawMouseMotion,
          _glfwCenterCursorInContentArea, _glfwSetCursorPosWin32, SetCursorPos,
          saveRestoreCursorPos, _glfwGetCursorPosWin32, hq, hc, Session.setWindow,
          _glfwGetWindowSizeWin32, GetClientRect, ClientToScreen, ScreenToClient]

/-- Leaving disabled mode on the focused disabled-cursor window for normal or
hidden mode: apart from the cursor image, `_glfwSetCursorModeWin32` and
`enableCursor` leave the same session. -/
theorem setCursorMode_enabled_eq (s : Session) (w : WinId) (mode : CursorMode)
    (hfocus : s.activeWindow = some w) (hdis : s.disabledCursorWindow = some w)
    (hmode : mode = CursorMode.NORMAL ∨ mode = CursorMode.HIDDEN) (c : CursorImage) :
    { _glfwSetCursorModeWin32 s w mode with cursorImage := c } =
    { enableCursor s w with cursorImage := c } := by
  have hf : _glfwWindowFocusedWin32 s w = true := by
    simp [_glfwWindowFocusedWin32, hfocus]
  have hm1 : ¬ (mode = CursorMode.DISABLED) := by
    rcases hmode with h | h <;> rw [h] <;> decide
  have hm2 : ¬ (mode = CursorMode.DISABLED ∨ mode = CursorMode.CAPTURED) := by
    rcases hmode with h | h <;> rw [h] <;> decide
  unfold _glfwSetCursorModeWin32
  simp only []
  rw [condUpdateCursorImage_erased]
  unfold enableCursor
  simp only []
  rw [updateCursorImage_eq]
  simp only [hf, if_true, if_neg hm1, if_neg hm2, if_pos hdis]
  by_cases hr : (s.windows w).rawMouseMotion = true <;>
  simp [hr, hdis, releaseCursor, disableRawMouseMotion, _glfwSetCursorPosWin32, SetCursorPos,
    Session.setWindow, ClientToScreen]

/-- C25: for every session state and every focused window,
`_glfwSetCursorModeWin32` with `DISABLED` and `disableCursor` leave the same
session apart from the cursor image, in particular the same disabled-cursor
window, captured-cursor window, recorded restore position, last tracked cursor
position, clip rectangle, raw motion registration and pointer position; and
when the window is the disabled-cursor window, `_glfwSetCursorModeWin32` with
`NORMAL` or `HIDDEN` and `enableCursor` leave the same session apart from the
cursor image, in particular the same cursor mode state and pointer position. -/
theorem cursor_mode_paths_agree (s : Session) (w : WinId) (hfocus : s.activeWindow = some w) :
    (∀ c : CursorImage,
      { _glfwSetCursorModeWin32 s w CursorMode.DISABLED with cursorImage := c } =
        { disableCursor s w with cursorImage := c }) ∧
    cursorModeState (_glfwSetCursorModeWin32 s w CursorMode.DISABLED) w =
      cursorModeState (disableCursor s w) w ∧
    (s.disabledCursorWindow = some w →
      ∀ mode : CursorMode, mode = CursorMode.NORMAL ∨ mode = CursorMode.HIDDEN →
        (∀ c : CursorImage,
          { _glfwSetCursorModeWin32 s w mode with cursorImage := c } =
            { enableCursor s w with cursorImage := c }) ∧
        cursorModeState (_glfwSetCursorModeWin32 s w mode) w =
          cursorModeState (enableCursor s w) w ∧
        (_glfwSetCursorModeWin32 s w mode).osCursorPos = (enableCursor s w).osCursorPos) := by
  refine ⟨fun c => setCursorMode_disabled_eq s w hfocus c, ?_, ?_⟩
  · have h := congrArg (fun t : Session => cursorModeState t w)
      (setCursorMode_disabled_eq s w hfocus CursorImage.arrow)
    exact h
  · intro hdis mode hmode
    refine ⟨fun c => setCursorMode_enabled_eq s w mode hfocus hdis hmode c, ?_, ?_⟩
    · have h := congrArg (fun t : Session => cursorModeState t w)
        (setCursorMode_enabled_eq s w mode hfocus hdis hmode CursorImage.arrow)
      exact h
    · have h := congrArg Session.osCursorPos
        (setCursorMode_enabled_eq s w mode hfocus hdis hmode CursorImage.arrow)
      exact h

/-- Witness for C25: the focused window of `focusedSession`. -/
theorem cursor_mode_paths_agree_witness :
    focusedSession.activeWindow = some 1 ∧
    cursorModeState (_glfwSetCursorModeWin32 focusedSession 1 CursorMode.DISABLED) 1 =
      cursorModeState (disableCursor focusedSession 1) 1 :=
  ⟨rfl, (cursor_mode_paths_agree focusedSession 1 rfl).2.1⟩

/-! ## C26: the null window in `processRawInput` -/

/-- C26: with an empty window list and no disabled-cursor window,
`processRawInput` passes its first guard (null equals null) and reads
`rawMouseMotion` through the null window pointer, so neither it nor
`_glfwPollEventsWin32` produces a result; with an empty window list and a
disabled-cursor window it returns at the first guard, the session unchanged. -/
theorem processRawInput_reads_null_window (s : Session) (env : RawEnv) (penv : PollEnv)
    (w : WinId) :
    processRawInput { s with windowList := [], disabledCursorWindow := none } env = none ∧
    _glfwPollEventsWin32 { s with windowList := [], disabledCursorWindow := none } penv = none ∧
    processRawInput ({} : Session) env = none ∧
    processRawInput { s with windowList := [], disabledCursorWindow := some w } env =
      some { s with windowList := [], disabledCursorWindow := some w } := by
  refine ⟨rfl, rfl, rfl, rfl⟩

/-! ## C27: the button and action of a raw record -/

/-- C27: a raw mouse record whose button flags are 0x1000, which is not one of
the ten transition flags and not a wheel flag, passes the test
`buttonFlags & 0xFFFF & ~(RI_MOUSE_WHEEL | RI_MOUSE_HWHEEL)`, and
`processRawInput` reports a click with button `-1` and action `-1`; a record
whose flags are 0x0005, a left press and a right press, is reported as the
right press alone. -/
theorem raw_record_reports_placeholder_click :
    (0x1000 : Nat) < 2 ^ 16 ∧
    rawButton 0x1000 = (-1, -1) ∧
    Option.map Session.events
      (processRawInput rawBatchSession
        { sizeQuery := some 48,
          read := some [{ dwType := RIM_TYPEMOUSE, usButtonFlags := 0x1000 }] }) =
      some [Event.mouseButton 1 (-1) (-1) 0] ∧
    RI_MOUSE_LEFT_BUTTON_DOWN ||| RI_MOUSE_RIGHT_BUTTON_DOWN = 0x0005 ∧
    Option.map Session.events
      (processRawInput rawBatchSession
        { sizeQuery := some 48,
          read := some [{ dwType := RIM_TYPEMOUSE, usButtonFlags := 0x0005 }] }) =
      some [Event.mouseButton 1 GLFW_MOUSE_BUTTON_RIGHT GLFW_PRESS 0] := by
  decide

/-! ## C28: the scan code of a key message stays inside the key tables -/

/-- C28: for every key message whose scan code field (the high word masked with
the extended bit and the low 8 bits) is not zero, the scan code after the
Alt+PrtSc, Ctrl+Pause and CJK right-Shift remappings is the field itself
except 0x54, 0x146 and 0x136, which become 0x137, 0x45 and 0x36; it lies in
`[1, 0x1FF]`, and `_glfwGetScancodeNameWin32` accepts it: it reports no error
and returns the name of the key the key code table holds for it, or null for
an unknown key.  The scan codes `_glfwGetScancodeNameWin32` accepts without
reporting an error are those in `[0, 0x1FF]`. -/
theorem key_scancode_within_table (s : Session) (k : KeyMsg)
    (h : k.hiword &&& (KF_EXTENDED ||| 0xff) ≠ 0) :
    keyScancode k =
      (if k.hiword &&& (KF_EXTENDED ||| 0xff) = 0x54 then 0x137
       else if k.hiword &&& (KF_EXTENDED ||| 0xff) = 0x146 then 0x45
       else if k.hiword &&& (KF_EXTENDED ||| 0xff) = 0x136 then 0x36
       else ((k.hiword &&& (KF_EXTENDED ||| 0xff) : Nat) : Int)) ∧
    1 ≤ keyScancode k ∧ keyScancode k ≤ 0x1FF ∧
    _glfwGetScancodeNameWin32 s (keyScancode k) =
      (s, if s.keycodes (keyScancode k) = GLFW_KEY_UNKNOWN then none
          else s.keynames (s.keycodes (keyScancode k))) ∧
    (∀ scancode : Int, (_glfwGetScancodeNameWin32 s scancode).1.events = s.events ↔
      0 ≤ scancode ∧ scancode ≤ 0x1FF) := by
  have hle : k.hiword &&& (KF_EXTENDED ||| 0xff) ≤ 0x1FF := Nat.and_le_right
  have hpos : 1 ≤ k.hiword &&& (KF_EXTENDED ||| 0xff) := Nat.one_le_iff_ne_zero.mpr h
  generalize hx : k.hiword &&& (KF_EXTENDED ||| 0xff) = x at h hle hpos
  have hval : keyScancode k =
      (if x = 0x54 then 0x137 else if x = 0x146 then 0x45
       else if x = 0x136 then 0x36 else (x : Int)) := by
    unfold keyScancode
    simp only [hx]
    have hx0 : ¬ ((x : Int) = 0) := by omega
    rw [if_neg hx0]
    by_cases h1 : x = 0x54
    · subst h1; decide
    · have h1i : ¬ ((x : Int) = 0x54) := by omega
      rw [if_neg h1, if_neg h1i]
      by_cases h2 : x = 0x146
      · subst h2; decide
      · have h2i : ¬ ((x : Int) = 0x146) := by omega
        rw [if_neg h2, if_neg h2i]
        by_cases h3 : x = 0x136
        · subst h3; decide
        · have h3i : ¬ ((x : Int) = 0x136) := by omega
          rw [if_neg h3, if_neg h3i]
  have hlo : 1 ≤ keyScancode k := by
    rw [hval]; split_ifs <;> omega
  have hhi : keyScancode k ≤ 0x1FF := by
    rw [hval]; split_ifs <;> omega
  have hk : ((KF_EXTENDED ||| 0xff : Nat) : Int) = 0x1FF := by decide
  refine ⟨hval, hlo, hhi, ?_, ?_⟩
  swap
  · intro scancode
    unfold _glfwGetScancodeNameWin32
    rw [hk]
    by_cases hg : scancode < 0 ∨ scancode > 0x1FF
    · rw [if_pos hg]
      simp only [_glfwInputError, Session.emit, List.append_right_eq_self, List.cons_ne_nil,
        false_iff]
      omega
    · rw [if_neg hg]
      have hin : 0 ≤ scancode ∧ scancode ≤ 0x1FF := by omega
      by_cases hu : s.keycodes scancode = GLFW_KEY_UNKNOWN
      · simp only [hu, if_true, hin, and_self]
      · simp only [hu, if_false, hin, and_self]
  unfold _glfwGetScancodeNameWin32
  have hguard : ¬ (keyScancode k < 0 ∨ keyScancode k > ((KF_EXTENDED ||| 0xff : Nat) : Int)) := by
    rw [hk]; omega
  rw [if_neg hguard]
  by_cases hu : s.keycodes (keyScancode k) = GLFW_KEY_UNKNOWN
  · simp only [hu, if_true]
  · simp only [hu, if_false]

/-- Witness for C28: an Alt+PrtSc message, scan code field 0x54, uses scan code
0x137. -/
theorem key_scancode_within_table_witness :
    keyScancode { wParam := 0x2C, hiword := 0x2054 } = 0x137 :=
  ((key_scancode_within_table {} { wParam := 0x2C, hiword := 0x2054 } (by decide)).1).trans
    (by decide)

/-! ## C29: mouse passthrough on and off -/

/-- Setting the click-through and layered style bits leaves the layered bit
set, also after the click-through bit is cleared again. -/
theorem passthrough_layered_kept (x : Nat) :
    ((x ||| (WS_EX_TRANSPARENT ||| WS_EX_LAYERED)) &&& (0xFFFFFFFF - WS_EX_TRANSPARENT)) &&&
      WS_EX_LAYERED ≠ 0 ∧
    (x ||| (WS_EX_TRANSPARENT ||| WS_EX_LAYERED)) &&& WS_EX_LAYERED ≠ 0 := by
  constructor
  · intro h
    have h19 : (((x ||| (WS_EX_TRANSPARENT ||| WS_EX_LAYERED)) &&&
        (0xFFFFFFFF - WS_EX_TRANSPARENT)) &&& WS_EX_LAYERED).testBit 19 = true := by
      rw [Nat.testBit_land, Nat.testBit_land, Nat.testBit_lor]
      have h1 : (WS_EX_TRANSPARENT ||| WS_EX_LAYERED).testBit 19 = true := by decide
      have h2 : (0xFFFFFFFF - WS_EX_TRANSPARENT).testBit 19 = true := by decide
      have h3 : WS_EX_LAYERED.testBit 19 = true := by decide
      simp [h1, h2, h3]
    rw [h] at h19
    simp at h19
  · intro h
    have h19 : ((x ||| (WS_EX_TRANSPARENT ||| WS_EX_LAYERED)) &&& WS_EX_LAYERED).testBit 19 =
        true := by
      rw [Nat.testBit_land, Nat.testBit_lor]
      have h1 : (WS_EX_TRANSPARENT ||| WS_EX_LAYERED).testBit 19 = true := by decide
      have h3 : WS_EX_LAYERED.testBit 19 = true := by decide
      simp [h1, h3]
    rw [h] at h19
    simp at h19

/-- Clearing the click-through bit leaves it clear, also after the layered bit
is cleared, and clearing the layered bit leaves that clear. -/
theorem passthrough_bits_cleared (y : Nat) :
    (y &&& (0xFFFFFFFF - WS_EX_TRANSPARENT)) &&& WS_EX_TRANSPARENT = 0 ∧
    ((y &&& (0xFFFFFFFF - WS_EX_TRANSPARENT)) &&& (0xFFFFFFFF - WS_EX_LAYERED)) &&&
      WS_EX_TRANSPARENT = 0 ∧
    ((y &&& (0xFFFFFFFF - WS_EX_TRANSPARENT)) &&& (0xFFFFFFFF - WS_EX_LAYERED)) &&&
      WS_EX_LAYERED = 0 := by
  refine ⟨?_, ?_, ?_⟩
  · rw [Nat.land_assoc]
    have : (0xFFFFFFFF - WS_EX_TRANSPARENT) &&& WS_EX_TRANSPARENT = 0 := by decide
    rw [this]; simp
  · rw [Nat.land_assoc, Nat.land_assoc]
    have : (0xFFFFFFFF - WS_EX_TRANSPARENT) &&&
        ((0xFFFFFFFF - WS_EX_LAYERED) &&& WS_EX_TRANSPARENT) = 0 := by decide
    rw [this]; simp
  · exact land_mask_layered _

/-- The window record after mouse passthrough is enabled. -/
theorem passthrough_enable_window (s : Session) (w : WinId) :
    (_glfwSetWindowMousePassthroughWin32 s w true).windows w =
      { s.windows w with
        exStyle := (s.windows w).exStyle ||| (WS_EX_TRANSPARENT ||| WS_EX_LAYERED),
        layeredAlpha :=
          if (s.windows w).exStyle &&& WS_EX_LAYERED ≠ 0 ∧
              (s.windows w).layeredAttributesSet = true then (s.windows w).layeredAlpha else 0,
        layeredFlags :=
          if (s.windows w).exStyle &&& WS_EX_LAYERED ≠ 0 ∧
              (s.windows w).layeredAttributesSet = true then (s.windows w).layeredFlags else 0,
        layeredAttributesSet := true } := by
  unfold _glfwSetWindowMousePassthroughWin32
  simp only [if_true, Session.setWindow, Function.update_same]

/-- The window record after mouse passthrough is disabled. -/
theorem passthrough_disable_window (s : Session) (w : WinId) :
    (_glfwSetWindowMousePassthroughWin32 s w false).windows w =
      { s.windows w with
        exStyle :=
          if ((s.windows w).exStyle &&& (0xFFFFFFFF - WS_EX_TRANSPARENT)) &&&
              WS_EX_LAYERED ≠ 0 then
            if (if (s.windows w).exStyle &&& WS_EX_LAYERED ≠ 0 ∧
                  (s.windows w).layeredAttributesSet = true then (s.windows w).layeredFlags
                else 0) &&& LWA_ALPHA = 0 then
              ((s.windows w).exStyle &&& (0xFFFFFFFF - WS_EX_TRANSPARENT)) &&&
                (0xFFFFFFFF - WS_EX_LAYERED)
            else (s.windows w).exStyle &&& (0xFFFFFFFF - WS_EX_TRANSPARENT)
          else (s.windows w).exStyle &&& (0xFFFFFFFF - WS_EX_TRANSPARENT) } := by
  unfold _glfwSetWindowMousePassthroughWin32
  simp only [Bool.false_eq_true, if_false, Session.setWindow, Function.update_same]

/-- C29: for every window state, enabling mouse passthrough with
`_glfwSetWindowMousePassthroughWin32` and then disabling it leaves the value
returned by `_glfwGetWindowOpacityWin32` unchanged, also in between; while
enabled the click-through and layered styles are set; afterwards the
click-through style is clear, and the layered style is set if and only if the
window was alpha blended before, which is if and only if it is alpha blended
afterwards. -/
theorem passthrough_round_trip (s : Session) (w : WinId) :
    _glfwGetWindowOpacityWin32 (_glfwSetWindowMousePassthroughWin32 s w true) w =
      _glfwGetWindowOpacityWin32 s w ∧
    ((_glfwSetWindowMousePassthroughWin32 s w true).windows w).exStyle &&&
      (WS_EX_TRANSPARENT ||| WS_EX_LAYERED) = WS_EX_TRANSPARENT ||| WS_EX_LAYERED ∧
    _glfwGetWindowOpacityWin32
      (_glfwSetWindowMousePassthroughWin32 (_glfwSetWindowMousePassthroughWin32 s w true) w
        false) w = _glfwGetWindowOpacityWin32 s w ∧
    ((_glfwSetWindowMousePassthroughWin32 (_glfwSetWindowMousePassthroughWin32 s w true) w
        false).windows w).exStyle &&& WS_EX_TRANSPARENT = 0 ∧
    (((_glfwSetWindowMousePassthroughWin32 (_glfwSetWindowMousePassthroughWin32 s w true) w
        false).windows w).exStyle &&& WS_EX_LAYERED ≠ 0 ↔ alphaBlended s w) ∧
    (alphaBlended
      (_glfwSetWindowMousePassthroughWin32 (_glfwSetWindowMousePassthroughWin32 s w true) w
        false) w ↔ alphaBlended s w) := by
  obtain ⟨k1, k2⟩ := passthrough_layered_kept (s.windows w).exStyle
  obtain ⟨c1, c2, c3⟩ := passthrough_bits_cleared
    ((s.windows w).exStyle ||| (WS_EX_TRANSPARENT ||| WS_EX_LAYERED))
  have hset : ((s.windows w).exStyle ||| (WS_EX_TRANSPARENT ||| WS_EX_LAYERED)) &&&
      (WS_EX_TRANSPARENT ||| WS_EX_LAYERED) = WS_EX_TRANSPARENT ||| WS_EX_LAYERED := by
    apply Nat.eq_of_testBit_eq
    intro i
    rw [Nat.testBit_land, Nat.testBit_lor]
    cases (WS_EX_TRANSPARENT ||| WS_EX_LAYERED).testBit i <;> simp
  have e1 := passthrough_enable_window s w
  have e2 := passthrough_disable_window (_glfwSetWindowMousePassthroughWin32 s w true) w
  rw [e1] at e2
  simp only [k2, ne_eq, not_false_eq_true, true_and, if_true] at e2
  have hk1 : ((s.windows w).exStyle ||| (WS_EX_TRANSPARENT ||| WS_EX_LAYERED)) &&&
      (0xFFFFFFFF - WS_EX_TRANSPARENT) &&& WS_EX_LAYERED ≠ 0 := k1
  simp only [hk1, ne_eq, not_false_eq_true, if_true] at e2
  by_cases hread : (s.windows w).exStyle &&& WS_EX_LAYERED ≠ 0 ∧
      (s.windows w).layeredAttributesSet = true
  · by_cases hal : (s.windows w).layeredFlags &&& LWA_ALPHA = 0
    · have hnb : ¬ alphaBlended s w := fun h => h.2.2 hal
      simp only [if_pos hread, hal, if_true] at e1 e2
      refine ⟨?_, ?_, ?_, ?_, ?_, ?_⟩
      · unfold _glfwGetWindowOpacityWin32
        rw [e1]
        simp only [if_pos hread, k2, ne_eq, not_false_eq_true, and_self, if_true, hal,
          not_true_eq_false, if_false]
      · rw [e1]; exact hset
      · unfold _glfwGetWindowOpacityWin32
        rw [e2]
        simp only [if_pos hread, c3, ne_eq, not_true_eq_false, false_and, if_false, hal]
      · rw [e2]; exact c2
      · rw [e2]
        simp only [c3, ne_eq, not_true_eq_false, false_iff]
        exact hnb
      · unfold alphaBlended at hnb ⊢
        rw [e2]
        simp only [c3, ne_eq, not_true_eq_false, false_and, false_iff]
        exact hnb
    · have hb : alphaBlended s w := ⟨hread.1, hread.2, hal⟩
      simp only [if_pos hread, hal, if_false] at e1 e2
      refine ⟨?_, ?_, ?_, ?_, ?_, ?_⟩
      · unfold _glfwGetWindowOpacityWin32
        rw [e1]
        simp only [if_pos hread, k2, ne_eq, not_false_eq_true, and_self, if_true, hal]
      · rw [e1]; exact hset
      · unfold _glfwGetWindowOpacityWin32
        rw [e2]
        simp only [if_pos hread, hk1, ne_eq, not_false_eq_true, and_self, if_true, hal]
      · rw [e2]; exact c1
      · rw [e2]
        exact ⟨fun _ => hb, fun _ => hk1⟩
      · unfold alphaBlended at hb ⊢
        rw [e2]
        exact ⟨fun _ => hb, fun _ => ⟨hk1, rfl, hal⟩⟩
  · have hnb : ¬ alphaBlended s w := fun h => hread ⟨h.1, h.2.1⟩
    have hz : (0 : Nat) &&& LWA_ALPHA = 0 := by decide
    simp only [if_neg hread, hz, if_true] at e1 e2
    refine ⟨?_, ?_, ?_, ?_, ?_, ?_⟩
    · unfold _glfwGetWindowOpacityWin32
      rw [e1]
      simp only [if_neg hread, k2, ne_eq, not_false_eq_true, and_self, if_true, hz,
        not_true_eq_false, if_false]
    · rw [e1]; exact hset
    · unfold _glfwGetWindowOpacityWin32
      rw [e2]
      simp only [if_neg hread, c3, ne_eq, not_true_eq_false, false_and, if_false]
    · rw [e2]; exact c2
    · rw [e2]
      simp only [c3, ne_eq, not_true_eq_false, false_iff]
      exact hnb
    · unfold alphaBlended at hnb ⊢
      rw [e2]
      simp only [c3, ne_eq, not_true_eq_false, false_and, false_iff]
      exact hnb

/-! ## C30: window styles -/

/-- C30: for every combination of the window attributes, `getWindowStyle` sets
clip-siblings and clip-children; sets the caption style when the window is
windowed and decorated and the popup style otherwise, never both; sets the
system-menu and minimize-box styles exactly when the window is windowed; sets
the maximize-box and thick-frame styles exactly when it is windowed, decorated
and resizable; `getWindowExStyle` sets app-window, and sets topmost exactly
when the window is fullscreen or floating.  A style that is not set has all
its bits clear. -/
theorem window_styles_by_attributes (window : Window) :
    getWindowStyle window &&& WS_CLIPSIBLINGS = WS_CLIPSIBLINGS ∧
    getWindowStyle window &&& WS_CLIPCHILDREN = WS_CLIPCHILDREN ∧
    getWindowStyle window &&& WS_CAPTION =
      (if window.monitor = none ∧ window.decorated = true then WS_CAPTION else 0) ∧
    getWindowStyle window &&& WS_POPUP =
      (if window.monitor = none ∧ window.decorated = true then 0 else WS_POPUP) ∧
    getWindowStyle window &&& WS_SYSMENU =
      (if window.monitor = none then WS_SYSMENU else 0) ∧
    getWindowStyle window &&& WS_MINIMIZEBOX =
      (if window.monitor = none then WS_MINIMIZEBOX else 0) ∧
    getWindowStyle window &&& WS_MAXIMIZEBOX =
      (if window.monitor = none ∧ window.decorated = true ∧ window.resizable = true
        then WS_MAXIMIZEBOX else 0) ∧
    getWindowStyle window &&& WS_THICKFRAME =
      (if window.monitor = none ∧ window.decorated = true ∧ window.resizable = true
        then WS_THICKFRAME else 0) ∧
    getWindowExStyle window &&& WS_EX_APPWINDOW = WS_EX_APPWINDOW ∧
    getWindowExStyle window &&& WS_EX_TOPMOST =
      (if window.monitor ≠ none ∨ window.floating = true then WS_EX_TOPMOST else 0) := by
  unfold getWindowStyle getWindowExStyle
  rcases Option.eq_none_or_eq_some window.monitor with hm | ⟨m, hm⟩ <;>
    cases hd : window.decorated <;> cases hr : window.resizable <;>
    cases hf : window.floating <;>
    simp only [hm, Option.isSome_none, Option.isSome_some, Bool.false_eq_true, if_true,
      if_false, true_and, and_true, and_self, and_false, false_and, ne_eq, not_true_eq_false,
      not_false_eq_true, or_self, or_true, true_or, reduceCtorEq] <;>
    decide

end Win32
